import Mathlib

/-!
# USB Type-C Port Manager: PD message codec and sink/source policy

A shallow embedding of the Power Data Object (PDO) and Request Data Object
(RDO) codec of `include/linux/usb/pd.h` and of the request policy of
`drivers/usb/type-c/tcpm.c` (`tcpm_pd_select_pdo`, `tcpm_pd_build_request`,
`tcpm_pd_check_request`).

Machine words (`u32`, `unsigned int`) are natural numbers; 32-bit wrap-around
is written `% 2 ^ 32` at the arithmetic operations of the source where a
product can leave the range.  The C bit operators `|`, `&`, `<<`, `>>` are the
operators `|||`, `&&&`, `<<<`, `>>>` on `Nat`.
-/

namespace TCPM

/-! ## `include/linux/usb/pd.h` -/

/-- The kernel's `BIT(n)`. -/
def BIT (n : Nat) : Nat := 1 <<< n

/-- The constant `PDO_MAX_OBJECTS`. -/
def PDO_MAX_OBJECTS : Nat := 7

/-- The enumerator `PDO_TYPE_FIXED` of `enum pd_pdo_type`. -/
def PDO_TYPE_FIXED : Nat := 0
/-- The enumerator `PDO_TYPE_BATT` of `enum pd_pdo_type`. -/
def PDO_TYPE_BATT : Nat := 1
/-- The enumerator `PDO_TYPE_VAR` of `enum pd_pdo_type`. -/
def PDO_TYPE_VAR : Nat := 2

def PDO_TYPE_SHIFT : Nat := 30
def PDO_TYPE_MASK : Nat := 0x3

def PDO_FIXED_DUAL_ROLE : Nat := BIT 29
def PDO_FIXED_SUSPEND : Nat := BIT 28
def PDO_FIXED_HIGHER_CAP : Nat := BIT 28
def PDO_FIXED_EXTPOWER : Nat := BIT 27
def PDO_FIXED_USB_COMM : Nat := BIT 26
def PDO_FIXED_DATA_SWAP : Nat := BIT 25
def PDO_FIXED_VOLT_SHIFT : Nat := 10
def PDO_FIXED_VOLT_MASK : Nat := 0x3ff
def PDO_FIXED_MAX_CURR_SHIFT : Nat := 0
def PDO_FIXED_MAX_CURR_MASK : Nat := 0x3ff

/-- The macro `PDO_FIXED(mv, ma, flags)`. -/
def PDO_FIXED (mv ma flags : Nat) : Nat :=
  (PDO_TYPE_FIXED <<< PDO_TYPE_SHIFT) ||| flags |||
    (((mv / 50) &&& PDO_FIXED_VOLT_MASK) <<< PDO_FIXED_VOLT_SHIFT) |||
    (((ma / 10) &&& PDO_FIXED_MAX_CURR_MASK) <<< PDO_FIXED_MAX_CURR_SHIFT)

def PDO_BATT_MAX_VOLT_SHIFT : Nat := 20
def PDO_BATT_MAX_VOLT_MASK : Nat := 0x3ff
def PDO_BATT_MIN_VOLT_SHIFT : Nat := 10
def PDO_BATT_MIN_VOLT_MASK : Nat := 0x3ff
def PDO_BATT_MAX_PWR_SHIFT : Nat := 0
def PDO_BATT_MAX_PWR_MASK : Nat := 0x3ff

/-- The macro `PDO_BATT(min_mv, max_mv, max_mw)`; the power is divided by 50
as in the source. -/
def PDO_BATT (min_mv max_mv max_mw : Nat) : Nat :=
  (PDO_TYPE_BATT <<< PDO_TYPE_SHIFT) |||
    (((min_mv / 50) &&& PDO_BATT_MIN_VOLT_MASK) <<< PDO_BATT_MIN_VOLT_SHIFT) |||
    (((max_mv / 50) &&& PDO_BATT_MAX_VOLT_MASK) <<< PDO_BATT_MAX_VOLT_SHIFT) |||
    (((max_mw / 50) &&& PDO_BATT_MAX_PWR_MASK) <<< PDO_BATT_MAX_PWR_SHIFT)

def PDO_VAR_MAX_VOLT_SHIFT : Nat := 20
def PDO_VAR_MAX_VOLT_MASK : Nat := 0x3ff
def PDO_VAR_MIN_VOLT_SHIFT : Nat := 10
def PDO_VAR_MIN_VOLT_MASK : Nat := 0x3ff
def PDO_VAR_MAX_CURR_SHIFT : Nat := 0
def PDO_VAR_MAX_CURR_MASK : Nat := 0x3ff

/-- The macro `PDO_VAR(min_mv, max_mv, max_ma)`; the current is divided by 50
as in the source. -/
def PDO_VAR (min_mv max_mv max_ma : Nat) : Nat :=
  (PDO_TYPE_VAR <<< PDO_TYPE_SHIFT) |||
    (((min_mv / 50) &&& PDO_VAR_MIN_VOLT_MASK) <<< PDO_VAR_MIN_VOLT_SHIFT) |||
    (((max_mv / 50) &&& PDO_VAR_MAX_VOLT_MASK) <<< PDO_VAR_MAX_VOLT_SHIFT) |||
    (((max_ma / 50) &&& PDO_VAR_MAX_CURR_MASK) <<< PDO_VAR_MAX_CURR_SHIFT)

/-- The inline function `pdo_type`: the value of `enum pd_pdo_type` in bits 30..31. -/
def pdo_type (pdo : Nat) : Nat := (pdo >>> PDO_TYPE_SHIFT) &&& PDO_TYPE_MASK

def pdo_fixed_voltage (pdo : Nat) : Nat :=
  ((pdo >>> PDO_FIXED_VOLT_SHIFT) &&& PDO_FIXED_VOLT_MASK) * 50

def pdo_min_voltage (pdo : Nat) : Nat :=
  ((pdo >>> PDO_VAR_MIN_VOLT_SHIFT) &&& PDO_VAR_MIN_VOLT_MASK) * 50

def pdo_max_voltage (pdo : Nat) : Nat :=
  ((pdo >>> PDO_VAR_MAX_VOLT_SHIFT) &&& PDO_VAR_MAX_VOLT_MASK) * 50

def pdo_max_current (pdo : Nat) : Nat :=
  ((pdo >>> PDO_VAR_MAX_CURR_SHIFT) &&& PDO_VAR_MAX_CURR_MASK) * 10

def pdo_max_power (pdo : Nat) : Nat :=
  ((pdo >>> PDO_BATT_MAX_PWR_SHIFT) &&& PDO_BATT_MAX_PWR_MASK) * 250

def RDO_OBJ_POS_SHIFT : Nat := 28
def RDO_OBJ_POS_MASK : Nat := 0x7
def RDO_GIVE_BACK : Nat := BIT 27
def RDO_CAP_MISMATCH : Nat := BIT 26
def ROD_USB_COMM : Nat := BIT 25
def RDO_NO_SUSPEND : Nat := BIT 24

def RDO_FIXED_OP_CURR_SHIFT : Nat := 10
def RDO_FIXED_OP_CURR_MASK : Nat := 0x3ff
/-- The source defines `RDO_FIXED_MAX_CURR_SHIFT` as 10, the same value as
`RDO_FIXED_OP_CURR_SHIFT`. -/
def RDO_FIXED_MAX_CURR_SHIFT : Nat := 10
def RDO_FIXED_MAX_CURR_MASK : Nat := 0x3ff

/-- The macro `RDO_FIXED(idx, op_ma, max_ma, flags)`. -/
def RDO_FIXED (idx op_ma max_ma flags : Nat) : Nat :=
  ((idx &&& RDO_OBJ_POS_MASK) <<< RDO_OBJ_POS_SHIFT) ||| flags |||
    (((op_ma / 10) &&& RDO_FIXED_OP_CURR_MASK) <<< RDO_FIXED_OP_CURR_SHIFT) |||
    (((max_ma / 10) &&& RDO_FIXED_MAX_CURR_MASK) <<< RDO_FIXED_MAX_CURR_SHIFT)

def RDO_BATT_OP_PWR_SHIFT : Nat := 10
def RDO_BATT_OP_PWR_MASK : Nat := 0x3ff
def RDO_BATT_MAX_PWR_SHIFT : Nat := 0
def RDO_BATT_MAX_PWR_MASK : Nat := 0x3ff

/-- The macro `RDO_BATT(idx, op_mw, max_mw, flags)`. -/
def RDO_BATT (idx op_mw max_mw flags : Nat) : Nat :=
  ((idx &&& RDO_OBJ_POS_MASK) <<< RDO_OBJ_POS_SHIFT) ||| flags |||
    (((op_mw / 250) &&& RDO_BATT_OP_PWR_MASK) <<< RDO_BATT_OP_PWR_SHIFT) |||
    (((max_mw / 250) &&& RDO_BATT_MAX_PWR_MASK) <<< RDO_BATT_MAX_PWR_SHIFT)

def rdo_index (rdo : Nat) : Nat := (rdo >>> RDO_OBJ_POS_SHIFT) &&& RDO_OBJ_POS_MASK

def rdo_op_current (rdo : Nat) : Nat :=
  ((rdo >>> RDO_FIXED_OP_CURR_SHIFT) &&& RDO_FIXED_OP_CURR_MASK) * 10

def rdo_max_current (rdo : Nat) : Nat :=
  ((rdo >>> RDO_FIXED_MAX_CURR_SHIFT) &&& RDO_FIXED_MAX_CURR_MASK) * 10

def rdo_op_power (rdo : Nat) : Nat :=
  ((rdo >>> RDO_BATT_OP_PWR_SHIFT) &&& RDO_BATT_OP_PWR_MASK) * 250

def rdo_max_power (rdo : Nat) : Nat :=
  ((rdo >>> RDO_BATT_MAX_PWR_SHIFT) &&& RDO_BATT_MAX_PWR_MASK) * 250

/-- The mask of the flag bits 25..29 of a Fixed PDO
(`PDO_FIXED_DUAL_ROLE` down to `PDO_FIXED_DATA_SWAP`). -/
def PDO_FIXED_FLAG_BITS : Nat :=
  PDO_FIXED_DUAL_ROLE ||| PDO_FIXED_SUSPEND ||| PDO_FIXED_EXTPOWER |||
    PDO_FIXED_USB_COMM ||| PDO_FIXED_DATA_SWAP

/-- The mask of the flag bits 24..27 of an RDO
(`RDO_GIVE_BACK` down to `RDO_NO_SUSPEND`). -/
def RDO_FLAG_BITS : Nat :=
  RDO_GIVE_BACK ||| RDO_CAP_MISMATCH ||| ROD_USB_COMM ||| RDO_NO_SUSPEND

/-! ## `include/linux/usb/typec.h` -/

/-- Modelled from the spec: `enum typec_cc_status` of `linux/usb/typec.h`, a
header that is not among the sources; the specification lists the values of a
CC line as Open, Ra, Rd, Rp-default, Rp-1.5, Rp-3.0. -/
inductive typec_cc_status where
  | TYPEC_CC_OPEN
  | TYPEC_CC_RA
  | TYPEC_CC_RD
  | TYPEC_CC_RP_DEF
  | TYPEC_CC_RP_1_5
  | TYPEC_CC_RP_3_0
  deriving Repr, DecidableEq

/-- Modelled from the spec: `enum typec_cc_polarity` of `linux/usb/typec.h`
(polarity is CC1 or CC2). -/
inductive typec_cc_polarity where
  | TYPEC_POLARITY_CC1
  | TYPEC_POLARITY_CC2
  deriving Repr, DecidableEq

/-- Modelled from the spec: `enum typec_pwr_role` of `linux/usb/typec.h`
(power role is Source or Sink). -/
inductive typec_pwr_role where
  | TYPEC_PWR_SINK
  | TYPEC_PWR_SOURCE
  deriving Repr, DecidableEq

/-- Modelled from the spec: `enum typec_data_role` of `linux/usb/typec.h`
(data role is Host or Device). -/
inductive typec_data_role where
  | TYPEC_DEVICE
  | TYPEC_HOST
  deriving Repr, DecidableEq

/-- Modelled from the spec: `enum typec_port_type` of `linux/usb/typec.h`
(port type is Source, Sink or DRP). -/
inductive typec_port_type where
  | TYPEC_PORT_DFP
  | TYPEC_PORT_UFP
  | TYPEC_PORT_DRP
  deriving Repr, DecidableEq

/-- Modelled from the spec: `enum typec_pwr_opmode` of `linux/usb/typec.h`
(power operation mode is USB or PD). -/
inductive typec_pwr_opmode where
  | TYPEC_PWR_MODE_USB
  | TYPEC_PWR_MODE_PD
  deriving Repr, DecidableEq

open typec_cc_status typec_cc_polarity typec_pwr_role typec_data_role typec_port_type
  typec_pwr_opmode

/-- Modelled from the spec: the constant `TYPEC_T_CC_DEBOUNCE` of
`linux/usb/typec.h` (`CC_DEBOUNCE` = 100 ms). -/
def TYPEC_T_CC_DEBOUNCE : Nat := 100

/-- Modelled from the spec: the constant `TYPEC_T_PD_DEBOUNCE` of
`linux/usb/typec.h` (`PD_DEBOUNCE` = 15 ms). -/
def TYPEC_T_PD_DEBOUNCE : Nat := 15

/-! ## `drivers/usb/type-c/tcpm.h` and `drivers/usb/type-c/tcpm.c` -/

/-- The errno `EINVAL`. -/
def EINVAL : Int := 22

/-- The board configuration `struct tcpc_config`; the arrays behind the
pointers `src_pdo` and `snk_pdo` are lists. -/
structure tcpc_config where
  src_pdo : List Nat
  nr_src_pdo : Nat
  snk_pdo : List Nat
  nr_snk_pdo : Nat
  max_snk_mv : Nat
  max_snk_ma : Nat
  max_snk_mw : Nat
  operating_snk_mw : Nat
  port_type : typec_port_type
  default_role : typec_pwr_role
  deriving Repr, DecidableEq

/-- The voltage `mv` that `tcpm_pd_select_pdo` and `tcpm_pd_build_request`
read from a PDO: `pdo_fixed_voltage` for a Fixed PDO, `pdo_min_voltage`
otherwise. -/
def pdo_mv (pdo : Nat) : Nat :=
  if pdo_type pdo = PDO_TYPE_FIXED then pdo_fixed_voltage pdo else pdo_min_voltage pdo

/-- The power `mw` that the loop body of `tcpm_pd_select_pdo` computes for a
PDO; `ma * mv` is an `unsigned int` product. -/
def pdo_mw (config : tcpc_config) (pdo : Nat) : Nat :=
  if pdo_type pdo = PDO_TYPE_BATT then pdo_max_power pdo
  else (min (pdo_max_current pdo) config.max_snk_ma * pdo_mv pdo) % 2 ^ 32 / 1000

/-- The `for` loop of `tcpm_pd_select_pdo` over the PDOs from index `i` on,
started with the values `ret` and `max_mw` of the local variables. -/
def select_pdo_loop (config : tcpc_config) : List Nat → Nat → Int → Nat → Int
  | [], _, ret, _ => ret
  | pdo :: rest, i, ret, max_mw =>
    let mv := pdo_mv pdo
    let mw := pdo_mw config pdo
    if mw > max_mw ∧ mv ≤ config.max_snk_mv then
      select_pdo_loop config rest (i + 1) (i : Int) mw
    else
      select_pdo_loop config rest (i + 1) ret max_mw

/-- The function `tcpm_pd_select_pdo` on the received source capabilities
`source_caps` (`nr_source_caps` is the length of the list): the index of the
selected PDO, or `-EINVAL`. -/
def tcpm_pd_select_pdo (config : tcpc_config) (source_caps : List Nat) : Int :=
  select_pdo_loop config source_caps 0 (-EINVAL) 0

/-- The ways `tcpm_pd_build_request` can fail: it returns `-EINVAL`, or it
divides by a zero `mv`. -/
inductive build_error where
  | einval
  | div_by_zero
  deriving Repr, DecidableEq

/-- The current `ma` that `tcpm_pd_build_request` requests from the PDO `pdo`
of voltage `mv`; `1000 * ...` is an `unsigned int` product. -/
def build_request_ma (config : tcpc_config) (pdo mv : Nat) : Nat :=
  let ma :=
    if pdo_type pdo = PDO_TYPE_BATT then
      (1000 * min (pdo_max_power pdo) config.max_snk_mw) % 2 ^ 32 / mv
    else
      min (pdo_max_current pdo) ((1000 * config.max_snk_mw) % 2 ^ 32 / mv)
  min ma config.max_snk_ma

/-- The function `tcpm_pd_build_request`: the RDO written to `*rdo` when it
returns 0.  Both branches divide by `mv`, so `mv = 0` is the error
`div_by_zero`; `source_caps.getD` is the array read `source_caps[index]`. -/
def tcpm_pd_build_request (config : tcpc_config) (source_caps : List Nat) :
    Except build_error Nat :=
  let index := tcpm_pd_select_pdo config source_caps
  if index < 0 then .error .einval
  else
    let pdo := source_caps.getD index.toNat 0
    let type := pdo_type pdo
    let mv := pdo_mv pdo
    if mv = 0 then .error .div_by_zero
    else
      let ma := build_request_ma config pdo mv
      let flags := 0
      let mw := (ma * mv) % 2 ^ 32
      let flags := if mw < config.operating_snk_mw then flags ||| RDO_CAP_MISMATCH else flags
      if type = PDO_TYPE_BATT then
        .ok (RDO_BATT (index.toNat + 1) mw mw flags)
      else
        .ok (RDO_FIXED (index.toNat + 1) ma ma flags)

/-- The function `tcpm_pd_check_request` on the stored `sink_request`: 0 when
the request is accepted, `-EINVAL` when it is rejected.  The `switch` on the
PDO type is the chain of tests on `type`; its `default` is the last branch. -/
def tcpm_pd_check_request (config : tcpc_config) (rdo : Nat) : Int :=
  let index := rdo_index rdo
  if index = 0 ∨ index > config.nr_src_pdo then -EINVAL
  else
    let pdo := config.src_pdo.getD (index - 1) 0
    let type := pdo_type pdo
    if type = PDO_TYPE_FIXED ∨ type = PDO_TYPE_VAR then
      let max := rdo_max_current rdo
      let op := rdo_op_current rdo
      let pdo_max := pdo_max_current pdo
      if op > pdo_max then -EINVAL
      else if max > pdo_max ∧ rdo &&& RDO_CAP_MISMATCH = 0 then -EINVAL
      else 0
    else if type = PDO_TYPE_BATT then
      let max := rdo_max_power rdo
      let op := rdo_op_power rdo
      let pdo_max := pdo_max_power pdo
      if op > pdo_max then -EINVAL
      else if max > pdo_max ∧ rdo &&& RDO_CAP_MISMATCH = 0 then -EINVAL
      else 0
    else -EINVAL

/-! ## `drivers/usb/type-c/cros_tcpc.c` -/

/-- The macro `PDO_FIXED_FLAGS` of `cros_tcpc.c`. -/
def PDO_FIXED_FLAGS : Nat := PDO_FIXED_DUAL_ROLE ||| PDO_FIXED_DATA_SWAP ||| PDO_FIXED_USB_COMM

/-- The table `board_src_pdo`. -/
def board_src_pdo : List Nat := [PDO_FIXED 5000 1500 PDO_FIXED_FLAGS]

/-- The table `board_snk_pdo`. -/
def board_snk_pdo : List Nat :=
  [PDO_FIXED 5000 500 PDO_FIXED_FLAGS, PDO_BATT 4500 14000 10000, PDO_VAR 4500 14000 3000]

/-- The initialiser `board_config`; as in the source, `snk_pdo` points to
`board_src_pdo` while `nr_snk_pdo` is the size of `board_snk_pdo`. -/
def board_config : tcpc_config :=
  { src_pdo := board_src_pdo
    nr_src_pdo := board_src_pdo.length
    snk_pdo := board_src_pdo
    nr_snk_pdo := board_snk_pdo.length
    max_snk_mv := 12000
    max_snk_ma := 3000
    max_snk_mw := 24000
    operating_snk_mw := 10000
    port_type := TYPEC_PORT_DRP
    default_role := TYPEC_PWR_SINK }

/-! ## Notions of the specification -/

/-- The power of a PDO as the specification words it: for a Battery PDO
`pdo.max_mw`, otherwise `mA * mV / 1000` with `mA = min(pdo.max_ma,
board.max_snk_ma)`, as an exact (unbounded) product. -/
def pdo_power (config : tcpc_config) (pdo : Nat) : Nat :=
  if pdo_type pdo = PDO_TYPE_BATT then pdo_max_power pdo
  else min (pdo_max_current pdo) config.max_snk_ma * pdo_mv pdo / 1000

/-- The operating value of a request against the PDO it names, as the
specification words it: operating current, or operating power for Battery. -/
def request_op (pdo rdo : Nat) : Nat :=
  if pdo_type pdo = PDO_TYPE_BATT then rdo_op_power rdo else rdo_op_current rdo

/-- The maximum value of a request against the PDO it names: maximum current,
or maximum power for Battery. -/
def request_max (pdo rdo : Nat) : Nat :=
  if pdo_type pdo = PDO_TYPE_BATT then rdo_max_power rdo else rdo_max_current rdo

/-- The cap of a PDO: its maximum current, or its maximum power for Battery. -/
def pdo_cap (pdo : Nat) : Nat :=
  if pdo_type pdo = PDO_TYPE_BATT then pdo_max_power pdo else pdo_max_current pdo

/-- The source capabilities of the specification's boundary scenario 1:
Fixed 5 V, 9 V and 12 V at 3 A. -/
def scenario_source_caps : List Nat :=
  [PDO_FIXED 5000 3000 PDO_FIXED_FLAGS, PDO_FIXED 9000 3000 PDO_FIXED_FLAGS,
    PDO_FIXED 12000 3000 PDO_FIXED_FLAGS]

/-- A board like `board_config` whose `max_snk_mw` is so large that
`1000 * max_snk_mw` leaves the range of `unsigned int`. -/
def wide_power_config : tcpc_config := { board_config with max_snk_mw := 4294968 }

/-- A Battery PDO as received from a source: 5 V to 12 V, 15 W
(voltage fields 100 and 240 in 50 mV units, power field 60 in 250 mW units). -/
def battery_5v_12v_15w : Nat :=
  (PDO_TYPE_BATT <<< PDO_TYPE_SHIFT) ||| (240 <<< PDO_BATT_MAX_VOLT_SHIFT) |||
    (100 <<< PDO_BATT_MIN_VOLT_SHIFT) ||| (60 <<< PDO_BATT_MAX_PWR_SHIFT)

/-! ## `include/linux/usb/pd.h`: messages and headers -/

def PD_CTRL_GOOD_CRC : Nat := 1
def PD_CTRL_GOTO_MIN : Nat := 2
def PD_CTRL_ACCEPT : Nat := 3
def PD_CTRL_REJECT : Nat := 4
def PD_CTRL_PING : Nat := 5
def PD_CTRL_PS_RDY : Nat := 6
def PD_CTRL_GET_SOURCE_CAP : Nat := 7
def PD_CTRL_GET_SINK_CAP : Nat := 8
def PD_CTRL_DR_SWAP : Nat := 9
def PD_CTRL_PR_SWAP : Nat := 10
def PD_CTRL_VCONN_SWAP : Nat := 11
def PD_CTRL_WAIT : Nat := 12
def PD_CTRL_SOFT_RESET : Nat := 13

def PD_DATA_SOURCE_CAP : Nat := 1
def PD_DATA_REQUEST : Nat := 2
def PD_DATA_BIST : Nat := 3
def PD_DATA_SINK_CAP : Nat := 4
def PD_DATA_VENDOR_DEF : Nat := 15

def PD_REV10 : Nat := 0x0
def PD_REV20 : Nat := 0x1

def PD_HEADER_CNT_SHIFT : Nat := 12
def PD_HEADER_CNT_MASK : Nat := 0x7
def PD_HEADER_ID_SHIFT : Nat := 9
def PD_HEADER_ID_MASK : Nat := 0x7
def PD_HEADER_PWR_ROLE : Nat := BIT 8
def PD_HEADER_REV_SHIFT : Nat := 6
def PD_HEADER_REV_MASK : Nat := 0x3
def PD_HEADER_DATA_ROLE : Nat := BIT 5
def PD_HEADER_TYPE_SHIFT : Nat := 0
def PD_HEADER_TYPE_MASK : Nat := 0xf

/-- The macro `PD_HEADER(type, pwr, data, id, cnt)`. -/
def PD_HEADER (type : Nat) (pwr : typec_pwr_role) (data : typec_data_role) (id cnt : Nat) :
    Nat :=
  ((type &&& PD_HEADER_TYPE_MASK) <<< PD_HEADER_TYPE_SHIFT) |||
    (if pwr = TYPEC_PWR_SOURCE then PD_HEADER_PWR_ROLE else 0) |||
    (if data = TYPEC_HOST then PD_HEADER_DATA_ROLE else 0) |||
    (PD_REV20 <<< PD_HEADER_REV_SHIFT) |||
    ((id &&& PD_HEADER_ID_MASK) <<< PD_HEADER_ID_SHIFT) |||
    ((cnt &&& PD_HEADER_CNT_MASK) <<< PD_HEADER_CNT_SHIFT)

def pd_header_cnt (header : Nat) : Nat :=
  (header >>> PD_HEADER_CNT_SHIFT) &&& PD_HEADER_CNT_MASK

def pd_header_type (header : Nat) : Nat :=
  (header >>> PD_HEADER_TYPE_SHIFT) &&& PD_HEADER_TYPE_MASK

def PD_MAX_PAYLOAD : Nat := 7

/-- The message `struct pd_message`: a 16-bit header and the payload words. -/
structure pd_message where
  header : Nat
  payload : List Nat
  deriving Repr, DecidableEq

def PD_T_SEND_SOURCE_CAP : Nat := 100
def PD_T_SENDER_RESPONSE : Nat := 30
def PD_T_SOURCE_ACTIVITY : Nat := 45
def PD_T_SINK_ACTIVITY : Nat := 135
def PD_T_SINK_WAIT_CAP : Nat := 240
def PD_T_PS_TRANSITION : Nat := 500
def PD_T_SRC_TRANSITION : Nat := 35
def PD_T_PS_SOURCE_OFF : Nat := 920
def PD_T_PS_SOURCE_ON : Nat := 480
def PD_T_PS_HARD_RESET : Nat := 15
def PD_T_SRC_RECOVER : Nat := 760
def PD_T_SRC_RECOVER_MAX : Nat := 1000
def PD_T_SRC_TURN_ON : Nat := 275
def PD_T_SAFE_0V : Nat := 650
def PD_T_VCONN_SOURCE_ON : Nat := 100
def PD_N_CAPS_COUNT : Nat := 50
def PD_N_HARD_RESET_COUNT : Nat := 2

/-- The header fields that `pd.h` has no accessor for, read as the
specification lays the header out: power role from bit 8. -/
def header_pwr_role (header : Nat) : typec_pwr_role :=
  if header &&& PD_HEADER_PWR_ROLE = 0 then TYPEC_PWR_SINK else TYPEC_PWR_SOURCE

/-- The data role of a header, from bit 5. -/
def header_data_role (header : Nat) : typec_data_role :=
  if header &&& PD_HEADER_DATA_ROLE = 0 then TYPEC_DEVICE else TYPEC_HOST

/-- The message id of a header, from bits 9..11. -/
def header_id (header : Nat) : Nat :=
  (header >>> PD_HEADER_ID_SHIFT) &&& PD_HEADER_ID_MASK

/-- The revision field of a header, bits 6..7. -/
def header_rev (header : Nat) : Nat :=
  (header >>> PD_HEADER_REV_SHIFT) &&& PD_HEADER_REV_MASK

/-! ## `drivers/usb/type-c/tcpm.c`: the port and its controller -/

/-- The errno `EIO`. -/
def EIO : Int := 5
/-- The errno `EAGAIN`. -/
def EAGAIN : Int := 11
/-- The errno `ETIMEDOUT`. -/
def ETIMEDOUT : Int := 110

/-- The constant `PD_T_TCPC_TX_TIMEOUT` of `tcpm.h`. -/
def PD_T_TCPC_TX_TIMEOUT : Nat := 100

/-- The enumerator `TCPC_TX_SUCCESS` of `enum tcpm_transmit_status`. -/
def TCPC_TX_SUCCESS : Nat := 0
/-- The enumerator `TCPC_TX_DISCARDED` of `enum tcpm_transmit_status`. -/
def TCPC_TX_DISCARDED : Nat := 1
/-- The enumerator `TCPC_TX_FAILED` of `enum tcpm_transmit_status`. -/
def TCPC_TX_FAILED : Nat := 2

/-- The type `enum tcpm_transmit_type` of `tcpm.h`. -/
inductive tcpm_transmit_type where
  | TCPC_TX_SOP
  | TCPC_TX_SOP_PRIME
  | TCPC_TX_SOP_PRIME_PRIME
  | TCPC_TX_SOP_DEBUG_PRIME
  | TCPC_TX_SOP_DEBUG_PRIME_PRIME
  | TCPC_TX_HARD_RESET
  | TCPC_TX_CABLE_RESET
  | TCPC_TX_BIST_MODE_2
  deriving Repr, DecidableEq

/-- The type `enum tcpm_state`; `INVALID_STATE` is the enumerator of value 0. -/
inductive tcpm_state where
  | INVALID_STATE
  | SRC_UNATTACHED
  | SRC_ATTACH_WAIT
  | SRC_ATTACHED
  | SRC_STARTUP
  | SRC_SEND_CAPABILITIES
  | SRC_NEGOTIATE_CAPABILITIES
  | SRC_TRANSITION_SUPPLY
  | SRC_READY
  | SRC_WAIT_NEW_CAPABILITIES
  | SNK_UNATTACHED
  | SNK_ATTACH_WAIT
  | SNK_DEBOUNCED
  | SNK_ATTACHED
  | SNK_STARTUP
  | SNK_WAIT_CAPABILITIES
  | SNK_NEGOTIATE_CAPABILITIES
  | SNK_TRANSITION_SINK
  | SNK_READY
  | ACC_UNATTACHED
  | DEBUG_ACC_ATTACHED
  | AUDIO_ACC_ATTACHED
  | AUDIO_ACC_DEBOUNCE
  | GIVE_SINK_CAPS
  | GIVE_SOURCE_CAPS
  | HARD_RESET_SEND
  | HARD_RESET_START
  | SRC_HARD_RESET_VBUS_OFF
  | SRC_HARD_RESET_VBUS_ON
  | SNK_HARD_RESET_SINK_OFF
  | SNK_HARD_RESET_WAIT_VBUS
  | SNK_HARD_RESET_SINK_ON
  | SOFT_RESET
  | SOFT_RESET_SEND
  | DR_SWAP_ACCEPT
  | DR_SWAP_SEND
  | DR_SWAP_SEND_TIMEOUT
  | DR_SWAP_CANCEL
  | DR_SWAP_REJECT
  | DR_SWAP_WAIT
  | DR_SWAP_CHANGE_DR
  | PR_SWAP_ACCEPT
  | PR_SWAP_SEND
  | PR_SWAP_SEND_TIMEOUT
  | PR_SWAP_CANCEL
  | PR_SWAP_REJECT
  | PR_SWAP_WAIT
  | PR_SWAP_START
  | PR_SWAP_SRC_SNK_SOURCE_OFF
  | PR_SWAP_SRC_SNK_SINK_ON
  | PR_SWAP_SNK_SRC_SINK_OFF
  | PR_SWAP_SNK_SRC_SOURCE_ON
  | VCONN_SWAP_ACCEPT
  | VCONN_SWAP_SEND
  | VCONN_SWAP_SEND_TIMEOUT
  | VCONN_SWAP_CANCEL
  | VCONN_SWAP_REJECT
  | VCONN_SWAP_WAIT
  | VCONN_SWAP_START
  | VCONN_SWAP_WAIT_FOR_VCONN
  | VCONN_SWAP_TURN_ON_VCONN
  | VCONN_SWAP_TURN_OFF_VCONN
  | REQUEST_REJECT
  deriving Repr, DecidableEq

open tcpm_transmit_type tcpm_state

/-- A call the port manager makes out of `tcpm.c`: one of the operations of
`struct tcpc_dev`, a notification of the typec class, or the completion of
`swap_complete`. -/
inductive tcpc_call where
  | init
  | get_vbus
  | set_cc (cc : typec_cc_status)
  | set_polarity (polarity : typec_cc_polarity)
  | set_vconn (enable : Bool)
  | set_pd_rx (enable : Bool)
  | set_pd_header (pwr : typec_pwr_role) (data : typec_data_role)
  | pd_transmit (type : tcpm_transmit_type) (msg : Option pd_message)
  | typec_connect
  | typec_disconnect
  | complete_swap
  deriving Repr, DecidableEq

/-- The port controller `struct tcpc_dev` as the port manager sees it: the board
configuration, the value each operation returns given the calls made so far,
and, for a message handed to `pd_transmit`, the status that
`tcpm_pd_transmit_complete` reports within `PD_T_TCPC_TX_TIMEOUT` (`none` when
the wait times out). -/
structure tcpc_dev where
  config : tcpc_config
  ret : List (tcpc_call × Int) → tcpc_call → Int
  tx_complete : List (tcpc_call × Int) → Option Nat

/-- The port `struct tcpm_port`, with the fields of `typec_caps` and
`typec_port` it uses.  `source_caps` and `sink_caps` hold the `nr_source_caps`
and `nr_sink_caps` entries in use.  Three fields belong to the model: `work` is
the delay of the queued `state_machine` work item, `trace` the calls made so
far with their return values, `bug` records that `BUG_ON` fired or that a
division by zero stopped the work item; `swap_complete` is the state of the
completion of that name. -/
structure tcpm_port where
  typec_caps_type : typec_port_type
  pwr_role : typec_pwr_role
  data_role : typec_data_role
  pwr_opmode : typec_pwr_opmode
  cc1 : typec_cc_status
  cc2 : typec_cc_status
  polarity : typec_cc_polarity
  attached : Bool
  vbus_present : Bool
  vconn_source : Bool
  prev_state : tcpm_state
  state : tcpm_state
  delayed_state : tcpm_state
  state_machine_running : Bool
  tx_status : Nat
  swap_complete : Bool
  swap_status : Int
  message_id : Nat
  caps_count : Nat
  hard_reset_count : Nat
  pd_capable : Bool
  explicit_contract : Bool
  sink_request : Nat
  source_caps : List Nat
  sink_caps : List Nat
  work : Option Nat
  trace : List (tcpc_call × Int)
  bug : Bool

/-- A call out of the port manager: the controller's answer is recorded in the
trace and returned. -/
def tcpc_op (tcpc : tcpc_dev) (port : tcpm_port) (call : tcpc_call) : tcpm_port × Int :=
  ({ port with trace := port.trace ++ [(call, tcpc.ret port.trace call)] },
    tcpc.ret port.trace call)

/-- A call whose result the caller does not look at. -/
def tcpc_do (tcpc : tcpc_dev) (port : tcpm_port) (call : tcpc_call) : tcpm_port :=
  (tcpc_op tcpc port call).1

/-- The function `tcpm_pd_transmit`.  The wait for `tx_complete` is atomic in
this model: no other event runs while the port lock is released. -/
def tcpm_pd_transmit (tcpc : tcpc_dev) (port : tcpm_port) (type : tcpm_transmit_type)
    (msg : Option pd_message) : tcpm_port × Int :=
  let r := tcpc_op tcpc port (.pd_transmit type msg)
  if r.2 < 0 then r
  else
    match tcpc.tx_complete r.1.trace with
    | none => (r.1, -ETIMEDOUT)
    | some status =>
      let port := { r.1 with tx_status := status }
      if status = TCPC_TX_SUCCESS then
        ({ port with message_id := ((port.message_id + 1) % 2 ^ 32) &&& PD_HEADER_ID_MASK }, 0)
      else if status = TCPC_TX_DISCARDED then (port, -EAGAIN)
      else (port, - EIO)

/-- The function `tcpm_pd_transmit_complete`. -/
def tcpm_pd_transmit_complete (port : tcpm_port) (status : Nat) : tcpm_port :=
  { port with tx_status := status }

/-- The function `tcpm_set_roles`. -/
def tcpm_set_roles (tcpc : tcpc_dev) (port : tcpm_port) (pwr : typec_pwr_role)
    (data : typec_data_role) : tcpm_port × Int :=
  let r := tcpc_op tcpc port (.set_pd_header pwr data)
  if r.2 < 0 then r
  else ({ r.1 with pwr_role := pwr, data_role := data }, 0)

/-- The payload after `memset` and `memcpy(&msg.payload, src, n * sizeof(u32))`:
the first `n` words come from `src`, the others are 0.  The seven words of
`payload` are all this model keeps. -/
def memcpy_payload (src : List Nat) (n : Nat) : List Nat :=
  (List.range PD_MAX_PAYLOAD).map (fun i => if i < n then src.getD i 0 else 0)

/-- The function `tcpm_pd_send_source_caps`. -/
def tcpm_pd_send_source_caps (tcpc : tcpc_dev) (port : tcpm_port) : tcpm_port × Int :=
  let header :=
    if tcpc.config.nr_src_pdo = 0 then
      PD_HEADER PD_CTRL_REJECT port.pwr_role port.data_role port.message_id 0
    else
      PD_HEADER PD_DATA_SOURCE_CAP port.pwr_role port.data_role port.message_id
        tcpc.config.nr_src_pdo
  tcpm_pd_transmit tcpc port TCPC_TX_SOP
    (some { header := header
            payload := memcpy_payload tcpc.config.src_pdo tcpc.config.nr_src_pdo })

/-- The function `tcpm_pd_send_sink_caps`; as in the source the header carries
`PD_DATA_SOURCE_CAP`. -/
def tcpm_pd_send_sink_caps (tcpc : tcpc_dev) (port : tcpm_port) : tcpm_port × Int :=
  let header :=
    if tcpc.config.nr_snk_pdo = 0 then
      PD_HEADER PD_CTRL_REJECT port.pwr_role port.data_role port.message_id 0
    else
      PD_HEADER PD_DATA_SOURCE_CAP port.pwr_role port.data_role port.message_id
        tcpc.config.nr_snk_pdo
  tcpm_pd_transmit tcpc port TCPC_TX_SOP
    (some { header := header
            payload := memcpy_payload tcpc.config.snk_pdo tcpc.config.nr_snk_pdo })

/-- The function `tcpm_set_state`; `mod_delayed_work` sets the delay of the
queued work item. -/
def tcpm_set_state (port : tcpm_port) (state : tcpm_state) (delay_ms : Nat) : tcpm_port :=
  if delay_ms ≠ 0 then
    { port with delayed_state := state, work := some delay_ms }
  else
    let port := { port with delayed_state := INVALID_STATE, prev_state := port.state,
                            state := state }
    if port.state_machine_running then port else { port with work := some 0 }

/-- The words `memcpy(dst, msg->payload, cnt * sizeof(u32))` stores: the first
`cnt` words of the payload. -/
def memcpy_words (payload : List Nat) (cnt : Nat) : List Nat :=
  (List.range cnt).map (fun i => payload.getD i 0)

/-- The function `tcpm_pd_data_request`. -/
def tcpm_pd_data_request (port : tcpm_port) (msg : pd_message) : tcpm_port :=
  let type := pd_header_type msg.header
  let cnt := pd_header_cnt msg.header
  if type = PD_DATA_SOURCE_CAP then
    if port.pwr_role ≠ TYPEC_PWR_SINK then port
    else
      tcpm_set_state { port with source_caps := memcpy_words msg.payload cnt }
        SNK_NEGOTIATE_CAPABILITIES 0
  else if type = PD_DATA_REQUEST then
    if port.pwr_role ≠ TYPEC_PWR_SOURCE ∨ cnt ≠ 1 then tcpm_set_state port REQUEST_REJECT 0
    else
      tcpm_set_state { port with sink_request := msg.payload.getD 0 0 }
        SRC_NEGOTIATE_CAPABILITIES 0
  else if type = PD_DATA_SINK_CAP then
    { port with sink_caps := memcpy_words msg.payload cnt }
  else port

/-- The function `tcpm_pd_ctrl_request`. -/
def tcpm_pd_ctrl_request (port : tcpm_port) (msg : pd_message) : tcpm_port :=
  let type := pd_header_type msg.header
  if type = PD_CTRL_GOOD_CRC ∨ type = PD_CTRL_PING then port
  else if type = PD_CTRL_GET_SOURCE_CAP then
    match port.state with
    | SRC_READY | SNK_READY => tcpm_set_state port GIVE_SOURCE_CAPS 0
    | _ => tcpm_set_state port REQUEST_REJECT 0
  else if type = PD_CTRL_GET_SINK_CAP then
    match port.state with
    | SRC_READY | SNK_READY => tcpm_set_state port GIVE_SINK_CAPS 0
    | _ => tcpm_set_state port REQUEST_REJECT 0
  else if type = PD_CTRL_GOTO_MIN then port
  else if type = PD_CTRL_PS_RDY then
    match port.state with
    | SNK_TRANSITION_SINK => tcpm_set_state port SNK_READY 0
    | PR_SWAP_SRC_SNK_SOURCE_OFF => tcpm_set_state port PR_SWAP_SRC_SNK_SINK_ON 0
    | PR_SWAP_SNK_SRC_SINK_OFF => tcpm_set_state port PR_SWAP_SNK_SRC_SOURCE_ON 0
    | VCONN_SWAP_WAIT_FOR_VCONN => tcpm_set_state port VCONN_SWAP_TURN_OFF_VCONN 0
    | _ => port
  else if type = PD_CTRL_REJECT ∨ type = PD_CTRL_WAIT then
    match port.state with
    | SNK_NEGOTIATE_CAPABILITIES =>
      if port.explicit_contract then tcpm_set_state port SNK_READY 0
      else tcpm_set_state port SNK_WAIT_CAPABILITIES 0
    | DR_SWAP_SEND => tcpm_set_state port DR_SWAP_CANCEL 0
    | PR_SWAP_SEND => tcpm_set_state port PR_SWAP_CANCEL 0
    | VCONN_SWAP_SEND => tcpm_set_state port VCONN_SWAP_CANCEL 0
    | _ => port
  else if type = PD_CTRL_ACCEPT then
    match port.state with
    | SNK_NEGOTIATE_CAPABILITIES => tcpm_set_state port SNK_TRANSITION_SINK 0
    | SOFT_RESET_SEND =>
      let port := { port with message_id := 0 }
      if port.pwr_role = TYPEC_PWR_SOURCE then tcpm_set_state port SRC_SEND_CAPABILITIES 0
      else tcpm_set_state port SNK_WAIT_CAPABILITIES 0
    | DR_SWAP_SEND => tcpm_set_state port DR_SWAP_CHANGE_DR 0
    | VCONN_SWAP_SEND => tcpm_set_state port VCONN_SWAP_START 0
    | _ => port
  else if type = PD_CTRL_SOFT_RESET then tcpm_set_state port SOFT_RESET 0
  else if type = PD_CTRL_DR_SWAP then
    if port.typec_caps_type ≠ TYPEC_PORT_DRP then tcpm_set_state port DR_SWAP_REJECT 0
    else
      match port.state with
      | SRC_READY | SNK_READY => tcpm_set_state port DR_SWAP_ACCEPT 0
      | _ => tcpm_set_state port DR_SWAP_WAIT 0
  else if type = PD_CTRL_PR_SWAP then
    if port.typec_caps_type ≠ TYPEC_PORT_DRP then tcpm_set_state port PR_SWAP_REJECT 0
    else
      match port.state with
      | SRC_READY | SNK_READY => tcpm_set_state port PR_SWAP_ACCEPT 0
      | _ => tcpm_set_state port PR_SWAP_WAIT 0
  else if type = PD_CTRL_VCONN_SWAP then
    match port.state with
    | SRC_READY | SNK_READY => tcpm_set_state port VCONN_SWAP_ACCEPT 0
    | _ => tcpm_set_state port VCONN_SWAP_WAIT 0
  else port

/-- The function `tcpm_pd_receive`. -/
def tcpm_pd_receive (port : tcpm_port) (msg : pd_message) : tcpm_port :=
  let cnt := pd_header_cnt msg.header
  if ¬ port.attached then port
  else if cnt ≠ 0 then tcpm_pd_data_request port msg
  else tcpm_pd_ctrl_request port msg

/-- The function `tcpm_pd_send_control`. -/
def tcpm_pd_send_control (tcpc : tcpc_dev) (port : tcpm_port) (type : Nat) :
    tcpm_port × Int :=
  tcpm_pd_transmit tcpc port TCPC_TX_SOP
    (some { header := PD_HEADER type port.pwr_role port.data_role port.message_id 0
            payload := memcpy_payload [] 0 })

/-- The function `tcpm_pd_send_request` on the port; `none` when
`tcpm_pd_build_request` divides by zero. -/
def tcpm_pd_send_request (tcpc : tcpc_dev) (port : tcpm_port) : Option (tcpm_port × Int) :=
  match tcpm_pd_build_request tcpc.config port.source_caps with
  | .error .div_by_zero => none
  | .error .einval => some (port, -EINVAL)
  | .ok rdo =>
    some (tcpm_pd_transmit tcpc port TCPC_TX_SOP
      (some { header := PD_HEADER PD_DATA_REQUEST port.pwr_role port.data_role
                port.message_id 1
              payload := memcpy_payload [rdo] 1 }))

/-- A notification of the typec class (`typec_connect`, `typec_disconnect`). -/
def typec_notify (port : tcpm_port) (call : tcpc_call) : tcpm_port :=
  { port with trace := port.trace ++ [(call, 0)] }

/-- The call `complete(&port->swap_complete)`. -/
def complete_swap (port : tcpm_port) : tcpm_port :=
  { port with swap_complete := true, trace := port.trace ++ [(.complete_swap, 0)] }

/-- The function `tcpm_src_attach`. -/
def tcpm_src_attach (tcpc : tcpc_dev) (port : tcpm_port) : tcpm_port × Int :=
  if port.attached then (port, 0)
  else
    let port := { port with polarity :=
      if port.cc1 = TYPEC_CC_RD then TYPEC_POLARITY_CC1 else TYPEC_POLARITY_CC2 }
    let r := tcpc_op tcpc port (.set_polarity port.polarity)
    if r.2 < 0 then r
    else
      let r := tcpm_set_roles tcpc r.1 TYPEC_PWR_SOURCE TYPEC_HOST
      if r.2 < 0 then r
      else
        let r := tcpc_op tcpc r.1 (.set_pd_rx true)
        if r.2 < 0 then r
        else
          let r := tcpc_op tcpc r.1 (.set_vconn true)
          if r.2 < 0 then (tcpc_do tcpc r.1 (.set_pd_rx false), r.2)
          else
            let port := { r.1 with vconn_source := true, pd_capable := false,
                                   hard_reset_count := 0 }
            let port := typec_notify port .typec_connect
            ({ port with attached := true }, 0)

/-- The function `tcpm_src_detach`. -/
def tcpm_src_detach (tcpc : tcpc_dev) (port : tcpm_port) : tcpm_port :=
  if ¬ port.attached then port
  else
    let port := typec_notify port .typec_disconnect
    let port := { port with attached := false }
    let port :=
      if port.vconn_source then
        { tcpc_do tcpc port (.set_vconn false) with vconn_source := false }
      else port
    tcpc_do tcpc port (.set_pd_rx false)

/-- The function `tcpm_snk_attach`. -/
def tcpm_snk_attach (tcpc : tcpc_dev) (port : tcpm_port) : tcpm_port × Int :=
  if port.attached then (port, 0)
  else
    let port := { port with polarity :=
      if port.cc1 = TYPEC_CC_OPEN then TYPEC_POLARITY_CC1 else TYPEC_POLARITY_CC2 }
    let r := tcpc_op tcpc port (.set_polarity port.polarity)
    if r.2 < 0 then r
    else
      let r := tcpm_set_roles tcpc r.1 TYPEC_PWR_SINK TYPEC_DEVICE
      if r.2 < 0 then r
      else
        let r := tcpc_op tcpc r.1 (.set_pd_rx true)
        if r.2 < 0 then r
        else
          let port := { r.1 with vconn_source := false, pd_capable := false,
                                 hard_reset_count := 0 }
          let port := typec_notify port .typec_connect
          ({ port with attached := true }, 0)

/-- The function `tcpm_snk_detach`. -/
def tcpm_snk_detach (tcpc : tcpc_dev) (port : tcpm_port) : tcpm_port :=
  if ¬ port.attached then port
  else
    let port := typec_notify port .typec_disconnect
    let port := { port with attached := false }
    let port :=
      if port.vconn_source then
        { tcpc_do tcpc port (.set_vconn false) with vconn_source := false }
      else port
    tcpc_do tcpc port (.set_pd_rx false)

/-- The function `tcpm_acc_attach`; as in the source it returns at once when
the port is not attached. -/
def tcpm_acc_attach (tcpc : tcpc_dev) (port : tcpm_port) : tcpm_port × Int :=
  if ¬ port.attached then (port, 0)
  else
    let r := tcpm_set_roles tcpc port TYPEC_PWR_SOURCE TYPEC_HOST
    if r.2 < 0 then r
    else
      let port := typec_notify r.1 .typec_connect
      ({ port with attached := true }, 0)

/-- The function `tcpm_acc_detach`. -/
def tcpm_acc_detach (port : tcpm_port) : tcpm_port :=
  { typec_notify port .typec_disconnect with attached := false }

/-- The function `hard_reset_state`. -/
def hard_reset_state (port : tcpm_port) : tcpm_state :=
  if port.hard_reset_count < PD_N_HARD_RESET_COUNT then HARD_RESET_SEND
  else if port.pwr_role = TYPEC_PWR_SOURCE then SRC_UNATTACHED else SNK_UNATTACHED

/-- The function `ready_state`. -/
def ready_state (port : tcpm_port) : tcpm_state :=
  if port.pwr_role = TYPEC_PWR_SOURCE then SRC_READY else SNK_READY

/-- The function `run_state_machine`: the handler of the current state.  The
`default` label of the `switch` is reached by `INVALID_STATE` alone. -/
def run_state_machine (tcpc : tcpc_dev) (port : tcpm_port) : tcpm_port :=
  match port.state with
  -- SRC states
  | SRC_UNATTACHED =>
    tcpc_do tcpc (tcpm_src_detach tcpc port) (.set_cc TYPEC_CC_RP_DEF)
  | SRC_ATTACH_WAIT =>
    if port.cc1 = TYPEC_CC_RD ∧ port.cc2 = TYPEC_CC_RD then
      tcpm_set_state port DEBUG_ACC_ATTACHED TYPEC_T_CC_DEBOUNCE
    else if port.cc1 = TYPEC_CC_RA ∧ port.cc2 = TYPEC_CC_RA then
      tcpm_set_state port AUDIO_ACC_ATTACHED TYPEC_T_CC_DEBOUNCE
    else if port.cc1 = TYPEC_CC_RD ∨ port.cc2 = TYPEC_CC_RD then
      tcpm_set_state port SRC_ATTACHED TYPEC_T_CC_DEBOUNCE
    else port
  | SRC_ATTACHED =>
    let r := tcpm_src_attach tcpc port
    if r.2 < 0 then tcpm_set_state r.1 SRC_UNATTACHED 0
    else tcpm_set_state r.1 SRC_STARTUP 0
  | SRC_STARTUP =>
    tcpm_set_state
      { port with pwr_opmode := TYPEC_PWR_MODE_USB, caps_count := 0, message_id := 0,
                  explicit_contract := false }
      SRC_SEND_CAPABILITIES 0
  | SRC_SEND_CAPABILITIES =>
    let port := { port with caps_count := (port.caps_count + 1) % 2 ^ 32 }
    if port.caps_count > PD_N_CAPS_COUNT then port
    else
      let r := tcpm_pd_send_source_caps tcpc port
      if r.2 < 0 then tcpm_set_state r.1 SRC_SEND_CAPABILITIES PD_T_SEND_SOURCE_CAP
      else
        let port := { r.1 with hard_reset_count := 0, caps_count := 0, pd_capable := true }
        tcpm_set_state port (hard_reset_state port) PD_T_SEND_SOURCE_CAP
  | SRC_NEGOTIATE_CAPABILITIES =>
    if tcpm_pd_check_request tcpc.config port.sink_request < 0 then
      let port := (tcpm_pd_send_control tcpc port PD_CTRL_REJECT).1
      if ¬ port.explicit_contract then tcpm_set_state port SRC_WAIT_NEW_CAPABILITIES 0
      else tcpm_set_state port SRC_READY 0
    else
      let port := (tcpm_pd_send_control tcpc port PD_CTRL_ACCEPT).1
      tcpm_set_state port SRC_TRANSITION_SUPPLY PD_T_SRC_TRANSITION
  | SRC_TRANSITION_SUPPLY =>
    let port := (tcpm_pd_send_control tcpc port PD_CTRL_PS_RDY).1
    tcpm_set_state { port with explicit_contract := true, pwr_opmode := TYPEC_PWR_MODE_PD }
      SRC_READY 0
  | SRC_READY =>
    let port := (tcpm_pd_send_control tcpc port PD_CTRL_PING).1
    tcpm_set_state port SRC_READY PD_T_SOURCE_ACTIVITY
  | SRC_WAIT_NEW_CAPABILITIES => port
  -- SNK states
  | SNK_UNATTACHED =>
    tcpc_do tcpc (tcpm_snk_detach tcpc port) (.set_cc TYPEC_CC_RD)
  | SNK_ATTACH_WAIT =>
    if (port.cc1 = TYPEC_CC_OPEN ∧ port.cc2 ≠ TYPEC_CC_OPEN) ∨
        (port.cc1 ≠ TYPEC_CC_OPEN ∧ port.cc2 = TYPEC_CC_OPEN) then
      tcpm_set_state port SNK_DEBOUNCED TYPEC_T_CC_DEBOUNCE
    else if port.cc1 = TYPEC_CC_OPEN ∧ port.cc2 = TYPEC_CC_OPEN then
      tcpm_set_state port SNK_UNATTACHED TYPEC_T_PD_DEBOUNCE
    else port
  | SNK_DEBOUNCED =>
    if port.vbus_present then tcpm_set_state port SNK_ATTACHED 0
    else if port.cc1 = TYPEC_CC_OPEN ∧ port.cc2 = TYPEC_CC_OPEN then
      tcpm_set_state port SNK_UNATTACHED TYPEC_T_PD_DEBOUNCE
    else port
  | SNK_ATTACHED =>
    let r := tcpm_snk_attach tcpc port
    if r.2 < 0 then tcpm_set_state r.1 SNK_UNATTACHED 0
    else tcpm_set_state r.1 SNK_STARTUP 0
  | SNK_STARTUP =>
    tcpm_set_state
      { port with pwr_opmode := TYPEC_PWR_MODE_USB, message_id := 0,
                  explicit_contract := false }
      SNK_WAIT_CAPABILITIES 0
  | SNK_WAIT_CAPABILITIES =>
    tcpm_set_state port (hard_reset_state port) PD_T_SINK_WAIT_CAP
  | SNK_NEGOTIATE_CAPABILITIES =>
    let port := { port with pd_capable := true }
    match tcpm_pd_send_request tcpc port with
    | none => { port with bug := true }
    | some r =>
      if r.2 < 0 then tcpm_set_state r.1 SNK_WAIT_CAPABILITIES 0
      else tcpm_set_state r.1 (hard_reset_state r.1) PD_T_SENDER_RESPONSE
  | SNK_TRANSITION_SINK =>
    tcpm_set_state port (hard_reset_state port) PD_T_PS_TRANSITION
  | SNK_READY =>
    { port with explicit_contract := true, pwr_opmode := TYPEC_PWR_MODE_PD }
  -- Accessory states
  | ACC_UNATTACHED =>
    tcpm_set_state (tcpm_acc_detach port) SRC_UNATTACHED 0
  | DEBUG_ACC_ATTACHED | AUDIO_ACC_ATTACHED =>
    let r := tcpm_acc_attach tcpc port
    if r.2 < 0 then tcpm_set_state r.1 ACC_UNATTACHED 0 else r.1
  | AUDIO_ACC_DEBOUNCE =>
    tcpm_set_state port ACC_UNATTACHED TYPEC_T_CC_DEBOUNCE
  -- Give_{Sink,Source}_Caps states
  | GIVE_SINK_CAPS =>
    let port := (tcpm_pd_send_sink_caps tcpc port).1
    tcpm_set_state port port.prev_state 0
  | GIVE_SOURCE_CAPS =>
    let port := (tcpm_pd_send_source_caps tcpc port).1
    tcpm_set_state port port.prev_state 0
  -- Hard_Reset states
  | HARD_RESET_SEND =>
    let port := { port with hard_reset_count := (port.hard_reset_count + 1) % 2 ^ 32 }
    let port := (tcpm_pd_transmit tcpc port TCPC_TX_HARD_RESET none).1
    tcpm_set_state port HARD_RESET_START 0
  | HARD_RESET_START =>
    if port.pwr_role = TYPEC_PWR_SOURCE then
      tcpm_set_state port SRC_HARD_RESET_VBUS_OFF PD_T_PS_HARD_RESET
    else tcpm_set_state port SNK_HARD_RESET_SINK_OFF 0
  | SRC_HARD_RESET_VBUS_OFF =>
    tcpm_set_state port SRC_HARD_RESET_VBUS_ON PD_T_SRC_RECOVER
  | SRC_HARD_RESET_VBUS_ON =>
    tcpm_set_state port SRC_STARTUP 0
  | SNK_HARD_RESET_SINK_OFF =>
    tcpm_set_state port (hard_reset_state port) PD_T_SAFE_0V
  | SNK_HARD_RESET_WAIT_VBUS =>
    tcpm_set_state port SNK_UNATTACHED (PD_T_SRC_RECOVER_MAX + PD_T_SRC_TURN_ON)
  | SNK_HARD_RESET_SINK_ON =>
    tcpm_set_state port SNK_STARTUP 0
  -- Soft_Reset states
  | SOFT_RESET =>
    let port := { port with message_id := 0 }
    let port := (tcpm_pd_send_control tcpc port PD_CTRL_ACCEPT).1
    if port.pwr_role = TYPEC_PWR_SOURCE then tcpm_set_state port SRC_SEND_CAPABILITIES 0
    else tcpm_set_state port SNK_WAIT_CAPABILITIES 0
  | SOFT_RESET_SEND =>
    let port := { port with message_id := 0 }
    let port := (tcpm_pd_send_control tcpc port PD_CTRL_SOFT_RESET).1
    tcpm_set_state port (hard_reset_state port) PD_T_SENDER_RESPONSE
  -- DR_Swap states
  | DR_SWAP_SEND =>
    let port := (tcpm_pd_send_control tcpc port PD_CTRL_DR_SWAP).1
    tcpm_set_state port DR_SWAP_SEND_TIMEOUT PD_T_SENDER_RESPONSE
  | DR_SWAP_ACCEPT =>
    let port := (tcpm_pd_send_control tcpc port PD_CTRL_ACCEPT).1
    tcpm_set_state port DR_SWAP_CHANGE_DR 0
  | DR_SWAP_SEND_TIMEOUT =>
    let port := complete_swap { port with swap_status := -ETIMEDOUT }
    tcpm_set_state port (ready_state port) 0
  | DR_SWAP_CHANGE_DR =>
    let port :=
      if port.data_role = TYPEC_HOST then
        (tcpm_set_roles tcpc port port.pwr_role TYPEC_DEVICE).1
      else (tcpm_set_roles tcpc port port.pwr_role TYPEC_HOST).1
    let port := complete_swap { port with swap_status := 0 }
    tcpm_set_state port (ready_state port) 0
  -- PR_Swap states
  | PR_SWAP_ACCEPT =>
    let port := (tcpm_pd_send_control tcpc port PD_CTRL_ACCEPT).1
    tcpm_set_state port PR_SWAP_START 0
  | PR_SWAP_SEND =>
    let port := (tcpm_pd_send_control tcpc port PD_CTRL_PR_SWAP).1
    tcpm_set_state port PR_SWAP_SEND_TIMEOUT PD_T_SENDER_RESPONSE
  | PR_SWAP_SEND_TIMEOUT =>
    let port := complete_swap { port with swap_status := -ETIMEDOUT }
    tcpm_set_state port (ready_state port) 0
  | PR_SWAP_START =>
    if port.pwr_role = TYPEC_PWR_SOURCE then
      tcpm_set_state port PR_SWAP_SRC_SNK_SOURCE_OFF PD_T_SRC_TRANSITION
    else tcpm_set_state port PR_SWAP_SNK_SRC_SINK_OFF 0
  | PR_SWAP_SRC_SNK_SOURCE_OFF =>
    let port := tcpc_do tcpc port (.set_cc TYPEC_CC_RD)
    let port := (tcpm_pd_send_control tcpc port PD_CTRL_PS_RDY).1
    tcpm_set_state port SNK_UNATTACHED PD_T_PS_SOURCE_ON
  | PR_SWAP_SRC_SNK_SINK_ON =>
    let port := (tcpm_set_roles tcpc port TYPEC_PWR_SINK port.data_role).1
    tcpm_set_state port SNK_STARTUP 0
  | PR_SWAP_SNK_SRC_SINK_OFF =>
    tcpm_set_state port (hard_reset_state port) PD_T_PS_SOURCE_OFF
  | PR_SWAP_SNK_SRC_SOURCE_ON =>
    let port := tcpc_do tcpc port (.set_cc TYPEC_CC_RP_DEF)
    let port := (tcpm_pd_send_control tcpc port PD_CTRL_PS_RDY).1
    let port := (tcpm_set_roles tcpc port TYPEC_PWR_SOURCE port.data_role).1
    tcpm_set_state port SRC_STARTUP 0
  -- VCONN_Swap states
  | VCONN_SWAP_ACCEPT =>
    let port := (tcpm_pd_send_control tcpc port PD_CTRL_ACCEPT).1
    tcpm_set_state port VCONN_SWAP_START 0
  | VCONN_SWAP_SEND =>
    let port := (tcpm_pd_send_control tcpc port PD_CTRL_VCONN_SWAP).1
    tcpm_set_state port VCONN_SWAP_SEND_TIMEOUT PD_T_SENDER_RESPONSE
  | VCONN_SWAP_SEND_TIMEOUT =>
    let port := complete_swap { port with swap_status := -ETIMEDOUT }
    tcpm_set_state port (ready_state port) 0
  | VCONN_SWAP_START =>
    if port.vconn_source then tcpm_set_state port VCONN_SWAP_WAIT_FOR_VCONN 0
    else tcpm_set_state port VCONN_SWAP_TURN_ON_VCONN 0
  | VCONN_SWAP_WAIT_FOR_VCONN =>
    tcpm_set_state port (hard_reset_state port) PD_T_VCONN_SOURCE_ON
  | VCONN_SWAP_TURN_ON_VCONN =>
    let port := { tcpc_do tcpc port (.set_vconn true) with vconn_source := true }
    let port := (tcpm_pd_send_control tcpc port PD_CTRL_PS_RDY).1
    tcpm_set_state port (ready_state port) 0
  | VCONN_SWAP_TURN_OFF_VCONN =>
    let port := { tcpc_do tcpc port (.set_vconn false) with vconn_source := false }
    tcpm_set_state port (ready_state port) 0
  | DR_SWAP_CANCEL | PR_SWAP_CANCEL | VCONN_SWAP_CANCEL =>
    let port := complete_swap { port with swap_status := -EAGAIN }
    if port.pwr_role = TYPEC_PWR_SOURCE then tcpm_set_state port SRC_READY 0
    else tcpm_set_state port SNK_READY 0
  | REQUEST_REJECT | DR_SWAP_REJECT | PR_SWAP_REJECT | VCONN_SWAP_REJECT =>
    let port := (tcpm_pd_send_control tcpc port PD_CTRL_REJECT).1
    tcpm_set_state port port.prev_state 0
  | DR_SWAP_WAIT | PR_SWAP_WAIT | VCONN_SWAP_WAIT =>
    let port := (tcpm_pd_send_control tcpc port PD_CTRL_WAIT).1
    tcpm_set_state port port.prev_state 0
  | INVALID_STATE => { port with bug := true }

/-- The `do ... while` loop of `tcpm_state_machine_work`, run for at most
`fuel` handlers; `none` when the fuel does not suffice.  A port whose work item
has died (`bug`) runs no further handler. -/
def state_machine_loop (tcpc : tcpc_dev) : Nat → tcpm_port → Option tcpm_port
  | 0, _ => none
  | fuel + 1, port =>
    let prev_state := port.state
    let port := run_state_machine tcpc port
    if port.bug then some port
    else if port.state ≠ prev_state ∧ port.delayed_state = INVALID_STATE then
      state_machine_loop tcpc fuel port
    else some port

/-- The start of `tcpm_state_machine_work`: the work item leaves the queue,
`state_machine_running` is set, and a delayed state change takes effect. -/
def state_machine_work_begin (port : tcpm_port) : tcpm_port :=
  let port := { port with work := none, state_machine_running := true }
  if port.delayed_state ≠ INVALID_STATE then
    { port with prev_state := port.state, state := port.delayed_state,
                delayed_state := INVALID_STATE }
  else port

/-- The function `tcpm_state_machine_work`, which runs when the queued work
item is due (an immediate state change or the expiry of a delay). -/
def tcpm_state_machine_work (tcpc : tcpc_dev) (fuel : Nat) (port : tcpm_port) :
    Option tcpm_port :=
  match state_machine_loop tcpc fuel (state_machine_work_begin port) with
  | none => none
  | some port => if port.bug then some port else some { port with state_machine_running := false }

/-- The function `tcpm_cc_change`. -/
def tcpm_cc_change (port : tcpm_port) (cc1 cc2 : typec_cc_status) : tcpm_port :=
  let old_cc1 := port.cc1
  let old_cc2 := port.cc2
  let port := { port with cc1 := cc1, cc2 := cc2 }
  match port.state with
  | SRC_UNATTACHED | ACC_UNATTACHED =>
    if (cc1 = TYPEC_CC_RD ∨ cc2 = TYPEC_CC_RD) ∨ (cc1 = TYPEC_CC_RA ∧ cc2 = TYPEC_CC_RA) then
      tcpm_set_state port SRC_ATTACH_WAIT 0
    else port
  | SRC_ATTACH_WAIT =>
    if (cc1 = TYPEC_CC_OPEN ∧ cc2 = TYPEC_CC_OPEN) ∨ (cc1 = TYPEC_CC_OPEN ∧ cc2 = TYPEC_CC_RA) ∨
        (cc1 = TYPEC_CC_RA ∧ cc2 = TYPEC_CC_OPEN) then
      tcpm_set_state port SRC_UNATTACHED 0
    else if cc1 ≠ old_cc1 ∨ cc2 ≠ old_cc2 then tcpm_set_state port SRC_ATTACH_WAIT 0
    else port
  | SRC_ATTACHED =>
    if (port.polarity = TYPEC_POLARITY_CC1 ∧ cc1 = TYPEC_CC_OPEN) ∨
        (port.polarity = TYPEC_POLARITY_CC2 ∧ cc2 = TYPEC_CC_OPEN) then
      tcpm_set_state port SRC_UNATTACHED 0
    else port
  | SNK_UNATTACHED =>
    if (cc1 ≠ TYPEC_CC_OPEN ∧ cc2 = TYPEC_CC_OPEN) ∨
        (cc1 = TYPEC_CC_OPEN ∧ cc2 ≠ TYPEC_CC_OPEN) then
      tcpm_set_state port SNK_ATTACH_WAIT 0
    else port
  | SNK_ATTACH_WAIT => tcpm_set_state port SNK_ATTACH_WAIT 0
  | SNK_DEBOUNCED => tcpm_set_state port SNK_DEBOUNCED 0
  | AUDIO_ACC_ATTACHED =>
    if cc1 = TYPEC_CC_OPEN ∨ cc2 = TYPEC_CC_OPEN then tcpm_set_state port AUDIO_ACC_DEBOUNCE 0
    else port
  | AUDIO_ACC_DEBOUNCE =>
    if cc1 = TYPEC_CC_RA ∧ cc2 = TYPEC_CC_RA then tcpm_set_state port AUDIO_ACC_ATTACHED 0
    else port
  | DEBUG_ACC_ATTACHED =>
    if cc1 = TYPEC_CC_OPEN ∨ cc2 = TYPEC_CC_OPEN then tcpm_set_state port ACC_UNATTACHED 0
    else port
  | _ =>
    if port.pwr_role = TYPEC_PWR_SOURCE ∧ port.attached ∧
        ((port.polarity = TYPEC_POLARITY_CC1 ∧ cc1 = TYPEC_CC_OPEN) ∨
          (port.polarity = TYPEC_POLARITY_CC2 ∧ cc2 = TYPEC_CC_OPEN)) then
      tcpm_set_state port SRC_UNATTACHED 0
    else port

/-- The function `tcpm_vbus_on`. -/
def tcpm_vbus_on (port : tcpm_port) : tcpm_port :=
  let port := { port with vbus_present := true }
  match port.state with
  | SNK_DEBOUNCED => tcpm_set_state port SNK_ATTACHED 0
  | SNK_HARD_RESET_WAIT_VBUS => tcpm_set_state port SNK_STARTUP 0
  | _ => port

/-- The function `tcpm_vbus_off`. -/
def tcpm_vbus_off (port : tcpm_port) : tcpm_port :=
  let port := { port with vbus_present := false }
  match port.state with
  | SNK_HARD_RESET_SINK_OFF => tcpm_set_state port SNK_HARD_RESET_WAIT_VBUS 0
  | _ =>
    if port.pwr_role = TYPEC_PWR_SINK ∧ port.attached then tcpm_set_state port SNK_UNATTACHED 0
    else port

/-- The function `tcpm_pd_hard_reset`. -/
def tcpm_pd_hard_reset (port : tcpm_port) : tcpm_port :=
  if port.attached then tcpm_set_state port HARD_RESET_START 0 else port

/-- The function `tcpm_dr_swap` up to the release of the port lock: `some err`
when it returns the error at once, `none` when the caller goes on to wait for
`swap_complete` and then returns `swap_status`. -/
def tcpm_dr_swap (port : tcpm_port) : tcpm_port × Option Int :=
  if port.typec_caps_type ≠ TYPEC_PORT_DRP then (port, some (-EINVAL))
  else if port.state ≠ SRC_READY ∧ port.state ≠ SNK_READY then (port, some (-EAGAIN))
  else
    (tcpm_set_state { port with swap_status := 0, swap_complete := false } DR_SWAP_SEND 0,
      none)

/-- The function `tcpm_pr_swap` up to the release of the port lock, with the
results of `tcpm_dr_swap`. -/
def tcpm_pr_swap (port : tcpm_port) : tcpm_port × Option Int :=
  if port.typec_caps_type ≠ TYPEC_PORT_DRP then (port, some (-EINVAL))
  else if port.state ≠ SRC_READY ∧ port.state ≠ SNK_READY then (port, some (-EAGAIN))
  else
    (tcpm_set_state { port with swap_status := 0, swap_complete := false } PR_SWAP_SEND 0,
      none)

/-- The function `tcpm_vconn_swap` up to the release of the port lock; it does
not test the port type. -/
def tcpm_vconn_swap (port : tcpm_port) : tcpm_port × Option Int :=
  if port.state ≠ SRC_READY ∧ port.state ≠ SNK_READY then (port, some (-EAGAIN))
  else
    (tcpm_set_state { port with swap_status := 0, swap_complete := false } VCONN_SWAP_SEND 0,
      none)

/-- The function `tcpm_init`. -/
def tcpm_init (tcpc : tcpc_dev) (port : tcpm_port) : tcpm_port :=
  let port := tcpc_do tcpc port .init
  let port := tcpc_do tcpc port (.set_pd_rx false)
  let r := tcpc_op tcpc port .get_vbus
  let port := { r.1 with vbus_present := decide (r.2 ≠ 0) }
  if tcpc.config.default_role = TYPEC_PWR_SOURCE then tcpm_set_state port SRC_UNATTACHED 0
  else tcpm_set_state port SNK_UNATTACHED 0

/-- The function `tcpm_tcpc_reset`. -/
def tcpm_tcpc_reset (tcpc : tcpc_dev) (port : tcpm_port) : tcpm_port :=
  tcpm_init tcpc port

/-- The values at registration that depend on `linux/usb/typec.h`, which is
not among the sources: the enumerators of value 0 that `devm_kzalloc` leaves in
`cc1`, `cc2` and `polarity`, and the roles and operation mode of the port that
`typec_register_port` returns. -/
structure typec_initial where
  cc : typec_cc_status
  polarity : typec_cc_polarity
  pwr_role : typec_pwr_role
  data_role : typec_data_role
  pwr_opmode : typec_pwr_opmode

/-- The function `tcpm_register_port` when its allocations and
`typec_register_port` succeed: the zeroed port, then `tcpm_init`. -/
def tcpm_register_port (tcpc : tcpc_dev) (typec : typec_initial) : tcpm_port :=
  tcpm_init tcpc
    { typec_caps_type := tcpc.config.port_type
      pwr_role := typec.pwr_role
      data_role := typec.data_role
      pwr_opmode := typec.pwr_opmode
      cc1 := typec.cc
      cc2 := typec.cc
      polarity := typec.polarity
      attached := false
      vbus_present := false
      vconn_source := false
      prev_state := INVALID_STATE
      state := INVALID_STATE
      delayed_state := INVALID_STATE
      state_machine_running := false
      tx_status := 0
      swap_complete := false
      swap_status := 0
      message_id := 0
      caps_count := 0
      hard_reset_count := 0
      pd_capable := false
      explicit_contract := false
      sink_request := 0
      source_caps := []
      sink_caps := []
      work := none
      trace := []
      bug := false }

/-! ## Scenario values -/

/-- A port controller on `board_config` whose operations all return 0 and whose
transmissions all complete with `TCPC_TX_SUCCESS`. -/
def ok_tcpc : tcpc_dev :=
  { config := board_config
    ret := fun _ _ => 0
    tx_complete := fun _ => some TCPC_TX_SUCCESS }

/-- Registration values for the scenarios: CC lines Open, a sink and device in
USB mode. -/
def typec_zero : typec_initial :=
  { cc := TYPEC_CC_OPEN
    polarity := TYPEC_POLARITY_CC1
    pwr_role := TYPEC_PWR_SINK
    data_role := TYPEC_DEVICE
    pwr_opmode := TYPEC_PWR_MODE_USB }

/-- The start of the specification's boundary scenario 1 on `ok_tcpc`: the port
is registered and its work item runs; the controller reports CC1 = Rp-def and
CC2 = Open and the work item runs; the CC debounce delay expires; VBUS goes
high, which leaves `SNK_ATTACHED` queued. -/
def scenario_sink_debounced : Option tcpm_port := do
  let p ← tcpm_state_machine_work ok_tcpc 8 (tcpm_register_port ok_tcpc typec_zero)
  let p ← tcpm_state_machine_work ok_tcpc 8 (tcpm_cc_change p TYPEC_CC_RP_DEF TYPEC_CC_OPEN)
  let p ← tcpm_state_machine_work ok_tcpc 8 p
  pure (tcpm_vbus_on p)

/-! ## Events, reachable ports and the hard-reset invariant -/

/-- An event delivered to the port from outside the work item: the exported
functions the port controller driver calls and the swap operations of the typec
port. -/
inductive tcpm_event where
  | cc_change (cc1 cc2 : typec_cc_status)
  | vbus_on
  | vbus_off
  | pd_receive (msg : pd_message)
  | pd_transmit_complete (status : Nat)
  | pd_hard_reset
  | dr_swap
  | pr_swap
  | vconn_swap
  | tcpc_reset

/-- The port after an event. -/
def tcpm_handle (tcpc : tcpc_dev) (port : tcpm_port) : tcpm_event → tcpm_port
  | .cc_change cc1 cc2 => tcpm_cc_change port cc1 cc2
  | .vbus_on => tcpm_vbus_on port
  | .vbus_off => tcpm_vbus_off port
  | .pd_receive msg => tcpm_pd_receive port msg
  | .pd_transmit_complete status => tcpm_pd_transmit_complete port status
  | .pd_hard_reset => tcpm_pd_hard_reset port
  | .dr_swap => (tcpm_dr_swap port).1
  | .pr_swap => (tcpm_pr_swap port).1
  | .vconn_swap => (tcpm_vconn_swap port).1
  | .tcpc_reset => tcpm_tcpc_reset tcpc port

/-- The ports reachable on the controller `tcpc`: the registered port, and
every port that an event, the start of the work item, one state handler or a
whole run of the work item leads to from a reachable port.  The handlers of
a run are applied to the port the start of the work item leaves, so this set
contains every port the driver goes through, between two handlers as well. -/
inductive reachable (tcpc : tcpc_dev) : tcpm_port → Prop where
  | register (typec : typec_initial) : reachable tcpc (tcpm_register_port tcpc typec)
  | event (port : tcpm_port) (ev : tcpm_event) :
      reachable tcpc port → reachable tcpc (tcpm_handle tcpc port ev)
  | work_begin (port : tcpm_port) :
      reachable tcpc port → reachable tcpc (state_machine_work_begin port)
  | handler (port : tcpm_port) :
      reachable tcpc port → reachable tcpc (run_state_machine tcpc port)
  | work (port port' : tcpm_port) (fuel : Nat) :
      reachable tcpc port → tcpm_state_machine_work tcpc fuel port = some port' →
      reachable tcpc port'

/-- The states whose handler goes back to `prev_state`. -/
def returns_to_prev : tcpm_state → Bool
  | GIVE_SINK_CAPS | GIVE_SOURCE_CAPS | REQUEST_REJECT | DR_SWAP_REJECT | PR_SWAP_REJECT
  | VCONN_SWAP_REJECT | DR_SWAP_WAIT | PR_SWAP_WAIT | VCONN_SWAP_WAIT => true
  | _ => false

/-- The invariant behind `hard_reset_count ≤ PD_N_HARD_RESET_COUNT`: the count is
at most 2, and it is below 2 whenever `HARD_RESET_SEND` is the current state,
the delayed state, or the state a handler is about to return to. -/
def hard_reset_inv (port : tcpm_port) : Prop :=
  port.hard_reset_count ≤ PD_N_HARD_RESET_COUNT ∧
  (port.state = HARD_RESET_SEND → port.hard_reset_count < PD_N_HARD_RESET_COUNT) ∧
  (port.delayed_state = HARD_RESET_SEND → port.hard_reset_count < PD_N_HARD_RESET_COUNT) ∧
  (port.prev_state = HARD_RESET_SEND → returns_to_prev port.state = true →
    port.hard_reset_count < PD_N_HARD_RESET_COUNT)

/-- The number of hard resets handed to the port controller so far: the calls
`pd_transmit(TCPC_TX_HARD_RESET, NULL)` in the trace. -/
def hard_resets_sent (port : tcpm_port) : Nat :=
  port.trace.countP (fun e => decide (e.1 = tcpc_call.pd_transmit TCPC_TX_HARD_RESET none))

/-- VBUS drops and returns, as it does after a hard reset: `tcpm_vbus_off`, a
run of the work item it queues, `tcpm_vbus_on`, a run of the work item. -/
def vbus_cycle (tcpc : tcpc_dev) (fuel : Nat) (port : tcpm_port) : Option tcpm_port :=
  (tcpm_state_machine_work tcpc fuel (tcpm_vbus_off port)).bind
    (fun port => tcpm_state_machine_work tcpc fuel (tcpm_vbus_on port))

/-- The controller `ok_tcpc` on a board whose default role is Source. -/
def ok_src_tcpc : tcpc_dev :=
  { ok_tcpc with config := { board_config with default_role := TYPEC_PWR_SOURCE } }

/-- A source on `ok_src_tcpc` whose partner acknowledges every message and
never answers: the port is registered and its work item runs; the controller
reports CC1 = Rd and CC2 = Open and the work item runs; the CC debounce delay
expires, the port attaches and sends its source capabilities; no request
arrives and the delay expires, which sends the first hard reset; `PD_T_PS_HARD_RESET`
expires, which leaves the port in `SRC_HARD_RESET_VBUS_OFF`. -/
def scenario_source_hard_reset : Option tcpm_port := do
  let p ← tcpm_state_machine_work ok_src_tcpc 8 (tcpm_register_port ok_src_tcpc typec_zero)
  let p ← tcpm_state_machine_work ok_src_tcpc 8 (tcpm_cc_change p TYPEC_CC_RD TYPEC_CC_OPEN)
  let p ← tcpm_state_machine_work ok_src_tcpc 8 p
  let p ← tcpm_state_machine_work ok_src_tcpc 8 p
  tcpm_state_machine_work ok_src_tcpc 8 p

/-- The attached sink of boundary scenario 1 when its `SNK_WAIT_CAPABILITIES`
handler is about to run: the work item queued in `scenario_sink_debounced` has
started and the handlers of `SNK_ATTACHED` and `SNK_STARTUP` have run.  (The
registered port stands in if `scenario_sink_debounced` had no result.) -/
def scenario_sink_wait_capabilities : tcpm_port :=
  match scenario_sink_debounced with
  | some p => run_state_machine ok_tcpc (run_state_machine ok_tcpc (state_machine_work_begin p))
  | none => tcpm_register_port ok_tcpc typec_zero

/-! ## Scenario values: messages and a source with a contract -/

/-- The message `tcpm_pd_send_control` builds on `port` for the control
message `type`. -/
def control_message (port : tcpm_port) (type : Nat) : pd_message :=
  { header := PD_HEADER type port.pwr_role port.data_role port.message_id 0
    payload := memcpy_payload [] 0 }

/-- A control message as the partner of the port sends it: the partner has the
other power and data role, and the message id is `id`. -/
def partner_control (port : tcpm_port) (type id : Nat) : pd_message :=
  { header :=
      PD_HEADER type
        (if port.pwr_role = TYPEC_PWR_SOURCE then TYPEC_PWR_SINK else TYPEC_PWR_SOURCE)
        (if port.data_role = TYPEC_HOST then TYPEC_DEVICE else TYPEC_HOST) id 0
    payload := [] }

/-- A Request message of a sink carrying the one object `rdo`. -/
def request_message (rdo : Nat) : pd_message :=
  { header := PD_HEADER PD_DATA_REQUEST TYPEC_PWR_SINK TYPEC_DEVICE 0 1
    payload := [rdo] }

/-- The last call the port made to its controller or to the typec class. -/
def last_call (port : tcpm_port) : Option tcpc_call :=
  port.trace.getLast?.map Prod.fst

/-- A source on `tcpc` after attach: the port is registered and its work item
runs; the controller reports CC1 = Rd and CC2 = Open and the work item runs;
the CC debounce delay expires, the port attaches and sends its source
capabilities. -/
def scenario_source_attached (tcpc : tcpc_dev) : Option tcpm_port := do
  let p ← tcpm_state_machine_work tcpc 8 (tcpm_register_port tcpc typec_zero)
  let p ← tcpm_state_machine_work tcpc 8 (tcpm_cc_change p TYPEC_CC_RD TYPEC_CC_OPEN)
  tcpm_state_machine_work tcpc 8 p

/-- A source on `tcpc` with an explicit contract: after
`scenario_source_attached` the partner requests 1500 mA of the first source
PDO and the work item runs; `PD_T_SRC_TRANSITION` expires and the work item
runs `SRC_TRANSITION_SUPPLY` and `SRC_READY`. -/
def scenario_source_ready (tcpc : tcpc_dev) : Option tcpm_port := do
  let p ← scenario_source_attached tcpc
  let p ← tcpm_state_machine_work tcpc 8
    (tcpm_pd_receive p (request_message (RDO_FIXED 1 1500 1500 0)))
  tcpm_state_machine_work tcpc 8 p

/-- The port of `scenario_source_attached` on `ok_src_tcpc` when the handler of
`SRC_NEGOTIATE_CAPABILITIES` is about to run on the partner's request `rdo`:
the Request has been received and the work item it queued has started.  (The
registered port stands in if `scenario_source_attached` had no result.) -/
def scenario_source_request (rdo : Nat) : tcpm_port :=
  match scenario_source_attached ok_src_tcpc with
  | some p => state_machine_work_begin (tcpm_pd_receive p (request_message rdo))
  | none => tcpm_register_port ok_src_tcpc typec_zero

/-- An accessory on `ok_src_tcpc`: the port is registered and its work item
runs; the controller reports `cc` on both CC lines and the work item runs; the
CC debounce delay expires and the work item runs. -/
def scenario_accessory (cc : typec_cc_status) : Option tcpm_port := do
  let p ← tcpm_state_machine_work ok_src_tcpc 8 (tcpm_register_port ok_src_tcpc typec_zero)
  let p ← tcpm_state_machine_work ok_src_tcpc 8 (tcpm_cc_change p cc cc)
  tcpm_state_machine_work ok_src_tcpc 8 p

/-- The controller `ok_src_tcpc` on a board whose port is a DFP. -/
def ok_dfp_tcpc : tcpc_dev :=
  { ok_tcpc with
    config := { board_config with default_role := TYPEC_PWR_SOURCE, port_type := TYPEC_PORT_DFP } }

/-- The source of `scenario_source_ready` on `ok_src_tcpc` after `tcpm_pr_swap`
and a run of the work item: PR_Swap has been sent. -/
def scenario_pr_swap_sent : Option tcpm_port := do
  let p ← scenario_source_ready ok_src_tcpc
  tcpm_state_machine_work ok_src_tcpc 8 (tcpm_pr_swap p).1

/-- The three swaps of the specification. -/
inductive swap_kind where
  | DR
  | PR
  | VCONN
  deriving Repr, DecidableEq

/-- The state in which the port sends the swap message. -/
def swap_send : swap_kind → tcpm_state
  | .DR => DR_SWAP_SEND
  | .PR => PR_SWAP_SEND
  | .VCONN => VCONN_SWAP_SEND

/-- The state the port enters when the answer to its swap message is late. -/
def swap_send_timeout : swap_kind → tcpm_state
  | .DR => DR_SWAP_SEND_TIMEOUT
  | .PR => PR_SWAP_SEND_TIMEOUT
  | .VCONN => VCONN_SWAP_SEND_TIMEOUT

/-- The control message of the swap. -/
def swap_message : swap_kind → Nat
  | .DR => PD_CTRL_DR_SWAP
  | .PR => PD_CTRL_PR_SWAP
  | .VCONN => PD_CTRL_VCONN_SWAP

/-- The source of `scenario_source_ready` on `ok_src_tcpc` when the handler of
`DR_SWAP_SEND` is about to run: `tcpm_dr_swap` has been called and the work
item it queued has started.  (The registered port stands in if
`scenario_source_ready` had no result.) -/
def scenario_dr_swap_send : tcpm_port :=
  match scenario_source_ready ok_src_tcpc with
  | some p => state_machine_work_begin (tcpm_dr_swap p).1
  | none => tcpm_register_port ok_src_tcpc typec_zero

/-- The controller `ok_src_tcpc`, except that `set_pd_header` fails with `-EIO`
when it is asked for the data role Device. -/
def header_fail_tcpc : tcpc_dev :=
  { ok_src_tcpc with
    ret := fun _ call =>
      match call with
      | .set_pd_header _ TYPEC_DEVICE => - EIO
      | _ => 0 }

/-- A data-role swap of the source of `scenario_source_ready` on `tcpc`:
`tcpm_dr_swap` is called and the work item runs, which sends DR_Swap; the
partner's Accept is received and the work item runs. -/
def scenario_dr_swap (tcpc : tcpc_dev) : Option tcpm_port := do
  let p ← scenario_source_ready tcpc
  let p ← tcpm_state_machine_work tcpc 8 (tcpm_dr_swap p).1
  tcpm_state_machine_work tcpc 8 (tcpm_pd_receive p (partner_control p PD_CTRL_ACCEPT 0))

/-- The controller `ok_src_tcpc`, except that every transmission completes with
`TCPC_TX_FAILED`. -/
def failed_tx_tcpc : tcpc_dev :=
  { ok_src_tcpc with tx_complete := fun _ => some TCPC_TX_FAILED }

/-- The sink of boundary scenario 1 on `ok_tcpc` when the handler of
`SNK_HARD_RESET_SINK_OFF` is about to run after its first hard reset:
`PD_T_SINK_WAIT_CAP` has expired on `scenario_sink_wait_capabilities`, the work
item has started and the handlers of `HARD_RESET_SEND` and `HARD_RESET_START`
have run. -/
def scenario_sink_off : tcpm_port :=
  run_state_machine ok_tcpc (run_state_machine ok_tcpc
    (state_machine_work_begin (run_state_machine ok_tcpc scenario_sink_wait_capabilities)))

/-! ## Invariants of the reachable ports -/

/-- Nothing in the port points to `SOFT_RESET_SEND`: neither the state, nor the
delayed state, nor `prev_state`. -/
def no_soft_reset_send (port : tcpm_port) : Prop :=
  port.state ≠ SOFT_RESET_SEND ∧ port.delayed_state ≠ SOFT_RESET_SEND ∧
  port.prev_state ≠ SOFT_RESET_SEND

/-- Whether the event is the receipt of PS_RDY by the attached port in
`SNK_TRANSITION_SINK`. -/
def ps_rdy_in_transition_sink (port : tcpm_port) : tcpm_event → Bool
  | .pd_receive msg =>
    port.attached && decide (pd_header_cnt msg.header = 0) &&
      decide (pd_header_type msg.header = PD_CTRL_PS_RDY) &&
      decide (port.state = SNK_TRANSITION_SINK)
  | _ => false

/-- The reachable ports together with a flag that records whether PS_RDY has
been received in `SNK_TRANSITION_SINK` since the handler of `SNK_STARTUP` last
ran: the flag is clear at registration, an event that is such a receipt sets
it, and the handler of `SNK_STARTUP` clears it.  A run of the work item is its
start, its handlers one by one, and its end. -/
inductive reachable_ps_rdy (tcpc : tcpc_dev) : tcpm_port → Bool → Prop where
  | register (typec : typec_initial) :
      reachable_ps_rdy tcpc (tcpm_register_port tcpc typec) false
  | event (port : tcpm_port) (g : Bool) (ev : tcpm_event) :
      reachable_ps_rdy tcpc port g →
      reachable_ps_rdy tcpc (tcpm_handle tcpc port ev) (g || ps_rdy_in_transition_sink port ev)
  | work_begin (port : tcpm_port) (g : Bool) :
      reachable_ps_rdy tcpc port g → reachable_ps_rdy tcpc (state_machine_work_begin port) g
  | handler (port : tcpm_port) (g : Bool) :
      reachable_ps_rdy tcpc port g →
      reachable_ps_rdy tcpc (run_state_machine tcpc port)
        (g && decide (port.state ≠ SNK_STARTUP))
  | work_end (port : tcpm_port) (g : Bool) :
      reachable_ps_rdy tcpc port g →
      reachable_ps_rdy tcpc { port with state_machine_running := false } g

/-- The states a port is in only after a contract: the two ready states and
the swap states that lead back to them. -/
def after_contract : tcpm_state → Bool
  | SRC_READY | SNK_READY
  | DR_SWAP_SEND | DR_SWAP_ACCEPT | DR_SWAP_SEND_TIMEOUT | DR_SWAP_CHANGE_DR | DR_SWAP_CANCEL
  | PR_SWAP_SEND | PR_SWAP_SEND_TIMEOUT | PR_SWAP_CANCEL
  | VCONN_SWAP_ACCEPT | VCONN_SWAP_SEND | VCONN_SWAP_SEND_TIMEOUT | VCONN_SWAP_START
  | VCONN_SWAP_WAIT_FOR_VCONN | VCONN_SWAP_TURN_ON_VCONN | VCONN_SWAP_TURN_OFF_VCONN
  | VCONN_SWAP_CANCEL => true
  | _ => false

/-- The invariant behind the setting of `explicit_contract`: while the flag is
clear and no PS_RDY has been received in `SNK_TRANSITION_SINK` since
`SNK_STARTUP`, neither the state, nor the delayed state, nor the state a
handler is about to return to is one of `after_contract`. -/
def contract_inv (port : tcpm_port) (g : Bool) : Prop :=
  port.explicit_contract = false → g = false →
    after_contract port.state = false ∧ after_contract port.delayed_state = false ∧
    (returns_to_prev port.state = true → after_contract port.prev_state = false)

/-- A step of a port together with its flag, as in `reachable_ps_rdy`. -/
inductive ps_rdy_step where
  | event (ev : tcpm_event)
  | work_begin
  | handler
  | work_end

/-- The port and its flag after a step. -/
def ps_rdy_run (tcpc : tcpc_dev) (pg : tcpm_port × Bool) : ps_rdy_step → tcpm_port × Bool
  | .event ev => (tcpm_handle tcpc pg.1 ev, pg.2 || ps_rdy_in_transition_sink pg.1 ev)
  | .work_begin => (state_machine_work_begin pg.1, pg.2)
  | .handler => (run_state_machine tcpc pg.1, pg.2 && decide (pg.1.state ≠ SNK_STARTUP))
  | .work_end => ({ pg.1 with state_machine_running := false }, pg.2)

/-- A message of a source and host with message id `id`: a control message
when `payload` is empty, a data message of type `type` otherwise. -/
def source_message (type id : Nat) (payload : List Nat) : pd_message :=
  { header := PD_HEADER type TYPEC_PWR_SOURCE TYPEC_HOST id payload.length
    payload := payload }

/-- Boundary scenario 1 of the specification on `ok_tcpc`, step by step, up to
the receipt of PS_RDY: the port is registered and runs `SNK_UNATTACHED`; CC1 =
Rp-def, CC2 = Open is reported and `SNK_ATTACH_WAIT` runs; the debounce delay
expires and `SNK_DEBOUNCED` runs; VBUS goes high and `SNK_ATTACHED`,
`SNK_STARTUP` and `SNK_WAIT_CAPABILITIES` run; the source capabilities arrive
and `SNK_NEGOTIATE_CAPABILITIES` sends the request; Accept arrives and
`SNK_TRANSITION_SINK` runs; PS_RDY arrives. -/
def scenario_sink_ps_rdy : tcpm_port × Bool :=
  [ ps_rdy_step.work_begin, .handler, .work_end,
    .event (.cc_change TYPEC_CC_RP_DEF TYPEC_CC_OPEN),
    .work_begin, .handler, .work_end,
    .work_begin, .handler, .work_end,
    .event .vbus_on,
    .work_begin, .handler, .handler, .handler, .work_end,
    .event (.pd_receive (source_message PD_DATA_SOURCE_CAP 0 scenario_source_caps)),
    .work_begin, .handler, .work_end,
    .event (.pd_receive (source_message PD_CTRL_ACCEPT 1 [])),
    .work_begin, .handler, .work_end,
    .event (.pd_receive (source_message PD_CTRL_PS_RDY 2 [])) ].foldl
    (ps_rdy_run ok_tcpc) (tcpm_register_port ok_tcpc typec_zero, false)

/-! ## Scenario values: received PDOs with a voltage range -/

/-- A Battery PDO as received from a source whose minimum-voltage field is 0:
0 V to 12 V, 15 W. -/
def battery_0v_12v_15w : Nat :=
  (PDO_TYPE_BATT <<< PDO_TYPE_SHIFT) ||| (240 <<< PDO_BATT_MAX_VOLT_SHIFT) |||
    (0 <<< PDO_BATT_MIN_VOLT_SHIFT) ||| (60 <<< PDO_BATT_MAX_PWR_SHIFT)

/-- A Variable PDO as received from a source: 5 V to 20 V, 3 A (voltage fields
100 and 400 in 50 mV units, current field 300 in 10 mA units). -/
def variable_5v_20v_3a : Nat :=
  (PDO_TYPE_VAR <<< PDO_TYPE_SHIFT) ||| (400 <<< PDO_VAR_MAX_VOLT_SHIFT) |||
    (100 <<< PDO_VAR_MIN_VOLT_SHIFT) ||| (300 <<< PDO_VAR_MAX_CURR_SHIFT)

/-- A Battery PDO as received from a source: 5 V to 20 V, 15 W. -/
def battery_5v_20v_15w : Nat :=
  (PDO_TYPE_BATT <<< PDO_TYPE_SHIFT) ||| (400 <<< PDO_BATT_MAX_VOLT_SHIFT) |||
    (100 <<< PDO_BATT_MIN_VOLT_SHIFT) ||| (60 <<< PDO_BATT_MAX_PWR_SHIFT)

/-- The attached sink of boundary scenario 1 on `ok_tcpc`, waiting for source
capabilities: the work item queued in `scenario_sink_debounced` has run
`SNK_ATTACHED`, `SNK_STARTUP` and `SNK_WAIT_CAPABILITIES`. -/
def scenario_sink_attached : Option tcpm_port :=
  scenario_sink_debounced.bind (tcpm_state_machine_work ok_tcpc 8)

/-- A board like `board_config` whose source offers the PDOs `source_caps`. -/
def source_config (source_caps : List Nat) : tcpc_config :=
  { board_config with src_pdo := source_caps, nr_src_pdo := source_caps.length }

/-! ## Scenario values: the service states -/

/-- The controller `ok_src_tcpc` on a board whose `snk_pdo` is the table
`board_snk_pdo`. -/
def snk_caps_tcpc : tcpc_dev :=
  { ok_src_tcpc with config := { ok_src_tcpc.config with snk_pdo := board_snk_pdo } }

/-- The message of the last call the port made, when that call is a
transmission of a message. -/
def last_message (port : tcpm_port) : Option pd_message :=
  match last_call port with
  | some (.pd_transmit _ msg) => msg
  | _ => none

/-- The source of `scenario_source_ready` on `snk_caps_tcpc` when the handler
of `GIVE_SINK_CAPS` is about to run: the partner's Get_Sink_Cap has been
received in `SRC_READY` and the work item it queued has started.  (The
registered port stands in if `scenario_source_ready` had no result.) -/
def scenario_give_sink_caps : tcpm_port :=
  match scenario_source_ready snk_caps_tcpc with
  | some p =>
    state_machine_work_begin (tcpm_pd_receive p (partner_control p PD_CTRL_GET_SINK_CAP 0))
  | none => tcpm_register_port snk_caps_tcpc typec_zero

/-- The source of `scenario_source_ready` on `ok_src_tcpc` after two
Get_Source_Cap messages received before the work item runs: the first is
received in `SRC_READY`, the second in `GIVE_SOURCE_CAPS`.  (The registered
port stands in if `scenario_source_ready` had no result.) -/
def scenario_two_requests : tcpm_port :=
  match scenario_source_ready ok_src_tcpc with
  | some p =>
    tcpm_pd_receive (tcpm_pd_receive p (partner_control p PD_CTRL_GET_SOURCE_CAP 0))
      (partner_control p PD_CTRL_GET_SOURCE_CAP 1)
  | none => tcpm_register_port ok_src_tcpc typec_zero

/-- Two states whose handlers go back to `prev_state` point to each other: the
state and `prev_state` are two different states of `returns_to_prev`, and the
work item is alive. -/
def ping_pong (port : tcpm_port) : Prop :=
  returns_to_prev port.state = true ∧ returns_to_prev port.prev_state = true ∧
  port.state ≠ port.prev_state ∧ port.bug = false

/-! ## Scenario values: VCONN and the hard reset of a sink -/

/-- The argument of the most recent `set_vconn` call that succeeded (returned
a value that is not negative), if there is one. -/
def last_set_vconn (port : tcpm_port) : Option Bool :=
  (port.trace.filterMap fun e =>
    match e.1 with
    | .set_vconn enable => if 0 ≤ e.2 then some enable else none
    | _ => none).getLast?

/-- The controller `ok_src_tcpc`, except that `set_vconn(false)` returns
`-EIO`. -/
def vconn_off_fail_tcpc : tcpc_dev :=
  { ok_src_tcpc with
    ret := fun _ call => if call = tcpc_call.set_vconn false then - EIO else 0 }

/-- The controller `ok_src_tcpc`, except that `set_vconn(true)` returns `-EIO`
once `set_vconn(false)` has been called. -/
def vconn_on_fail_tcpc : tcpc_dev :=
  { ok_src_tcpc with
    ret := fun trace call =>
      if call = tcpc_call.set_vconn true ∧ (tcpc_call.set_vconn false, (0 : Int)) ∈ trace then
        - EIO
      else 0 }

/-- The source of `scenario_source_ready` on `tcpc` after a VCONN swap that
its partner requests: VCONN_Swap is received in `SRC_READY` and the work item
runs `VCONN_SWAP_ACCEPT`, `VCONN_SWAP_START` and `VCONN_SWAP_WAIT_FOR_VCONN`;
the partner's PS_RDY is received and the work item runs
`VCONN_SWAP_TURN_OFF_VCONN` and `SRC_READY`. -/
def scenario_vconn_swap_off (tcpc : tcpc_dev) : Option tcpm_port := do
  let p ← scenario_source_ready tcpc
  let p ← tcpm_state_machine_work tcpc 8
    (tcpm_pd_receive p (partner_control p PD_CTRL_VCONN_SWAP 0))
  tcpm_state_machine_work tcpc 8 (tcpm_pd_receive p (partner_control p PD_CTRL_PS_RDY 1))

/-- The port of `scenario_vconn_swap_off` after a second VCONN swap that its
partner requests: VCONN_Swap is received in `SRC_READY` and the work item runs
`VCONN_SWAP_ACCEPT`, `VCONN_SWAP_START`, `VCONN_SWAP_TURN_ON_VCONN` and
`SRC_READY`. -/
def scenario_vconn_swap_on (tcpc : tcpc_dev) : Option tcpm_port := do
  let p ← scenario_vconn_swap_off tcpc
  tcpm_state_machine_work tcpc 8 (tcpm_pd_receive p (partner_control p PD_CTRL_VCONN_SWAP 2))

/-- The sink of boundary scenario 1 on `ok_tcpc` after its first hard reset:
no source capabilities arrive, `PD_T_SINK_WAIT_CAP` expires and the work item
runs `HARD_RESET_SEND`, `HARD_RESET_START` and `SNK_HARD_RESET_SINK_OFF`. -/
def scenario_sink_hard_reset : Option tcpm_port :=
  scenario_sink_attached.bind (tcpm_state_machine_work ok_tcpc 8)

/-! ## The state a handler runs on -/

/-- The invariant behind the absence of `BUG_ON`: the state is not
`INVALID_STATE`, and neither is `prev_state` while the state is one whose
handler goes back to it. -/
def state_valid (port : tcpm_port) : Prop :=
  port.state ≠ INVALID_STATE ∧
  (returns_to_prev port.state = true → port.prev_state ≠ INVALID_STATE)

/-- A step of a port: an event, the start of the work item, or one state
handler. -/
inductive port_step where
  | event (ev : tcpm_event)
  | work_begin
  | handler

/-- The port after a step. -/
def port_run (tcpc : tcpc_dev) (port : tcpm_port) : port_step → tcpm_port
  | .event ev => tcpm_handle tcpc port ev
  | .work_begin => state_machine_work_begin port
  | .handler => run_state_machine tcpc port

/-- The steps of an attached sink that answers a request through a service
state, on `ok_tcpc`: registration and `SNK_UNATTACHED`; CC1 = Rp-def, CC2 =
Open and `SNK_ATTACH_WAIT`; the debounce delay expires and `SNK_DEBOUNCED`
runs; VBUS goes high and `SNK_ATTACHED`, `SNK_STARTUP` and
`SNK_WAIT_CAPABILITIES` run; Get_Sink_Cap is received and `REQUEST_REJECT`
runs, which goes back to `SNK_WAIT_CAPABILITIES`. -/
def request_reject_steps : List port_step :=
  [ .work_begin, .handler,
    .event (.cc_change TYPEC_CC_RP_DEF TYPEC_CC_OPEN), .work_begin, .handler,
    .work_begin, .handler,
    .event .vbus_on, .work_begin, .handler, .handler, .handler,
    .event (.pd_receive (source_message PD_CTRL_GET_SINK_CAP 0 [])), .work_begin, .handler ]

/-! ## Scenario values: a contract without a request -/

/-- The messages the port has handed to its controller for transmission, in
order. -/
def messages_sent (port : tcpm_port) : List pd_message :=
  port.trace.filterMap fun e =>
    match e.1 with
    | .pd_transmit _ msg => msg
    | _ => none

/-- The attached sink of `scenario_sink_attached`, waiting in
`SNK_WAIT_CAPABILITIES`, after three messages received before the work item
runs: the source's capabilities, Accept and PS_RDY.  (The registered port
stands in if `scenario_sink_attached` had no result.) -/
def scenario_contract_without_request : tcpm_port :=
  match scenario_sink_attached with
  | some p =>
    tcpm_pd_receive
      (tcpm_pd_receive
        (tcpm_pd_receive p (source_message PD_DATA_SOURCE_CAP 0 scenario_source_caps))
        (source_message PD_CTRL_ACCEPT 1 []))
      (source_message PD_CTRL_PS_RDY 2 [])
  | none => tcpm_register_port ok_tcpc typec_zero

/-! ## Bit-field arithmetic -/

/-- Or-ing a value below `2 ^ i` into a word whose low `i` bits are clear adds it. -/
theorem or_eq_add_of_low_clear (a b i : Nat) (ha : a % 2 ^ i = 0) (hb : b < 2 ^ i) :
    a ||| b = a + b := by
  have h : a = 2 ^ i * (a / 2 ^ i) := by
    have := Nat.div_add_mod a (2 ^ i)
    omega
  rw [h, Nat.mul_add_lt_is_or hb]

/-- Masking with a run of `k` ones at bit `s` keeps exactly that field. -/
theorem and_shifted_mask (x k s : Nat) :
    x &&& ((2 ^ k - 1) <<< s) = (x / 2 ^ s % 2 ^ k) * 2 ^ s := by
  apply Nat.eq_of_testBit_eq
  intro j
  rw [← Nat.shiftLeft_eq, ← Nat.shiftRight_eq_div_pow]
  simp only [Nat.testBit_and, Nat.testBit_shiftLeft, Nat.testBit_two_pow_sub_one,
    Nat.testBit_mod_two_pow, Nat.testBit_shiftRight]
  by_cases h : s ≤ j
  · have : s + (j - s) = j := by omega
    simp [h, this, Bool.and_comm]
  · simp [h]

/-- A word confined to the field of `k` bits at bit `s` is a multiple of
`2 ^ s` below `2 ^ (s + k)`. -/
theorem confined_iff (x k s : Nat) :
    x &&& ((2 ^ k - 1) <<< s) = x ↔ x % 2 ^ s = 0 ∧ x < 2 ^ (s + k) := by
  rw [and_shifted_mask]
  have hs : 0 < 2 ^ s := Nat.pow_pos (by decide)
  have hk : 0 < 2 ^ k := Nat.pow_pos (by decide)
  constructor
  · intro h
    have hlt : x / 2 ^ s % 2 ^ k < 2 ^ k := Nat.mod_lt _ hk
    refine ⟨?_, ?_⟩
    · rw [← h]; exact Nat.mul_mod_left _ _
    · rw [← h, Nat.pow_add, Nat.mul_comm (2 ^ s)]
      exact Nat.mul_lt_mul_of_pos_right hlt hs
  · rintro ⟨h0, hlt⟩
    have hx : x / 2 ^ s < 2 ^ k := by
      rw [Nat.div_lt_iff_lt_mul hs, ← Nat.pow_add, Nat.add_comm]; exact hlt
    rw [Nat.mod_eq_of_lt hx]
    exact Nat.div_mul_cancel (Nat.dvd_of_mod_eq_zero h0)

theorem PDO_FIXED_FLAG_BITS_eq : PDO_FIXED_FLAG_BITS = (2 ^ 5 - 1) <<< 25 := by decide

theorem PDO_FIXED_eq_add (mv ma flags : Nat) (hmv : mv ≤ 51150) (hma : ma ≤ 10230)
    (hf : flags &&& PDO_FIXED_FLAG_BITS = flags) :
    PDO_FIXED mv ma flags = flags + mv / 50 * 1024 + ma / 10 := by
  rw [PDO_FIXED_FLAG_BITS_eq, confined_iff] at hf
  obtain ⟨h0, _⟩ := hf
  have h0 : flags % 33554432 = 0 := by simpa using h0
  unfold PDO_FIXED
  simp only [PDO_TYPE_FIXED, PDO_TYPE_SHIFT, PDO_FIXED_VOLT_MASK, PDO_FIXED_VOLT_SHIFT,
    PDO_FIXED_MAX_CURR_MASK, PDO_FIXED_MAX_CURR_SHIFT, Nat.zero_shiftLeft, Nat.zero_or,
    Nat.shiftLeft_zero]
  have m : ∀ x, x &&& 0x3ff = x % 1024 := fun x => Nat.and_pow_two_sub_one_eq_mod x 10
  rw [m, m, Nat.shiftLeft_eq]
  rw [or_eq_add_of_low_clear flags _ 25 (by omega) (by omega),
    or_eq_add_of_low_clear _ _ 10 (by omega) (by omega)]
  omega



theorem and_0x3ff (x : Nat) : x &&& 0x3ff = x % 1024 := Nat.and_pow_two_sub_one_eq_mod x 10
theorem and_0x7 (x : Nat) : x &&& 0x7 = x % 8 := Nat.and_pow_two_sub_one_eq_mod x 3
theorem and_0x3 (x : Nat) : x &&& 0x3 = x % 4 := Nat.and_pow_two_sub_one_eq_mod x 2

theorem pdo_type_eq (pdo : Nat) : pdo_type pdo = pdo / 2 ^ 30 % 4 := by
  simp only [pdo_type, PDO_TYPE_SHIFT, PDO_TYPE_MASK, and_0x3, Nat.shiftRight_eq_div_pow]

theorem pdo_fixed_voltage_eq (pdo : Nat) : pdo_fixed_voltage pdo = pdo / 2 ^ 10 % 1024 * 50 := by
  simp only [pdo_fixed_voltage, PDO_FIXED_VOLT_SHIFT, PDO_FIXED_VOLT_MASK, and_0x3ff,
    Nat.shiftRight_eq_div_pow]

theorem pdo_min_voltage_eq (pdo : Nat) : pdo_min_voltage pdo = pdo / 2 ^ 10 % 1024 * 50 := by
  simp only [pdo_min_voltage, PDO_VAR_MIN_VOLT_SHIFT, PDO_VAR_MIN_VOLT_MASK, and_0x3ff,
    Nat.shiftRight_eq_div_pow]

theorem pdo_max_voltage_eq (pdo : Nat) : pdo_max_voltage pdo = pdo / 2 ^ 20 % 1024 * 50 := by
  simp only [pdo_max_voltage, PDO_VAR_MAX_VOLT_SHIFT, PDO_VAR_MAX_VOLT_MASK, and_0x3ff,
    Nat.shiftRight_eq_div_pow]

theorem pdo_max_current_eq (pdo : Nat) : pdo_max_current pdo = pdo % 1024 * 10 := by
  simp only [pdo_max_current, PDO_VAR_MAX_CURR_SHIFT, PDO_VAR_MAX_CURR_MASK, and_0x3ff,
    Nat.shiftRight_zero]

theorem pdo_max_power_eq (pdo : Nat) : pdo_max_power pdo = pdo % 1024 * 250 := by
  simp only [pdo_max_power, PDO_BATT_MAX_PWR_SHIFT, PDO_BATT_MAX_PWR_MASK, and_0x3ff,
    Nat.shiftRight_zero]

theorem rdo_index_eq (rdo : Nat) : rdo_index rdo = rdo / 2 ^ 28 % 8 := by
  simp only [rdo_index, RDO_OBJ_POS_SHIFT, RDO_OBJ_POS_MASK, and_0x7, Nat.shiftRight_eq_div_pow]

theorem rdo_op_current_eq (rdo : Nat) : rdo_op_current rdo = rdo / 2 ^ 10 % 1024 * 10 := by
  simp only [rdo_op_current, RDO_FIXED_OP_CURR_SHIFT, RDO_FIXED_OP_CURR_MASK, and_0x3ff,
    Nat.shiftRight_eq_div_pow]

theorem rdo_max_current_eq (rdo : Nat) : rdo_max_current rdo = rdo / 2 ^ 10 % 1024 * 10 := by
  simp only [rdo_max_current, RDO_FIXED_MAX_CURR_SHIFT, RDO_FIXED_MAX_CURR_MASK, and_0x3ff,
    Nat.shiftRight_eq_div_pow]

theorem rdo_op_power_eq (rdo : Nat) : rdo_op_power rdo = rdo / 2 ^ 10 % 1024 * 250 := by
  simp only [rdo_op_power, RDO_BATT_OP_PWR_SHIFT, RDO_BATT_OP_PWR_MASK, and_0x3ff,
    Nat.shiftRight_eq_div_pow]

theorem rdo_max_power_eq (rdo : Nat) : rdo_max_power rdo = rdo % 1024 * 250 := by
  simp only [rdo_max_power, RDO_BATT_MAX_PWR_SHIFT, RDO_BATT_MAX_PWR_MASK, and_0x3ff,
    Nat.shiftRight_zero]

/-! ## `tcpm_pd_select_pdo` -/

theorem pdo_mv_eq (pdo : Nat) : pdo_mv pdo = pdo / 2 ^ 10 % 1024 * 50 := by
  unfold pdo_mv
  split <;> simp only [pdo_fixed_voltage_eq, pdo_min_voltage_eq]

theorem pdo_mv_le (pdo : Nat) : pdo_mv pdo ≤ 51150 := by
  rw [pdo_mv_eq]; omega

theorem pdo_max_current_le (pdo : Nat) : pdo_max_current pdo ≤ 10230 := by
  rw [pdo_max_current_eq]; omega

theorem pdo_mw_eq_power (config : tcpc_config) (pdo : Nat) :
    pdo_mw config pdo = pdo_power config pdo := by
  unfold pdo_mw pdo_power
  split
  · rfl
  · have h1 := pdo_mv_le pdo
    have h2 : min (pdo_max_current pdo) config.max_snk_ma ≤ 10230 :=
      le_trans (Nat.min_le_left _ _) (pdo_max_current_le pdo)
    have h3 : min (pdo_max_current pdo) config.max_snk_ma * pdo_mv pdo ≤ 10230 * 51150 :=
      Nat.mul_le_mul h2 h1
    rw [Nat.mod_eq_of_lt (by omega)]

theorem select_pdo_loop_spec (config : tcpc_config) (rest : List Nat) :
    ∀ (i : Nat) (ret : Int) (max_mw : Nat),
      (select_pdo_loop config rest i ret max_mw = ret ∧
        ∀ j p : Nat, rest[j]? = some p → pdo_mv p ≤ config.max_snk_mv → pdo_mw config p ≤ max_mw) ∨
      (∃ k q : Nat, rest[k]? = some q ∧
        select_pdo_loop config rest i ret max_mw = ((i + k : Nat) : Int) ∧
        pdo_mv q ≤ config.max_snk_mv ∧ max_mw < pdo_mw config q ∧
        (∀ j p : Nat, rest[j]? = some p → pdo_mv p ≤ config.max_snk_mv →
          pdo_mw config p ≤ pdo_mw config q) ∧
        (∀ j p : Nat, j < k → rest[j]? = some p → pdo_mv p ≤ config.max_snk_mv →
          pdo_mw config p < pdo_mw config q)) := by
  induction rest with
  | nil =>
    intro i ret max_mw
    left
    exact ⟨rfl, fun j p h => by simp at h⟩
  | cons pdo rest ih =>
    intro i ret max_mw
    by_cases hsel : pdo_mw config pdo > max_mw ∧ pdo_mv pdo ≤ config.max_snk_mv
    · have hstep : select_pdo_loop config (pdo :: rest) i ret max_mw =
          select_pdo_loop config rest (i + 1) (i : Int) (pdo_mw config pdo) := by
        simp only [select_pdo_loop, hsel, and_self, if_true]
      rw [hstep]
      right
      rcases ih (i + 1) (i : Int) (pdo_mw config pdo) with ⟨hr, hall⟩ | ⟨k, q, hq, hr, hcap, hgt, hall, hbefore⟩
      · refine ⟨0, pdo, by simp, by simpa using hr, hsel.2, hsel.1, ?_, ?_⟩
        · intro j p hj hc
          cases j with
          | zero => simp at hj; subst hj; exact le_refl _
          | succ j => exact hall j p (by simpa using hj) hc
        · intro j p hj; omega
      · refine ⟨k + 1, q, by simpa using hq, ?_, hcap, lt_trans hsel.1 hgt, ?_, ?_⟩
        · rw [hr]; congr 1; omega
        · intro j p hj hc
          cases j with
          | zero => simp at hj; subst hj; exact le_of_lt hgt
          | succ j => exact hall j p (by simpa using hj) hc
        · intro j p hjk hj hc
          cases j with
          | zero => simp at hj; subst hj; exact hgt
          | succ j => exact hbefore j p (by omega) (by simpa using hj) hc
    · have hstep : select_pdo_loop config (pdo :: rest) i ret max_mw =
          select_pdo_loop config rest (i + 1) ret max_mw := by
        simp only [select_pdo_loop, hsel, if_false]
      rw [hstep]
      have hpdo : pdo_mv pdo ≤ config.max_snk_mv → pdo_mw config pdo ≤ max_mw := by
        intro hc
        by_contra hlt
        exact hsel ⟨by omega, hc⟩
      rcases ih (i + 1) ret max_mw with ⟨hr, hall⟩ | ⟨k, q, hq, hr, hcap, hgt, hall, hbefore⟩
      · left
        refine ⟨hr, ?_⟩
        intro j p hj hc
        cases j with
        | zero => simp at hj; subst hj; exact hpdo hc
        | succ j => exact hall j p (by simpa using hj) hc
      · right
        refine ⟨k + 1, q, by simpa using hq, ?_, hcap, hgt, ?_, ?_⟩
        · rw [hr]; congr 1; omega
        · intro j p hj hc
          cases j with
          | zero => simp at hj; subst hj; exact le_of_lt (lt_of_le_of_lt (hpdo hc) hgt)
          | succ j => exact hall j p (by simpa using hj) hc
        · intro j p hjk hj hc
          cases j with
          | zero => simp at hj; subst hj; exact lt_of_le_of_lt (hpdo hc) hgt
          | succ j => exact hbefore j p (by omega) (by simpa using hj) hc

theorem select_pdo_cases (config : tcpc_config) (source_caps : List Nat) :
    (tcpm_pd_select_pdo config source_caps = -EINVAL ∧
      ∀ j p : Nat, source_caps[j]? = some p → pdo_mv p ≤ config.max_snk_mv →
        pdo_power config p = 0) ∨
    (∃ k q : Nat, source_caps[k]? = some q ∧
      tcpm_pd_select_pdo config source_caps = (k : Int) ∧
      pdo_mv q ≤ config.max_snk_mv ∧ 0 < pdo_power config q ∧
      (∀ j p : Nat, source_caps[j]? = some p → pdo_mv p ≤ config.max_snk_mv →
        pdo_power config p ≤ pdo_power config q) ∧
      (∀ j p : Nat, j < k → source_caps[j]? = some p → pdo_mv p ≤ config.max_snk_mv →
        pdo_power config p < pdo_power config q)) := by
  unfold tcpm_pd_select_pdo
  rcases select_pdo_loop_spec config source_caps 0 (-EINVAL) 0 with
    ⟨hr, hall⟩ | ⟨k, q, hq, hr, hcap, hgt, hall, hbefore⟩
  · left
    refine ⟨hr, fun j p hj hc => ?_⟩
    have := hall j p hj hc
    rw [pdo_mw_eq_power] at this
    omega
  · right
    simp only [pdo_mw_eq_power, Nat.zero_add] at hr hgt hall hbefore
    exact ⟨k, q, hq, hr, hcap, hgt, hall, hbefore⟩

/-- C1. If `tcpm_pd_select_pdo` returns the index `i`, then no PDO whose voltage
passes the cap (`mv ≤ max_snk_mv`) has strictly more power than PDO `i`, and
none at a smaller index has equal power. -/
theorem select_pdo_max_power (config : tcpc_config) (source_caps : List Nat) (i : Nat)
    (hsel : tcpm_pd_select_pdo config source_caps = (i : Int)) :
    ∃ q : Nat, source_caps[i]? = some q ∧
      ∀ j p : Nat, source_caps[j]? = some p → pdo_mv p ≤ config.max_snk_mv →
        ¬ pdo_power config q < pdo_power config p ∧
        (j < i → pdo_power config p ≠ pdo_power config q) := by
  rcases select_pdo_cases config source_caps with ⟨hr, _⟩ | ⟨k, q, hq, hr, _, _, hall, hbefore⟩
  · rw [hr, EINVAL] at hsel; omega
  · have hk : k = i := by rw [hr] at hsel; exact_mod_cast hsel
    subst hk
    refine ⟨q, hq, fun j p hj hc => ⟨?_, fun hlt => ?_⟩⟩
    · have := hall j p hj hc; omega
    · have := hbefore j p hlt hj hc; omega

theorem select_pdo_max_power_witness :
    tcpm_pd_select_pdo board_config scenario_source_caps = ((2 : Nat) : Int) ∧
    ∃ q : Nat, scenario_source_caps[2]? = some q ∧
      ∀ j p : Nat, scenario_source_caps[j]? = some p → pdo_mv p ≤ board_config.max_snk_mv →
        ¬ pdo_power board_config q < pdo_power board_config p ∧
        (j < 2 → pdo_power board_config p ≠ pdo_power board_config q) :=
  ⟨by decide, select_pdo_max_power board_config scenario_source_caps 2 (by decide)⟩

/-- C2. If `tcpm_pd_select_pdo` returns a non-negative value, it is an index
`i < nr_source_caps`, and the voltage decoded from `source_caps[i]` (bits 10..19
times 50 mV: the fixed voltage of a Fixed PDO, the minimum voltage otherwise)
is at most `max_snk_mv`. -/
theorem select_pdo_within_cap (config : tcpc_config) (source_caps : List Nat)
    (hsel : 0 ≤ tcpm_pd_select_pdo config source_caps) :
    ∃ i q : Nat, tcpm_pd_select_pdo config source_caps = (i : Int) ∧
      i < source_caps.length ∧ source_caps[i]? = some q ∧
      pdo_mv q = ((q >>> 10) &&& 0x3ff) * 50 ∧
      (pdo_type q = PDO_TYPE_FIXED → pdo_mv q = pdo_fixed_voltage q) ∧
      (pdo_type q ≠ PDO_TYPE_FIXED → pdo_mv q = pdo_min_voltage q) ∧
      pdo_mv q ≤ config.max_snk_mv := by
  rcases select_pdo_cases config source_caps with ⟨hr, _⟩ | ⟨k, q, hq, hr, hcap, _, _, _⟩
  · rw [hr, EINVAL] at hsel; omega
  · have hlt : k < source_caps.length := by
      rcases Nat.lt_or_ge k source_caps.length with h | h
      · exact h
      · rw [List.getElem?_eq_none h] at hq; cases hq
    refine ⟨k, q, hr, hlt, hq, ?_, ?_, ?_, hcap⟩
    · rw [pdo_mv_eq, and_0x3ff, Nat.shiftRight_eq_div_pow]
    · intro h; simp only [pdo_mv, h, if_true]
    · intro h; simp only [pdo_mv, h, if_false]

theorem select_pdo_within_cap_witness :
    0 ≤ tcpm_pd_select_pdo board_config scenario_source_caps ∧
    ∃ i q : Nat, tcpm_pd_select_pdo board_config scenario_source_caps = (i : Int) ∧
      i < scenario_source_caps.length ∧ scenario_source_caps[i]? = some q ∧
      pdo_mv q = ((q >>> 10) &&& 0x3ff) * 50 ∧
      (pdo_type q = PDO_TYPE_FIXED → pdo_mv q = pdo_fixed_voltage q) ∧
      (pdo_type q ≠ PDO_TYPE_FIXED → pdo_mv q = pdo_min_voltage q) ∧
      pdo_mv q ≤ board_config.max_snk_mv :=
  ⟨by decide, select_pdo_within_cap board_config scenario_source_caps (by decide)⟩

/-- C3, as the claim states it, fails: a source offering only Fixed 5 V at 0 mA
passes the voltage cap of `board_config`, yet `tcpm_pd_select_pdo` returns
`-EINVAL`. -/
theorem select_pdo_einval_counterexample :
    ¬ (tcpm_pd_select_pdo board_config [PDO_FIXED 5000 0 PDO_FIXED_FLAGS] = -EINVAL ↔
        ∀ p ∈ [PDO_FIXED 5000 0 PDO_FIXED_FLAGS], board_config.max_snk_mv < pdo_mv p) := by
  decide

/-- C3, amended. `tcpm_pd_select_pdo` returns `-EINVAL` exactly when no received
source PDO both passes the voltage cap and has non-zero power; in particular it
fails when every PDO has a voltage above `max_snk_mv` or the list is empty, and
it returns an index below `nr_source_caps` whenever some PDO passes the cap with
non-zero power. -/
theorem select_pdo_einval_iff (config : tcpc_config) (source_caps : List Nat) :
    (tcpm_pd_select_pdo config source_caps = -EINVAL ↔
      ∀ p ∈ source_caps, pdo_mv p ≤ config.max_snk_mv → pdo_power config p = 0) ∧
    ((∀ p ∈ source_caps, config.max_snk_mv < pdo_mv p) →
      tcpm_pd_select_pdo config source_caps = -EINVAL) ∧
    ((∃ p ∈ source_caps, pdo_mv p ≤ config.max_snk_mv ∧ 0 < pdo_power config p) →
      ∃ i : Nat, i < source_caps.length ∧ tcpm_pd_select_pdo config source_caps = (i : Int)) := by
  have key : tcpm_pd_select_pdo config source_caps = -EINVAL ↔
      ∀ p ∈ source_caps, pdo_mv p ≤ config.max_snk_mv → pdo_power config p = 0 := by
    rcases select_pdo_cases config source_caps with ⟨hr, hall⟩ | ⟨k, q, hq, hr, hcap, hpos, _, _⟩
    · refine ⟨fun _ p hp hc => ?_, fun _ => hr⟩
      obtain ⟨j, hj⟩ := List.getElem?_of_mem hp
      exact hall j p hj hc
    · constructor
      · intro h; rw [hr, EINVAL] at h; omega
      · intro h
        have := h q (List.getElem?_mem hq) hcap
        omega
  refine ⟨key, fun h => key.2 (fun p hp hc => ?_), fun ⟨p, hp, hc, hpos⟩ => ?_⟩
  · have := h p hp; omega
  · rcases select_pdo_cases config source_caps with ⟨hr, _⟩ | ⟨k, q, hq, hr, _, _, _, _⟩
    · have := key.1 hr p hp hc; omega
    · refine ⟨k, ?_, hr⟩
      rcases Nat.lt_or_ge k source_caps.length with h | h
      · exact h
      · rw [List.getElem?_eq_none h] at hq; cases hq

/-! ## `tcpm_pd_check_request` -/

theorem check_request_eq (config : tcpc_config) (rdo pdo : Nat)
    (hidx : 1 ≤ rdo_index rdo ∧ rdo_index rdo ≤ config.nr_src_pdo)
    (hpdo : config.src_pdo.getD (rdo_index rdo - 1) 0 = pdo)
    (hty : pdo_type pdo = PDO_TYPE_FIXED ∨ pdo_type pdo = PDO_TYPE_VAR ∨
      pdo_type pdo = PDO_TYPE_BATT) :
    tcpm_pd_check_request config rdo =
      if request_op pdo rdo > pdo_cap pdo then -EINVAL
      else if request_max pdo rdo > pdo_cap pdo ∧ rdo &&& RDO_CAP_MISMATCH = 0 then -EINVAL
      else 0 := by
  have h1 : ¬ (rdo_index rdo = 0 ∨ rdo_index rdo > config.nr_src_pdo) := by omega
  unfold tcpm_pd_check_request
  simp only [h1, if_false, hpdo]
  unfold request_op request_max pdo_cap
  rcases hty with h | h | h
  · simp [h, PDO_TYPE_FIXED, PDO_TYPE_BATT, PDO_TYPE_VAR]
  · simp [h, PDO_TYPE_FIXED, PDO_TYPE_BATT, PDO_TYPE_VAR]
  · simp [h, PDO_TYPE_FIXED, PDO_TYPE_BATT, PDO_TYPE_VAR]

/-- C4, as the claim states it, fails: against `board_config` (Fixed 5 V, 1.5 A)
the request for 2 A at position 1 with `RDO_CAP_MISMATCH` set is rejected,
although the bit is set. -/
theorem check_request_mismatch_counterexample :
    ¬ (tcpm_pd_check_request board_config (RDO_FIXED 1 2000 2000 RDO_CAP_MISMATCH) = -EINVAL ↔
        (request_op (PDO_FIXED 5000 1500 PDO_FIXED_FLAGS)
            (RDO_FIXED 1 2000 2000 RDO_CAP_MISMATCH) >
              pdo_cap (PDO_FIXED 5000 1500 PDO_FIXED_FLAGS) ∨
          request_max (PDO_FIXED 5000 1500 PDO_FIXED_FLAGS)
            (RDO_FIXED 1 2000 2000 RDO_CAP_MISMATCH) >
              pdo_cap (PDO_FIXED 5000 1500 PDO_FIXED_FLAGS)) ∧
        RDO_FIXED 1 2000 2000 RDO_CAP_MISMATCH &&& RDO_CAP_MISMATCH = 0) := by
  decide

/-- C4, amended. For an RDO whose object position is a valid index into the
advertised source PDOs and names a Fixed, Variable or Battery PDO,
`tcpm_pd_check_request` rejects it if and only if the operating current (power
for Battery) exceeds the PDO's maximum, or the maximum current (power) exceeds
it and `RDO_CAP_MISMATCH` is clear; otherwise it returns 0. -/
theorem check_request_reject_iff (config : tcpc_config) (rdo pdo : Nat)
    (hidx : 1 ≤ rdo_index rdo ∧ rdo_index rdo ≤ config.nr_src_pdo)
    (hpdo : config.src_pdo[rdo_index rdo - 1]? = some pdo)
    (hty : pdo_type pdo = PDO_TYPE_FIXED ∨ pdo_type pdo = PDO_TYPE_VAR ∨
      pdo_type pdo = PDO_TYPE_BATT) :
    (tcpm_pd_check_request config rdo = -EINVAL ↔
      request_op pdo rdo > pdo_cap pdo ∨
        (request_max pdo rdo > pdo_cap pdo ∧ rdo &&& RDO_CAP_MISMATCH = 0)) ∧
    (tcpm_pd_check_request config rdo ≠ -EINVAL → tcpm_pd_check_request config rdo = 0) := by
  have hget : config.src_pdo.getD (rdo_index rdo - 1) 0 = pdo := by
    rw [List.getD_eq_getElem?_getD, hpdo]; rfl
  rw [check_request_eq config rdo pdo hidx hget hty]
  by_cases h1 : request_op pdo rdo > pdo_cap pdo
  · simp [h1]
  · by_cases h2 : request_max pdo rdo > pdo_cap pdo ∧ rdo &&& RDO_CAP_MISMATCH = 0
    · simp [h1, h2]
    · simp only [h1, h2, if_false, false_or, iff_false]
      simp [EINVAL]

theorem check_request_reject_iff_witness :
    ((1 ≤ rdo_index (RDO_FIXED 1 2000 2000 0) ∧
        rdo_index (RDO_FIXED 1 2000 2000 0) ≤ board_config.nr_src_pdo) ∧
      board_config.src_pdo[rdo_index (RDO_FIXED 1 2000 2000 0) - 1]? =
        some (PDO_FIXED 5000 1500 PDO_FIXED_FLAGS) ∧
      pdo_type (PDO_FIXED 5000 1500 PDO_FIXED_FLAGS) = PDO_TYPE_FIXED) ∧
    (tcpm_pd_check_request board_config (RDO_FIXED 1 2000 2000 0) = -EINVAL ↔
      request_op (PDO_FIXED 5000 1500 PDO_FIXED_FLAGS) (RDO_FIXED 1 2000 2000 0) >
          pdo_cap (PDO_FIXED 5000 1500 PDO_FIXED_FLAGS) ∨
        (request_max (PDO_FIXED 5000 1500 PDO_FIXED_FLAGS) (RDO_FIXED 1 2000 2000 0) >
            pdo_cap (PDO_FIXED 5000 1500 PDO_FIXED_FLAGS) ∧
          RDO_FIXED 1 2000 2000 0 &&& RDO_CAP_MISMATCH = 0)) ∧
    (tcpm_pd_check_request board_config (RDO_FIXED 1 2000 2000 0) ≠ -EINVAL →
      tcpm_pd_check_request board_config (RDO_FIXED 1 2000 2000 0) = 0) :=
  ⟨⟨by decide, by decide, by decide⟩,
    check_request_reject_iff board_config (RDO_FIXED 1 2000 2000 0)
      (PDO_FIXED 5000 1500 PDO_FIXED_FLAGS) (by decide) (by decide) (Or.inl (by decide))⟩

/-- C5. If `tcpm_pd_check_request` accepts (returns 0), the object position
`idx` of the RDO satisfies `1 ≤ idx ≤ nr_src_pdo`, and the decoded operating
current (power for Battery) is at most the maximum of PDO `idx` unless
`RDO_CAP_MISMATCH` is set. -/
theorem check_request_accept (config : tcpc_config) (rdo : Nat)
    (hacc : tcpm_pd_check_request config rdo = 0) :
    1 ≤ rdo_index rdo ∧ rdo_index rdo ≤ config.nr_src_pdo ∧
    (rdo &&& RDO_CAP_MISMATCH = 0 →
      request_op (config.src_pdo.getD (rdo_index rdo - 1) 0) rdo ≤
        pdo_cap (config.src_pdo.getD (rdo_index rdo - 1) 0)) := by
  generalize hp : config.src_pdo.getD (rdo_index rdo - 1) 0 = pdo
  by_cases h1 : rdo_index rdo = 0 ∨ rdo_index rdo > config.nr_src_pdo
  · simp [tcpm_pd_check_request, h1, EINVAL] at hacc
  · have hidx : 1 ≤ rdo_index rdo ∧ rdo_index rdo ≤ config.nr_src_pdo := by omega
    refine ⟨hidx.1, hidx.2, fun _ => ?_⟩
    by_cases hty : pdo_type pdo = PDO_TYPE_FIXED ∨ pdo_type pdo = PDO_TYPE_VAR ∨
        pdo_type pdo = PDO_TYPE_BATT
    · rw [check_request_eq config rdo pdo hidx hp hty] at hacc
      by_contra hgt
      have hgt : request_op pdo rdo > pdo_cap pdo := by omega
      simp [hgt, EINVAL] at hacc
    · have hf : ¬ pdo_type pdo = PDO_TYPE_FIXED := fun h => hty (Or.inl h)
      have hv : ¬ pdo_type pdo = PDO_TYPE_VAR := fun h => hty (Or.inr (Or.inl h))
      have hb : ¬ pdo_type pdo = PDO_TYPE_BATT := fun h => hty (Or.inr (Or.inr h))
      unfold tcpm_pd_check_request at hacc
      simp only [h1, if_false, hp, hf, hv, hb, or_self] at hacc
      simp [EINVAL] at hacc

theorem check_request_accept_witness :
    tcpm_pd_check_request board_config (RDO_FIXED 1 1000 1000 0) = 0 ∧
    1 ≤ rdo_index (RDO_FIXED 1 1000 1000 0) ∧
    rdo_index (RDO_FIXED 1 1000 1000 0) ≤ board_config.nr_src_pdo ∧
    (RDO_FIXED 1 1000 1000 0 &&& RDO_CAP_MISMATCH = 0 →
      request_op (board_config.src_pdo.getD (rdo_index (RDO_FIXED 1 1000 1000 0) - 1) 0)
          (RDO_FIXED 1 1000 1000 0) ≤
        pdo_cap (board_config.src_pdo.getD (rdo_index (RDO_FIXED 1 1000 1000 0) - 1) 0)) :=
  ⟨by decide, check_request_accept board_config (RDO_FIXED 1 1000 1000 0) (by decide)⟩

/-! ## `tcpm_pd_build_request` -/

theorem RDO_FLAG_BITS_eq : RDO_FLAG_BITS = (2 ^ 4 - 1) <<< 24 := by decide

theorem RDO_FIXED_same_eq_add (idx ma flags : Nat) (hidx : idx ≤ 7) (hma : ma ≤ 10230)
    (hf : flags &&& RDO_FLAG_BITS = flags) :
    RDO_FIXED idx ma ma flags = idx * 2 ^ 28 + flags + ma / 10 * 1024 := by
  rw [RDO_FLAG_BITS_eq, confined_iff] at hf
  obtain ⟨h0, h1⟩ := hf
  norm_num at h0 h1
  unfold RDO_FIXED
  simp only [RDO_OBJ_POS_MASK, RDO_OBJ_POS_SHIFT, RDO_FIXED_OP_CURR_MASK,
    RDO_FIXED_OP_CURR_SHIFT, RDO_FIXED_MAX_CURR_MASK, RDO_FIXED_MAX_CURR_SHIFT]
  rw [Nat.or_assoc _ ((ma / 10 &&& 0x3ff) <<< 10), Nat.or_self, and_0x3ff, and_0x7,
    Nat.shiftLeft_eq, Nat.shiftLeft_eq]
  rw [or_eq_add_of_low_clear (idx % 8 * 2 ^ 28) flags 28 (by omega) (by omega),
    or_eq_add_of_low_clear _ _ 24 (by omega) (by omega)]
  omega

theorem RDO_BATT_eq_add (idx op_mw max_mw flags : Nat) (hidx : idx ≤ 7)
    (hf : flags &&& RDO_FLAG_BITS = flags) :
    RDO_BATT idx op_mw max_mw flags =
      idx * 2 ^ 28 + flags + op_mw / 250 % 1024 * 1024 + max_mw / 250 % 1024 := by
  rw [RDO_FLAG_BITS_eq, confined_iff] at hf
  obtain ⟨h0, h1⟩ := hf
  norm_num at h0 h1
  unfold RDO_BATT
  simp only [RDO_OBJ_POS_MASK, RDO_OBJ_POS_SHIFT, RDO_BATT_OP_PWR_MASK,
    RDO_BATT_OP_PWR_SHIFT, RDO_BATT_MAX_PWR_MASK, RDO_BATT_MAX_PWR_SHIFT, Nat.shiftLeft_zero]
  rw [and_0x3ff, and_0x3ff, and_0x7, Nat.shiftLeft_eq, Nat.shiftLeft_eq]
  rw [or_eq_add_of_low_clear (idx % 8 * 2 ^ 28) flags 28 (by omega) (by omega),
    or_eq_add_of_low_clear _ (op_mw / 250 % 1024 * 2 ^ 10) 24 (by omega) (by omega),
    or_eq_add_of_low_clear _ _ 10 (by omega) (by omega)]
  omega

/-- The flags `tcpm_pd_build_request` sets for the offered product `mw`. -/
theorem build_flags_confined (mw operating : Nat) :
    (if mw < operating then 0 ||| RDO_CAP_MISMATCH else 0) &&& RDO_FLAG_BITS =
      (if mw < operating then 0 ||| RDO_CAP_MISMATCH else 0) := by
  split <;> decide

theorem build_request_eq (config : tcpc_config) (source_caps : List Nat) (i pdo : Nat)
    (hsel : tcpm_pd_select_pdo config source_caps = (i : Int))
    (hpdo : source_caps[i]? = some pdo) (hmv : pdo_mv pdo ≠ 0) :
    tcpm_pd_build_request config source_caps =
      .ok (if pdo_type pdo = PDO_TYPE_BATT then
          RDO_BATT (i + 1)
            ((build_request_ma config pdo (pdo_mv pdo) * pdo_mv pdo) % 2 ^ 32)
            ((build_request_ma config pdo (pdo_mv pdo) * pdo_mv pdo) % 2 ^ 32)
            (if (build_request_ma config pdo (pdo_mv pdo) * pdo_mv pdo) % 2 ^ 32 <
                config.operating_snk_mw then 0 ||| RDO_CAP_MISMATCH else 0)
        else
          RDO_FIXED (i + 1) (build_request_ma config pdo (pdo_mv pdo))
            (build_request_ma config pdo (pdo_mv pdo))
            (if (build_request_ma config pdo (pdo_mv pdo) * pdo_mv pdo) % 2 ^ 32 <
                config.operating_snk_mw then 0 ||| RDO_CAP_MISMATCH else 0)) := by
  have hget : source_caps.getD i 0 = pdo := by
    rw [List.getD_eq_getElem?_getD, hpdo]; rfl
  have hneg : ¬ ((i : Int) < 0) := by omega
  unfold tcpm_pd_build_request
  simp only [hsel, hneg, if_false, Int.toNat_ofNat, hget, hmv]
  split <;> rfl

theorem build_request_ma_le (config : tcpc_config) (pdo mv : Nat)
    (hty : pdo_type pdo ≠ PDO_TYPE_BATT) :
    build_request_ma config pdo mv =
      min (min (pdo_max_current pdo) config.max_snk_ma)
        ((1000 * config.max_snk_mw) % 2 ^ 32 / mv) := by
  unfold build_request_ma
  simp only [hty, if_false]
  generalize (1000 * config.max_snk_mw) % 2 ^ 32 / mv = x
  omega

theorem selected_mv_ne_zero (config : tcpc_config) (source_caps : List Nat) (i pdo : Nat)
    (hsel : tcpm_pd_select_pdo config source_caps = (i : Int))
    (hpdo : source_caps[i]? = some pdo) (hty : pdo_type pdo ≠ PDO_TYPE_BATT) :
    pdo_mv pdo ≠ 0 ∧ i < source_caps.length := by
  rcases select_pdo_cases config source_caps with ⟨hr, _⟩ | ⟨k, q, hq, hr, _, hpos, _, _⟩
  · rw [hr, EINVAL] at hsel; omega
  · have hk : k = i := by rw [hr] at hsel; exact_mod_cast hsel
    subst hk
    rw [hpdo] at hq
    cases hq
    constructor
    · intro h0
      simp [pdo_power, hty, h0] at hpos
    · rcases Nat.lt_or_ge k source_caps.length with h | h
      · exact h
      · rw [List.getElem?_eq_none h] at hpdo; cases hpdo

/-- C6, as the claim states it, fails: on a board with `max_snk_mw = 4294968`
the product `1000 * max_snk_mw` wraps to 704, and for a source offering
Fixed 5 V, 3 A the request carries 0 mA, not
`min(3000, 3000, 1000 * 4294968 / 5000) = 3000` mA. -/
theorem build_request_fixed_counterexample :
    ¬ ∃ rdo : Nat,
      tcpm_pd_build_request wide_power_config [PDO_FIXED 5000 3000 PDO_FIXED_FLAGS] = .ok rdo ∧
      rdo_index rdo = 0 + 1 ∧
      rdo_op_current rdo =
        min (min (pdo_max_current (PDO_FIXED 5000 3000 PDO_FIXED_FLAGS))
            wide_power_config.max_snk_ma)
          (1000 * wide_power_config.max_snk_mw / pdo_mv (PDO_FIXED 5000 3000 PDO_FIXED_FLAGS))
          / 10 * 10 := by
  rintro ⟨rdo, hok, _, hop⟩
  have h : tcpm_pd_build_request wide_power_config [PDO_FIXED 5000 3000 PDO_FIXED_FLAGS] =
      .ok 335544320 := rfl
  rw [h] at hok
  cases hok
  revert hop
  decide

/-- C6, amended. For a source-caps list of at most 7 entries whose selected PDO
is not a Battery PDO, `tcpm_pd_build_request` succeeds with an RDO whose object
position is the selected 0-based index + 1 and whose decoded operating current
is `min(pdo_max_current, max_snk_ma, (1000 * max_snk_mw mod 2^32) / mV)` rounded
down to a multiple of 10 mA; the product is exact when it is below `2^32`. -/
theorem build_request_fixed (config : tcpc_config) (source_caps : List Nat) (i pdo : Nat)
    (hlen : source_caps.length ≤ PDO_MAX_OBJECTS)
    (hsel : tcpm_pd_select_pdo config source_caps = (i : Int))
    (hpdo : source_caps[i]? = some pdo) (hty : pdo_type pdo ≠ PDO_TYPE_BATT) :
    ∃ rdo : Nat, tcpm_pd_build_request config source_caps = .ok rdo ∧
      rdo_index rdo = i + 1 ∧
      rdo_op_current rdo =
        min (min (pdo_max_current pdo) config.max_snk_ma)
          ((1000 * config.max_snk_mw) % 2 ^ 32 / pdo_mv pdo) / 10 * 10 ∧
      (1000 * config.max_snk_mw < 2 ^ 32 →
        rdo_op_current rdo =
          min (min (pdo_max_current pdo) config.max_snk_ma)
            (1000 * config.max_snk_mw / pdo_mv pdo) / 10 * 10) := by
  obtain ⟨hmv, hi⟩ := selected_mv_ne_zero config source_caps i pdo hsel hpdo hty
  have hi7 : i + 1 ≤ 7 := by unfold PDO_MAX_OBJECTS at hlen; omega
  have hma := build_request_ma_le config pdo (pdo_mv pdo) hty
  have hle : build_request_ma config pdo (pdo_mv pdo) ≤ 10230 := by
    have := pdo_max_current_le pdo
    rw [hma]
    generalize (1000 * config.max_snk_mw) % 2 ^ 32 / pdo_mv pdo = x
    omega
  have hflags := build_flags_confined
    ((build_request_ma config pdo (pdo_mv pdo) * pdo_mv pdo) % 2 ^ 32) config.operating_snk_mw
  have hword := RDO_FIXED_same_eq_add (i + 1) _ _ hi7 hle hflags
  rw [RDO_FLAG_BITS_eq, confined_iff] at hflags
  obtain ⟨h0, h1⟩ := hflags
  norm_num at h0 h1
  have hop : rdo_op_current (RDO_FIXED (i + 1) (build_request_ma config pdo (pdo_mv pdo))
      (build_request_ma config pdo (pdo_mv pdo))
      (if (build_request_ma config pdo (pdo_mv pdo) * pdo_mv pdo) % 2 ^ 32 <
          config.operating_snk_mw then 0 ||| RDO_CAP_MISMATCH else 0)) =
      build_request_ma config pdo (pdo_mv pdo) / 10 * 10 := by
    rw [rdo_op_current_eq, hword]
    norm_num
    omega
  refine ⟨RDO_FIXED (i + 1) (build_request_ma config pdo (pdo_mv pdo))
      (build_request_ma config pdo (pdo_mv pdo))
      (if (build_request_ma config pdo (pdo_mv pdo) * pdo_mv pdo) % 2 ^ 32 <
          config.operating_snk_mw then 0 ||| RDO_CAP_MISMATCH else 0), ?_, ?_, ?_, ?_⟩
  · rw [build_request_eq config source_caps i pdo hsel hpdo hmv]
    simp only [hty, if_false]
  · rw [rdo_index_eq, hword]
    norm_num
    omega
  · rw [hop, hma]
  · intro hfit
    rw [hop, hma, Nat.mod_eq_of_lt hfit]

theorem build_request_fixed_witness :
    (scenario_source_caps.length ≤ PDO_MAX_OBJECTS ∧
      tcpm_pd_select_pdo board_config scenario_source_caps = ((2 : Nat) : Int) ∧
      scenario_source_caps[2]? = some (PDO_FIXED 12000 3000 PDO_FIXED_FLAGS) ∧
      pdo_type (PDO_FIXED 12000 3000 PDO_FIXED_FLAGS) ≠ PDO_TYPE_BATT) ∧
    (∃ rdo : Nat, tcpm_pd_build_request board_config scenario_source_caps = .ok rdo ∧
      rdo_index rdo = 2 + 1 ∧
      rdo_op_current rdo =
        min (min (pdo_max_current (PDO_FIXED 12000 3000 PDO_FIXED_FLAGS))
            board_config.max_snk_ma)
          ((1000 * board_config.max_snk_mw) % 2 ^ 32 /
            pdo_mv (PDO_FIXED 12000 3000 PDO_FIXED_FLAGS)) / 10 * 10 ∧
      (1000 * board_config.max_snk_mw < 2 ^ 32 →
        rdo_op_current rdo =
          min (min (pdo_max_current (PDO_FIXED 12000 3000 PDO_FIXED_FLAGS))
              board_config.max_snk_ma)
            (1000 * board_config.max_snk_mw /
              pdo_mv (PDO_FIXED 12000 3000 PDO_FIXED_FLAGS)) / 10 * 10)) ∧
    (tcpm_pd_build_request board_config scenario_source_caps = .ok 805511168 ∧
      rdo_index 805511168 = 3 ∧ rdo_op_current 805511168 = 2000 ∧
      805511168 &&& RDO_CAP_MISMATCH = 0) :=
  ⟨⟨by decide, by decide, by decide, by decide⟩,
    build_request_fixed board_config scenario_source_caps 2
      (PDO_FIXED 12000 3000 PDO_FIXED_FLAGS) (by decide) (by decide) (by decide) (by decide),
    ⟨rfl, by decide, by decide, by decide⟩⟩

theorem RDO_CAP_MISMATCH_eq : RDO_CAP_MISMATCH = (2 ^ 1 - 1) <<< 26 := by decide

theorem mismatch_bit_of_word (a fl low : Nat) (hfl : fl = 0 ∨ fl = 2 ^ 26)
    (hlow : low < 2 ^ 26) : (a * 2 ^ 28 + fl + low) / 2 ^ 26 % 2 ^ 1 * 2 ^ 26 = fl := by
  rcases hfl with h | h
  · subst h
    have hq : (a * 2 ^ 28 + 0 + low) / 2 ^ 26 = a * 4 := by omega
    rw [hq]; omega
  · subst h
    have hq : (a * 2 ^ 28 + 2 ^ 26 + low) / 2 ^ 26 = a * 4 + 1 := by omega
    rw [hq]; omega

theorem build_flags_cases (mw operating : Nat) :
    ((if mw < operating then 0 ||| RDO_CAP_MISMATCH else 0) = 0 ∨
      (if mw < operating then 0 ||| RDO_CAP_MISMATCH else 0) = 2 ^ 26) ∧
    ((if mw < operating then 0 ||| RDO_CAP_MISMATCH else 0) ≠ 0 ↔ mw < operating) := by
  have hm : 0 ||| RDO_CAP_MISMATCH = 2 ^ 26 := by decide
  by_cases h : mw < operating
  · simp only [h, if_true, hm]; decide
  · simp only [h, if_false]; decide

/-- The mismatch rule of the code: whenever
`tcpm_pd_build_request` selects PDO `i` of non-zero voltage, the RDO has
`RDO_CAP_MISMATCH` set if and only if the 32-bit product `ma * mv` itself is
below `operating_snk_mw`. -/
theorem build_request_mismatch_iff (config : tcpc_config) (source_caps : List Nat)
    (i pdo : Nat) (hlen : source_caps.length ≤ PDO_MAX_OBJECTS)
    (hsel : tcpm_pd_select_pdo config source_caps = (i : Int))
    (hpdo : source_caps[i]? = some pdo) (hmv : pdo_mv pdo ≠ 0) :
    ∃ rdo : Nat, tcpm_pd_build_request config source_caps = .ok rdo ∧
      (rdo &&& RDO_CAP_MISMATCH ≠ 0 ↔
        (build_request_ma config pdo (pdo_mv pdo) * pdo_mv pdo) % 2 ^ 32 <
          config.operating_snk_mw) := by
  have hi : i < source_caps.length := by
    rcases Nat.lt_or_ge i source_caps.length with h | h
    · exact h
    · rw [List.getElem?_eq_none h] at hpdo; cases hpdo
  have hi7 : i + 1 ≤ 7 := by unfold PDO_MAX_OBJECTS at hlen; omega
  have hflags := build_flags_confined
    ((build_request_ma config pdo (pdo_mv pdo) * pdo_mv pdo) % 2 ^ 32) config.operating_snk_mw
  obtain ⟨hcases, hiff⟩ := build_flags_cases
    ((build_request_ma config pdo (pdo_mv pdo) * pdo_mv pdo) % 2 ^ 32) config.operating_snk_mw
  refine ⟨_, build_request_eq config source_caps i pdo hsel hpdo hmv, ?_⟩
  have hand : ∀ x : Nat, x &&& RDO_CAP_MISMATCH = x / 2 ^ 26 % 2 ^ 1 * 2 ^ 26 := fun x => by
    rw [RDO_CAP_MISMATCH_eq, and_shifted_mask]
  rw [hand]
  by_cases hty : pdo_type pdo = PDO_TYPE_BATT
  · simp only [hty, if_true]
    rw [RDO_BATT_eq_add (i + 1) _ _ _ hi7 hflags, Nat.add_assoc,
      mismatch_bit_of_word _ _ _ hcases (by omega)]
    exact hiff
  · simp only [hty, if_false]
    have hle : build_request_ma config pdo (pdo_mv pdo) ≤ 10230 := by
      have := pdo_max_current_le pdo
      rw [build_request_ma_le config pdo (pdo_mv pdo) hty]
      generalize (1000 * config.max_snk_mw) % 2 ^ 32 / pdo_mv pdo = x
      omega
    rw [RDO_FIXED_same_eq_add (i + 1) _ _ hi7 hle hflags,
      mismatch_bit_of_word _ _ _ hcases (by omega)]
    exact hiff

/-- C7, the code at a failing input. Against a source offering only Fixed 5 V,
1.5 A, `board_config` (operating power 10000 mW) requests 1500 mA: the offered
power `1500 * 5000 / 1000 = 7500` mW is below `operating_snk_mw`, yet the RDO
has `RDO_CAP_MISMATCH` clear, because the code compares the product
`1500 * 5000 = 7500000` with `operating_snk_mw`. -/
theorem build_request_mismatch_units :
    tcpm_pd_build_request board_config [PDO_FIXED 5000 1500 PDO_FIXED_FLAGS] =
      .ok 268589056 ∧
    rdo_op_current 268589056 = 1500 ∧
    pdo_mv (PDO_FIXED 5000 1500 PDO_FIXED_FLAGS) = 5000 ∧
    1500 * 5000 / 1000 < board_config.operating_snk_mw ∧
    268589056 &&& RDO_CAP_MISMATCH = 0 :=
  ⟨rfl, by decide, by decide, by decide, by decide⟩

/-- C8, the code at a failing input. For a source offering one Battery PDO
(5 V to 12 V, 15 W), `board_config` (`max_snk_mw = 24000`) emits a battery RDO
whose operating and maximum power both decode to 152000 mW, above
`min(pdo_max_power, max_snk_mw) = 15000` mW: the code passes the product
`ma * mv = 15000000` to `RDO_BATT`, whose 10-bit fields keep `60000 mod 1024`
units of 250 mW. -/
theorem build_request_battery_units :
    pdo_type battery_5v_12v_15w = PDO_TYPE_BATT ∧
    tcpm_pd_select_pdo board_config [battery_5v_12v_15w] = 0 ∧
    tcpm_pd_build_request board_config [battery_5v_12v_15w] = .ok 269058656 ∧
    rdo_op_power 269058656 = 152000 ∧ rdo_max_power 269058656 = 152000 ∧
    min (pdo_max_power battery_5v_12v_15w) board_config.max_snk_mw = 15000 :=
  ⟨by decide, by decide, rfl, by decide, by decide, by decide⟩

/-! ## Codec round trips -/

/-- C9, the code at a failing input. `RDO_FIXED 1 1000 2000 0` keeps the index 1
and the flags 0, but both currents decode to 2360 mA: the macro or-s
`op_ma / 10 = 100` and `max_ma / 10 = 200` into the same bits 10..19, since
`RDO_FIXED_MAX_CURR_SHIFT` equals `RDO_FIXED_OP_CURR_SHIFT`. -/
theorem RDO_FIXED_fields_overlap :
    rdo_index (RDO_FIXED 1 1000 2000 0) = 1 ∧
    RDO_FIXED 1 1000 2000 0 &&& RDO_FLAG_BITS = 0 ∧
    rdo_op_current (RDO_FIXED 1 1000 2000 0) = 2360 ∧
    rdo_max_current (RDO_FIXED 1 1000 2000 0) = 2360 ∧
    1000 / 10 * 10 = 1000 ∧ 2000 / 10 * 10 = 2000 ∧
    RDO_FIXED_MAX_CURR_SHIFT = RDO_FIXED_OP_CURR_SHIFT := by
  decide


/-- C10. For `mv ≤ 51150`, `ma ≤ 10230` and flags confined to the Fixed-PDO flag
bits 25..29, `PDO_FIXED mv ma flags` decodes to type Fixed, voltage `mv` rounded
down to a multiple of 50, current `ma` rounded down to a multiple of 10, and its
flag bits are `flags`. -/
theorem PDO_FIXED_decode (mv ma flags : Nat) (hmv : mv ≤ 51150) (hma : ma ≤ 10230)
    (hf : flags &&& PDO_FIXED_FLAG_BITS = flags) :
    pdo_type (PDO_FIXED mv ma flags) = PDO_TYPE_FIXED ∧
    pdo_fixed_voltage (PDO_FIXED mv ma flags) = mv / 50 * 50 ∧
    pdo_max_current (PDO_FIXED mv ma flags) = ma / 10 * 10 ∧
    PDO_FIXED mv ma flags &&& PDO_FIXED_FLAG_BITS = flags := by
  have hw := PDO_FIXED_eq_add mv ma flags hmv hma hf
  rw [PDO_FIXED_FLAG_BITS_eq, and_shifted_mask, hw]
  rw [PDO_FIXED_FLAG_BITS_eq, confined_iff] at hf
  obtain ⟨h0, h1⟩ := hf
  rw [pdo_type_eq, pdo_fixed_voltage_eq, pdo_max_current_eq, PDO_TYPE_FIXED]
  norm_num at h0 h1 ⊢
  omega

theorem PDO_FIXED_decode_witness :
    (5000 ≤ 51150 ∧ 3000 ≤ 10230 ∧
      (PDO_FIXED_DUAL_ROLE ||| PDO_FIXED_USB_COMM) &&& PDO_FIXED_FLAG_BITS =
        PDO_FIXED_DUAL_ROLE ||| PDO_FIXED_USB_COMM) ∧
    (pdo_type (PDO_FIXED 5000 3000 (PDO_FIXED_DUAL_ROLE ||| PDO_FIXED_USB_COMM)) = PDO_TYPE_FIXED ∧
    pdo_fixed_voltage (PDO_FIXED 5000 3000 (PDO_FIXED_DUAL_ROLE ||| PDO_FIXED_USB_COMM)) = 5000 / 50 * 50 ∧
    pdo_max_current (PDO_FIXED 5000 3000 (PDO_FIXED_DUAL_ROLE ||| PDO_FIXED_USB_COMM)) = 3000 / 10 * 10 ∧
    PDO_FIXED 5000 3000 (PDO_FIXED_DUAL_ROLE ||| PDO_FIXED_USB_COMM) &&& PDO_FIXED_FLAG_BITS =
      PDO_FIXED_DUAL_ROLE ||| PDO_FIXED_USB_COMM) :=
  ⟨⟨by decide, by decide, by decide⟩,
    PDO_FIXED_decode 5000 3000 (PDO_FIXED_DUAL_ROLE ||| PDO_FIXED_USB_COMM)
      (by decide) (by decide) (by decide)⟩

/-! ## Message headers -/

theorem and_0xf (x : Nat) : x &&& 0xf = x % 16 := Nat.and_pow_two_sub_one_eq_mod x 4

theorem pd_header_type_eq (h : Nat) : pd_header_type h = h % 16 := by
  simp only [pd_header_type, PD_HEADER_TYPE_SHIFT, PD_HEADER_TYPE_MASK, and_0xf,
    Nat.shiftRight_zero]

theorem pd_header_cnt_eq (h : Nat) : pd_header_cnt h = h / 2 ^ 12 % 8 := by
  simp only [pd_header_cnt, PD_HEADER_CNT_SHIFT, PD_HEADER_CNT_MASK, and_0x7,
    Nat.shiftRight_eq_div_pow]

theorem header_id_eq (h : Nat) : header_id h = h / 2 ^ 9 % 8 := by
  simp only [header_id, PD_HEADER_ID_SHIFT, PD_HEADER_ID_MASK, and_0x7,
    Nat.shiftRight_eq_div_pow]

theorem header_rev_eq (h : Nat) : header_rev h = h / 2 ^ 6 % 4 := by
  simp only [header_rev, PD_HEADER_REV_SHIFT, PD_HEADER_REV_MASK, and_0x3,
    Nat.shiftRight_eq_div_pow]

/-- Masking with the single bit `n` keeps that bit. -/
theorem and_BIT (x n : Nat) : x &&& BIT n = x / 2 ^ n % 2 * 2 ^ n := by
  have h := and_shifted_mask x 1 n
  simpa [BIT] using h

/-- The header word as the sum of its fields. -/
theorem PD_HEADER_eq_add (type : Nat) (pwr : typec_pwr_role) (data : typec_data_role)
    (id cnt : Nat) :
    PD_HEADER type pwr data id cnt =
      type % 16 + (if data = TYPEC_HOST then 32 else 0) + 64 +
        (if pwr = TYPEC_PWR_SOURCE then 256 else 0) + id % 8 * 512 + cnt % 8 * 4096 := by
  have reorder : ∀ t p d r i c : Nat,
      t ||| p ||| d ||| r ||| i ||| c = c ||| (i ||| (p ||| (r ||| (d ||| t)))) := by
    intro t p d r i c
    ac_rfl
  have hd : (if data = TYPEC_HOST then (32 : Nat) else 0) = 0 ∨
      (if data = TYPEC_HOST then (32 : Nat) else 0) = 32 := by
    split <;> simp
  have hp : (if pwr = TYPEC_PWR_SOURCE then (256 : Nat) else 0) = 0 ∨
      (if pwr = TYPEC_PWR_SOURCE then (256 : Nat) else 0) = 256 := by
    split <;> simp
  have b5 : BIT 5 = 32 := by decide
  have b8 : BIT 8 = 256 := by decide
  unfold PD_HEADER
  rw [reorder]
  simp only [PD_HEADER_TYPE_MASK, PD_HEADER_TYPE_SHIFT, PD_HEADER_PWR_ROLE,
    PD_HEADER_DATA_ROLE, PD_REV20, PD_HEADER_REV_SHIFT, PD_HEADER_ID_MASK, PD_HEADER_ID_SHIFT,
    PD_HEADER_CNT_MASK, PD_HEADER_CNT_SHIFT, and_0xf, and_0x7, Nat.shiftLeft_zero,
    Nat.shiftLeft_eq, Nat.pow_zero, Nat.mul_one, b5, b8]
  generalize (if data = TYPEC_HOST then (32 : Nat) else 0) = d at hd ⊢
  generalize (if pwr = TYPEC_PWR_SOURCE then (256 : Nat) else 0) = p at hp ⊢
  rw [or_eq_add_of_low_clear d (type % 16) 5 (by omega) (by omega),
    or_eq_add_of_low_clear (1 * 2 ^ 6) _ 6 (by omega) (by omega),
    or_eq_add_of_low_clear p _ 8 (by omega) (by omega),
    or_eq_add_of_low_clear (id % 8 * 2 ^ 9) _ 9 (by omega) (by omega),
    or_eq_add_of_low_clear (cnt % 8 * 2 ^ 12) _ 12 (by omega) (by omega)]
  omega

theorem header_pwr_role_bit (h : Nat) :
    (if header_pwr_role h = TYPEC_PWR_SOURCE then (256 : Nat) else 0) = h / 2 ^ 8 % 2 * 256 := by
  unfold header_pwr_role
  rw [PD_HEADER_PWR_ROLE, and_BIT]
  norm_num
  by_cases hb : h / 256 % 2 = 0
  · simp [hb]
  · have h1 : h / 256 % 2 = 1 := by omega
    simp [h1]

theorem header_data_role_bit (h : Nat) :
    (if header_data_role h = TYPEC_HOST then (32 : Nat) else 0) = h / 2 ^ 5 % 2 * 32 := by
  unfold header_data_role
  rw [PD_HEADER_DATA_ROLE, and_BIT]
  norm_num
  by_cases hb : h / 32 % 2 = 0
  · simp [hb]
  · have h1 : h / 32 % 2 = 1 := by omega
    simp [h1]

/-- C13. For every 16-bit header `h` that is well formed (the reserved bit 4 and
bit 15 are zero and the revision field, bits 6..7, is `PD_REV20` = 1),
re-encoding the decoded fields gives `h` back. -/
theorem PD_HEADER_roundtrip (h : Nat) (h16 : h < 2 ^ 16) (hres : h &&& BIT 4 = 0)
    (hext : h &&& BIT 15 = 0) (hrev : header_rev h = PD_REV20) :
    PD_HEADER (pd_header_type h) (header_pwr_role h) (header_data_role h) (header_id h)
      (pd_header_cnt h) = h := by
  rw [PD_HEADER_eq_add, header_pwr_role_bit, header_data_role_bit, pd_header_type_eq,
    header_id_eq, pd_header_cnt_eq]
  rw [and_BIT] at hres hext
  rw [header_rev_eq, PD_REV20] at hrev
  omega

theorem PD_HEADER_roundtrip_witness :
    (4449 < 2 ^ 16 ∧ 4449 &&& BIT 4 = 0 ∧ 4449 &&& BIT 15 = 0 ∧ header_rev 4449 = PD_REV20) ∧
    PD_HEADER (pd_header_type 4449) (header_pwr_role 4449) (header_data_role 4449)
      (header_id 4449) (pd_header_cnt 4449) = 4449 :=
  ⟨⟨by decide, by decide, by decide, by decide⟩,
    PD_HEADER_roundtrip 4449 (by decide) (by decide) (by decide) (by decide)⟩

/-- C14. For all inputs, `PD_HEADER type pwr data id cnt` is the 16-bit word with
`type & 0xF` in bits 0..3, bit 4 clear, bit 5 set iff the data role is Host,
bits 6..7 equal to 1, bit 8 set iff the power role is Source, `id & 7` in bits
9..11, `cnt & 7` in bits 12..14 and bit 15 clear; `pd_header_type` and
`pd_header_cnt` of the word return `type & 0xF` and `cnt & 7`. -/
theorem PD_HEADER_layout (type : Nat) (pwr : typec_pwr_role) (data : typec_data_role)
    (id cnt : Nat) :
    PD_HEADER type pwr data id cnt < 2 ^ 16 ∧
    PD_HEADER type pwr data id cnt &&& 0xf = type &&& 0xf ∧
    PD_HEADER type pwr data id cnt &&& BIT 4 = 0 ∧
    (PD_HEADER type pwr data id cnt &&& BIT 5 ≠ 0 ↔ data = TYPEC_HOST) ∧
    (PD_HEADER type pwr data id cnt >>> 6) &&& 0x3 = 1 ∧
    (PD_HEADER type pwr data id cnt &&& BIT 8 ≠ 0 ↔ pwr = TYPEC_PWR_SOURCE) ∧
    (PD_HEADER type pwr data id cnt >>> 9) &&& 0x7 = id &&& 0x7 ∧
    (PD_HEADER type pwr data id cnt >>> 12) &&& 0x7 = cnt &&& 0x7 ∧
    PD_HEADER type pwr data id cnt &&& BIT 15 = 0 ∧
    pd_header_type (PD_HEADER type pwr data id cnt) = type &&& 0xf ∧
    pd_header_cnt (PD_HEADER type pwr data id cnt) = cnt &&& 0x7 := by
  have hw := PD_HEADER_eq_add type pwr data id cnt
  simp only [and_BIT, and_0xf, and_0x7, and_0x3, Nat.shiftRight_eq_div_pow, pd_header_type_eq,
    pd_header_cnt_eq, hw]
  by_cases hd : data = TYPEC_HOST <;> by_cases hp : pwr = TYPEC_PWR_SOURCE <;>
    simp only [hd, hp, if_true, if_false, ne_eq, iff_true, iff_false, not_not] <;>
    norm_num <;> omega

/-- The Battery and Variable PDO words as sums of their fields; `last` is the
field in bits 0..9, `type` the value of bits 30..31. -/
theorem pdo_three_fields (type min_f max_f last : Nat) :
    (type <<< 30) ||| ((min_f &&& 0x3ff) <<< 10) ||| ((max_f &&& 0x3ff) <<< 20) |||
        ((last &&& 0x3ff) <<< 0) =
      type * 2 ^ 30 + max_f % 1024 * 2 ^ 20 + min_f % 1024 * 2 ^ 10 + last % 1024 := by
  have reorder : ∀ t a b c : Nat, t ||| a ||| b ||| c = t ||| (b ||| (a ||| c)) := by
    intro t a b c
    ac_rfl
  rw [reorder]
  simp only [and_0x3ff, Nat.shiftLeft_zero, Nat.shiftLeft_eq]
  rw [or_eq_add_of_low_clear (min_f % 1024 * 2 ^ 10) _ 10 (by omega) (by omega),
    or_eq_add_of_low_clear (max_f % 1024 * 2 ^ 20) _ 20 (by omega) (by omega),
    or_eq_add_of_low_clear (type * 2 ^ 30) _ 30 (by omega) (by omega)]
  omega

/-- What `PDO_BATT` decodes to: type and voltages as encoded, and a power of
`max_mw / 50` (not `max_mw / 250`) units of 250 mW, truncated to 10 bits. -/
theorem PDO_BATT_decode (min_mv max_mv max_mw : Nat) (hmin : min_mv ≤ 51150)
    (hmax : max_mv ≤ 51150) :
    pdo_type (PDO_BATT min_mv max_mv max_mw) = PDO_TYPE_BATT ∧
    pdo_min_voltage (PDO_BATT min_mv max_mv max_mw) = min_mv / 50 * 50 ∧
    pdo_max_voltage (PDO_BATT min_mv max_mv max_mw) = max_mv / 50 * 50 ∧
    pdo_max_power (PDO_BATT min_mv max_mv max_mw) = max_mw / 50 % 1024 * 250 := by
  have hw : PDO_BATT min_mv max_mv max_mw =
      1 * 2 ^ 30 + max_mv / 50 % 1024 * 2 ^ 20 + min_mv / 50 % 1024 * 2 ^ 10 +
        max_mw / 50 % 1024 := pdo_three_fields 1 _ _ _
  rw [pdo_type_eq, pdo_min_voltage_eq, pdo_max_voltage_eq, pdo_max_power_eq, hw, PDO_TYPE_BATT]
  norm_num
  omega

/-- What `PDO_VAR` decodes to: type and voltages as encoded, and a current of
`max_ma / 50` (not `max_ma / 10`) units of 10 mA. -/
theorem PDO_VAR_decode (min_mv max_mv max_ma : Nat) (hmin : min_mv ≤ 51150)
    (hmax : max_mv ≤ 51150) :
    pdo_type (PDO_VAR min_mv max_mv max_ma) = PDO_TYPE_VAR ∧
    pdo_min_voltage (PDO_VAR min_mv max_mv max_ma) = min_mv / 50 * 50 ∧
    pdo_max_voltage (PDO_VAR min_mv max_mv max_ma) = max_mv / 50 * 50 ∧
    pdo_max_current (PDO_VAR min_mv max_mv max_ma) = max_ma / 50 % 1024 * 10 := by
  have hw : PDO_VAR min_mv max_mv max_ma =
      2 * 2 ^ 30 + max_mv / 50 % 1024 * 2 ^ 20 + min_mv / 50 % 1024 * 2 ^ 10 +
        max_ma / 50 % 1024 := pdo_three_fields 2 _ _ _
  rw [pdo_type_eq, pdo_min_voltage_eq, pdo_max_voltage_eq, pdo_max_current_eq, hw, PDO_TYPE_VAR]
  norm_num
  omega

/-- C11, the code at a failing input. `PDO_BATT 4500 14000 10000`, an entry of
`board_snk_pdo`, decodes to type Battery, 4500 mV and 14000 mV, but to a maximum
power of 50000 mW instead of 10000 mW: the macro divides `max_mw` by 50, the
decoder multiplies by 250. -/
theorem PDO_BATT_power_scale :
    pdo_type (PDO_BATT 4500 14000 10000) = PDO_TYPE_BATT ∧
    pdo_min_voltage (PDO_BATT 4500 14000 10000) = 4500 ∧
    pdo_max_voltage (PDO_BATT 4500 14000 10000) = 14000 ∧
    pdo_max_power (PDO_BATT 4500 14000 10000) = 50000 ∧
    10000 / 250 * 250 = 10000 := by
  decide

/-- C12, the code at a failing input. `PDO_VAR 4500 14000 3000`, an entry of
`board_snk_pdo`, decodes to type Variable, 4500 mV and 14000 mV, but to a
maximum current of 600 mA instead of 3000 mA: the macro divides `max_ma` by 50,
the decoder multiplies by 10. -/
theorem PDO_VAR_current_scale :
    pdo_type (PDO_VAR 4500 14000 3000) = PDO_TYPE_VAR ∧
    pdo_min_voltage (PDO_VAR 4500 14000 3000) = 4500 ∧
    pdo_max_voltage (PDO_VAR 4500 14000 3000) = 14000 ∧
    pdo_max_current (PDO_VAR 4500 14000 3000) = 600 ∧
    3000 / 10 * 10 = 3000 := by
  decide

/-! ## `tcpm_pd_transmit` -/

/-- C15. `tcpm_pd_transmit` maps the outcome at the port controller to its result
and to `message_id`, for every port: a negative value returned by `pd_transmit`
is returned as it is; no completion within the timeout gives `-ETIMEDOUT`;
completion with Success gives 0 and sets `message_id` to
`(message_id + 1) mod 8`; Discarded gives `-EAGAIN`; Failed gives `-EIO`; in
every case but Success `message_id` is unchanged. -/
theorem tcpm_pd_transmit_outcome (tcpc : tcpc_dev) (port : tcpm_port)
    (type : tcpm_transmit_type) (msg : Option pd_message) :
    (tcpc.ret port.trace (.pd_transmit type msg) < 0 →
      (tcpm_pd_transmit tcpc port type msg).2 = tcpc.ret port.trace (.pd_transmit type msg) ∧
      (tcpm_pd_transmit tcpc port type msg).1.message_id = port.message_id) ∧
    (0 ≤ tcpc.ret port.trace (.pd_transmit type msg) →
      (tcpc.tx_complete (port.trace ++
          [(.pd_transmit type msg, tcpc.ret port.trace (.pd_transmit type msg))]) = none →
        (tcpm_pd_transmit tcpc port type msg).2 = -ETIMEDOUT ∧
        (tcpm_pd_transmit tcpc port type msg).1.message_id = port.message_id) ∧
      (tcpc.tx_complete (port.trace ++
          [(.pd_transmit type msg, tcpc.ret port.trace (.pd_transmit type msg))]) =
            some TCPC_TX_SUCCESS →
        (tcpm_pd_transmit tcpc port type msg).2 = 0 ∧
        (tcpm_pd_transmit tcpc port type msg).1.message_id = (port.message_id + 1) % 8) ∧
      (tcpc.tx_complete (port.trace ++
          [(.pd_transmit type msg, tcpc.ret port.trace (.pd_transmit type msg))]) =
            some TCPC_TX_DISCARDED →
        (tcpm_pd_transmit tcpc port type msg).2 = -EAGAIN ∧
        (tcpm_pd_transmit tcpc port type msg).1.message_id = port.message_id) ∧
      (tcpc.tx_complete (port.trace ++
          [(.pd_transmit type msg, tcpc.ret port.trace (.pd_transmit type msg))]) =
            some TCPC_TX_FAILED →
        (tcpm_pd_transmit tcpc port type msg).2 = - EIO ∧
        (tcpm_pd_transmit tcpc port type msg).1.message_id = port.message_id)) := by
  have hid : ((port.message_id + 1) % 2 ^ 32) &&& PD_HEADER_ID_MASK =
      (port.message_id + 1) % 8 := by
    rw [PD_HEADER_ID_MASK, and_0x7]; omega
  refine ⟨fun hneg => ?_, fun hpos => ⟨fun hc => ?_, fun hc => ?_, fun hc => ?_, fun hc => ?_⟩⟩
  · simp [tcpm_pd_transmit, tcpc_op, hneg]
  · have hn : ¬ tcpc.ret port.trace (.pd_transmit type msg) < 0 := by omega
    simp [tcpm_pd_transmit, tcpc_op, hn, hc]
  · have hn : ¬ tcpc.ret port.trace (.pd_transmit type msg) < 0 := by omega
    simp only [tcpm_pd_transmit, tcpc_op, hn, hc, if_false, if_true, hid, and_self]
  · have hn : ¬ tcpc.ret port.trace (.pd_transmit type msg) < 0 := by omega
    simp [tcpm_pd_transmit, tcpc_op, hn, hc, TCPC_TX_DISCARDED, TCPC_TX_SUCCESS]
  · have hn : ¬ tcpc.ret port.trace (.pd_transmit type msg) < 0 := by omega
    simp [tcpm_pd_transmit, tcpc_op, hn, hc, TCPC_TX_FAILED, TCPC_TX_DISCARDED, TCPC_TX_SUCCESS]

/-! ## Attach -/

/-- The polarity `tcpm_snk_attach` commits on a port that is not attached: CC1
when CC1 is Open, CC2 otherwise, whatever the port controller answers. -/
theorem tcpm_snk_attach_polarity (tcpc : tcpc_dev) (port : tcpm_port)
    (hatt : port.attached = false) :
    (tcpm_snk_attach tcpc port).1.polarity =
      (if port.cc1 = TYPEC_CC_OPEN then TYPEC_POLARITY_CC1 else TYPEC_POLARITY_CC2) := by
  simp only [tcpm_snk_attach, hatt, Bool.false_eq_true, if_false, tcpc_op, tcpm_set_roles,
    typec_notify]
  split_ifs <;> rfl

/-- C19, the code at a failing input. In the specification's scenario 1 (CC1 =
Rp-def, CC2 = Open, VBUS high) the port is not attached when `SNK_ATTACHED`
runs; `tcpm_snk_attach` commits polarity CC2, the line that is Open, and asks
the port controller for CC2, and the work item leaves the port attached with
that polarity. -/
theorem tcpm_snk_attach_scenario :
    (scenario_sink_debounced.map fun p => (p.cc1, p.cc2, p.attached, p.state)) =
      some (TYPEC_CC_RP_DEF, TYPEC_CC_OPEN, false, SNK_ATTACHED) ∧
    (scenario_sink_debounced.map fun p =>
        ((tcpm_snk_attach ok_tcpc p).1.polarity, (tcpm_snk_attach ok_tcpc p).1.attached,
          decide ((tcpc_call.set_polarity TYPEC_POLARITY_CC2, (0 : Int)) ∈
            (tcpm_snk_attach ok_tcpc p).1.trace),
          decide ((tcpc_call.set_polarity TYPEC_POLARITY_CC1, (0 : Int)) ∈
            (tcpm_snk_attach ok_tcpc p).1.trace))) =
      some (TYPEC_POLARITY_CC2, true, true, false) ∧
    ((scenario_sink_debounced.bind (tcpm_state_machine_work ok_tcpc 8)).map fun p =>
        (p.polarity, p.attached, p.state)) =
      some (TYPEC_POLARITY_CC2, true, SNK_WAIT_CAPABILITIES) := by
  decide

/-! ## Fields that the helpers of the state machine leave unchanged -/

@[simp] theorem tcpc_op_state (tcpc : tcpc_dev) (p : tcpm_port) (c : tcpc_call) :
    (tcpc_op tcpc p c).1.state = p.state := rfl

@[simp] theorem tcpc_op_prev_state (tcpc : tcpc_dev) (p : tcpm_port) (c : tcpc_call) :
    (tcpc_op tcpc p c).1.prev_state = p.prev_state := rfl

@[simp] theorem tcpc_op_delayed_state (tcpc : tcpc_dev) (p : tcpm_port) (c : tcpc_call) :
    (tcpc_op tcpc p c).1.delayed_state = p.delayed_state := rfl

@[simp] theorem tcpc_op_hard_reset_count (tcpc : tcpc_dev) (p : tcpm_port) (c : tcpc_call) :
    (tcpc_op tcpc p c).1.hard_reset_count = p.hard_reset_count := rfl

@[simp] theorem tcpc_op_attached (tcpc : tcpc_dev) (p : tcpm_port) (c : tcpc_call) :
    (tcpc_op tcpc p c).1.attached = p.attached := rfl

@[simp] theorem tcpc_op_pwr_role (tcpc : tcpc_dev) (p : tcpm_port) (c : tcpc_call) :
    (tcpc_op tcpc p c).1.pwr_role = p.pwr_role := rfl

@[simp] theorem tcpc_op_data_role (tcpc : tcpc_dev) (p : tcpm_port) (c : tcpc_call) :
    (tcpc_op tcpc p c).1.data_role = p.data_role := rfl

@[simp] theorem tcpc_op_state_machine_running (tcpc : tcpc_dev) (p : tcpm_port) (c : tcpc_call) :
    (tcpc_op tcpc p c).1.state_machine_running = p.state_machine_running := rfl

@[simp] theorem tcpc_op_work (tcpc : tcpc_dev) (p : tcpm_port) (c : tcpc_call) :
    (tcpc_op tcpc p c).1.work = p.work := rfl

@[simp] theorem tcpc_op_bug (tcpc : tcpc_dev) (p : tcpm_port) (c : tcpc_call) :
    (tcpc_op tcpc p c).1.bug = p.bug := rfl

@[simp] theorem tcpc_op_explicit_contract (tcpc : tcpc_dev) (p : tcpm_port) (c : tcpc_call) :
    (tcpc_op tcpc p c).1.explicit_contract = p.explicit_contract := rfl

@[simp] theorem tcpc_op_vconn_source (tcpc : tcpc_dev) (p : tcpm_port) (c : tcpc_call) :
    (tcpc_op tcpc p c).1.vconn_source = p.vconn_source := rfl

@[simp] theorem tcpc_op_message_id (tcpc : tcpc_dev) (p : tcpm_port) (c : tcpc_call) :
    (tcpc_op tcpc p c).1.message_id = p.message_id := rfl

@[simp] theorem tcpc_op_polarity (tcpc : tcpc_dev) (p : tcpm_port) (c : tcpc_call) :
    (tcpc_op tcpc p c).1.polarity = p.polarity := rfl

@[simp] theorem tcpc_op_vbus_present (tcpc : tcpc_dev) (p : tcpm_port) (c : tcpc_call) :
    (tcpc_op tcpc p c).1.vbus_present = p.vbus_present := rfl

@[simp] theorem tcpc_op_cc1 (tcpc : tcpc_dev) (p : tcpm_port) (c : tcpc_call) :
    (tcpc_op tcpc p c).1.cc1 = p.cc1 := rfl

@[simp] theorem tcpc_op_cc2 (tcpc : tcpc_dev) (p : tcpm_port) (c : tcpc_call) :
    (tcpc_op tcpc p c).1.cc2 = p.cc2 := rfl

@[simp] theorem tcpc_op_typec_caps_type (tcpc : tcpc_dev) (p : tcpm_port) (c : tcpc_call) :
    (tcpc_op tcpc p c).1.typec_caps_type = p.typec_caps_type := rfl

@[simp] theorem tcpc_do_state (tcpc : tcpc_dev) (p : tcpm_port) (c : tcpc_call) :
    (tcpc_do tcpc p c).state = p.state := rfl

@[simp] theorem tcpc_do_prev_state (tcpc : tcpc_dev) (p : tcpm_port) (c : tcpc_call) :
    (tcpc_do tcpc p c).prev_state = p.prev_state := rfl

@[simp] theorem tcpc_do_delayed_state (tcpc : tcpc_dev) (p : tcpm_port) (c : tcpc_call) :
    (tcpc_do tcpc p c).delayed_state = p.delayed_state := rfl

@[simp] theorem tcpc_do_hard_reset_count (tcpc : tcpc_dev) (p : tcpm_port) (c : tcpc_call) :
    (tcpc_do tcpc p c).hard_reset_count = p.hard_reset_count := rfl

@[simp] theorem tcpc_do_attached (tcpc : tcpc_dev) (p : tcpm_port) (c : tcpc_call) :
    (tcpc_do tcpc p c).attached = p.attached := rfl

@[simp] theorem tcpc_do_pwr_role (tcpc : tcpc_dev) (p : tcpm_port) (c : tcpc_call) :
    (tcpc_do tcpc p c).pwr_role = p.pwr_role := rfl

@[simp] theorem tcpc_do_data_role (tcpc : tcpc_dev) (p : tcpm_port) (c : tcpc_call) :
    (tcpc_do tcpc p c).data_role = p.data_role := rfl

@[simp] theorem tcpc_do_state_machine_running (tcpc : tcpc_dev) (p : tcpm_port) (c : tcpc_call) :
    (tcpc_do tcpc p c).state_machine_running = p.state_machine_running := rfl

@[simp] theorem tcpc_do_work (tcpc : tcpc_dev) (p : tcpm_port) (c : tcpc_call) :
    (tcpc_do tcpc p c).work = p.work := rfl

@[simp] theorem tcpc_do_bug (tcpc : tcpc_dev) (p : tcpm_port) (c : tcpc_call) :
    (tcpc_do tcpc p c).bug = p.bug := rfl

@[simp] theorem tcpc_do_explicit_contract (tcpc : tcpc_dev) (p : tcpm_port) (c : tcpc_call) :
    (tcpc_do tcpc p c).explicit_contract = p.explicit_contract := rfl

@[simp] theorem tcpc_do_vconn_source (tcpc : tcpc_dev) (p : tcpm_port) (c : tcpc_call) :
    (tcpc_do tcpc p c).vconn_source = p.vconn_source := rfl

@[simp] theorem tcpc_do_message_id (tcpc : tcpc_dev) (p : tcpm_port) (c : tcpc_call) :
    (tcpc_do tcpc p c).message_id = p.message_id := rfl

@[simp] theorem tcpc_do_polarity (tcpc : tcpc_dev) (p : tcpm_port) (c : tcpc_call) :
    (tcpc_do tcpc p c).polarity = p.polarity := rfl

@[simp] theorem tcpc_do_vbus_present (tcpc : tcpc_dev) (p : tcpm_port) (c : tcpc_call) :
    (tcpc_do tcpc p c).vbus_present = p.vbus_present := rfl

@[simp] theorem tcpc_do_cc1 (tcpc : tcpc_dev) (p : tcpm_port) (c : tcpc_call) :
    (tcpc_do tcpc p c).cc1 = p.cc1 := rfl

@[simp] theorem tcpc_do_cc2 (tcpc : tcpc_dev) (p : tcpm_port) (c : tcpc_call) :
    (tcpc_do tcpc p c).cc2 = p.cc2 := rfl

@[simp] theorem tcpc_do_typec_caps_type (tcpc : tcpc_dev) (p : tcpm_port) (c : tcpc_call) :
    (tcpc_do tcpc p c).typec_caps_type = p.typec_caps_type := rfl

@[simp] theorem typec_notify_state (p : tcpm_port) (c : tcpc_call) :
    (typec_notify p c).state = p.state := rfl

@[simp] theorem typec_notify_prev_state (p : tcpm_port) (c : tcpc_call) :
    (typec_notify p c).prev_state = p.prev_state := rfl

@[simp] theorem typec_notify_delayed_state (p : tcpm_port) (c : tcpc_call) :
    (typec_notify p c).delayed_state = p.delayed_state := rfl

@[simp] theorem typec_notify_hard_reset_count (p : tcpm_port) (c : tcpc_call) :
    (typec_notify p c).hard_reset_count = p.hard_reset_count := rfl

@[simp] theorem typec_notify_attached (p : tcpm_port) (c : tcpc_call) :
    (typec_notify p c).attached = p.attached := rfl

@[simp] theorem typec_notify_pwr_role (p : tcpm_port) (c : tcpc_call) :
    (typec_notify p c).pwr_role = p.pwr_role := rfl

@[simp] theorem typec_notify_data_role (p : tcpm_port) (c : tcpc_call) :
    (typec_notify p c).data_role = p.data_role := rfl

@[simp] theorem typec_notify_state_machine_running (p : tcpm_port) (c : tcpc_call) :
    (typec_notify p c).state_machine_running = p.state_machine_running := rfl

@[simp] theorem typec_notify_work (p : tcpm_port) (c : tcpc_call) :
    (typec_notify p c).work = p.work := rfl

@[simp] theorem typec_notify_bug (p : tcpm_port) (c : tcpc_call) :
    (typec_notify p c).bug = p.bug := rfl

@[simp] theorem typec_notify_explicit_contract (p : tcpm_port) (c : tcpc_call) :
    (typec_notify p c).explicit_contract = p.explicit_contract := rfl

@[simp] theorem typec_notify_vconn_source (p : tcpm_port) (c : tcpc_call) :
    (typec_notify p c).vconn_source = p.vconn_source := rfl

@[simp] theorem typec_notify_message_id (p : tcpm_port) (c : tcpc_call) :
    (typec_notify p c).message_id = p.message_id := rfl

@[simp] theorem typec_notify_polarity (p : tcpm_port) (c : tcpc_call) :
    (typec_notify p c).polarity = p.polarity := rfl

@[simp] theorem typec_notify_vbus_present (p : tcpm_port) (c : tcpc_call) :
    (typec_notify p c).vbus_present = p.vbus_present := rfl

@[simp] theorem typec_notify_cc1 (p : tcpm_port) (c : tcpc_call) :
    (typec_notify p c).cc1 = p.cc1 := rfl

@[simp] theorem typec_notify_cc2 (p : tcpm_port) (c : tcpc_call) :
    (typec_notify p c).cc2 = p.cc2 := rfl

@[simp] theorem typec_notify_typec_caps_type (p : tcpm_port) (c : tcpc_call) :
    (typec_notify p c).typec_caps_type = p.typec_caps_type := rfl

@[simp] theorem complete_swap_state (p : tcpm_port) :
    (complete_swap p).state = p.state := rfl

@[simp] theorem complete_swap_prev_state (p : tcpm_port) :
    (complete_swap p).prev_state = p.prev_state := rfl

@[simp] theorem complete_swap_delayed_state (p : tcpm_port) :
    (complete_swap p).delayed_state = p.delayed_state := rfl

@[simp] theorem complete_swap_hard_reset_count (p : tcpm_port) :
    (complete_swap p).hard_reset_count = p.hard_reset_count := rfl

@[simp] theorem complete_swap_attached (p : tcpm_port) :
    (complete_swap p).attached = p.attached := rfl

@[simp] theorem complete_swap_pwr_role (p : tcpm_port) :
    (complete_swap p).pwr_role = p.pwr_role := rfl

@[simp] theorem complete_swap_data_role (p : tcpm_port) :
    (complete_swap p).data_role = p.data_role := rfl

@[simp] theorem complete_swap_state_machine_running (p : tcpm_port) :
    (complete_swap p).state_machine_running = p.state_machine_running := rfl

@[simp] theorem complete_swap_work (p : tcpm_port) :
    (complete_swap p).work = p.work := rfl

@[simp] theorem complete_swap_bug (p : tcpm_port) :
    (complete_swap p).bug = p.bug := rfl

@[simp] theorem complete_swap_explicit_contract (p : tcpm_port) :
    (complete_swap p).explicit_contract = p.explicit_contract := rfl

@[simp] theorem complete_swap_vconn_source (p : tcpm_port) :
    (complete_swap p).vconn_source = p.vconn_source := rfl

@[simp] theorem complete_swap_message_id (p : tcpm_port) :
    (complete_swap p).message_id = p.message_id := rfl

@[simp] theorem complete_swap_polarity (p : tcpm_port) :
    (complete_swap p).polarity = p.polarity := rfl

@[simp] theorem complete_swap_vbus_present (p : tcpm_port) :
    (complete_swap p).vbus_present = p.vbus_present := rfl

@[simp] theorem complete_swap_cc1 (p : tcpm_port) :
    (complete_swap p).cc1 = p.cc1 := rfl

@[simp] theorem complete_swap_cc2 (p : tcpm_port) :
    (complete_swap p).cc2 = p.cc2 := rfl

@[simp] theorem complete_swap_typec_caps_type (p : tcpm_port) :
    (complete_swap p).typec_caps_type = p.typec_caps_type := rfl

theorem tcpm_pd_transmit_frame (tcpc : tcpc_dev) (p : tcpm_port) (t : tcpm_transmit_type) (m :
    Option pd_message) :
    (tcpm_pd_transmit tcpc p t m).1 =
      { p with
        message_id := (tcpm_pd_transmit tcpc p t m).1.message_id
        trace := (tcpm_pd_transmit tcpc p t m).1.trace
        tx_status := (tcpm_pd_transmit tcpc p t m).1.tx_status } := by
  simp only [tcpm_pd_transmit, tcpc_op]
  repeat' split
  all_goals rfl

@[simp] theorem tcpm_pd_transmit_state (tcpc : tcpc_dev) (p : tcpm_port) (t : tcpm_transmit_type) (m
    : Option pd_message) :
    (tcpm_pd_transmit tcpc p t m).1.state = p.state := by
  rw [tcpm_pd_transmit_frame]

@[simp] theorem tcpm_pd_transmit_prev_state (tcpc : tcpc_dev) (p : tcpm_port) (t :
    tcpm_transmit_type) (m : Option pd_message) :
    (tcpm_pd_transmit tcpc p t m).1.prev_state = p.prev_state := by
  rw [tcpm_pd_transmit_frame]

@[simp] theorem tcpm_pd_transmit_delayed_state (tcpc : tcpc_dev) (p : tcpm_port) (t :
    tcpm_transmit_type) (m : Option pd_message) :
    (tcpm_pd_transmit tcpc p t m).1.delayed_state = p.delayed_state := by
  rw [tcpm_pd_transmit_frame]

@[simp] theorem tcpm_pd_transmit_hard_reset_count (tcpc : tcpc_dev) (p : tcpm_port) (t :
    tcpm_transmit_type) (m : Option pd_message) :
    (tcpm_pd_transmit tcpc p t m).1.hard_reset_count = p.hard_reset_count := by
  rw [tcpm_pd_transmit_frame]

@[simp] theorem tcpm_pd_transmit_attached (tcpc : tcpc_dev) (p : tcpm_port) (t : tcpm_transmit_type)
    (m : Option pd_message) :
    (tcpm_pd_transmit tcpc p t m).1.attached = p.attached := by
  rw [tcpm_pd_transmit_frame]

@[simp] theorem tcpm_pd_transmit_pwr_role (tcpc : tcpc_dev) (p : tcpm_port) (t : tcpm_transmit_type)
    (m : Option pd_message) :
    (tcpm_pd_transmit tcpc p t m).1.pwr_role = p.pwr_role := by
  rw [tcpm_pd_transmit_frame]

@[simp] theorem tcpm_pd_transmit_data_role (tcpc : tcpc_dev) (p : tcpm_port) (t :
    tcpm_transmit_type) (m : Option pd_message) :
    (tcpm_pd_transmit tcpc p t m).1.data_role = p.data_role := by
  rw [tcpm_pd_transmit_frame]

@[simp] theorem tcpm_pd_transmit_state_machine_running (tcpc : tcpc_dev) (p : tcpm_port) (t :
    tcpm_transmit_type) (m : Option pd_message) :
    (tcpm_pd_transmit tcpc p t m).1.state_machine_running = p.state_machine_running := by
  rw [tcpm_pd_transmit_frame]

@[simp] theorem tcpm_pd_transmit_work (tcpc : tcpc_dev) (p : tcpm_port) (t : tcpm_transmit_type) (m
    : Option pd_message) :
    (tcpm_pd_transmit tcpc p t m).1.work = p.work := by
  rw [tcpm_pd_transmit_frame]

@[simp] theorem tcpm_pd_transmit_bug (tcpc : tcpc_dev) (p : tcpm_port) (t : tcpm_transmit_type) (m :
    Option pd_message) :
    (tcpm_pd_transmit tcpc p t m).1.bug = p.bug := by
  rw [tcpm_pd_transmit_frame]

@[simp] theorem tcpm_pd_transmit_explicit_contract (tcpc : tcpc_dev) (p : tcpm_port) (t :
    tcpm_transmit_type) (m : Option pd_message) :
    (tcpm_pd_transmit tcpc p t m).1.explicit_contract = p.explicit_contract := by
  rw [tcpm_pd_transmit_frame]

@[simp] theorem tcpm_pd_transmit_vconn_source (tcpc : tcpc_dev) (p : tcpm_port) (t :
    tcpm_transmit_type) (m : Option pd_message) :
    (tcpm_pd_transmit tcpc p t m).1.vconn_source = p.vconn_source := by
  rw [tcpm_pd_transmit_frame]

@[simp] theorem tcpm_pd_transmit_polarity (tcpc : tcpc_dev) (p : tcpm_port) (t : tcpm_transmit_type)
    (m : Option pd_message) :
    (tcpm_pd_transmit tcpc p t m).1.polarity = p.polarity := by
  rw [tcpm_pd_transmit_frame]

@[simp] theorem tcpm_pd_transmit_vbus_present (tcpc : tcpc_dev) (p : tcpm_port) (t :
    tcpm_transmit_type) (m : Option pd_message) :
    (tcpm_pd_transmit tcpc p t m).1.vbus_present = p.vbus_present := by
  rw [tcpm_pd_transmit_frame]

@[simp] theorem tcpm_pd_transmit_cc1 (tcpc : tcpc_dev) (p : tcpm_port) (t : tcpm_transmit_type) (m :
    Option pd_message) :
    (tcpm_pd_transmit tcpc p t m).1.cc1 = p.cc1 := by
  rw [tcpm_pd_transmit_frame]

@[simp] theorem tcpm_pd_transmit_cc2 (tcpc : tcpc_dev) (p : tcpm_port) (t : tcpm_transmit_type) (m :
    Option pd_message) :
    (tcpm_pd_transmit tcpc p t m).1.cc2 = p.cc2 := by
  rw [tcpm_pd_transmit_frame]

@[simp] theorem tcpm_pd_transmit_typec_caps_type (tcpc : tcpc_dev) (p : tcpm_port) (t :
    tcpm_transmit_type) (m : Option pd_message) :
    (tcpm_pd_transmit tcpc p t m).1.typec_caps_type = p.typec_caps_type := by
  rw [tcpm_pd_transmit_frame]

theorem tcpm_pd_send_control_frame (tcpc : tcpc_dev) (p : tcpm_port) (t : Nat) :
    (tcpm_pd_send_control tcpc p t).1 =
      { p with
        message_id := (tcpm_pd_send_control tcpc p t).1.message_id
        trace := (tcpm_pd_send_control tcpc p t).1.trace
        tx_status := (tcpm_pd_send_control tcpc p t).1.tx_status } := by
  simp only [tcpm_pd_send_control, tcpm_pd_transmit, tcpc_op]
  repeat' split
  all_goals rfl

@[simp] theorem tcpm_pd_send_control_state (tcpc : tcpc_dev) (p : tcpm_port) (t : Nat) :
    (tcpm_pd_send_control tcpc p t).1.state = p.state := by
  rw [tcpm_pd_send_control_frame]

@[simp] theorem tcpm_pd_send_control_prev_state (tcpc : tcpc_dev) (p : tcpm_port) (t : Nat) :
    (tcpm_pd_send_control tcpc p t).1.prev_state = p.prev_state := by
  rw [tcpm_pd_send_control_frame]

@[simp] theorem tcpm_pd_send_control_delayed_state (tcpc : tcpc_dev) (p : tcpm_port) (t : Nat) :
    (tcpm_pd_send_control tcpc p t).1.delayed_state = p.delayed_state := by
  rw [tcpm_pd_send_control_frame]

@[simp] theorem tcpm_pd_send_control_hard_reset_count (tcpc : tcpc_dev) (p : tcpm_port) (t : Nat) :
    (tcpm_pd_send_control tcpc p t).1.hard_reset_count = p.hard_reset_count := by
  rw [tcpm_pd_send_control_frame]

@[simp] theorem tcpm_pd_send_control_attached (tcpc : tcpc_dev) (p : tcpm_port) (t : Nat) :
    (tcpm_pd_send_control tcpc p t).1.attached = p.attached := by
  rw [tcpm_pd_send_control_frame]

@[simp] theorem tcpm_pd_send_control_pwr_role (tcpc : tcpc_dev) (p : tcpm_port) (t : Nat) :
    (tcpm_pd_send_control tcpc p t).1.pwr_role = p.pwr_role := by
  rw [tcpm_pd_send_control_frame]

@[simp] theorem tcpm_pd_send_control_data_role (tcpc : tcpc_dev) (p : tcpm_port) (t : Nat) :
    (tcpm_pd_send_control tcpc p t).1.data_role = p.data_role := by
  rw [tcpm_pd_send_control_frame]

@[simp] theorem tcpm_pd_send_control_state_machine_running (tcpc : tcpc_dev) (p : tcpm_port) (t :
    Nat) :
    (tcpm_pd_send_control tcpc p t).1.state_machine_running = p.state_machine_running := by
  rw [tcpm_pd_send_control_frame]

@[simp] theorem tcpm_pd_send_control_work (tcpc : tcpc_dev) (p : tcpm_port) (t : Nat) :
    (tcpm_pd_send_control tcpc p t).1.work = p.work := by
  rw [tcpm_pd_send_control_frame]

@[simp] theorem tcpm_pd_send_control_bug (tcpc : tcpc_dev) (p : tcpm_port) (t : Nat) :
    (tcpm_pd_send_control tcpc p t).1.bug = p.bug := by
  rw [tcpm_pd_send_control_frame]

@[simp] theorem tcpm_pd_send_control_explicit_contract (tcpc : tcpc_dev) (p : tcpm_port) (t : Nat) :
    (tcpm_pd_send_control tcpc p t).1.explicit_contract = p.explicit_contract := by
  rw [tcpm_pd_send_control_frame]

@[simp] theorem tcpm_pd_send_control_vconn_source (tcpc : tcpc_dev) (p : tcpm_port) (t : Nat) :
    (tcpm_pd_send_control tcpc p t).1.vconn_source = p.vconn_source := by
  rw [tcpm_pd_send_control_frame]

@[simp] theorem tcpm_pd_send_control_polarity (tcpc : tcpc_dev) (p : tcpm_port) (t : Nat) :
    (tcpm_pd_send_control tcpc p t).1.polarity = p.polarity := by
  rw [tcpm_pd_send_control_frame]

@[simp] theorem tcpm_pd_send_control_vbus_present (tcpc : tcpc_dev) (p : tcpm_port) (t : Nat) :
    (tcpm_pd_send_control tcpc p t).1.vbus_present = p.vbus_present := by
  rw [tcpm_pd_send_control_frame]

@[simp] theorem tcpm_pd_send_control_cc1 (tcpc : tcpc_dev) (p : tcpm_port) (t : Nat) :
    (tcpm_pd_send_control tcpc p t).1.cc1 = p.cc1 := by
  rw [tcpm_pd_send_control_frame]

@[simp] theorem tcpm_pd_send_control_cc2 (tcpc : tcpc_dev) (p : tcpm_port) (t : Nat) :
    (tcpm_pd_send_control tcpc p t).1.cc2 = p.cc2 := by
  rw [tcpm_pd_send_control_frame]

@[simp] theorem tcpm_pd_send_control_typec_caps_type (tcpc : tcpc_dev) (p : tcpm_port) (t : Nat) :
    (tcpm_pd_send_control tcpc p t).1.typec_caps_type = p.typec_caps_type := by
  rw [tcpm_pd_send_control_frame]

theorem tcpm_pd_send_source_caps_frame (tcpc : tcpc_dev) (p : tcpm_port) :
    (tcpm_pd_send_source_caps tcpc p).1 =
      { p with
        message_id := (tcpm_pd_send_source_caps tcpc p).1.message_id
        trace := (tcpm_pd_send_source_caps tcpc p).1.trace
        tx_status := (tcpm_pd_send_source_caps tcpc p).1.tx_status } := by
  simp only [tcpm_pd_send_source_caps, tcpm_pd_transmit, tcpc_op]
  repeat' split
  all_goals rfl

@[simp] theorem tcpm_pd_send_source_caps_state (tcpc : tcpc_dev) (p : tcpm_port) :
    (tcpm_pd_send_source_caps tcpc p).1.state = p.state := by
  rw [tcpm_pd_send_source_caps_frame]

@[simp] theorem tcpm_pd_send_source_caps_prev_state (tcpc : tcpc_dev) (p : tcpm_port) :
    (tcpm_pd_send_source_caps tcpc p).1.prev_state = p.prev_state := by
  rw [tcpm_pd_send_source_caps_frame]

@[simp] theorem tcpm_pd_send_source_caps_delayed_state (tcpc : tcpc_dev) (p : tcpm_port) :
    (tcpm_pd_send_source_caps tcpc p).1.delayed_state = p.delayed_state := by
  rw [tcpm_pd_send_source_caps_frame]

@[simp] theorem tcpm_pd_send_source_caps_hard_reset_count (tcpc : tcpc_dev) (p : tcpm_port) :
    (tcpm_pd_send_source_caps tcpc p).1.hard_reset_count = p.hard_reset_count := by
  rw [tcpm_pd_send_source_caps_frame]

@[simp] theorem tcpm_pd_send_source_caps_attached (tcpc : tcpc_dev) (p : tcpm_port) :
    (tcpm_pd_send_source_caps tcpc p).1.attached = p.attached := by
  rw [tcpm_pd_send_source_caps_frame]

@[simp] theorem tcpm_pd_send_source_caps_pwr_role (tcpc : tcpc_dev) (p : tcpm_port) :
    (tcpm_pd_send_source_caps tcpc p).1.pwr_role = p.pwr_role := by
  rw [tcpm_pd_send_source_caps_frame]

@[simp] theorem tcpm_pd_send_source_caps_data_role (tcpc : tcpc_dev) (p : tcpm_port) :
    (tcpm_pd_send_source_caps tcpc p).1.data_role = p.data_role := by
  rw [tcpm_pd_send_source_caps_frame]

@[simp] theorem tcpm_pd_send_source_caps_state_machine_running (tcpc : tcpc_dev) (p : tcpm_port) :
    (tcpm_pd_send_source_caps tcpc p).1.state_machine_running = p.state_machine_running := by
  rw [tcpm_pd_send_source_caps_frame]

@[simp] theorem tcpm_pd_send_source_caps_work (tcpc : tcpc_dev) (p : tcpm_port) :
    (tcpm_pd_send_source_caps tcpc p).1.work = p.work := by
  rw [tcpm_pd_send_source_caps_frame]

@[simp] theorem tcpm_pd_send_source_caps_bug (tcpc : tcpc_dev) (p : tcpm_port) :
    (tcpm_pd_send_source_caps tcpc p).1.bug = p.bug := by
  rw [tcpm_pd_send_source_caps_frame]

@[simp] theorem tcpm_pd_send_source_caps_explicit_contract (tcpc : tcpc_dev) (p : tcpm_port) :
    (tcpm_pd_send_source_caps tcpc p).1.explicit_contract = p.explicit_contract := by
  rw [tcpm_pd_send_source_caps_frame]

@[simp] theorem tcpm_pd_send_source_caps_vconn_source (tcpc : tcpc_dev) (p : tcpm_port) :
    (tcpm_pd_send_source_caps tcpc p).1.vconn_source = p.vconn_source := by
  rw [tcpm_pd_send_source_caps_frame]

@[simp] theorem tcpm_pd_send_source_caps_polarity (tcpc : tcpc_dev) (p : tcpm_port) :
    (tcpm_pd_send_source_caps tcpc p).1.polarity = p.polarity := by
  rw [tcpm_pd_send_source_caps_frame]

@[simp] theorem tcpm_pd_send_source_caps_vbus_present (tcpc : tcpc_dev) (p : tcpm_port) :
    (tcpm_pd_send_source_caps tcpc p).1.vbus_present = p.vbus_present := by
  rw [tcpm_pd_send_source_caps_frame]

@[simp] theorem tcpm_pd_send_source_caps_cc1 (tcpc : tcpc_dev) (p : tcpm_port) :
    (tcpm_pd_send_source_caps tcpc p).1.cc1 = p.cc1 := by
  rw [tcpm_pd_send_source_caps_frame]

@[simp] theorem tcpm_pd_send_source_caps_cc2 (tcpc : tcpc_dev) (p : tcpm_port) :
    (tcpm_pd_send_source_caps tcpc p).1.cc2 = p.cc2 := by
  rw [tcpm_pd_send_source_caps_frame]

@[simp] theorem tcpm_pd_send_source_caps_typec_caps_type (tcpc : tcpc_dev) (p : tcpm_port) :
    (tcpm_pd_send_source_caps tcpc p).1.typec_caps_type = p.typec_caps_type := by
  rw [tcpm_pd_send_source_caps_frame]

theorem tcpm_pd_send_sink_caps_frame (tcpc : tcpc_dev) (p : tcpm_port) :
    (tcpm_pd_send_sink_caps tcpc p).1 =
      { p with
        message_id := (tcpm_pd_send_sink_caps tcpc p).1.message_id
        trace := (tcpm_pd_send_sink_caps tcpc p).1.trace
        tx_status := (tcpm_pd_send_sink_caps tcpc p).1.tx_status } := by
  simp only [tcpm_pd_send_sink_caps, tcpm_pd_transmit, tcpc_op]
  repeat' split
  all_goals rfl

@[simp] theorem tcpm_pd_send_sink_caps_state (tcpc : tcpc_dev) (p : tcpm_port) :
    (tcpm_pd_send_sink_caps tcpc p).1.state = p.state := by
  rw [tcpm_pd_send_sink_caps_frame]

@[simp] theorem tcpm_pd_send_sink_caps_prev_state (tcpc : tcpc_dev) (p : tcpm_port) :
    (tcpm_pd_send_sink_caps tcpc p).1.prev_state = p.prev_state := by
  rw [tcpm_pd_send_sink_caps_frame]

@[simp] theorem tcpm_pd_send_sink_caps_delayed_state (tcpc : tcpc_dev) (p : tcpm_port) :
    (tcpm_pd_send_sink_caps tcpc p).1.delayed_state = p.delayed_state := by
  rw [tcpm_pd_send_sink_caps_frame]

@[simp] theorem tcpm_pd_send_sink_caps_hard_reset_count (tcpc : tcpc_dev) (p : tcpm_port) :
    (tcpm_pd_send_sink_caps tcpc p).1.hard_reset_count = p.hard_reset_count := by
  rw [tcpm_pd_send_sink_caps_frame]

@[simp] theorem tcpm_pd_send_sink_caps_attached (tcpc : tcpc_dev) (p : tcpm_port) :
    (tcpm_pd_send_sink_caps tcpc p).1.attached = p.attached := by
  rw [tcpm_pd_send_sink_caps_frame]

@[simp] theorem tcpm_pd_send_sink_caps_pwr_role (tcpc : tcpc_dev) (p : tcpm_port) :
    (tcpm_pd_send_sink_caps tcpc p).1.pwr_role = p.pwr_role := by
  rw [tcpm_pd_send_sink_caps_frame]

@[simp] theorem tcpm_pd_send_sink_caps_data_role (tcpc : tcpc_dev) (p : tcpm_port) :
    (tcpm_pd_send_sink_caps tcpc p).1.data_role = p.data_role := by
  rw [tcpm_pd_send_sink_caps_frame]

@[simp] theorem tcpm_pd_send_sink_caps_state_machine_running (tcpc : tcpc_dev) (p : tcpm_port) :
    (tcpm_pd_send_sink_caps tcpc p).1.state_machine_running = p.state_machine_running := by
  rw [tcpm_pd_send_sink_caps_frame]

@[simp] theorem tcpm_pd_send_sink_caps_work (tcpc : tcpc_dev) (p : tcpm_port) :
    (tcpm_pd_send_sink_caps tcpc p).1.work = p.work := by
  rw [tcpm_pd_send_sink_caps_frame]

@[simp] theorem tcpm_pd_send_sink_caps_bug (tcpc : tcpc_dev) (p : tcpm_port) :
    (tcpm_pd_send_sink_caps tcpc p).1.bug = p.bug := by
  rw [tcpm_pd_send_sink_caps_frame]

@[simp] theorem tcpm_pd_send_sink_caps_explicit_contract (tcpc : tcpc_dev) (p : tcpm_port) :
    (tcpm_pd_send_sink_caps tcpc p).1.explicit_contract = p.explicit_contract := by
  rw [tcpm_pd_send_sink_caps_frame]

@[simp] theorem tcpm_pd_send_sink_caps_vconn_source (tcpc : tcpc_dev) (p : tcpm_port) :
    (tcpm_pd_send_sink_caps tcpc p).1.vconn_source = p.vconn_source := by
  rw [tcpm_pd_send_sink_caps_frame]

@[simp] theorem tcpm_pd_send_sink_caps_polarity (tcpc : tcpc_dev) (p : tcpm_port) :
    (tcpm_pd_send_sink_caps tcpc p).1.polarity = p.polarity := by
  rw [tcpm_pd_send_sink_caps_frame]

@[simp] theorem tcpm_pd_send_sink_caps_vbus_present (tcpc : tcpc_dev) (p : tcpm_port) :
    (tcpm_pd_send_sink_caps tcpc p).1.vbus_present = p.vbus_present := by
  rw [tcpm_pd_send_sink_caps_frame]

@[simp] theorem tcpm_pd_send_sink_caps_cc1 (tcpc : tcpc_dev) (p : tcpm_port) :
    (tcpm_pd_send_sink_caps tcpc p).1.cc1 = p.cc1 := by
  rw [tcpm_pd_send_sink_caps_frame]

@[simp] theorem tcpm_pd_send_sink_caps_cc2 (tcpc : tcpc_dev) (p : tcpm_port) :
    (tcpm_pd_send_sink_caps tcpc p).1.cc2 = p.cc2 := by
  rw [tcpm_pd_send_sink_caps_frame]

@[simp] theorem tcpm_pd_send_sink_caps_typec_caps_type (tcpc : tcpc_dev) (p : tcpm_port) :
    (tcpm_pd_send_sink_caps tcpc p).1.typec_caps_type = p.typec_caps_type := by
  rw [tcpm_pd_send_sink_caps_frame]

theorem tcpm_set_roles_frame (tcpc : tcpc_dev) (p : tcpm_port) (pwr : typec_pwr_role) (data :
    typec_data_role) :
    (tcpm_set_roles tcpc p pwr data).1 =
      { p with
        data_role := (tcpm_set_roles tcpc p pwr data).1.data_role
        pwr_role := (tcpm_set_roles tcpc p pwr data).1.pwr_role
        trace := (tcpm_set_roles tcpc p pwr data).1.trace } := by
  simp only [tcpm_set_roles, tcpc_op]
  repeat' split
  all_goals rfl

@[simp] theorem tcpm_set_roles_state (tcpc : tcpc_dev) (p : tcpm_port) (pwr : typec_pwr_role) (data
    : typec_data_role) :
    (tcpm_set_roles tcpc p pwr data).1.state = p.state := by
  rw [tcpm_set_roles_frame]

@[simp] theorem tcpm_set_roles_prev_state (tcpc : tcpc_dev) (p : tcpm_port) (pwr : typec_pwr_role)
    (data : typec_data_role) :
    (tcpm_set_roles tcpc p pwr data).1.prev_state = p.prev_state := by
  rw [tcpm_set_roles_frame]

@[simp] theorem tcpm_set_roles_delayed_state (tcpc : tcpc_dev) (p : tcpm_port) (pwr :
    typec_pwr_role) (data : typec_data_role) :
    (tcpm_set_roles tcpc p pwr data).1.delayed_state = p.delayed_state := by
  rw [tcpm_set_roles_frame]

@[simp] theorem tcpm_set_roles_hard_reset_count (tcpc : tcpc_dev) (p : tcpm_port) (pwr :
    typec_pwr_role) (data : typec_data_role) :
    (tcpm_set_roles tcpc p pwr data).1.hard_reset_count = p.hard_reset_count := by
  rw [tcpm_set_roles_frame]

@[simp] theorem tcpm_set_roles_attached (tcpc : tcpc_dev) (p : tcpm_port) (pwr : typec_pwr_role)
    (data : typec_data_role) :
    (tcpm_set_roles tcpc p pwr data).1.attached = p.attached := by
  rw [tcpm_set_roles_frame]

@[simp] theorem tcpm_set_roles_state_machine_running (tcpc : tcpc_dev) (p : tcpm_port) (pwr :
    typec_pwr_role) (data : typec_data_role) :
    (tcpm_set_roles tcpc p pwr data).1.state_machine_running = p.state_machine_running := by
  rw [tcpm_set_roles_frame]

@[simp] theorem tcpm_set_roles_work (tcpc : tcpc_dev) (p : tcpm_port) (pwr : typec_pwr_role) (data :
    typec_data_role) :
    (tcpm_set_roles tcpc p pwr data).1.work = p.work := by
  rw [tcpm_set_roles_frame]

@[simp] theorem tcpm_set_roles_bug (tcpc : tcpc_dev) (p : tcpm_port) (pwr : typec_pwr_role) (data :
    typec_data_role) :
    (tcpm_set_roles tcpc p pwr data).1.bug = p.bug := by
  rw [tcpm_set_roles_frame]

@[simp] theorem tcpm_set_roles_explicit_contract (tcpc : tcpc_dev) (p : tcpm_port) (pwr :
    typec_pwr_role) (data : typec_data_role) :
    (tcpm_set_roles tcpc p pwr data).1.explicit_contract = p.explicit_contract := by
  rw [tcpm_set_roles_frame]

@[simp] theorem tcpm_set_roles_vconn_source (tcpc : tcpc_dev) (p : tcpm_port) (pwr : typec_pwr_role)
    (data : typec_data_role) :
    (tcpm_set_roles tcpc p pwr data).1.vconn_source = p.vconn_source := by
  rw [tcpm_set_roles_frame]

@[simp] theorem tcpm_set_roles_message_id (tcpc : tcpc_dev) (p : tcpm_port) (pwr : typec_pwr_role)
    (data : typec_data_role) :
    (tcpm_set_roles tcpc p pwr data).1.message_id = p.message_id := by
  rw [tcpm_set_roles_frame]

@[simp] theorem tcpm_set_roles_polarity (tcpc : tcpc_dev) (p : tcpm_port) (pwr : typec_pwr_role)
    (data : typec_data_role) :
    (tcpm_set_roles tcpc p pwr data).1.polarity = p.polarity := by
  rw [tcpm_set_roles_frame]

@[simp] theorem tcpm_set_roles_vbus_present (tcpc : tcpc_dev) (p : tcpm_port) (pwr : typec_pwr_role)
    (data : typec_data_role) :
    (tcpm_set_roles tcpc p pwr data).1.vbus_present = p.vbus_present := by
  rw [tcpm_set_roles_frame]

@[simp] theorem tcpm_set_roles_cc1 (tcpc : tcpc_dev) (p : tcpm_port) (pwr : typec_pwr_role) (data :
    typec_data_role) :
    (tcpm_set_roles tcpc p pwr data).1.cc1 = p.cc1 := by
  rw [tcpm_set_roles_frame]

@[simp] theorem tcpm_set_roles_cc2 (tcpc : tcpc_dev) (p : tcpm_port) (pwr : typec_pwr_role) (data :
    typec_data_role) :
    (tcpm_set_roles tcpc p pwr data).1.cc2 = p.cc2 := by
  rw [tcpm_set_roles_frame]

@[simp] theorem tcpm_set_roles_typec_caps_type (tcpc : tcpc_dev) (p : tcpm_port) (pwr :
    typec_pwr_role) (data : typec_data_role) :
    (tcpm_set_roles tcpc p pwr data).1.typec_caps_type = p.typec_caps_type := by
  rw [tcpm_set_roles_frame]

theorem tcpm_src_detach_frame (tcpc : tcpc_dev) (p : tcpm_port) :
    (tcpm_src_detach tcpc p) =
      { p with
        attached := (tcpm_src_detach tcpc p).attached
        trace := (tcpm_src_detach tcpc p).trace
        vconn_source := (tcpm_src_detach tcpc p).vconn_source } := by
  simp only [tcpm_src_detach, tcpc_do, tcpc_op, typec_notify]
  repeat' split
  all_goals rfl

@[simp] theorem tcpm_src_detach_state (tcpc : tcpc_dev) (p : tcpm_port) :
    (tcpm_src_detach tcpc p).state = p.state := by
  rw [tcpm_src_detach_frame]

@[simp] theorem tcpm_src_detach_prev_state (tcpc : tcpc_dev) (p : tcpm_port) :
    (tcpm_src_detach tcpc p).prev_state = p.prev_state := by
  rw [tcpm_src_detach_frame]

@[simp] theorem tcpm_src_detach_delayed_state (tcpc : tcpc_dev) (p : tcpm_port) :
    (tcpm_src_detach tcpc p).delayed_state = p.delayed_state := by
  rw [tcpm_src_detach_frame]

@[simp] theorem tcpm_src_detach_hard_reset_count (tcpc : tcpc_dev) (p : tcpm_port) :
    (tcpm_src_detach tcpc p).hard_reset_count = p.hard_reset_count := by
  rw [tcpm_src_detach_frame]

@[simp] theorem tcpm_src_detach_pwr_role (tcpc : tcpc_dev) (p : tcpm_port) :
    (tcpm_src_detach tcpc p).pwr_role = p.pwr_role := by
  rw [tcpm_src_detach_frame]

@[simp] theorem tcpm_src_detach_data_role (tcpc : tcpc_dev) (p : tcpm_port) :
    (tcpm_src_detach tcpc p).data_role = p.data_role := by
  rw [tcpm_src_detach_frame]

@[simp] theorem tcpm_src_detach_state_machine_running (tcpc : tcpc_dev) (p : tcpm_port) :
    (tcpm_src_detach tcpc p).state_machine_running = p.state_machine_running := by
  rw [tcpm_src_detach_frame]

@[simp] theorem tcpm_src_detach_work (tcpc : tcpc_dev) (p : tcpm_port) :
    (tcpm_src_detach tcpc p).work = p.work := by
  rw [tcpm_src_detach_frame]

@[simp] theorem tcpm_src_detach_bug (tcpc : tcpc_dev) (p : tcpm_port) :
    (tcpm_src_detach tcpc p).bug = p.bug := by
  rw [tcpm_src_detach_frame]

@[simp] theorem tcpm_src_detach_explicit_contract (tcpc : tcpc_dev) (p : tcpm_port) :
    (tcpm_src_detach tcpc p).explicit_contract = p.explicit_contract := by
  rw [tcpm_src_detach_frame]

@[simp] theorem tcpm_src_detach_message_id (tcpc : tcpc_dev) (p : tcpm_port) :
    (tcpm_src_detach tcpc p).message_id = p.message_id := by
  rw [tcpm_src_detach_frame]

@[simp] theorem tcpm_src_detach_polarity (tcpc : tcpc_dev) (p : tcpm_port) :
    (tcpm_src_detach tcpc p).polarity = p.polarity := by
  rw [tcpm_src_detach_frame]

@[simp] theorem tcpm_src_detach_vbus_present (tcpc : tcpc_dev) (p : tcpm_port) :
    (tcpm_src_detach tcpc p).vbus_present = p.vbus_present := by
  rw [tcpm_src_detach_frame]

@[simp] theorem tcpm_src_detach_cc1 (tcpc : tcpc_dev) (p : tcpm_port) :
    (tcpm_src_detach tcpc p).cc1 = p.cc1 := by
  rw [tcpm_src_detach_frame]

@[simp] theorem tcpm_src_detach_cc2 (tcpc : tcpc_dev) (p : tcpm_port) :
    (tcpm_src_detach tcpc p).cc2 = p.cc2 := by
  rw [tcpm_src_detach_frame]

@[simp] theorem tcpm_src_detach_typec_caps_type (tcpc : tcpc_dev) (p : tcpm_port) :
    (tcpm_src_detach tcpc p).typec_caps_type = p.typec_caps_type := by
  rw [tcpm_src_detach_frame]

theorem tcpm_snk_detach_frame (tcpc : tcpc_dev) (p : tcpm_port) :
    (tcpm_snk_detach tcpc p) =
      { p with
        attached := (tcpm_snk_detach tcpc p).attached
        trace := (tcpm_snk_detach tcpc p).trace
        vconn_source := (tcpm_snk_detach tcpc p).vconn_source } := by
  simp only [tcpm_snk_detach, tcpc_do, tcpc_op, typec_notify]
  repeat' split
  all_goals rfl

@[simp] theorem tcpm_snk_detach_state (tcpc : tcpc_dev) (p : tcpm_port) :
    (tcpm_snk_detach tcpc p).state = p.state := by
  rw [tcpm_snk_detach_frame]

@[simp] theorem tcpm_snk_detach_prev_state (tcpc : tcpc_dev) (p : tcpm_port) :
    (tcpm_snk_detach tcpc p).prev_state = p.prev_state := by
  rw [tcpm_snk_detach_frame]

@[simp] theorem tcpm_snk_detach_delayed_state (tcpc : tcpc_dev) (p : tcpm_port) :
    (tcpm_snk_detach tcpc p).delayed_state = p.delayed_state := by
  rw [tcpm_snk_detach_frame]

@[simp] theorem tcpm_snk_detach_hard_reset_count (tcpc : tcpc_dev) (p : tcpm_port) :
    (tcpm_snk_detach tcpc p).hard_reset_count = p.hard_reset_count := by
  rw [tcpm_snk_detach_frame]

@[simp] theorem tcpm_snk_detach_pwr_role (tcpc : tcpc_dev) (p : tcpm_port) :
    (tcpm_snk_detach tcpc p).pwr_role = p.pwr_role := by
  rw [tcpm_snk_detach_frame]

@[simp] theorem tcpm_snk_detach_data_role (tcpc : tcpc_dev) (p : tcpm_port) :
    (tcpm_snk_detach tcpc p).data_role = p.data_role := by
  rw [tcpm_snk_detach_frame]

@[simp] theorem tcpm_snk_detach_state_machine_running (tcpc : tcpc_dev) (p : tcpm_port) :
    (tcpm_snk_detach tcpc p).state_machine_running = p.state_machine_running := by
  rw [tcpm_snk_detach_frame]

@[simp] theorem tcpm_snk_detach_work (tcpc : tcpc_dev) (p : tcpm_port) :
    (tcpm_snk_detach tcpc p).work = p.work := by
  rw [tcpm_snk_detach_frame]

@[simp] theorem tcpm_snk_detach_bug (tcpc : tcpc_dev) (p : tcpm_port) :
    (tcpm_snk_detach tcpc p).bug = p.bug := by
  rw [tcpm_snk_detach_frame]

@[simp] theorem tcpm_snk_detach_explicit_contract (tcpc : tcpc_dev) (p : tcpm_port) :
    (tcpm_snk_detach tcpc p).explicit_contract = p.explicit_contract := by
  rw [tcpm_snk_detach_frame]

@[simp] theorem tcpm_snk_detach_message_id (tcpc : tcpc_dev) (p : tcpm_port) :
    (tcpm_snk_detach tcpc p).message_id = p.message_id := by
  rw [tcpm_snk_detach_frame]

@[simp] theorem tcpm_snk_detach_polarity (tcpc : tcpc_dev) (p : tcpm_port) :
    (tcpm_snk_detach tcpc p).polarity = p.polarity := by
  rw [tcpm_snk_detach_frame]

@[simp] theorem tcpm_snk_detach_vbus_present (tcpc : tcpc_dev) (p : tcpm_port) :
    (tcpm_snk_detach tcpc p).vbus_present = p.vbus_present := by
  rw [tcpm_snk_detach_frame]

@[simp] theorem tcpm_snk_detach_cc1 (tcpc : tcpc_dev) (p : tcpm_port) :
    (tcpm_snk_detach tcpc p).cc1 = p.cc1 := by
  rw [tcpm_snk_detach_frame]

@[simp] theorem tcpm_snk_detach_cc2 (tcpc : tcpc_dev) (p : tcpm_port) :
    (tcpm_snk_detach tcpc p).cc2 = p.cc2 := by
  rw [tcpm_snk_detach_frame]

@[simp] theorem tcpm_snk_detach_typec_caps_type (tcpc : tcpc_dev) (p : tcpm_port) :
    (tcpm_snk_detach tcpc p).typec_caps_type = p.typec_caps_type := by
  rw [tcpm_snk_detach_frame]

@[simp] theorem tcpm_acc_detach_state (p : tcpm_port) :
    (tcpm_acc_detach p).state = p.state := rfl

@[simp] theorem tcpm_acc_detach_prev_state (p : tcpm_port) :
    (tcpm_acc_detach p).prev_state = p.prev_state := rfl

@[simp] theorem tcpm_acc_detach_delayed_state (p : tcpm_port) :
    (tcpm_acc_detach p).delayed_state = p.delayed_state := rfl

@[simp] theorem tcpm_acc_detach_hard_reset_count (p : tcpm_port) :
    (tcpm_acc_detach p).hard_reset_count = p.hard_reset_count := rfl

@[simp] theorem tcpm_acc_detach_pwr_role (p : tcpm_port) :
    (tcpm_acc_detach p).pwr_role = p.pwr_role := rfl

@[simp] theorem tcpm_acc_detach_data_role (p : tcpm_port) :
    (tcpm_acc_detach p).data_role = p.data_role := rfl

@[simp] theorem tcpm_acc_detach_state_machine_running (p : tcpm_port) :
    (tcpm_acc_detach p).state_machine_running = p.state_machine_running := rfl

@[simp] theorem tcpm_acc_detach_work (p : tcpm_port) :
    (tcpm_acc_detach p).work = p.work := rfl

@[simp] theorem tcpm_acc_detach_bug (p : tcpm_port) :
    (tcpm_acc_detach p).bug = p.bug := rfl

@[simp] theorem tcpm_acc_detach_explicit_contract (p : tcpm_port) :
    (tcpm_acc_detach p).explicit_contract = p.explicit_contract := rfl

@[simp] theorem tcpm_acc_detach_vconn_source (p : tcpm_port) :
    (tcpm_acc_detach p).vconn_source = p.vconn_source := rfl

@[simp] theorem tcpm_acc_detach_message_id (p : tcpm_port) :
    (tcpm_acc_detach p).message_id = p.message_id := rfl

@[simp] theorem tcpm_acc_detach_polarity (p : tcpm_port) :
    (tcpm_acc_detach p).polarity = p.polarity := rfl

@[simp] theorem tcpm_acc_detach_vbus_present (p : tcpm_port) :
    (tcpm_acc_detach p).vbus_present = p.vbus_present := rfl

@[simp] theorem tcpm_acc_detach_cc1 (p : tcpm_port) :
    (tcpm_acc_detach p).cc1 = p.cc1 := rfl

@[simp] theorem tcpm_acc_detach_cc2 (p : tcpm_port) :
    (tcpm_acc_detach p).cc2 = p.cc2 := rfl

@[simp] theorem tcpm_acc_detach_typec_caps_type (p : tcpm_port) :
    (tcpm_acc_detach p).typec_caps_type = p.typec_caps_type := rfl

theorem tcpm_src_attach_frame (tcpc : tcpc_dev) (p : tcpm_port) :
    (tcpm_src_attach tcpc p).1 =
      { p with
        attached := (tcpm_src_attach tcpc p).1.attached
        data_role := (tcpm_src_attach tcpc p).1.data_role
        hard_reset_count := (tcpm_src_attach tcpc p).1.hard_reset_count
        pd_capable := (tcpm_src_attach tcpc p).1.pd_capable
        polarity := (tcpm_src_attach tcpc p).1.polarity
        pwr_role := (tcpm_src_attach tcpc p).1.pwr_role
        trace := (tcpm_src_attach tcpc p).1.trace
        vconn_source := (tcpm_src_attach tcpc p).1.vconn_source } := by
  simp only [tcpm_src_attach, tcpm_set_roles, tcpc_do, tcpc_op, typec_notify]
  repeat' split
  all_goals rfl

@[simp] theorem tcpm_src_attach_state (tcpc : tcpc_dev) (p : tcpm_port) :
    (tcpm_src_attach tcpc p).1.state = p.state := by
  rw [tcpm_src_attach_frame]

@[simp] theorem tcpm_src_attach_prev_state (tcpc : tcpc_dev) (p : tcpm_port) :
    (tcpm_src_attach tcpc p).1.prev_state = p.prev_state := by
  rw [tcpm_src_attach_frame]

@[simp] theorem tcpm_src_attach_delayed_state (tcpc : tcpc_dev) (p : tcpm_port) :
    (tcpm_src_attach tcpc p).1.delayed_state = p.delayed_state := by
  rw [tcpm_src_attach_frame]

@[simp] theorem tcpm_src_attach_state_machine_running (tcpc : tcpc_dev) (p : tcpm_port) :
    (tcpm_src_attach tcpc p).1.state_machine_running = p.state_machine_running := by
  rw [tcpm_src_attach_frame]

@[simp] theorem tcpm_src_attach_work (tcpc : tcpc_dev) (p : tcpm_port) :
    (tcpm_src_attach tcpc p).1.work = p.work := by
  rw [tcpm_src_attach_frame]

@[simp] theorem tcpm_src_attach_bug (tcpc : tcpc_dev) (p : tcpm_port) :
    (tcpm_src_attach tcpc p).1.bug = p.bug := by
  rw [tcpm_src_attach_frame]

@[simp] theorem tcpm_src_attach_explicit_contract (tcpc : tcpc_dev) (p : tcpm_port) :
    (tcpm_src_attach tcpc p).1.explicit_contract = p.explicit_contract := by
  rw [tcpm_src_attach_frame]

@[simp] theorem tcpm_src_attach_message_id (tcpc : tcpc_dev) (p : tcpm_port) :
    (tcpm_src_attach tcpc p).1.message_id = p.message_id := by
  rw [tcpm_src_attach_frame]

@[simp] theorem tcpm_src_attach_vbus_present (tcpc : tcpc_dev) (p : tcpm_port) :
    (tcpm_src_attach tcpc p).1.vbus_present = p.vbus_present := by
  rw [tcpm_src_attach_frame]

@[simp] theorem tcpm_src_attach_cc1 (tcpc : tcpc_dev) (p : tcpm_port) :
    (tcpm_src_attach tcpc p).1.cc1 = p.cc1 := by
  rw [tcpm_src_attach_frame]

@[simp] theorem tcpm_src_attach_cc2 (tcpc : tcpc_dev) (p : tcpm_port) :
    (tcpm_src_attach tcpc p).1.cc2 = p.cc2 := by
  rw [tcpm_src_attach_frame]

@[simp] theorem tcpm_src_attach_typec_caps_type (tcpc : tcpc_dev) (p : tcpm_port) :
    (tcpm_src_attach tcpc p).1.typec_caps_type = p.typec_caps_type := by
  rw [tcpm_src_attach_frame]

theorem tcpm_snk_attach_frame (tcpc : tcpc_dev) (p : tcpm_port) :
    (tcpm_snk_attach tcpc p).1 =
      { p with
        attached := (tcpm_snk_attach tcpc p).1.attached
        data_role := (tcpm_snk_attach tcpc p).1.data_role
        hard_reset_count := (tcpm_snk_attach tcpc p).1.hard_reset_count
        pd_capable := (tcpm_snk_attach tcpc p).1.pd_capable
        polarity := (tcpm_snk_attach tcpc p).1.polarity
        pwr_role := (tcpm_snk_attach tcpc p).1.pwr_role
        trace := (tcpm_snk_attach tcpc p).1.trace
        vconn_source := (tcpm_snk_attach tcpc p).1.vconn_source } := by
  simp only [tcpm_snk_attach, tcpm_set_roles, tcpc_do, tcpc_op, typec_notify]
  repeat' split
  all_goals rfl

@[simp] theorem tcpm_snk_attach_state (tcpc : tcpc_dev) (p : tcpm_port) :
    (tcpm_snk_attach tcpc p).1.state = p.state := by
  rw [tcpm_snk_attach_frame]

@[simp] theorem tcpm_snk_attach_prev_state (tcpc : tcpc_dev) (p : tcpm_port) :
    (tcpm_snk_attach tcpc p).1.prev_state = p.prev_state := by
  rw [tcpm_snk_attach_frame]

@[simp] theorem tcpm_snk_attach_delayed_state (tcpc : tcpc_dev) (p : tcpm_port) :
    (tcpm_snk_attach tcpc p).1.delayed_state = p.delayed_state := by
  rw [tcpm_snk_attach_frame]

@[simp] theorem tcpm_snk_attach_state_machine_running (tcpc : tcpc_dev) (p : tcpm_port) :
    (tcpm_snk_attach tcpc p).1.state_machine_running = p.state_machine_running := by
  rw [tcpm_snk_attach_frame]

@[simp] theorem tcpm_snk_attach_work (tcpc : tcpc_dev) (p : tcpm_port) :
    (tcpm_snk_attach tcpc p).1.work = p.work := by
  rw [tcpm_snk_attach_frame]

@[simp] theorem tcpm_snk_attach_bug (tcpc : tcpc_dev) (p : tcpm_port) :
    (tcpm_snk_attach tcpc p).1.bug = p.bug := by
  rw [tcpm_snk_attach_frame]

@[simp] theorem tcpm_snk_attach_explicit_contract (tcpc : tcpc_dev) (p : tcpm_port) :
    (tcpm_snk_attach tcpc p).1.explicit_contract = p.explicit_contract := by
  rw [tcpm_snk_attach_frame]

@[simp] theorem tcpm_snk_attach_message_id (tcpc : tcpc_dev) (p : tcpm_port) :
    (tcpm_snk_attach tcpc p).1.message_id = p.message_id := by
  rw [tcpm_snk_attach_frame]

@[simp] theorem tcpm_snk_attach_vbus_present (tcpc : tcpc_dev) (p : tcpm_port) :
    (tcpm_snk_attach tcpc p).1.vbus_present = p.vbus_present := by
  rw [tcpm_snk_attach_frame]

@[simp] theorem tcpm_snk_attach_cc1 (tcpc : tcpc_dev) (p : tcpm_port) :
    (tcpm_snk_attach tcpc p).1.cc1 = p.cc1 := by
  rw [tcpm_snk_attach_frame]

@[simp] theorem tcpm_snk_attach_cc2 (tcpc : tcpc_dev) (p : tcpm_port) :
    (tcpm_snk_attach tcpc p).1.cc2 = p.cc2 := by
  rw [tcpm_snk_attach_frame]

@[simp] theorem tcpm_snk_attach_typec_caps_type (tcpc : tcpc_dev) (p : tcpm_port) :
    (tcpm_snk_attach tcpc p).1.typec_caps_type = p.typec_caps_type := by
  rw [tcpm_snk_attach_frame]

theorem tcpm_acc_attach_frame (tcpc : tcpc_dev) (p : tcpm_port) :
    (tcpm_acc_attach tcpc p).1 =
      { p with
        attached := (tcpm_acc_attach tcpc p).1.attached
        data_role := (tcpm_acc_attach tcpc p).1.data_role
        pwr_role := (tcpm_acc_attach tcpc p).1.pwr_role
        trace := (tcpm_acc_attach tcpc p).1.trace } := by
  simp only [tcpm_acc_attach, tcpm_set_roles, tcpc_do, tcpc_op, typec_notify]
  repeat' split
  all_goals rfl

@[simp] theorem tcpm_acc_attach_state (tcpc : tcpc_dev) (p : tcpm_port) :
    (tcpm_acc_attach tcpc p).1.state = p.state := by
  rw [tcpm_acc_attach_frame]

@[simp] theorem tcpm_acc_attach_prev_state (tcpc : tcpc_dev) (p : tcpm_port) :
    (tcpm_acc_attach tcpc p).1.prev_state = p.prev_state := by
  rw [tcpm_acc_attach_frame]

@[simp] theorem tcpm_acc_attach_delayed_state (tcpc : tcpc_dev) (p : tcpm_port) :
    (tcpm_acc_attach tcpc p).1.delayed_state = p.delayed_state := by
  rw [tcpm_acc_attach_frame]

@[simp] theorem tcpm_acc_attach_hard_reset_count (tcpc : tcpc_dev) (p : tcpm_port) :
    (tcpm_acc_attach tcpc p).1.hard_reset_count = p.hard_reset_count := by
  rw [tcpm_acc_attach_frame]

@[simp] theorem tcpm_acc_attach_state_machine_running (tcpc : tcpc_dev) (p : tcpm_port) :
    (tcpm_acc_attach tcpc p).1.state_machine_running = p.state_machine_running := by
  rw [tcpm_acc_attach_frame]

@[simp] theorem tcpm_acc_attach_work (tcpc : tcpc_dev) (p : tcpm_port) :
    (tcpm_acc_attach tcpc p).1.work = p.work := by
  rw [tcpm_acc_attach_frame]

@[simp] theorem tcpm_acc_attach_bug (tcpc : tcpc_dev) (p : tcpm_port) :
    (tcpm_acc_attach tcpc p).1.bug = p.bug := by
  rw [tcpm_acc_attach_frame]

@[simp] theorem tcpm_acc_attach_explicit_contract (tcpc : tcpc_dev) (p : tcpm_port) :
    (tcpm_acc_attach tcpc p).1.explicit_contract = p.explicit_contract := by
  rw [tcpm_acc_attach_frame]

@[simp] theorem tcpm_acc_attach_vconn_source (tcpc : tcpc_dev) (p : tcpm_port) :
    (tcpm_acc_attach tcpc p).1.vconn_source = p.vconn_source := by
  rw [tcpm_acc_attach_frame]

@[simp] theorem tcpm_acc_attach_message_id (tcpc : tcpc_dev) (p : tcpm_port) :
    (tcpm_acc_attach tcpc p).1.message_id = p.message_id := by
  rw [tcpm_acc_attach_frame]

@[simp] theorem tcpm_acc_attach_polarity (tcpc : tcpc_dev) (p : tcpm_port) :
    (tcpm_acc_attach tcpc p).1.polarity = p.polarity := by
  rw [tcpm_acc_attach_frame]

@[simp] theorem tcpm_acc_attach_vbus_present (tcpc : tcpc_dev) (p : tcpm_port) :
    (tcpm_acc_attach tcpc p).1.vbus_present = p.vbus_present := by
  rw [tcpm_acc_attach_frame]

@[simp] theorem tcpm_acc_attach_cc1 (tcpc : tcpc_dev) (p : tcpm_port) :
    (tcpm_acc_attach tcpc p).1.cc1 = p.cc1 := by
  rw [tcpm_acc_attach_frame]

@[simp] theorem tcpm_acc_attach_cc2 (tcpc : tcpc_dev) (p : tcpm_port) :
    (tcpm_acc_attach tcpc p).1.cc2 = p.cc2 := by
  rw [tcpm_acc_attach_frame]

@[simp] theorem tcpm_acc_attach_typec_caps_type (tcpc : tcpc_dev) (p : tcpm_port) :
    (tcpm_acc_attach tcpc p).1.typec_caps_type = p.typec_caps_type := by
  rw [tcpm_acc_attach_frame]

/-! ## The fields after `tcpm_set_state` -/

@[simp] theorem tcpm_set_state_state (p : tcpm_port) (s : tcpm_state) (d : Nat) :
    (tcpm_set_state p s d).state = if d = 0 then s else p.state := by
  unfold tcpm_set_state
  by_cases h : d = 0 <;>
    simp only [h, ne_eq, not_true_eq_false, not_false_eq_true, if_true, if_false]
  split <;> rfl

@[simp] theorem tcpm_set_state_prev_state (p : tcpm_port) (s : tcpm_state) (d : Nat) :
    (tcpm_set_state p s d).prev_state = if d = 0 then p.state else p.prev_state := by
  unfold tcpm_set_state
  by_cases h : d = 0 <;>
    simp only [h, ne_eq, not_true_eq_false, not_false_eq_true, if_true, if_false]
  split <;> rfl

@[simp] theorem tcpm_set_state_delayed_state (p : tcpm_port) (s : tcpm_state) (d : Nat) :
    (tcpm_set_state p s d).delayed_state = if d = 0 then INVALID_STATE else s := by
  unfold tcpm_set_state
  by_cases h : d = 0 <;>
    simp only [h, ne_eq, not_true_eq_false, not_false_eq_true, if_true, if_false]
  split <;> rfl

@[simp] theorem tcpm_set_state_hard_reset_count (p : tcpm_port) (s : tcpm_state) (d : Nat) :
    (tcpm_set_state p s d).hard_reset_count = p.hard_reset_count := by
  unfold tcpm_set_state
  by_cases h : d = 0 <;>
    simp only [h, ne_eq, not_true_eq_false, not_false_eq_true, if_true, if_false]
  split <;> rfl

@[simp] theorem tcpm_set_state_attached (p : tcpm_port) (s : tcpm_state) (d : Nat) :
    (tcpm_set_state p s d).attached = p.attached := by
  unfold tcpm_set_state
  by_cases h : d = 0 <;>
    simp only [h, ne_eq, not_true_eq_false, not_false_eq_true, if_true, if_false]
  split <;> rfl

@[simp] theorem tcpm_set_state_pwr_role (p : tcpm_port) (s : tcpm_state) (d : Nat) :
    (tcpm_set_state p s d).pwr_role = p.pwr_role := by
  unfold tcpm_set_state
  by_cases h : d = 0 <;>
    simp only [h, ne_eq, not_true_eq_false, not_false_eq_true, if_true, if_false]
  split <;> rfl

@[simp] theorem tcpm_set_state_data_role (p : tcpm_port) (s : tcpm_state) (d : Nat) :
    (tcpm_set_state p s d).data_role = p.data_role := by
  unfold tcpm_set_state
  by_cases h : d = 0 <;>
    simp only [h, ne_eq, not_true_eq_false, not_false_eq_true, if_true, if_false]
  split <;> rfl

@[simp] theorem tcpm_set_state_state_machine_running (p : tcpm_port) (s : tcpm_state) (d : Nat) :
    (tcpm_set_state p s d).state_machine_running = p.state_machine_running := by
  unfold tcpm_set_state
  by_cases h : d = 0 <;>
    simp only [h, ne_eq, not_true_eq_false, not_false_eq_true, if_true, if_false]
  split <;> rfl

@[simp] theorem tcpm_set_state_work (p : tcpm_port) (s : tcpm_state) (d : Nat) :
    (tcpm_set_state p s d).work = if d = 0 then (if p.state_machine_running then p.work else some 0)
        else some d := by
  unfold tcpm_set_state
  by_cases h : d = 0 <;>
    simp only [h, ne_eq, not_true_eq_false, not_false_eq_true, if_true, if_false]
  split <;> rfl

@[simp] theorem tcpm_set_state_bug (p : tcpm_port) (s : tcpm_state) (d : Nat) :
    (tcpm_set_state p s d).bug = p.bug := by
  unfold tcpm_set_state
  by_cases h : d = 0 <;>
    simp only [h, ne_eq, not_true_eq_false, not_false_eq_true, if_true, if_false]
  split <;> rfl

@[simp] theorem tcpm_set_state_explicit_contract (p : tcpm_port) (s : tcpm_state) (d : Nat) :
    (tcpm_set_state p s d).explicit_contract = p.explicit_contract := by
  unfold tcpm_set_state
  by_cases h : d = 0 <;>
    simp only [h, ne_eq, not_true_eq_false, not_false_eq_true, if_true, if_false]
  split <;> rfl

@[simp] theorem tcpm_set_state_vconn_source (p : tcpm_port) (s : tcpm_state) (d : Nat) :
    (tcpm_set_state p s d).vconn_source = p.vconn_source := by
  unfold tcpm_set_state
  by_cases h : d = 0 <;>
    simp only [h, ne_eq, not_true_eq_false, not_false_eq_true, if_true, if_false]
  split <;> rfl

@[simp] theorem tcpm_set_state_message_id (p : tcpm_port) (s : tcpm_state) (d : Nat) :
    (tcpm_set_state p s d).message_id = p.message_id := by
  unfold tcpm_set_state
  by_cases h : d = 0 <;>
    simp only [h, ne_eq, not_true_eq_false, not_false_eq_true, if_true, if_false]
  split <;> rfl

@[simp] theorem tcpm_set_state_polarity (p : tcpm_port) (s : tcpm_state) (d : Nat) :
    (tcpm_set_state p s d).polarity = p.polarity := by
  unfold tcpm_set_state
  by_cases h : d = 0 <;>
    simp only [h, ne_eq, not_true_eq_false, not_false_eq_true, if_true, if_false]
  split <;> rfl

@[simp] theorem tcpm_set_state_vbus_present (p : tcpm_port) (s : tcpm_state) (d : Nat) :
    (tcpm_set_state p s d).vbus_present = p.vbus_present := by
  unfold tcpm_set_state
  by_cases h : d = 0 <;>
    simp only [h, ne_eq, not_true_eq_false, not_false_eq_true, if_true, if_false]
  split <;> rfl

@[simp] theorem tcpm_set_state_cc1 (p : tcpm_port) (s : tcpm_state) (d : Nat) :
    (tcpm_set_state p s d).cc1 = p.cc1 := by
  unfold tcpm_set_state
  by_cases h : d = 0 <;>
    simp only [h, ne_eq, not_true_eq_false, not_false_eq_true, if_true, if_false]
  split <;> rfl

@[simp] theorem tcpm_set_state_cc2 (p : tcpm_port) (s : tcpm_state) (d : Nat) :
    (tcpm_set_state p s d).cc2 = p.cc2 := by
  unfold tcpm_set_state
  by_cases h : d = 0 <;>
    simp only [h, ne_eq, not_true_eq_false, not_false_eq_true, if_true, if_false]
  split <;> rfl

@[simp] theorem tcpm_set_state_typec_caps_type (p : tcpm_port) (s : tcpm_state) (d : Nat) :
    (tcpm_set_state p s d).typec_caps_type = p.typec_caps_type := by
  unfold tcpm_set_state
  by_cases h : d = 0 <;>
    simp only [h, ne_eq, not_true_eq_false, not_false_eq_true, if_true, if_false]
  split <;> rfl

@[simp] theorem tcpm_set_state_trace (p : tcpm_port) (s : tcpm_state) (d : Nat) :
    (tcpm_set_state p s d).trace = p.trace := by
  unfold tcpm_set_state
  by_cases h : d = 0 <;>
    simp only [h, ne_eq, not_true_eq_false, not_false_eq_true, if_true, if_false]
  split <;> rfl

@[simp] theorem tcpm_set_state_tx_status (p : tcpm_port) (s : tcpm_state) (d : Nat) :
    (tcpm_set_state p s d).tx_status = p.tx_status := by
  unfold tcpm_set_state
  by_cases h : d = 0 <;>
    simp only [h, ne_eq, not_true_eq_false, not_false_eq_true, if_true, if_false]
  split <;> rfl

@[simp] theorem tcpm_set_state_swap_complete (p : tcpm_port) (s : tcpm_state) (d : Nat) :
    (tcpm_set_state p s d).swap_complete = p.swap_complete := by
  unfold tcpm_set_state
  by_cases h : d = 0 <;>
    simp only [h, ne_eq, not_true_eq_false, not_false_eq_true, if_true, if_false]
  split <;> rfl

@[simp] theorem tcpm_set_state_swap_status (p : tcpm_port) (s : tcpm_state) (d : Nat) :
    (tcpm_set_state p s d).swap_status = p.swap_status := by
  unfold tcpm_set_state
  by_cases h : d = 0 <;>
    simp only [h, ne_eq, not_true_eq_false, not_false_eq_true, if_true, if_false]
  split <;> rfl

@[simp] theorem tcpm_set_state_caps_count (p : tcpm_port) (s : tcpm_state) (d : Nat) :
    (tcpm_set_state p s d).caps_count = p.caps_count := by
  unfold tcpm_set_state
  by_cases h : d = 0 <;>
    simp only [h, ne_eq, not_true_eq_false, not_false_eq_true, if_true, if_false]
  split <;> rfl

@[simp] theorem tcpm_set_state_pd_capable (p : tcpm_port) (s : tcpm_state) (d : Nat) :
    (tcpm_set_state p s d).pd_capable = p.pd_capable := by
  unfold tcpm_set_state
  by_cases h : d = 0 <;>
    simp only [h, ne_eq, not_true_eq_false, not_false_eq_true, if_true, if_false]
  split <;> rfl

@[simp] theorem tcpm_set_state_sink_request (p : tcpm_port) (s : tcpm_state) (d : Nat) :
    (tcpm_set_state p s d).sink_request = p.sink_request := by
  unfold tcpm_set_state
  by_cases h : d = 0 <;>
    simp only [h, ne_eq, not_true_eq_false, not_false_eq_true, if_true, if_false]
  split <;> rfl

@[simp] theorem tcpm_set_state_source_caps (p : tcpm_port) (s : tcpm_state) (d : Nat) :
    (tcpm_set_state p s d).source_caps = p.source_caps := by
  unfold tcpm_set_state
  by_cases h : d = 0 <;>
    simp only [h, ne_eq, not_true_eq_false, not_false_eq_true, if_true, if_false]
  split <;> rfl

@[simp] theorem tcpm_set_state_sink_caps (p : tcpm_port) (s : tcpm_state) (d : Nat) :
    (tcpm_set_state p s d).sink_caps = p.sink_caps := by
  unfold tcpm_set_state
  by_cases h : d = 0 <;>
    simp only [h, ne_eq, not_true_eq_false, not_false_eq_true, if_true, if_false]
  split <;> rfl

@[simp] theorem tcpm_set_state_pwr_opmode (p : tcpm_port) (s : tcpm_state) (d : Nat) :
    (tcpm_set_state p s d).pwr_opmode = p.pwr_opmode := by
  unfold tcpm_set_state
  by_cases h : d = 0 <;>
    simp only [h, ne_eq, not_true_eq_false, not_false_eq_true, if_true, if_false]
  split <;> rfl

/-! ## The hard-reset counter -/

theorem hard_reset_state_eq (port : tcpm_port) :
    hard_reset_state port = HARD_RESET_SEND ↔ port.hard_reset_count < PD_N_HARD_RESET_COUNT := by
  unfold hard_reset_state
  split_ifs <;> simp [*]

theorem ready_state_ne (port : tcpm_port) : ready_state port ≠ HARD_RESET_SEND := by
  unfold ready_state
  split_ifs <;> simp

theorem ready_state_returns (port : tcpm_port) : returns_to_prev (ready_state port) = false := by
  unfold ready_state
  split_ifs <;> rfl

theorem tcpm_src_attach_hard_reset_count (tcpc : tcpc_dev) (p : tcpm_port) :
    (tcpm_src_attach tcpc p).1.hard_reset_count ≤ p.hard_reset_count := by
  simp only [tcpm_src_attach, tcpm_set_roles, tcpc_do, tcpc_op, typec_notify]
  repeat' split
  all_goals simp

theorem tcpm_snk_attach_hard_reset_count (tcpc : tcpc_dev) (p : tcpm_port) :
    (tcpm_snk_attach tcpc p).1.hard_reset_count ≤ p.hard_reset_count := by
  simp only [tcpm_snk_attach, tcpm_set_roles, tcpc_do, tcpc_op, typec_notify]
  repeat' split
  all_goals simp

theorem tcpm_pd_send_request_some (tcpc : tcpc_dev) (p : tcpm_port) (r : tcpm_port × Int)
    (h : tcpm_pd_send_request tcpc p = some r) :
    r.1.state = p.state ∧ r.1.prev_state = p.prev_state ∧
    r.1.delayed_state = p.delayed_state ∧ r.1.hard_reset_count = p.hard_reset_count ∧
    r.1.attached = p.attached ∧ r.1.pwr_role = p.pwr_role ∧ r.1.bug = p.bug ∧
    r.1.state_machine_running = p.state_machine_running ∧ r.1.work = p.work := by
  unfold tcpm_pd_send_request at h
  split at h
  · cases h
  · cases h
    simp
  · cases h
    simp

set_option maxHeartbeats 4000000 in
theorem run_state_machine_inv (tcpc : tcpc_dev) (port : tcpm_port)
    (h : hard_reset_inv port) : hard_reset_inv (run_state_machine tcpc port) := by
  obtain ⟨h1, h2, h3, h4⟩ := h
  simp only [PD_N_HARD_RESET_COUNT] at h1 h2 h3 h4
  unfold run_state_machine
  split
  case h_16 =>
    dsimp only
    cases hreq : tcpm_pd_send_request tcpc { port with pd_capable := true } with
    | none =>
      dsimp only
      simp_all [hard_reset_inv, PD_N_HARD_RESET_COUNT, returns_to_prev]
    | some r =>
      obtain ⟨e1, e2, e3, e4, _⟩ := tcpm_pd_send_request_some tcpc _ r hreq
      simp only at e1 e2 e3 e4
      dsimp only
      split_ifs
      all_goals
        simp_all [hard_reset_inv, PD_N_HARD_RESET_COUNT, returns_to_prev, hard_reset_state_eq,
          PD_T_SENDER_RESPONSE]
  all_goals try dsimp only
  all_goals try split_ifs
  all_goals try simp_all [hard_reset_inv, PD_N_HARD_RESET_COUNT, hard_reset_state_eq, ready_state,
      returns_to_prev, TYPEC_T_CC_DEBOUNCE, TYPEC_T_PD_DEBOUNCE,
      PD_T_SEND_SOURCE_CAP, PD_T_SENDER_RESPONSE, PD_T_SOURCE_ACTIVITY, PD_T_SINK_WAIT_CAP,
      PD_T_PS_TRANSITION, PD_T_SRC_TRANSITION, PD_T_PS_SOURCE_OFF, PD_T_PS_SOURCE_ON,
      PD_T_PS_HARD_RESET, PD_T_SRC_RECOVER, PD_T_SRC_RECOVER_MAX, PD_T_SRC_TURN_ON,
      PD_T_SAFE_0V, PD_T_VCONN_SOURCE_ON]
  all_goals try omega
  all_goals try (split_ifs <;> simp_all)
  all_goals try
    (first
      | exact le_trans (tcpm_src_attach_hard_reset_count tcpc port) h1
      | exact le_trans (tcpm_snk_attach_hard_reset_count tcpc port) h1)

/-! ## The handler of `SRC_ATTACHED` -/

/-- C20. When the `SRC_ATTACHED` handler runs on a port that is not attached,
exactly one of `cc1`, `cc2` shows Rd and every call to the port controller
succeeds, then afterwards the polarity is the CC line showing Rd, the power
role is Source, the data role is Host, `vconn_source` and `attached` are true,
`hard_reset_count` is 0 and the state is `SRC_STARTUP`. -/
theorem src_attached_handler (tcpc : tcpc_dev) (port : tcpm_port)
    (hstate : port.state = SRC_ATTACHED) (hatt : port.attached = false)
    (hone : (port.cc1 = TYPEC_CC_RD ∧ port.cc2 ≠ TYPEC_CC_RD) ∨
      (port.cc1 ≠ TYPEC_CC_RD ∧ port.cc2 = TYPEC_CC_RD))
    (hok : ∀ trace call, 0 ≤ tcpc.ret trace call) :
    (((run_state_machine tcpc port).polarity = TYPEC_POLARITY_CC1 ∧
        (run_state_machine tcpc port).cc1 = TYPEC_CC_RD) ∨
      ((run_state_machine tcpc port).polarity = TYPEC_POLARITY_CC2 ∧
        (run_state_machine tcpc port).cc2 = TYPEC_CC_RD)) ∧
    (run_state_machine tcpc port).pwr_role = TYPEC_PWR_SOURCE ∧
    (run_state_machine tcpc port).data_role = TYPEC_HOST ∧
    (run_state_machine tcpc port).vconn_source = true ∧
    (run_state_machine tcpc port).attached = true ∧
    (run_state_machine tcpc port).hard_reset_count = 0 ∧
    (run_state_machine tcpc port).state = SRC_STARTUP := by
  have hn : ∀ t c, ¬ tcpc.ret t c < 0 := fun t c => not_lt.mpr (hok t c)
  have hrun : run_state_machine tcpc port =
      tcpm_set_state (tcpm_src_attach tcpc port).1 SRC_STARTUP 0 := by
    have h0 : ¬ (tcpm_src_attach tcpc port).2 < 0 := by
      simp [tcpm_src_attach, hatt, tcpc_op, tcpm_set_roles, hn, typec_notify]
    simp only [run_state_machine, hstate, h0, if_false]
  rw [hrun]
  rcases hone with ⟨h1, _⟩ | ⟨h1, h2⟩
  · simp [tcpm_src_attach, hatt, tcpc_op, tcpm_set_roles, hn, typec_notify, h1]
  · simp [tcpm_src_attach, hatt, tcpc_op, tcpm_set_roles, hn, typec_notify, h1, h2]

/-- A port in `SRC_ATTACHED` that is not attached and sees Rd on CC2 only. -/
theorem src_attached_handler_witness :
    ((tcpm_set_state (tcpm_cc_change (tcpm_register_port ok_tcpc typec_zero)
          TYPEC_CC_OPEN TYPEC_CC_RD) SRC_ATTACHED 0).state = SRC_ATTACHED ∧
      (tcpm_set_state (tcpm_cc_change (tcpm_register_port ok_tcpc typec_zero)
          TYPEC_CC_OPEN TYPEC_CC_RD) SRC_ATTACHED 0).attached = false) ∧
    (run_state_machine ok_tcpc (tcpm_set_state (tcpm_cc_change
        (tcpm_register_port ok_tcpc typec_zero) TYPEC_CC_OPEN TYPEC_CC_RD)
          SRC_ATTACHED 0)).polarity = TYPEC_POLARITY_CC2 ∧
    (run_state_machine ok_tcpc (tcpm_set_state (tcpm_cc_change
        (tcpm_register_port ok_tcpc typec_zero) TYPEC_CC_OPEN TYPEC_CC_RD)
          SRC_ATTACHED 0)).state = SRC_STARTUP :=
  ⟨⟨by decide, by decide⟩,
    ((src_attached_handler ok_tcpc _ (by decide) (by decide) (Or.inr (by decide))
      (fun _ _ => Int.le_refl 0)).1.resolve_left (by decide)).1,
    (src_attached_handler ok_tcpc _ (by decide) (by decide) (Or.inr (by decide))
      (fun _ _ => Int.le_refl 0)).2.2.2.2.2.2⟩

/-! ## The hard-reset invariant under events and the work item -/

theorem tcpm_set_state_inv (p : tcpm_port) (s : tcpm_state) (d : Nat) (h : hard_reset_inv p)
    (hs : s = HARD_RESET_SEND → p.hard_reset_count < PD_N_HARD_RESET_COUNT) :
    hard_reset_inv (tcpm_set_state p s d) := by
  obtain ⟨h1, h2, h3, h4⟩ := h
  by_cases hd : d = 0 <;> simp_all [hard_reset_inv]

theorem hard_reset_inv_ite {c : Prop} [Decidable c] (a b : tcpm_port)
    (ha : hard_reset_inv a) (hb : hard_reset_inv b) : hard_reset_inv (if c then a else b) := by
  split_ifs <;> assumption

theorem tcpm_pd_data_request_inv (port : tcpm_port) (msg : pd_message)
    (h : hard_reset_inv port) : hard_reset_inv (tcpm_pd_data_request port msg) := by
  unfold tcpm_pd_data_request
  dsimp only
  split_ifs <;> first
    | exact h
    | exact tcpm_set_state_inv _ _ _ h (by simp)

theorem tcpm_pd_ctrl_request_inv (port : tcpm_port) (msg : pd_message)
    (h : hard_reset_inv port) : hard_reset_inv (tcpm_pd_ctrl_request port msg) := by
  unfold tcpm_pd_ctrl_request
  dsimp only
  repeat' with_reducible apply hard_reset_inv_ite
  all_goals try split
  all_goals repeat' with_reducible apply hard_reset_inv_ite
  all_goals first
    | exact h
    | exact tcpm_set_state_inv _ _ _ h (by simp)

theorem tcpm_cc_change_inv (port : tcpm_port) (cc1 cc2 : typec_cc_status)
    (h : hard_reset_inv port) : hard_reset_inv (tcpm_cc_change port cc1 cc2) := by
  have h' : hard_reset_inv { port with cc1 := cc1, cc2 := cc2 } := by
    simpa [hard_reset_inv] using h
  unfold tcpm_cc_change
  dsimp only
  repeat' split
  all_goals first
    | exact h'
    | exact tcpm_set_state_inv _ _ _ h' (by simp)

theorem tcpm_init_inv (tcpc : tcpc_dev) (port : tcpm_port)
    (h : hard_reset_inv port) : hard_reset_inv (tcpm_init tcpc port) := by
  have h' : ∀ b, hard_reset_inv
      { (tcpc_op tcpc (tcpc_do tcpc (tcpc_do tcpc port .init) (.set_pd_rx false)) .get_vbus).1
        with vbus_present := b } := by
    intro b
    simpa [hard_reset_inv] using h
  unfold tcpm_init
  dsimp only
  split_ifs <;> exact tcpm_set_state_inv _ _ _ (h' _) (by simp)

theorem tcpm_handle_inv (tcpc : tcpc_dev) (port : tcpm_port) (ev : tcpm_event)
    (h : hard_reset_inv port) : hard_reset_inv (tcpm_handle tcpc port ev) := by
  cases ev with
  | cc_change cc1 cc2 => exact tcpm_cc_change_inv port cc1 cc2 h
  | vbus_on =>
    have h' : hard_reset_inv { port with vbus_present := true } := by
      simpa [hard_reset_inv] using h
    simp only [tcpm_handle, tcpm_vbus_on]
    repeat' split
    all_goals first
      | exact h'
      | exact tcpm_set_state_inv _ _ _ h' (by simp)
  | vbus_off =>
    have h' : hard_reset_inv { port with vbus_present := false } := by
      simpa [hard_reset_inv] using h
    simp only [tcpm_handle, tcpm_vbus_off]
    repeat' split
    all_goals first
      | exact h'
      | exact tcpm_set_state_inv _ _ _ h' (by simp)
  | pd_receive msg =>
    simp only [tcpm_handle, tcpm_pd_receive]
    split_ifs
    all_goals first
      | exact h
      | exact tcpm_pd_data_request_inv port msg h
      | exact tcpm_pd_ctrl_request_inv port msg h
  | pd_transmit_complete status =>
    simpa [tcpm_handle, tcpm_pd_transmit_complete, hard_reset_inv] using h
  | pd_hard_reset =>
    simp only [tcpm_handle, tcpm_pd_hard_reset]
    split_ifs
    · exact tcpm_set_state_inv _ _ _ h (by simp)
    · exact h
  | dr_swap =>
    have h' : hard_reset_inv { port with swap_status := 0, swap_complete := false } := by
      simpa [hard_reset_inv] using h
    simp only [tcpm_handle, tcpm_dr_swap]
    split_ifs <;> first
      | exact h
      | exact tcpm_set_state_inv _ _ _ h' (by simp)
  | pr_swap =>
    have h' : hard_reset_inv { port with swap_status := 0, swap_complete := false } := by
      simpa [hard_reset_inv] using h
    simp only [tcpm_handle, tcpm_pr_swap]
    split_ifs <;> first
      | exact h
      | exact tcpm_set_state_inv _ _ _ h' (by simp)
  | vconn_swap =>
    have h' : hard_reset_inv { port with swap_status := 0, swap_complete := false } := by
      simpa [hard_reset_inv] using h
    simp only [tcpm_handle, tcpm_vconn_swap]
    split_ifs <;> first
      | exact h
      | exact tcpm_set_state_inv _ _ _ h' (by simp)
  | tcpc_reset => exact tcpm_init_inv tcpc port h

theorem state_machine_work_begin_inv (port : tcpm_port) (h : hard_reset_inv port) :
    hard_reset_inv (state_machine_work_begin port) := by
  obtain ⟨h1, h2, h3, h4⟩ := h
  unfold state_machine_work_begin
  dsimp only
  split_ifs <;> simp_all [hard_reset_inv]

theorem state_machine_loop_inv (tcpc : tcpc_dev) (fuel : Nat) :
    ∀ port port', hard_reset_inv port → state_machine_loop tcpc fuel port = some port' →
      hard_reset_inv port' := by
  induction fuel with
  | zero => intro port port' _ h; simp [state_machine_loop] at h
  | succ n ih =>
    intro port port' h hl
    have hr := run_state_machine_inv tcpc port h
    simp only [state_machine_loop] at hl
    split_ifs at hl
    · cases hl; exact hr
    · exact ih _ _ hr hl
    · cases hl; exact hr

theorem tcpm_state_machine_work_inv (tcpc : tcpc_dev) (fuel : Nat) (port port' : tcpm_port)
    (h : hard_reset_inv port) (hw : tcpm_state_machine_work tcpc fuel port = some port') :
    hard_reset_inv port' := by
  unfold tcpm_state_machine_work at hw
  split at hw
  · cases hw
  · rename_i q hq
    have hq' := state_machine_loop_inv tcpc fuel _ q (state_machine_work_begin_inv port h) hq
    split_ifs at hw
    · cases hw; exact hq'
    · cases hw; simpa [hard_reset_inv] using hq'

theorem tcpm_register_port_inv (tcpc : tcpc_dev) (typec : typec_initial) :
    hard_reset_inv (tcpm_register_port tcpc typec) := by
  unfold tcpm_register_port
  apply tcpm_init_inv
  simp [hard_reset_inv, PD_N_HARD_RESET_COUNT]

theorem reachable_inv (tcpc : tcpc_dev) (port : tcpm_port) (h : reachable tcpc port) :
    hard_reset_inv port := by
  induction h with
  | register typec => exact tcpm_register_port_inv tcpc typec
  | event port ev _ ih => exact tcpm_handle_inv tcpc port ev ih
  | work_begin port _ ih => exact state_machine_work_begin_inv port ih
  | handler port _ ih => exact run_state_machine_inv tcpc port ih
  | work port port' fuel _ hw ih => exact tcpm_state_machine_work_inv tcpc fuel port port' ih hw

/-! ## The hard-reset cap of a sink -/

theorem hard_reset_state_ne_invalid (port : tcpm_port) :
    hard_reset_state port ≠ INVALID_STATE := by
  unfold hard_reset_state
  split_ifs <;> simp

theorem tcpm_pd_transmit_trace (tcpc : tcpc_dev) (p : tcpm_port) (t : tcpm_transmit_type)
    (m : Option pd_message) :
    (tcpm_pd_transmit tcpc p t m).1.trace =
      p.trace ++ [(tcpc_call.pd_transmit t m, tcpc.ret p.trace (tcpc_call.pd_transmit t m))] := by
  simp only [tcpm_pd_transmit, tcpc_op]
  repeat' split
  all_goals rfl

theorem hard_resets_sent_snk_detach (tcpc : tcpc_dev) (p : tcpm_port) :
    (tcpm_snk_detach tcpc p).trace.countP
        (fun e => decide (e.1 = tcpc_call.pd_transmit TCPC_TX_HARD_RESET none)) =
      p.trace.countP (fun e => decide (e.1 = tcpc_call.pd_transmit TCPC_TX_HARD_RESET none)) := by
  simp only [tcpm_snk_detach, tcpc_do, tcpc_op, typec_notify]
  repeat' split
  all_goals simp [List.countP_append]

/-- A delay that ends in `HARD_RESET_SEND` on a sink: the hard reset is sent,
the count goes up by one, and the port waits in `SNK_HARD_RESET_SINK_OFF`. -/
theorem expiry_hard_reset_send (tcpc : tcpc_dev) (n : Nat) (p : tcpm_port)
    (hd : p.delayed_state = HARD_RESET_SEND) (hrole : p.pwr_role = TYPEC_PWR_SINK)
    (hbug : p.bug = false) (hc : p.hard_reset_count < PD_N_HARD_RESET_COUNT) :
    ∃ a, tcpm_state_machine_work tcpc (n + 3) p = some a ∧
      a.state = SNK_HARD_RESET_SINK_OFF ∧
      a.hard_reset_count = p.hard_reset_count + 1 ∧ a.pwr_role = TYPEC_PWR_SINK ∧
      a.bug = false ∧ a.attached = p.attached ∧
      hard_resets_sent a = hard_resets_sent p + 1 := by
  simp only [PD_N_HARD_RESET_COUNT] at hc
  have hm : (p.hard_reset_count + 1) % 2 ^ 32 = p.hard_reset_count + 1 := by omega
  simp [tcpm_state_machine_work, state_machine_work_begin, state_machine_loop,
    run_state_machine, hd, hrole, hbug, hm, hard_reset_state_ne_invalid, PD_T_SAFE_0V,
    hard_resets_sent, tcpm_pd_transmit_trace, List.countP_append]
  omega

/-- VBUS drops on a sink in `SNK_HARD_RESET_SINK_OFF`: the port waits for VBUS
in `SNK_HARD_RESET_WAIT_VBUS`. -/
theorem vbus_off_sink_off (tcpc : tcpc_dev) (n : Nat) (p : tcpm_port)
    (hs : p.state = SNK_HARD_RESET_SINK_OFF) (hbug : p.bug = false) :
    ∃ b, tcpm_state_machine_work tcpc (n + 3) (tcpm_vbus_off p) = some b ∧
      b.state = SNK_HARD_RESET_WAIT_VBUS ∧
      b.hard_reset_count = p.hard_reset_count ∧ b.pwr_role = p.pwr_role ∧
      b.bug = false ∧ b.attached = p.attached ∧
      hard_resets_sent b = hard_resets_sent p := by
  simp [tcpm_vbus_off, tcpm_state_machine_work,
    state_machine_work_begin, state_machine_loop, run_state_machine, hs, hbug,
    PD_T_SRC_RECOVER_MAX, PD_T_SRC_TURN_ON, hard_resets_sent]

/-- VBUS returns on a sink in `SNK_HARD_RESET_WAIT_VBUS`: the port goes through
`SNK_STARTUP` to `SNK_WAIT_CAPABILITIES`, whose handler arms
`PD_T_SINK_WAIT_CAP` for `hard_reset_state`. -/
theorem vbus_on_wait_vbus (tcpc : tcpc_dev) (n : Nat) (p : tcpm_port)
    (hs : p.state = SNK_HARD_RESET_WAIT_VBUS) (hbug : p.bug = false) :
    ∃ b, tcpm_state_machine_work tcpc (n + 3) (tcpm_vbus_on p) = some b ∧
      b.state = SNK_WAIT_CAPABILITIES ∧ b.delayed_state = hard_reset_state p ∧
      b.work = some PD_T_SINK_WAIT_CAP ∧
      b.hard_reset_count = p.hard_reset_count ∧ b.pwr_role = p.pwr_role ∧
      b.bug = false ∧ b.attached = p.attached ∧
      hard_resets_sent b = hard_resets_sent p := by
  have hh : ∀ q : tcpm_port, q.hard_reset_count = p.hard_reset_count → q.pwr_role = p.pwr_role →
      hard_reset_state q = hard_reset_state p := by
    intro q h1 h2
    simp [hard_reset_state, h1, h2]
  simp [tcpm_vbus_on, tcpm_state_machine_work,
    state_machine_work_begin, state_machine_loop, run_state_machine, hs, hbug,
    hard_reset_state_ne_invalid, PD_T_SINK_WAIT_CAP, hard_resets_sent]
  exact hh _ rfl rfl

/-- VBUS drops and returns on a sink in `SNK_HARD_RESET_SINK_OFF`. -/
theorem vbus_cycle_sink_off (tcpc : tcpc_dev) (n : Nat) (p : tcpm_port)
    (hs : p.state = SNK_HARD_RESET_SINK_OFF) (hbug : p.bug = false) :
    ∃ b, vbus_cycle tcpc (n + 3) p = some b ∧
      b.state = SNK_WAIT_CAPABILITIES ∧ b.delayed_state = hard_reset_state p ∧
      b.work = some PD_T_SINK_WAIT_CAP ∧
      b.hard_reset_count = p.hard_reset_count ∧ b.pwr_role = p.pwr_role ∧
      b.bug = false ∧ b.attached = p.attached ∧
      hard_resets_sent b = hard_resets_sent p := by
  obtain ⟨b, hb, h1, h2, h3, h4, h5, h6⟩ := vbus_off_sink_off tcpc n p hs hbug
  obtain ⟨c, hc, k1, k2, k3, k4, k5, k6, k7, k8⟩ := vbus_on_wait_vbus tcpc n b h1 h4
  refine ⟨c, ?_, k1, ?_, k3, k4.trans h2, k5.trans h3, k6, k7.trans h5, k8.trans h6⟩
  · simp [vbus_cycle, hb, hc]
  · rw [k2]
    simp [hard_reset_state, h2, h3]

theorem tcpm_snk_detach_attached (tcpc : tcpc_dev) (p : tcpm_port) :
    (tcpm_snk_detach tcpc p).attached = false := by
  simp only [tcpm_snk_detach, tcpc_do, tcpc_op, typec_notify]
  repeat' split
  all_goals simp_all

/-- A delay that ends in `SNK_UNATTACHED`: the port detaches and sends nothing. -/
theorem expiry_snk_unattached (tcpc : tcpc_dev) (n : Nat) (p : tcpm_port)
    (hd : p.delayed_state = SNK_UNATTACHED) (hbug : p.bug = false) :
    ∃ a, tcpm_state_machine_work tcpc (n + 3) p = some a ∧
      a.state = SNK_UNATTACHED ∧ a.hard_reset_count = p.hard_reset_count ∧
      a.attached = false ∧ hard_resets_sent a = hard_resets_sent p := by
  simp [tcpm_state_machine_work, state_machine_work_begin, state_machine_loop,
    run_state_machine, hd, hbug, hard_resets_sent, tcpc_do, tcpc_op, List.countP_append,
    hard_resets_sent_snk_detach, tcpm_snk_detach_attached]

/-- C18. Hard-reset cap as sink.  On an attached sink with `hard_reset_count = 0`
the handler of `SNK_WAIT_CAPABILITIES` arms `PD_T_SINK_WAIT_CAP`.  With no PD
message received and VBUS dropping and returning after each hard reset, the
first expiry sends a hard reset, leaves `hard_reset_count = 1` and the port in
`SNK_HARD_RESET_SINK_OFF`; the second expiry does the same with
`hard_reset_count = 2`; the third expiry leaves the port in `SNK_UNATTACHED`
and no third hard reset has been sent. -/
theorem sink_hard_reset_cap (tcpc : tcpc_dev) (n : Nat) (q : tcpm_port)
    (hstate : q.state = SNK_WAIT_CAPABILITIES) (hatt : q.attached = true)
    (hrole : q.pwr_role = TYPEC_PWR_SINK) (hcount : q.hard_reset_count = 0)
    (hbug : q.bug = false) :
    (run_state_machine tcpc q).state = SNK_WAIT_CAPABILITIES ∧
    (run_state_machine tcpc q).work = some PD_T_SINK_WAIT_CAP ∧
    ∃ a1 b1 a2 b2 a3,
      tcpm_state_machine_work tcpc (n + 3) (run_state_machine tcpc q) = some a1 ∧
      a1.state = SNK_HARD_RESET_SINK_OFF ∧ a1.hard_reset_count = 1 ∧ a1.attached = true ∧
      hard_resets_sent a1 = hard_resets_sent q + 1 ∧
      vbus_cycle tcpc (n + 3) a1 = some b1 ∧
      b1.state = SNK_WAIT_CAPABILITIES ∧ b1.work = some PD_T_SINK_WAIT_CAP ∧
      tcpm_state_machine_work tcpc (n + 3) b1 = some a2 ∧
      a2.state = SNK_HARD_RESET_SINK_OFF ∧ a2.hard_reset_count = 2 ∧ a2.attached = true ∧
      hard_resets_sent a2 = hard_resets_sent q + 2 ∧
      vbus_cycle tcpc (n + 3) a2 = some b2 ∧
      b2.state = SNK_WAIT_CAPABILITIES ∧ b2.work = some PD_T_SINK_WAIT_CAP ∧
      tcpm_state_machine_work tcpc (n + 3) b2 = some a3 ∧
      a3.state = SNK_UNATTACHED ∧ a3.hard_reset_count = 2 ∧
      hard_resets_sent a3 = hard_resets_sent q + 2 := by
  have hrun : run_state_machine tcpc q =
      tcpm_set_state q (hard_reset_state q) PD_T_SINK_WAIT_CAP := by
    simp only [run_state_machine, hstate]
  have hq : hard_reset_state q = HARD_RESET_SEND := by
    simp [hard_reset_state, hcount, PD_N_HARD_RESET_COUNT]
  rw [hrun, hq]
  obtain ⟨a1, e1, s1, c1, r1, g1, t1, x1⟩ := expiry_hard_reset_send tcpc n
    (tcpm_set_state q HARD_RESET_SEND PD_T_SINK_WAIT_CAP)
    (by simp [PD_T_SINK_WAIT_CAP]) (by simpa using hrole) (by simpa using hbug)
    (by simp [hcount, PD_N_HARD_RESET_COUNT])
  simp only [tcpm_set_state_hard_reset_count, tcpm_set_state_attached, hcount, hatt] at c1 t1
  have x1 : hard_resets_sent a1 = hard_resets_sent q + 1 := by
    simpa [hard_resets_sent] using x1
  obtain ⟨b1, f1, u1, d1, w1, k1, o1, m1, v1, y1⟩ := vbus_cycle_sink_off tcpc n a1 s1 g1
  have d1 : b1.delayed_state = HARD_RESET_SEND := by
    rw [d1]
    simp [hard_reset_state, c1, PD_N_HARD_RESET_COUNT]
  obtain ⟨a2, e2, s2, c2, r2, g2, t2, x2⟩ := expiry_hard_reset_send tcpc n b1 d1
    (o1.trans r1) m1 (by simp [k1, c1, PD_N_HARD_RESET_COUNT])
  obtain ⟨b2, f2, u2, d2, w2, k2, o2, m2, v2, y2⟩ := vbus_cycle_sink_off tcpc n a2 s2 g2
  have c2 : a2.hard_reset_count = 2 := by rw [c2, k1, c1]
  have d2 : b2.delayed_state = SNK_UNATTACHED := by
    rw [d2]
    simp [hard_reset_state, c2, r2, PD_N_HARD_RESET_COUNT]
  obtain ⟨a3, e3, s3, c3, _, x3⟩ := expiry_snk_unattached tcpc n b2 d2 m2
  refine ⟨by simp [PD_T_SINK_WAIT_CAP, hstate], by simp [PD_T_SINK_WAIT_CAP],
    a1, b1, a2, b2, a3, e1, s1, c1, t1, x1, f1, u1, w1, e2, s2, c2, ?_, ?_, f2, u2, w2, e3, s3,
    ?_, ?_⟩
  · rw [t2, v1, t1]
  · rw [x2, y1, x1]
  · rw [c3, k2, c2]
  · rw [x3, y2, x2, y1, x1]

/-- The attached sink of boundary scenario 1 arms `PD_T_SINK_WAIT_CAP`. -/
theorem sink_hard_reset_cap_witness :
    (scenario_sink_wait_capabilities.state = SNK_WAIT_CAPABILITIES ∧
      scenario_sink_wait_capabilities.attached = true ∧
      scenario_sink_wait_capabilities.pwr_role = TYPEC_PWR_SINK ∧
      scenario_sink_wait_capabilities.hard_reset_count = 0 ∧
      scenario_sink_wait_capabilities.bug = false) ∧
    (run_state_machine ok_tcpc scenario_sink_wait_capabilities).work =
      some PD_T_SINK_WAIT_CAP :=
  ⟨⟨by decide, by decide, by decide, by decide, by decide⟩,
    (sink_hard_reset_cap ok_tcpc 5 scenario_sink_wait_capabilities (by decide) (by decide)
      (by decide) (by decide) (by decide)).2.1⟩

/-! ## The bound on `hard_reset_count` and its changes while attached -/

/-- C16. Every reachable port has `hard_reset_count ≤ PD_N_HARD_RESET_COUNT` (2):
the registered port has, and every event (CC change, VBUS on or off, PD
receive, hard reset received, swap request, expiry of a delay) and every state
handler keeps it.  The handler of `HARD_RESET_SEND` only runs with the count
below 2, and with the count at 2 `hard_reset_state` is `SRC_UNATTACHED` for a
source and `SNK_UNATTACHED` for a sink rather than `HARD_RESET_SEND`. -/
theorem hard_reset_count_bounded (tcpc : tcpc_dev) (port : tcpm_port)
    (h : reachable tcpc port) :
    port.hard_reset_count ≤ PD_N_HARD_RESET_COUNT ∧
    (port.state = HARD_RESET_SEND → port.hard_reset_count < PD_N_HARD_RESET_COUNT) ∧
    (port.hard_reset_count = PD_N_HARD_RESET_COUNT →
      hard_reset_state port =
        if port.pwr_role = TYPEC_PWR_SOURCE then SRC_UNATTACHED else SNK_UNATTACHED) := by
  obtain ⟨h1, h2, _, _⟩ := reachable_inv tcpc port h
  refine ⟨h1, h2, ?_⟩
  intro hc
  simp [hard_reset_state, hc]

/-- The port that `ok_tcpc` registers, after the handler of its first state and
a report of CC1 = Rp-def, CC2 = Open, is reachable. -/
theorem hard_reset_count_bounded_witness :
    reachable ok_tcpc
      (tcpm_handle ok_tcpc (run_state_machine ok_tcpc (tcpm_register_port ok_tcpc typec_zero))
        (tcpm_event.cc_change TYPEC_CC_RP_DEF TYPEC_CC_OPEN)) ∧
    (tcpm_handle ok_tcpc (run_state_machine ok_tcpc (tcpm_register_port ok_tcpc typec_zero))
        (tcpm_event.cc_change TYPEC_CC_RP_DEF TYPEC_CC_OPEN)).hard_reset_count ≤
      PD_N_HARD_RESET_COUNT :=
  ⟨reachable.event _ _ (reachable.handler _ (reachable.register _)),
    (hard_reset_count_bounded ok_tcpc _
      (reachable.event _ _ (reachable.handler _ (reachable.register _)))).1⟩

theorem hard_reset_count_ite {c : Prop} [Decidable c] (a b : tcpm_port) (n : Nat)
    (ha : a.hard_reset_count = n) (hb : b.hard_reset_count = n) :
    (if c then a else b).hard_reset_count = n := by
  split_ifs <;> assumption

theorem tcpm_pd_ctrl_request_hard_reset_count (port : tcpm_port) (msg : pd_message) :
    (tcpm_pd_ctrl_request port msg).hard_reset_count = port.hard_reset_count := by
  unfold tcpm_pd_ctrl_request
  dsimp only
  repeat' with_reducible apply hard_reset_count_ite
  all_goals try split
  all_goals repeat' with_reducible apply hard_reset_count_ite
  all_goals simp

theorem tcpm_handle_hard_reset_count (tcpc : tcpc_dev) (port : tcpm_port) (ev : tcpm_event) :
    (tcpm_handle tcpc port ev).hard_reset_count = port.hard_reset_count := by
  cases ev with
  | pd_receive msg =>
    simp only [tcpm_handle, tcpm_pd_receive, tcpm_pd_data_request]
    repeat' with_reducible apply hard_reset_count_ite
    all_goals first
      | exact tcpm_pd_ctrl_request_hard_reset_count port msg
      | simp
  | cc_change cc1 cc2 =>
    simp only [tcpm_handle, tcpm_cc_change]
    split
    all_goals repeat' with_reducible apply hard_reset_count_ite
    all_goals simp
  | tcpc_reset =>
    simp only [tcpm_handle, tcpm_tcpc_reset, tcpm_init]
    repeat' with_reducible apply hard_reset_count_ite
    all_goals simp [tcpc_do, tcpc_op]
  | _ =>
    simp only [tcpm_handle, tcpm_vbus_on, tcpm_vbus_off, tcpm_pd_transmit_complete,
      tcpm_pd_hard_reset, tcpm_dr_swap, tcpm_pr_swap, tcpm_vconn_swap]
    try split
    all_goals repeat' with_reducible apply hard_reset_count_ite
    all_goals try split_ifs
    all_goals simp

theorem tcpm_src_attach_attached (tcpc : tcpc_dev) (port : tcpm_port)
    (h : port.attached = true) : tcpm_src_attach tcpc port = (port, 0) := by
  simp [tcpm_src_attach, h]

theorem tcpm_snk_attach_attached (tcpc : tcpc_dev) (port : tcpm_port)
    (h : port.attached = true) : tcpm_snk_attach tcpc port = (port, 0) := by
  simp [tcpm_snk_attach, h]

set_option maxHeartbeats 4000000 in
theorem run_state_machine_hard_reset_count (tcpc : tcpc_dev) (port : tcpm_port)
    (hatt : port.attached = true) (hc : port.hard_reset_count ≤ PD_N_HARD_RESET_COUNT)
    (hs : port.state ≠ SRC_SEND_CAPABILITIES) :
    port.hard_reset_count ≤ (run_state_machine tcpc port).hard_reset_count := by
  simp only [PD_N_HARD_RESET_COUNT] at hc
  unfold run_state_machine
  split
  case h_5 => exact absurd ‹port.state = SRC_SEND_CAPABILITIES› hs
  case h_16 =>
    dsimp only
    cases hreq : tcpm_pd_send_request tcpc { port with pd_capable := true } with
    | none => simp
    | some r =>
      obtain ⟨_, _, _, e4, _⟩ := tcpm_pd_send_request_some tcpc _ r hreq
      simp only at e4
      dsimp only
      split_ifs <;> simp [e4]
  all_goals try dsimp only
  all_goals try rw [tcpm_src_attach_attached tcpc port hatt]
  all_goals try rw [tcpm_snk_attach_attached tcpc port hatt]
  all_goals try split_ifs
  all_goals try (simp; done)
  all_goals try (simp; omega)

/-- C17, counterexample.  On `ok_src_tcpc` the source of
`scenario_source_hard_reset` is attached with `hard_reset_count = 1`; when
`PD_T_SRC_RECOVER` expires its work item goes through `SRC_STARTUP`, and the
handler of `SRC_SEND_CAPABILITIES`, whose transmission succeeds, leaves the
port attached with `hard_reset_count = 0`. -/
theorem hard_reset_count_decreases :
    scenario_source_hard_reset.map
        (fun p => (p.attached, p.hard_reset_count, p.state, p.delayed_state)) =
      some (true, 1, SRC_HARD_RESET_VBUS_OFF, SRC_HARD_RESET_VBUS_ON) ∧
    scenario_source_hard_reset.map
        (fun p =>
          ((run_state_machine ok_src_tcpc
              (run_state_machine ok_src_tcpc (state_machine_work_begin p))).attached,
            (run_state_machine ok_src_tcpc
              (run_state_machine ok_src_tcpc (state_machine_work_begin p))).hard_reset_count,
            (run_state_machine ok_src_tcpc
              (run_state_machine ok_src_tcpc (state_machine_work_begin p))).state)) =
      some (true, 1, SRC_SEND_CAPABILITIES) ∧
    scenario_source_hard_reset.map
        (fun p =>
          ((run_state_machine ok_src_tcpc (run_state_machine ok_src_tcpc
              (run_state_machine ok_src_tcpc (state_machine_work_begin p)))).attached,
            (run_state_machine ok_src_tcpc (run_state_machine ok_src_tcpc
              (run_state_machine ok_src_tcpc (state_machine_work_begin p)))).hard_reset_count)) =
      some (true, 0) ∧
    (scenario_source_hard_reset.bind (tcpm_state_machine_work ok_src_tcpc 8)).map
        (fun p => (p.attached, p.hard_reset_count)) = some (true, 0) := by
  decide

/-- C17, amended.  On an attached port with `hard_reset_count ≤ 2` no event and
no start of the work item changes `hard_reset_count`, and no state handler
other than that of `SRC_SEND_CAPABILITIES` decreases it; the handler of
`SRC_SEND_CAPABILITIES` sets it to 0 when it sends the source capabilities and
the transmission succeeds, and leaves it as it is otherwise. -/
theorem hard_reset_count_attached (tcpc : tcpc_dev) (port : tcpm_port)
    (hatt : port.attached = true) (hc : port.hard_reset_count ≤ PD_N_HARD_RESET_COUNT) :
    (∀ ev, (tcpm_handle tcpc port ev).hard_reset_count = port.hard_reset_count) ∧
    (state_machine_work_begin port).hard_reset_count = port.hard_reset_count ∧
    (port.state ≠ SRC_SEND_CAPABILITIES →
      port.hard_reset_count ≤ (run_state_machine tcpc port).hard_reset_count) ∧
    (port.state = SRC_SEND_CAPABILITIES →
      (run_state_machine tcpc port).hard_reset_count =
        if (port.caps_count + 1) % 2 ^ 32 ≤ PD_N_CAPS_COUNT ∧
            0 ≤ (tcpm_pd_send_source_caps tcpc
              { port with caps_count := (port.caps_count + 1) % 2 ^ 32 }).2
        then 0 else port.hard_reset_count) := by
  refine ⟨tcpm_handle_hard_reset_count tcpc port, ?_,
    run_state_machine_hard_reset_count tcpc port hatt hc, ?_⟩
  · unfold state_machine_work_begin
    dsimp only
    split_ifs <;> rfl
  · intro hs
    simp only [run_state_machine, hs]
    split_ifs <;> simp_all
    all_goals simp only [PD_N_CAPS_COUNT] at *
    all_goals omega

/-- The attached sink of boundary scenario 1 keeps its count when VBUS drops. -/
theorem hard_reset_count_attached_witness :
    (scenario_sink_wait_capabilities.attached = true ∧
      scenario_sink_wait_capabilities.hard_reset_count ≤ PD_N_HARD_RESET_COUNT) ∧
    (tcpm_handle ok_tcpc scenario_sink_wait_capabilities tcpm_event.vbus_off).hard_reset_count =
      scenario_sink_wait_capabilities.hard_reset_count :=
  ⟨⟨by decide, by decide⟩,
    (hard_reset_count_attached ok_tcpc scenario_sink_wait_capabilities (by decide)
      (by decide)).1 tcpm_event.vbus_off⟩

/-! ## Further fields that the helpers of the state machine leave unchanged -/

@[simp] theorem tcpc_op_swap_status (tcpc : tcpc_dev) (p : tcpm_port) (c : tcpc_call) :
    (tcpc_op tcpc p c).1.swap_status = p.swap_status := rfl

@[simp] theorem tcpc_op_swap_complete (tcpc : tcpc_dev) (p : tcpm_port) (c : tcpc_call) :
    (tcpc_op tcpc p c).1.swap_complete = p.swap_complete := rfl

@[simp] theorem tcpc_op_caps_count (tcpc : tcpc_dev) (p : tcpm_port) (c : tcpc_call) :
    (tcpc_op tcpc p c).1.caps_count = p.caps_count := rfl

@[simp] theorem tcpc_op_pd_capable (tcpc : tcpc_dev) (p : tcpm_port) (c : tcpc_call) :
    (tcpc_op tcpc p c).1.pd_capable = p.pd_capable := rfl

@[simp] theorem tcpc_op_sink_request (tcpc : tcpc_dev) (p : tcpm_port) (c : tcpc_call) :
    (tcpc_op tcpc p c).1.sink_request = p.sink_request := rfl

@[simp] theorem tcpc_op_source_caps (tcpc : tcpc_dev) (p : tcpm_port) (c : tcpc_call) :
    (tcpc_op tcpc p c).1.source_caps = p.source_caps := rfl

@[simp] theorem tcpc_op_sink_caps (tcpc : tcpc_dev) (p : tcpm_port) (c : tcpc_call) :
    (tcpc_op tcpc p c).1.sink_caps = p.sink_caps := rfl

@[simp] theorem tcpc_op_pwr_opmode (tcpc : tcpc_dev) (p : tcpm_port) (c : tcpc_call) :
    (tcpc_op tcpc p c).1.pwr_opmode = p.pwr_opmode := rfl

@[simp] theorem tcpc_do_swap_status (tcpc : tcpc_dev) (p : tcpm_port) (c : tcpc_call) :
    (tcpc_do tcpc p c).swap_status = p.swap_status := rfl

@[simp] theorem tcpc_do_swap_complete (tcpc : tcpc_dev) (p : tcpm_port) (c : tcpc_call) :
    (tcpc_do tcpc p c).swap_complete = p.swap_complete := rfl

@[simp] theorem tcpc_do_caps_count (tcpc : tcpc_dev) (p : tcpm_port) (c : tcpc_call) :
    (tcpc_do tcpc p c).caps_count = p.caps_count := rfl

@[simp] theorem tcpc_do_pd_capable (tcpc : tcpc_dev) (p : tcpm_port) (c : tcpc_call) :
    (tcpc_do tcpc p c).pd_capable = p.pd_capable := rfl

@[simp] theorem tcpc_do_sink_request (tcpc : tcpc_dev) (p : tcpm_port) (c : tcpc_call) :
    (tcpc_do tcpc p c).sink_request = p.sink_request := rfl

@[simp] theorem tcpc_do_source_caps (tcpc : tcpc_dev) (p : tcpm_port) (c : tcpc_call) :
    (tcpc_do tcpc p c).source_caps = p.source_caps := rfl

@[simp] theorem tcpc_do_sink_caps (tcpc : tcpc_dev) (p : tcpm_port) (c : tcpc_call) :
    (tcpc_do tcpc p c).sink_caps = p.sink_caps := rfl

@[simp] theorem tcpc_do_pwr_opmode (tcpc : tcpc_dev) (p : tcpm_port) (c : tcpc_call) :
    (tcpc_do tcpc p c).pwr_opmode = p.pwr_opmode := rfl

@[simp] theorem typec_notify_swap_status (p : tcpm_port) (c : tcpc_call) :
    (typec_notify p c).swap_status = p.swap_status := rfl

@[simp] theorem typec_notify_swap_complete (p : tcpm_port) (c : tcpc_call) :
    (typec_notify p c).swap_complete = p.swap_complete := rfl

@[simp] theorem typec_notify_caps_count (p : tcpm_port) (c : tcpc_call) :
    (typec_notify p c).caps_count = p.caps_count := rfl

@[simp] theorem typec_notify_pd_capable (p : tcpm_port) (c : tcpc_call) :
    (typec_notify p c).pd_capable = p.pd_capable := rfl

@[simp] theorem typec_notify_sink_request (p : tcpm_port) (c : tcpc_call) :
    (typec_notify p c).sink_request = p.sink_request := rfl

@[simp] theorem typec_notify_source_caps (p : tcpm_port) (c : tcpc_call) :
    (typec_notify p c).source_caps = p.source_caps := rfl

@[simp] theorem typec_notify_sink_caps (p : tcpm_port) (c : tcpc_call) :
    (typec_notify p c).sink_caps = p.sink_caps := rfl

@[simp] theorem typec_notify_pwr_opmode (p : tcpm_port) (c : tcpc_call) :
    (typec_notify p c).pwr_opmode = p.pwr_opmode := rfl

@[simp] theorem complete_swap_swap_status (p : tcpm_port) :
    (complete_swap p).swap_status = p.swap_status := rfl

@[simp] theorem complete_swap_caps_count (p : tcpm_port) :
    (complete_swap p).caps_count = p.caps_count := rfl

@[simp] theorem complete_swap_pd_capable (p : tcpm_port) :
    (complete_swap p).pd_capable = p.pd_capable := rfl

@[simp] theorem complete_swap_sink_request (p : tcpm_port) :
    (complete_swap p).sink_request = p.sink_request := rfl

@[simp] theorem complete_swap_source_caps (p : tcpm_port) :
    (complete_swap p).source_caps = p.source_caps := rfl

@[simp] theorem complete_swap_sink_caps (p : tcpm_port) :
    (complete_swap p).sink_caps = p.sink_caps := rfl

@[simp] theorem complete_swap_pwr_opmode (p : tcpm_port) :
    (complete_swap p).pwr_opmode = p.pwr_opmode := rfl

@[simp] theorem tcpm_pd_transmit_swap_status (tcpc : tcpc_dev) (p : tcpm_port) (t :
    tcpm_transmit_type) (m : Option pd_message) :
    (tcpm_pd_transmit tcpc p t m).1.swap_status = p.swap_status := by
  rw [tcpm_pd_transmit_frame]

@[simp] theorem tcpm_pd_transmit_swap_complete (tcpc : tcpc_dev) (p : tcpm_port) (t :
    tcpm_transmit_type) (m : Option pd_message) :
    (tcpm_pd_transmit tcpc p t m).1.swap_complete = p.swap_complete := by
  rw [tcpm_pd_transmit_frame]

@[simp] theorem tcpm_pd_transmit_caps_count (tcpc : tcpc_dev) (p : tcpm_port) (t :
    tcpm_transmit_type) (m : Option pd_message) :
    (tcpm_pd_transmit tcpc p t m).1.caps_count = p.caps_count := by
  rw [tcpm_pd_transmit_frame]

@[simp] theorem tcpm_pd_transmit_pd_capable (tcpc : tcpc_dev) (p : tcpm_port) (t :
    tcpm_transmit_type) (m : Option pd_message) :
    (tcpm_pd_transmit tcpc p t m).1.pd_capable = p.pd_capable := by
  rw [tcpm_pd_transmit_frame]

@[simp] theorem tcpm_pd_transmit_sink_request (tcpc : tcpc_dev) (p : tcpm_port) (t :
    tcpm_transmit_type) (m : Option pd_message) :
    (tcpm_pd_transmit tcpc p t m).1.sink_request = p.sink_request := by
  rw [tcpm_pd_transmit_frame]

@[simp] theorem tcpm_pd_transmit_source_caps (tcpc : tcpc_dev) (p : tcpm_port) (t :
    tcpm_transmit_type) (m : Option pd_message) :
    (tcpm_pd_transmit tcpc p t m).1.source_caps = p.source_caps := by
  rw [tcpm_pd_transmit_frame]

@[simp] theorem tcpm_pd_transmit_sink_caps (tcpc : tcpc_dev) (p : tcpm_port) (t :
    tcpm_transmit_type) (m : Option pd_message) :
    (tcpm_pd_transmit tcpc p t m).1.sink_caps = p.sink_caps := by
  rw [tcpm_pd_transmit_frame]

@[simp] theorem tcpm_pd_transmit_pwr_opmode (tcpc : tcpc_dev) (p : tcpm_port) (t :
    tcpm_transmit_type) (m : Option pd_message) :
    (tcpm_pd_transmit tcpc p t m).1.pwr_opmode = p.pwr_opmode := by
  rw [tcpm_pd_transmit_frame]

@[simp] theorem tcpm_pd_send_control_swap_status (tcpc : tcpc_dev) (p : tcpm_port) (t : Nat) :
    (tcpm_pd_send_control tcpc p t).1.swap_status = p.swap_status := by
  rw [tcpm_pd_send_control_frame]

@[simp] theorem tcpm_pd_send_control_swap_complete (tcpc : tcpc_dev) (p : tcpm_port) (t : Nat) :
    (tcpm_pd_send_control tcpc p t).1.swap_complete = p.swap_complete := by
  rw [tcpm_pd_send_control_frame]

@[simp] theorem tcpm_pd_send_control_caps_count (tcpc : tcpc_dev) (p : tcpm_port) (t : Nat) :
    (tcpm_pd_send_control tcpc p t).1.caps_count = p.caps_count := by
  rw [tcpm_pd_send_control_frame]

@[simp] theorem tcpm_pd_send_control_pd_capable (tcpc : tcpc_dev) (p : tcpm_port) (t : Nat) :
    (tcpm_pd_send_control tcpc p t).1.pd_capable = p.pd_capable := by
  rw [tcpm_pd_send_control_frame]

@[simp] theorem tcpm_pd_send_control_sink_request (tcpc : tcpc_dev) (p : tcpm_port) (t : Nat) :
    (tcpm_pd_send_control tcpc p t).1.sink_request = p.sink_request := by
  rw [tcpm_pd_send_control_frame]

@[simp] theorem tcpm_pd_send_control_source_caps (tcpc : tcpc_dev) (p : tcpm_port) (t : Nat) :
    (tcpm_pd_send_control tcpc p t).1.source_caps = p.source_caps := by
  rw [tcpm_pd_send_control_frame]

@[simp] theorem tcpm_pd_send_control_sink_caps (tcpc : tcpc_dev) (p : tcpm_port) (t : Nat) :
    (tcpm_pd_send_control tcpc p t).1.sink_caps = p.sink_caps := by
  rw [tcpm_pd_send_control_frame]

@[simp] theorem tcpm_pd_send_control_pwr_opmode (tcpc : tcpc_dev) (p : tcpm_port) (t : Nat) :
    (tcpm_pd_send_control tcpc p t).1.pwr_opmode = p.pwr_opmode := by
  rw [tcpm_pd_send_control_frame]

@[simp] theorem tcpm_pd_send_source_caps_swap_status (tcpc : tcpc_dev) (p : tcpm_port) :
    (tcpm_pd_send_source_caps tcpc p).1.swap_status = p.swap_status := by
  rw [tcpm_pd_send_source_caps_frame]

@[simp] theorem tcpm_pd_send_source_caps_swap_complete (tcpc : tcpc_dev) (p : tcpm_port) :
    (tcpm_pd_send_source_caps tcpc p).1.swap_complete = p.swap_complete := by
  rw [tcpm_pd_send_source_caps_frame]

@[simp] theorem tcpm_pd_send_source_caps_caps_count (tcpc : tcpc_dev) (p : tcpm_port) :
    (tcpm_pd_send_source_caps tcpc p).1.caps_count = p.caps_count := by
  rw [tcpm_pd_send_source_caps_frame]

@[simp] theorem tcpm_pd_send_source_caps_pd_capable (tcpc : tcpc_dev) (p : tcpm_port) :
    (tcpm_pd_send_source_caps tcpc p).1.pd_capable = p.pd_capable := by
  rw [tcpm_pd_send_source_caps_frame]

@[simp] theorem tcpm_pd_send_source_caps_sink_request (tcpc : tcpc_dev) (p : tcpm_port) :
    (tcpm_pd_send_source_caps tcpc p).1.sink_request = p.sink_request := by
  rw [tcpm_pd_send_source_caps_frame]

@[simp] theorem tcpm_pd_send_source_caps_source_caps (tcpc : tcpc_dev) (p : tcpm_port) :
    (tcpm_pd_send_source_caps tcpc p).1.source_caps = p.source_caps := by
  rw [tcpm_pd_send_source_caps_frame]

@[simp] theorem tcpm_pd_send_source_caps_sink_caps (tcpc : tcpc_dev) (p : tcpm_port) :
    (tcpm_pd_send_source_caps tcpc p).1.sink_caps = p.sink_caps := by
  rw [tcpm_pd_send_source_caps_frame]

@[simp] theorem tcpm_pd_send_source_caps_pwr_opmode (tcpc : tcpc_dev) (p : tcpm_port) :
    (tcpm_pd_send_source_caps tcpc p).1.pwr_opmode = p.pwr_opmode := by
  rw [tcpm_pd_send_source_caps_frame]

@[simp] theorem tcpm_pd_send_sink_caps_swap_status (tcpc : tcpc_dev) (p : tcpm_port) :
    (tcpm_pd_send_sink_caps tcpc p).1.swap_status = p.swap_status := by
  rw [tcpm_pd_send_sink_caps_frame]

@[simp] theorem tcpm_pd_send_sink_caps_swap_complete (tcpc : tcpc_dev) (p : tcpm_port) :
    (tcpm_pd_send_sink_caps tcpc p).1.swap_complete = p.swap_complete := by
  rw [tcpm_pd_send_sink_caps_frame]

@[simp] theorem tcpm_pd_send_sink_caps_caps_count (tcpc : tcpc_dev) (p : tcpm_port) :
    (tcpm_pd_send_sink_caps tcpc p).1.caps_count = p.caps_count := by
  rw [tcpm_pd_send_sink_caps_frame]

@[simp] theorem tcpm_pd_send_sink_caps_pd_capable (tcpc : tcpc_dev) (p : tcpm_port) :
    (tcpm_pd_send_sink_caps tcpc p).1.pd_capable = p.pd_capable := by
  rw [tcpm_pd_send_sink_caps_frame]

@[simp] theorem tcpm_pd_send_sink_caps_sink_request (tcpc : tcpc_dev) (p : tcpm_port) :
    (tcpm_pd_send_sink_caps tcpc p).1.sink_request = p.sink_request := by
  rw [tcpm_pd_send_sink_caps_frame]

@[simp] theorem tcpm_pd_send_sink_caps_source_caps (tcpc : tcpc_dev) (p : tcpm_port) :
    (tcpm_pd_send_sink_caps tcpc p).1.source_caps = p.source_caps := by
  rw [tcpm_pd_send_sink_caps_frame]

@[simp] theorem tcpm_pd_send_sink_caps_sink_caps (tcpc : tcpc_dev) (p : tcpm_port) :
    (tcpm_pd_send_sink_caps tcpc p).1.sink_caps = p.sink_caps := by
  rw [tcpm_pd_send_sink_caps_frame]

@[simp] theorem tcpm_pd_send_sink_caps_pwr_opmode (tcpc : tcpc_dev) (p : tcpm_port) :
    (tcpm_pd_send_sink_caps tcpc p).1.pwr_opmode = p.pwr_opmode := by
  rw [tcpm_pd_send_sink_caps_frame]

@[simp] theorem tcpm_set_roles_swap_status (tcpc : tcpc_dev) (p : tcpm_port) (pwr : typec_pwr_role)
    (data : typec_data_role) :
    (tcpm_set_roles tcpc p pwr data).1.swap_status = p.swap_status := by
  rw [tcpm_set_roles_frame]

@[simp] theorem tcpm_set_roles_swap_complete (tcpc : tcpc_dev) (p : tcpm_port) (pwr :
    typec_pwr_role) (data : typec_data_role) :
    (tcpm_set_roles tcpc p pwr data).1.swap_complete = p.swap_complete := by
  rw [tcpm_set_roles_frame]

@[simp] theorem tcpm_set_roles_caps_count (tcpc : tcpc_dev) (p : tcpm_port) (pwr : typec_pwr_role)
    (data : typec_data_role) :
    (tcpm_set_roles tcpc p pwr data).1.caps_count = p.caps_count := by
  rw [tcpm_set_roles_frame]

@[simp] theorem tcpm_set_roles_pd_capable (tcpc : tcpc_dev) (p : tcpm_port) (pwr : typec_pwr_role)
    (data : typec_data_role) :
    (tcpm_set_roles tcpc p pwr data).1.pd_capable = p.pd_capable := by
  rw [tcpm_set_roles_frame]

@[simp] theorem tcpm_set_roles_sink_request (tcpc : tcpc_dev) (p : tcpm_port) (pwr : typec_pwr_role)
    (data : typec_data_role) :
    (tcpm_set_roles tcpc p pwr data).1.sink_request = p.sink_request := by
  rw [tcpm_set_roles_frame]

@[simp] theorem tcpm_set_roles_source_caps (tcpc : tcpc_dev) (p : tcpm_port) (pwr : typec_pwr_role)
    (data : typec_data_role) :
    (tcpm_set_roles tcpc p pwr data).1.source_caps = p.source_caps := by
  rw [tcpm_set_roles_frame]

@[simp] theorem tcpm_set_roles_sink_caps (tcpc : tcpc_dev) (p : tcpm_port) (pwr : typec_pwr_role)
    (data : typec_data_role) :
    (tcpm_set_roles tcpc p pwr data).1.sink_caps = p.sink_caps := by
  rw [tcpm_set_roles_frame]

@[simp] theorem tcpm_set_roles_pwr_opmode (tcpc : tcpc_dev) (p : tcpm_port) (pwr : typec_pwr_role)
    (data : typec_data_role) :
    (tcpm_set_roles tcpc p pwr data).1.pwr_opmode = p.pwr_opmode := by
  rw [tcpm_set_roles_frame]

@[simp] theorem tcpm_src_detach_swap_status (tcpc : tcpc_dev) (p : tcpm_port) :
    (tcpm_src_detach tcpc p).swap_status = p.swap_status := by
  rw [tcpm_src_detach_frame]

@[simp] theorem tcpm_src_detach_swap_complete (tcpc : tcpc_dev) (p : tcpm_port) :
    (tcpm_src_detach tcpc p).swap_complete = p.swap_complete := by
  rw [tcpm_src_detach_frame]

@[simp] theorem tcpm_src_detach_caps_count (tcpc : tcpc_dev) (p : tcpm_port) :
    (tcpm_src_detach tcpc p).caps_count = p.caps_count := by
  rw [tcpm_src_detach_frame]

@[simp] theorem tcpm_src_detach_pd_capable (tcpc : tcpc_dev) (p : tcpm_port) :
    (tcpm_src_detach tcpc p).pd_capable = p.pd_capable := by
  rw [tcpm_src_detach_frame]

@[simp] theorem tcpm_src_detach_sink_request (tcpc : tcpc_dev) (p : tcpm_port) :
    (tcpm_src_detach tcpc p).sink_request = p.sink_request := by
  rw [tcpm_src_detach_frame]

@[simp] theorem tcpm_src_detach_source_caps (tcpc : tcpc_dev) (p : tcpm_port) :
    (tcpm_src_detach tcpc p).source_caps = p.source_caps := by
  rw [tcpm_src_detach_frame]

@[simp] theorem tcpm_src_detach_sink_caps (tcpc : tcpc_dev) (p : tcpm_port) :
    (tcpm_src_detach tcpc p).sink_caps = p.sink_caps := by
  rw [tcpm_src_detach_frame]

@[simp] theorem tcpm_src_detach_pwr_opmode (tcpc : tcpc_dev) (p : tcpm_port) :
    (tcpm_src_detach tcpc p).pwr_opmode = p.pwr_opmode := by
  rw [tcpm_src_detach_frame]

@[simp] theorem tcpm_snk_detach_swap_status (tcpc : tcpc_dev) (p : tcpm_port) :
    (tcpm_snk_detach tcpc p).swap_status = p.swap_status := by
  rw [tcpm_snk_detach_frame]

@[simp] theorem tcpm_snk_detach_swap_complete (tcpc : tcpc_dev) (p : tcpm_port) :
    (tcpm_snk_detach tcpc p).swap_complete = p.swap_complete := by
  rw [tcpm_snk_detach_frame]

@[simp] theorem tcpm_snk_detach_caps_count (tcpc : tcpc_dev) (p : tcpm_port) :
    (tcpm_snk_detach tcpc p).caps_count = p.caps_count := by
  rw [tcpm_snk_detach_frame]

@[simp] theorem tcpm_snk_detach_pd_capable (tcpc : tcpc_dev) (p : tcpm_port) :
    (tcpm_snk_detach tcpc p).pd_capable = p.pd_capable := by
  rw [tcpm_snk_detach_frame]

@[simp] theorem tcpm_snk_detach_sink_request (tcpc : tcpc_dev) (p : tcpm_port) :
    (tcpm_snk_detach tcpc p).sink_request = p.sink_request := by
  rw [tcpm_snk_detach_frame]

@[simp] theorem tcpm_snk_detach_source_caps (tcpc : tcpc_dev) (p : tcpm_port) :
    (tcpm_snk_detach tcpc p).source_caps = p.source_caps := by
  rw [tcpm_snk_detach_frame]

@[simp] theorem tcpm_snk_detach_sink_caps (tcpc : tcpc_dev) (p : tcpm_port) :
    (tcpm_snk_detach tcpc p).sink_caps = p.sink_caps := by
  rw [tcpm_snk_detach_frame]

@[simp] theorem tcpm_snk_detach_pwr_opmode (tcpc : tcpc_dev) (p : tcpm_port) :
    (tcpm_snk_detach tcpc p).pwr_opmode = p.pwr_opmode := by
  rw [tcpm_snk_detach_frame]

@[simp] theorem tcpm_acc_detach_swap_status (p : tcpm_port) :
    (tcpm_acc_detach p).swap_status = p.swap_status := rfl

@[simp] theorem tcpm_acc_detach_swap_complete (p : tcpm_port) :
    (tcpm_acc_detach p).swap_complete = p.swap_complete := rfl

@[simp] theorem tcpm_acc_detach_caps_count (p : tcpm_port) :
    (tcpm_acc_detach p).caps_count = p.caps_count := rfl

@[simp] theorem tcpm_acc_detach_pd_capable (p : tcpm_port) :
    (tcpm_acc_detach p).pd_capable = p.pd_capable := rfl

@[simp] theorem tcpm_acc_detach_sink_request (p : tcpm_port) :
    (tcpm_acc_detach p).sink_request = p.sink_request := rfl

@[simp] theorem tcpm_acc_detach_source_caps (p : tcpm_port) :
    (tcpm_acc_detach p).source_caps = p.source_caps := rfl

@[simp] theorem tcpm_acc_detach_sink_caps (p : tcpm_port) :
    (tcpm_acc_detach p).sink_caps = p.sink_caps := rfl

@[simp] theorem tcpm_acc_detach_pwr_opmode (p : tcpm_port) :
    (tcpm_acc_detach p).pwr_opmode = p.pwr_opmode := rfl

@[simp] theorem tcpm_src_attach_swap_status (tcpc : tcpc_dev) (p : tcpm_port) :
    (tcpm_src_attach tcpc p).1.swap_status = p.swap_status := by
  rw [tcpm_src_attach_frame]

@[simp] theorem tcpm_src_attach_swap_complete (tcpc : tcpc_dev) (p : tcpm_port) :
    (tcpm_src_attach tcpc p).1.swap_complete = p.swap_complete := by
  rw [tcpm_src_attach_frame]

@[simp] theorem tcpm_src_attach_caps_count (tcpc : tcpc_dev) (p : tcpm_port) :
    (tcpm_src_attach tcpc p).1.caps_count = p.caps_count := by
  rw [tcpm_src_attach_frame]

@[simp] theorem tcpm_src_attach_sink_request (tcpc : tcpc_dev) (p : tcpm_port) :
    (tcpm_src_attach tcpc p).1.sink_request = p.sink_request := by
  rw [tcpm_src_attach_frame]

@[simp] theorem tcpm_src_attach_source_caps (tcpc : tcpc_dev) (p : tcpm_port) :
    (tcpm_src_attach tcpc p).1.source_caps = p.source_caps := by
  rw [tcpm_src_attach_frame]

@[simp] theorem tcpm_src_attach_sink_caps (tcpc : tcpc_dev) (p : tcpm_port) :
    (tcpm_src_attach tcpc p).1.sink_caps = p.sink_caps := by
  rw [tcpm_src_attach_frame]

@[simp] theorem tcpm_src_attach_pwr_opmode (tcpc : tcpc_dev) (p : tcpm_port) :
    (tcpm_src_attach tcpc p).1.pwr_opmode = p.pwr_opmode := by
  rw [tcpm_src_attach_frame]

@[simp] theorem tcpm_snk_attach_swap_status (tcpc : tcpc_dev) (p : tcpm_port) :
    (tcpm_snk_attach tcpc p).1.swap_status = p.swap_status := by
  rw [tcpm_snk_attach_frame]

@[simp] theorem tcpm_snk_attach_swap_complete (tcpc : tcpc_dev) (p : tcpm_port) :
    (tcpm_snk_attach tcpc p).1.swap_complete = p.swap_complete := by
  rw [tcpm_snk_attach_frame]

@[simp] theorem tcpm_snk_attach_caps_count (tcpc : tcpc_dev) (p : tcpm_port) :
    (tcpm_snk_attach tcpc p).1.caps_count = p.caps_count := by
  rw [tcpm_snk_attach_frame]

@[simp] theorem tcpm_snk_attach_sink_request (tcpc : tcpc_dev) (p : tcpm_port) :
    (tcpm_snk_attach tcpc p).1.sink_request = p.sink_request := by
  rw [tcpm_snk_attach_frame]

@[simp] theorem tcpm_snk_attach_source_caps (tcpc : tcpc_dev) (p : tcpm_port) :
    (tcpm_snk_attach tcpc p).1.source_caps = p.source_caps := by
  rw [tcpm_snk_attach_frame]

@[simp] theorem tcpm_snk_attach_sink_caps (tcpc : tcpc_dev) (p : tcpm_port) :
    (tcpm_snk_attach tcpc p).1.sink_caps = p.sink_caps := by
  rw [tcpm_snk_attach_frame]

@[simp] theorem tcpm_snk_attach_pwr_opmode (tcpc : tcpc_dev) (p : tcpm_port) :
    (tcpm_snk_attach tcpc p).1.pwr_opmode = p.pwr_opmode := by
  rw [tcpm_snk_attach_frame]

@[simp] theorem tcpm_acc_attach_swap_status (tcpc : tcpc_dev) (p : tcpm_port) :
    (tcpm_acc_attach tcpc p).1.swap_status = p.swap_status := by
  rw [tcpm_acc_attach_frame]

@[simp] theorem tcpm_acc_attach_swap_complete (tcpc : tcpc_dev) (p : tcpm_port) :
    (tcpm_acc_attach tcpc p).1.swap_complete = p.swap_complete := by
  rw [tcpm_acc_attach_frame]

@[simp] theorem tcpm_acc_attach_caps_count (tcpc : tcpc_dev) (p : tcpm_port) :
    (tcpm_acc_attach tcpc p).1.caps_count = p.caps_count := by
  rw [tcpm_acc_attach_frame]

@[simp] theorem tcpm_acc_attach_pd_capable (tcpc : tcpc_dev) (p : tcpm_port) :
    (tcpm_acc_attach tcpc p).1.pd_capable = p.pd_capable := by
  rw [tcpm_acc_attach_frame]

@[simp] theorem tcpm_acc_attach_sink_request (tcpc : tcpc_dev) (p : tcpm_port) :
    (tcpm_acc_attach tcpc p).1.sink_request = p.sink_request := by
  rw [tcpm_acc_attach_frame]

@[simp] theorem tcpm_acc_attach_source_caps (tcpc : tcpc_dev) (p : tcpm_port) :
    (tcpm_acc_attach tcpc p).1.source_caps = p.source_caps := by
  rw [tcpm_acc_attach_frame]

@[simp] theorem tcpm_acc_attach_sink_caps (tcpc : tcpc_dev) (p : tcpm_port) :
    (tcpm_acc_attach tcpc p).1.sink_caps = p.sink_caps := by
  rw [tcpm_acc_attach_frame]

@[simp] theorem tcpm_acc_attach_pwr_opmode (tcpc : tcpc_dev) (p : tcpm_port) :
    (tcpm_acc_attach tcpc p).1.pwr_opmode = p.pwr_opmode := by
  rw [tcpm_acc_attach_frame]

/-! ## The handler of `SRC_NEGOTIATE_CAPABILITIES` -/

theorem tcpm_pd_send_control_trace (tcpc : tcpc_dev) (p : tcpm_port) (type : Nat) :
    (tcpm_pd_send_control tcpc p type).1.trace =
      p.trace ++ [(tcpc_call.pd_transmit TCPC_TX_SOP (some (control_message p type)),
        tcpc.ret p.trace (tcpc_call.pd_transmit TCPC_TX_SOP (some (control_message p type))))] := by
  simp only [tcpm_pd_send_control, tcpm_pd_transmit_trace, control_message]

theorem last_call_append (port : tcpm_port) (t : List (tcpc_call × Int)) (c : tcpc_call)
    (r : Int) (h : port.trace = t ++ [(c, r)]) : last_call port = some c := by
  simp [last_call, h]

/-- C21. The handler of `SRC_NEGOTIATE_CAPABILITIES`, for every stored
`sink_request`: when `tcpm_pd_check_request` accepts it, the port sends Accept
and schedules `SRC_TRANSITION_SUPPLY` after `PD_T_SRC_TRANSITION` (35 ms); when
it rejects it, the port sends Reject and its state is `SRC_READY` if
`explicit_contract` is set and `SRC_WAIT_NEW_CAPABILITIES` if not. -/
theorem src_negotiate_capabilities (tcpc : tcpc_dev) (port : tcpm_port)
    (hstate : port.state = SRC_NEGOTIATE_CAPABILITIES) :
    (0 ≤ tcpm_pd_check_request tcpc.config port.sink_request →
      last_call (run_state_machine tcpc port) =
        some (tcpc_call.pd_transmit TCPC_TX_SOP (some (control_message port PD_CTRL_ACCEPT))) ∧
      (run_state_machine tcpc port).state = SRC_NEGOTIATE_CAPABILITIES ∧
      (run_state_machine tcpc port).delayed_state = SRC_TRANSITION_SUPPLY ∧
      (run_state_machine tcpc port).work = some PD_T_SRC_TRANSITION ∧
      PD_T_SRC_TRANSITION = 35) ∧
    (tcpm_pd_check_request tcpc.config port.sink_request < 0 →
      last_call (run_state_machine tcpc port) =
        some (tcpc_call.pd_transmit TCPC_TX_SOP (some (control_message port PD_CTRL_REJECT))) ∧
      (run_state_machine tcpc port).state =
        (if port.explicit_contract then SRC_READY else SRC_WAIT_NEW_CAPABILITIES) ∧
      (run_state_machine tcpc port).delayed_state = INVALID_STATE) := by
  constructor
  · intro h
    have h' : ¬ tcpm_pd_check_request tcpc.config port.sink_request < 0 := not_lt.mpr h
    have hrun : run_state_machine tcpc port =
        tcpm_set_state (tcpm_pd_send_control tcpc port PD_CTRL_ACCEPT).1 SRC_TRANSITION_SUPPLY
          PD_T_SRC_TRANSITION := by
      simp only [run_state_machine, hstate, h', if_false]
    rw [hrun]
    refine ⟨last_call_append _ _ _ _
      (by rw [tcpm_set_state_trace, tcpm_pd_send_control_trace]), ?_, ?_, ?_, rfl⟩
    · simp [PD_T_SRC_TRANSITION, hstate]
    · simp [PD_T_SRC_TRANSITION]
    · simp [PD_T_SRC_TRANSITION]
  · intro h
    have hrun : run_state_machine tcpc port =
        tcpm_set_state (tcpm_pd_send_control tcpc port PD_CTRL_REJECT).1
          (if port.explicit_contract then SRC_READY else SRC_WAIT_NEW_CAPABILITIES) 0 := by
      simp only [run_state_machine, hstate, h, if_true, tcpm_pd_send_control_explicit_contract]
      split_ifs <;> simp_all
    rw [hrun]
    refine ⟨last_call_append _ _ _ _
      (by rw [tcpm_set_state_trace, tcpm_pd_send_control_trace]), ?_, ?_⟩
    · simp
    · simp

/-- The board of `cros_tcpc.c` advertises Fixed 5 V / 1.5 A only.  The source
of `scenario_source_attached` has no contract when its partner requests
2000 mA of that PDO: the request is rejected, Reject is sent and the state is
`SRC_WAIT_NEW_CAPABILITIES`. -/
theorem src_negotiate_capabilities_witness :
    ((scenario_source_request (RDO_FIXED 1 2000 2000 0)).state = SRC_NEGOTIATE_CAPABILITIES ∧
      (scenario_source_request (RDO_FIXED 1 2000 2000 0)).sink_request =
        RDO_FIXED 1 2000 2000 0 ∧
      (scenario_source_request (RDO_FIXED 1 2000 2000 0)).explicit_contract = false ∧
      tcpm_pd_check_request ok_src_tcpc.config
        (scenario_source_request (RDO_FIXED 1 2000 2000 0)).sink_request < 0) ∧
    last_call (run_state_machine ok_src_tcpc (scenario_source_request (RDO_FIXED 1 2000 2000 0))) =
      some (tcpc_call.pd_transmit TCPC_TX_SOP
        (some (control_message (scenario_source_request (RDO_FIXED 1 2000 2000 0))
          PD_CTRL_REJECT))) ∧
    (run_state_machine ok_src_tcpc (scenario_source_request (RDO_FIXED 1 2000 2000 0))).state =
      (if (scenario_source_request (RDO_FIXED 1 2000 2000 0)).explicit_contract then SRC_READY
        else SRC_WAIT_NEW_CAPABILITIES) ∧
    (run_state_machine ok_src_tcpc
      (scenario_source_request (RDO_FIXED 1 2000 2000 0))).delayed_state = INVALID_STATE :=
  ⟨⟨by decide, by decide, by decide, by decide⟩,
    (src_negotiate_capabilities ok_src_tcpc (scenario_source_request (RDO_FIXED 1 2000 2000 0))
      (by decide)).2 (by decide)⟩

/-! ## Accessory attach -/

/-- On a port that is not attached `tcpm_acc_attach` returns 0 and does nothing. -/
theorem tcpm_acc_attach_not_attached (tcpc : tcpc_dev) (port : tcpm_port)
    (h : port.attached = false) : tcpm_acc_attach tcpc port = (port, 0) := by
  simp [tcpm_acc_attach, h]

/-- The handler of `AUDIO_ACC_ATTACHED` and of `DEBUG_ACC_ATTACHED` leaves a
port that is not attached as it is. -/
theorem acc_attached_handler_not_attached (tcpc : tcpc_dev) (port : tcpm_port)
    (hs : port.state = AUDIO_ACC_ATTACHED ∨ port.state = DEBUG_ACC_ATTACHED)
    (h : port.attached = false) : run_state_machine tcpc port = port := by
  rcases hs with hs | hs <;>
    simp [run_state_machine, hs, tcpm_acc_attach_not_attached tcpc port h]

/-- C22, the code at a failing input.  On `ok_src_tcpc` the controller reports
Ra on both CC lines (Rd on both for the debug accessory) of a port that is not
attached; after the debounce delay the handler of `AUDIO_ACC_ATTACHED`
(`DEBUG_ACC_ATTACHED`) has run, entered from `SRC_ATTACH_WAIT`, and the port is
still not attached, `typec_connect` has not been called, and the roles are
those of registration, Sink and Device. -/
theorem tcpm_acc_attach_scenario :
    ((scenario_accessory TYPEC_CC_RA).map fun p =>
        (p.state, p.prev_state, p.attached,
          decide ((tcpc_call.typec_connect, (0 : Int)) ∈ p.trace))) =
      some (AUDIO_ACC_ATTACHED, SRC_ATTACH_WAIT, false, false) ∧
    ((scenario_accessory TYPEC_CC_RA).map fun p => (p.pwr_role, p.data_role)) =
      some (TYPEC_PWR_SINK, TYPEC_DEVICE) ∧
    ((scenario_accessory TYPEC_CC_RD).map fun p =>
        (p.state, p.prev_state, p.attached,
          decide ((tcpc_call.typec_connect, (0 : Int)) ∈ p.trace))) =
      some (DEBUG_ACC_ATTACHED, SRC_ATTACH_WAIT, false, false) ∧
    ((scenario_accessory TYPEC_CC_RD).map fun p => (p.pwr_role, p.data_role)) =
      some (TYPEC_PWR_SINK, TYPEC_DEVICE) := by
  decide

/-! ## Swap requests -/

/-- C23, counterexample.  On `ok_dfp_tcpc` the port type is DFP; the source of
`scenario_source_ready` is in `SRC_READY`, and `tcpm_vconn_swap` does not
return `-EINVAL`: it goes on to `VCONN_SWAP_SEND`. -/
theorem vconn_swap_no_type_check :
    ((scenario_source_ready ok_dfp_tcpc).map fun p =>
        (p.typec_caps_type, p.state, (tcpm_vconn_swap p).2, (tcpm_vconn_swap p).1.state)) =
      some (TYPEC_PORT_DFP, SRC_READY, none, VCONN_SWAP_SEND) ∧
    ((scenario_source_ready ok_dfp_tcpc).map fun p =>
        ((tcpm_dr_swap p).2, (tcpm_pr_swap p).2)) = some (some (-EINVAL), some (-EINVAL)) := by
  decide

/-- C23, amended.  `tcpm_dr_swap` and `tcpm_pr_swap` return `-EINVAL` on a port
whose type is not DRP and `-EAGAIN` on a DRP port whose state is neither
`SRC_READY` nor `SNK_READY`; `tcpm_vconn_swap` does not look at the port type
and returns `-EAGAIN` on a port whose state is neither `SRC_READY` nor
`SNK_READY`.  In these cases the port is unchanged.  Otherwise each sets
`swap_status = 0` and moves the port to `DR_SWAP_SEND`, `PR_SWAP_SEND` or
`VCONN_SWAP_SEND`. -/
theorem swap_validation (port : tcpm_port) :
    (port.typec_caps_type ≠ TYPEC_PORT_DRP →
      tcpm_dr_swap port = (port, some (-EINVAL)) ∧
      tcpm_pr_swap port = (port, some (-EINVAL))) ∧
    (port.typec_caps_type = TYPEC_PORT_DRP → port.state ≠ SRC_READY →
      port.state ≠ SNK_READY →
      tcpm_dr_swap port = (port, some (-EAGAIN)) ∧
      tcpm_pr_swap port = (port, some (-EAGAIN))) ∧
    (port.state ≠ SRC_READY → port.state ≠ SNK_READY →
      tcpm_vconn_swap port = (port, some (-EAGAIN))) ∧
    (port.typec_caps_type = TYPEC_PORT_DRP → port.state = SRC_READY ∨ port.state = SNK_READY →
      ((tcpm_dr_swap port).2 = none ∧ (tcpm_dr_swap port).1.state = DR_SWAP_SEND ∧
        (tcpm_dr_swap port).1.swap_status = 0) ∧
      ((tcpm_pr_swap port).2 = none ∧ (tcpm_pr_swap port).1.state = PR_SWAP_SEND ∧
        (tcpm_pr_swap port).1.swap_status = 0)) ∧
    (port.state = SRC_READY ∨ port.state = SNK_READY →
      (tcpm_vconn_swap port).2 = none ∧ (tcpm_vconn_swap port).1.state = VCONN_SWAP_SEND ∧
        (tcpm_vconn_swap port).1.swap_status = 0) := by
  refine ⟨fun h => ?_, fun h h1 h2 => ?_, fun h1 h2 => ?_, fun h hs => ?_, fun hs => ?_⟩
  · simp [tcpm_dr_swap, tcpm_pr_swap, h]
  · simp [tcpm_dr_swap, tcpm_pr_swap, h, h1, h2]
  · simp [tcpm_vconn_swap, h1, h2]
  · rcases hs with hs | hs <;> simp [tcpm_dr_swap, tcpm_pr_swap, h, hs]
  · rcases hs with hs | hs <;> simp [tcpm_vconn_swap, hs]

/-- An Accept received by the attached port in `PR_SWAP_SEND` changes nothing. -/
theorem pr_swap_send_accept_ignored (port : tcpm_port) (msg : pd_message)
    (hs : port.state = PR_SWAP_SEND) (hcnt : pd_header_cnt msg.header = 0)
    (htype : pd_header_type msg.header = PD_CTRL_ACCEPT) :
    tcpm_pd_receive port msg = port := by
  simp [tcpm_pd_receive, tcpm_pd_ctrl_request, hs, hcnt, htype, PD_CTRL_ACCEPT, PD_CTRL_GOOD_CRC,
    PD_CTRL_PING, PD_CTRL_GET_SOURCE_CAP, PD_CTRL_GET_SINK_CAP, PD_CTRL_GOTO_MIN, PD_CTRL_PS_RDY,
    PD_CTRL_REJECT, PD_CTRL_WAIT]

/-- An Accept received by the attached port in `DR_SWAP_SEND` or
`VCONN_SWAP_SEND` moves it to `DR_SWAP_CHANGE_DR` or `VCONN_SWAP_START`. -/
theorem swap_send_accept (port : tcpm_port) (msg : pd_message) (hatt : port.attached = true)
    (hcnt : pd_header_cnt msg.header = 0) (htype : pd_header_type msg.header = PD_CTRL_ACCEPT) :
    (port.state = DR_SWAP_SEND → (tcpm_pd_receive port msg).state = DR_SWAP_CHANGE_DR) ∧
    (port.state = VCONN_SWAP_SEND → (tcpm_pd_receive port msg).state = VCONN_SWAP_START) := by
  constructor <;> intro hs <;>
    simp [tcpm_pd_receive, tcpm_pd_ctrl_request, hs, hatt, hcnt, htype, PD_CTRL_ACCEPT,
      PD_CTRL_GOOD_CRC, PD_CTRL_PING, PD_CTRL_GET_SOURCE_CAP, PD_CTRL_GET_SINK_CAP,
      PD_CTRL_GOTO_MIN, PD_CTRL_PS_RDY, PD_CTRL_REJECT, PD_CTRL_WAIT]

/-- C24, the code at a failing input.  The source of `scenario_source_ready`
on `ok_src_tcpc` has sent PR_Swap and is attached, in `PR_SWAP_SEND`, with
`PR_SWAP_SEND_TIMEOUT` pending.  Its partner's Accept leaves it in
`PR_SWAP_SEND`, not in `PR_SWAP_START`; when `PD_T_SENDER_RESPONSE` expires the
swap ends with `-ETIMEDOUT` in `SRC_READY`, the power role still Source. -/
theorem pr_swap_accept_scenario :
    (scenario_pr_swap_sent.map fun p =>
        (p.state, p.attached, p.delayed_state,
          pd_header_cnt (partner_control p PD_CTRL_ACCEPT 0).header,
          pd_header_type (partner_control p PD_CTRL_ACCEPT 0).header)) =
      some (PR_SWAP_SEND, true, PR_SWAP_SEND_TIMEOUT, 0, PD_CTRL_ACCEPT) ∧
    (scenario_pr_swap_sent.map fun p =>
        ((tcpm_pd_receive p (partner_control p PD_CTRL_ACCEPT 0)).state,
          (tcpm_pd_receive p (partner_control p PD_CTRL_ACCEPT 0)).delayed_state)) =
      some (PR_SWAP_SEND, PR_SWAP_SEND_TIMEOUT) ∧
    ((scenario_pr_swap_sent.bind fun p =>
        tcpm_state_machine_work ok_src_tcpc 8
          (tcpm_pd_receive p (partner_control p PD_CTRL_ACCEPT 0))).map fun p =>
        (p.state, p.swap_status, p.swap_complete, p.pwr_role)) =
      some (SRC_READY, -ETIMEDOUT, true, TYPEC_PWR_SOURCE) := by
  decide

/-! ## Swap timeout -/

/-- The handler of a `*_SWAP_SEND` state sends the swap message and arms
`PD_T_SENDER_RESPONSE` for the `*_SWAP_SEND_TIMEOUT` state. -/
theorem swap_send_handler (tcpc : tcpc_dev) (k : swap_kind) (port : tcpm_port)
    (hs : port.state = swap_send k) :
    run_state_machine tcpc port =
      tcpm_set_state (tcpm_pd_send_control tcpc port (swap_message k)).1 (swap_send_timeout k)
        PD_T_SENDER_RESPONSE := by
  cases k <;> simp only [swap_send] at hs <;>
    simp only [run_state_machine, hs, swap_message, swap_send_timeout]

/-- A delay that ends in a `*_SWAP_SEND_TIMEOUT` state: the swap completes with
`-ETIMEDOUT` and the port is in the ready state of its power role. -/
theorem expiry_swap_send_timeout (tcpc : tcpc_dev) (n : Nat) (k : swap_kind) (p : tcpm_port)
    (hd : p.delayed_state = swap_send_timeout k) (hbug : p.bug = false) :
    ∃ a, tcpm_state_machine_work tcpc (n + 3) p = some a ∧
      a.swap_status = -ETIMEDOUT ∧ a.swap_complete = true ∧
      (tcpc_call.complete_swap, (0 : Int)) ∈ a.trace ∧
      a.pwr_role = p.pwr_role ∧ a.data_role = p.data_role ∧
      a.state = (if p.pwr_role = TYPEC_PWR_SOURCE then SRC_READY else SNK_READY) := by
  by_cases hr : p.pwr_role = TYPEC_PWR_SOURCE <;> cases k <;>
    simp only [swap_send_timeout] at hd <;>
    simp [tcpm_state_machine_work, state_machine_work_begin, state_machine_loop,
      run_state_machine, hd, hbug, hr, ready_state, complete_swap, PD_T_SOURCE_ACTIVITY,
      tcpm_pd_send_control_trace]

/-- C25. For each swap, the handler of its `*_SWAP_SEND` state sends the swap
control message and arms `PD_T_SENDER_RESPONSE` (30 ms) for its
`*_SWAP_SEND_TIMEOUT` state; when the delay expires with no message received,
`swap_status` is `-ETIMEDOUT`, the swap completion is signalled, the power and
data roles are as before, and the state is `SRC_READY` for a source and
`SNK_READY` for a sink. -/
theorem swap_send_times_out (tcpc : tcpc_dev) (n : Nat) (k : swap_kind) (port : tcpm_port)
    (hs : port.state = swap_send k) (hbug : port.bug = false) :
    last_call (run_state_machine tcpc port) =
      some (tcpc_call.pd_transmit TCPC_TX_SOP (some (control_message port (swap_message k)))) ∧
    (run_state_machine tcpc port).state = swap_send k ∧
    (run_state_machine tcpc port).delayed_state = swap_send_timeout k ∧
    (run_state_machine tcpc port).work = some PD_T_SENDER_RESPONSE ∧
    PD_T_SENDER_RESPONSE = 30 ∧
    ∃ a, tcpm_state_machine_work tcpc (n + 3) (run_state_machine tcpc port) = some a ∧
      a.swap_status = -ETIMEDOUT ∧ a.swap_complete = true ∧
      (tcpc_call.complete_swap, (0 : Int)) ∈ a.trace ∧
      a.pwr_role = port.pwr_role ∧ a.data_role = port.data_role ∧
      a.state = (if port.pwr_role = TYPEC_PWR_SOURCE then SRC_READY else SNK_READY) := by
  have hrun := swap_send_handler tcpc k port hs
  obtain ⟨a, ha, h1, h2, h3, h4, h5, h6⟩ := expiry_swap_send_timeout tcpc n k
    (run_state_machine tcpc port) (by rw [hrun]; simp [PD_T_SENDER_RESPONSE])
    (by rw [hrun]; simpa using hbug)
  refine ⟨?_, ?_, ?_, ?_, rfl, a, ha, h1, h2, h3, ?_, ?_, ?_⟩
  · rw [hrun]
    exact last_call_append _ _ _ _ (by rw [tcpm_set_state_trace, tcpm_pd_send_control_trace])
  · rw [hrun]; simp [PD_T_SENDER_RESPONSE, hs]
  · rw [hrun]; simp [PD_T_SENDER_RESPONSE]
  · rw [hrun]; simp [PD_T_SENDER_RESPONSE]
  · rw [h4, hrun]; simp
  · rw [h5, hrun]; simp
  · rw [h6, hrun]; simp

/-- The source of `scenario_source_ready`, after `tcpm_dr_swap`, sends DR_Swap
and arms the timeout. -/
theorem swap_send_times_out_witness :
    (scenario_dr_swap_send.state = swap_send swap_kind.DR ∧
      scenario_dr_swap_send.bug = false) ∧
    (run_state_machine ok_src_tcpc scenario_dr_swap_send).delayed_state =
      swap_send_timeout swap_kind.DR :=
  ⟨⟨by decide, by decide⟩,
    (swap_send_times_out ok_src_tcpc 5 swap_kind.DR scenario_dr_swap_send (by decide)
      (by decide)).2.2.1⟩

/-! ## The handler of `DR_SWAP_CHANGE_DR` -/

/-- The handler of `DR_SWAP_CHANGE_DR`: the swap completes with status 0 in the
ready state of the power role, which is unchanged; the data role is the
opposite one when `set_pd_header` returns no error, and unchanged when it
returns one. -/
theorem dr_swap_change_dr (tcpc : tcpc_dev) (port : tcpm_port)
    (hs : port.state = DR_SWAP_CHANGE_DR) :
    (run_state_machine tcpc port).swap_status = 0 ∧
    (run_state_machine tcpc port).swap_complete = true ∧
    (run_state_machine tcpc port).pwr_role = port.pwr_role ∧
    (run_state_machine tcpc port).state = ready_state port ∧
    (run_state_machine tcpc port).data_role =
      (if 0 ≤ tcpc.ret port.trace (tcpc_call.set_pd_header port.pwr_role
            (if port.data_role = TYPEC_HOST then TYPEC_DEVICE else TYPEC_HOST)) then
        (if port.data_role = TYPEC_HOST then TYPEC_DEVICE else TYPEC_HOST)
      else port.data_role) := by
  by_cases hd : port.data_role = TYPEC_HOST
  · by_cases hr : tcpc.ret port.trace (tcpc_call.set_pd_header port.pwr_role TYPEC_DEVICE) < 0
    · have hr' :
          ¬ 0 ≤ tcpc.ret port.trace (tcpc_call.set_pd_header port.pwr_role TYPEC_DEVICE) :=
        not_le.mpr hr
      simp [run_state_machine, hs, hd, tcpm_set_roles, tcpc_op, hr, hr', complete_swap,
        ready_state]
    · have hr' : 0 ≤ tcpc.ret port.trace (tcpc_call.set_pd_header port.pwr_role TYPEC_DEVICE) :=
        not_lt.mp hr
      simp [run_state_machine, hs, hd, tcpm_set_roles, tcpc_op, hr, hr', complete_swap,
        ready_state]
  · by_cases hr : tcpc.ret port.trace (tcpc_call.set_pd_header port.pwr_role TYPEC_HOST) < 0
    · have hr' : ¬ 0 ≤ tcpc.ret port.trace (tcpc_call.set_pd_header port.pwr_role TYPEC_HOST) :=
        not_le.mpr hr
      simp [run_state_machine, hs, hd, tcpm_set_roles, tcpc_op, hr, hr', complete_swap,
        ready_state]
    · have hr' : 0 ≤ tcpc.ret port.trace (tcpc_call.set_pd_header port.pwr_role TYPEC_HOST) :=
        not_lt.mp hr
      simp [run_state_machine, hs, hd, tcpm_set_roles, tcpc_op, hr, hr', complete_swap,
        ready_state]

/-- C26, the code at a failing input.  On `header_fail_tcpc`, where
`set_pd_header` fails for the data role Device, the source of
`scenario_source_ready` is in `SRC_READY` with data role Host; after
`tcpm_dr_swap`, the partner's Accept and the handler of `DR_SWAP_CHANGE_DR` the
swap has completed with `swap_status = 0` in `SRC_READY`, and the data role is
still Host.  On `ok_src_tcpc`, whose calls all succeed, the same steps end in
`SRC_READY` with data role Device and `swap_status = 0`. -/
theorem dr_swap_header_failure :
    ((scenario_source_ready header_fail_tcpc).map fun p => (p.state, p.data_role)) =
      some (SRC_READY, TYPEC_HOST) ∧
    ((scenario_dr_swap header_fail_tcpc).map fun p =>
        (p.prev_state, p.state, p.swap_status, p.swap_complete, p.data_role)) =
      some (DR_SWAP_CHANGE_DR, SRC_READY, 0, true, TYPEC_HOST) ∧
    ((scenario_dr_swap header_fail_tcpc).map fun p =>
        decide ((tcpc_call.set_pd_header TYPEC_PWR_SOURCE TYPEC_DEVICE, - EIO) ∈ p.trace)) =
      some true ∧
    ((scenario_dr_swap ok_src_tcpc).map fun p =>
        (p.prev_state, p.state, p.swap_status, p.swap_complete, p.data_role)) =
      some (DR_SWAP_CHANGE_DR, SRC_READY, 0, true, TYPEC_DEVICE) := by
  decide

/-! ## Reset of the port controller -/

/-- After `tcpm_tcpc_reset` the state is the unattached state of the default
role of the board, whatever the port was doing. -/
theorem tcpm_tcpc_reset_state (tcpc : tcpc_dev) (port : tcpm_port) :
    (tcpm_tcpc_reset tcpc port).state =
      (if tcpc.config.default_role = TYPEC_PWR_SOURCE then SRC_UNATTACHED
        else SNK_UNATTACHED) := by
  simp only [tcpm_tcpc_reset, tcpm_init]
  split_ifs <;> simp

/-- C27, the code at a failing input.  On `ok_src_tcpc`, whose default role is
Source, the source of `scenario_source_ready` is attached in `SRC_READY` with an
explicit contract; `tcpm_tcpc_reset` puts it in `SRC_UNATTACHED`, and the work
item it queues detaches the port.  The calls made from the reset on are `init`,
`set_pd_rx(false)`, `get_vbus`, `typec_disconnect`, `set_vconn(false)`,
`set_pd_rx(false)` and `set_cc(Rp-def)`: polarity, header and RX-enable are not
replayed. -/
theorem tcpm_tcpc_reset_scenario :
    ((scenario_source_ready ok_src_tcpc).map fun p =>
        (p.state, p.pwr_role, p.attached, p.explicit_contract, p.trace.length)) =
      some (SRC_READY, TYPEC_PWR_SOURCE, true, true, 13) ∧
    ((scenario_source_ready ok_src_tcpc).map fun p =>
        ((tcpm_tcpc_reset ok_src_tcpc p).state, (tcpm_tcpc_reset ok_src_tcpc p).prev_state)) =
      some (SRC_UNATTACHED, SRC_READY) ∧
    (((scenario_source_ready ok_src_tcpc).bind fun p =>
        tcpm_state_machine_work ok_src_tcpc 8 (tcpm_tcpc_reset ok_src_tcpc p)).map fun p =>
        (p.state, p.attached, (p.trace.drop 13).map Prod.fst)) =
      some (SRC_UNATTACHED, false,
        [tcpc_call.init, tcpc_call.set_pd_rx false, tcpc_call.get_vbus,
          tcpc_call.typec_disconnect, tcpc_call.set_vconn false, tcpc_call.set_pd_rx false,
          tcpc_call.set_cc TYPEC_CC_RP_DEF]) := by
  decide

/-! ## Failed transmissions -/

/-- C29, the code at a failing input.  On `failed_tx_tcpc` every transmission
completes with `TCPC_TX_FAILED`.  The attached source receives a request for
1500 mA of its PDO; the handler of `SRC_NEGOTIATE_CAPABILITIES` sends Accept,
the transmission fails, and the handler schedules `SRC_TRANSITION_SUPPLY`, not
`SOFT_RESET_SEND`; when the delay expires the port goes through
`SRC_TRANSITION_SUPPLY`, whose PS_RDY fails as well, to `SRC_READY` with
`explicit_contract` set. -/
theorem failed_accept_scenario :
    (((scenario_source_attached failed_tx_tcpc).bind fun p =>
        tcpm_state_machine_work failed_tx_tcpc 8
          (tcpm_pd_receive p (request_message (RDO_FIXED 1 1500 1500 0)))).map fun p =>
        (p.state, p.delayed_state, p.tx_status, last_call p)) =
      some (SRC_NEGOTIATE_CAPABILITIES, SRC_TRANSITION_SUPPLY, TCPC_TX_FAILED,
        some (tcpc_call.pd_transmit TCPC_TX_SOP
          (some { header := PD_HEADER PD_CTRL_ACCEPT TYPEC_PWR_SOURCE TYPEC_HOST 0 0
                  payload := [0, 0, 0, 0, 0, 0, 0] }))) ∧
    ((scenario_source_ready failed_tx_tcpc).map fun p =>
        (p.prev_state, p.state, p.tx_status, p.explicit_contract)) =
      some (SRC_TRANSITION_SUPPLY, SRC_READY, TCPC_TX_FAILED, true) := by
  decide

/-! ## `SOFT_RESET_SEND` is never entered -/

theorem tcpm_set_state_no_soft_reset_send (p : tcpm_port) (s : tcpm_state) (d : Nat)
    (h : no_soft_reset_send p) (hs : s ≠ SOFT_RESET_SEND) :
    no_soft_reset_send (tcpm_set_state p s d) := by
  obtain ⟨h1, h2, h3⟩ := h
  by_cases hd : d = 0 <;> simp_all [no_soft_reset_send]

theorem no_soft_reset_send_ite {c : Prop} [Decidable c] (a b : tcpm_port)
    (ha : no_soft_reset_send a) (hb : no_soft_reset_send b) :
    no_soft_reset_send (if c then a else b) := by
  split_ifs <;> assumption

set_option maxHeartbeats 4000000 in
theorem run_state_machine_no_soft_reset_send (tcpc : tcpc_dev) (port : tcpm_port)
    (h : no_soft_reset_send port) : no_soft_reset_send (run_state_machine tcpc port) := by
  obtain ⟨h1, h2, h3⟩ := h
  unfold run_state_machine
  split
  case h_16 =>
    dsimp only
    cases hreq : tcpm_pd_send_request tcpc { port with pd_capable := true } with
    | none =>
      dsimp only
      simp_all [no_soft_reset_send]
    | some r =>
      obtain ⟨e1, e2, e3, e4, _⟩ := tcpm_pd_send_request_some tcpc _ r hreq
      simp only at e1 e2 e3 e4
      dsimp only
      split_ifs
      all_goals
        simp_all [no_soft_reset_send, hard_reset_state, PD_T_SENDER_RESPONSE]
      all_goals try (split_ifs <;> simp)
  all_goals try dsimp only
  all_goals try split_ifs
  all_goals try simp_all [no_soft_reset_send, hard_reset_state, ready_state,
      TYPEC_T_CC_DEBOUNCE, TYPEC_T_PD_DEBOUNCE,
      PD_T_SEND_SOURCE_CAP, PD_T_SENDER_RESPONSE, PD_T_SOURCE_ACTIVITY, PD_T_SINK_WAIT_CAP,
      PD_T_PS_TRANSITION, PD_T_SRC_TRANSITION, PD_T_PS_SOURCE_OFF, PD_T_PS_SOURCE_ON,
      PD_T_PS_HARD_RESET, PD_T_SRC_RECOVER, PD_T_SRC_RECOVER_MAX, PD_T_SRC_TURN_ON,
      PD_T_SAFE_0V, PD_T_VCONN_SOURCE_ON]
  all_goals try (split_ifs <;> simp_all)

theorem tcpm_handle_no_soft_reset_send (tcpc : tcpc_dev) (port : tcpm_port) (ev : tcpm_event)
    (h : no_soft_reset_send port) : no_soft_reset_send (tcpm_handle tcpc port ev) := by
  cases ev with
  | pd_receive msg =>
    simp only [tcpm_handle, tcpm_pd_receive, tcpm_pd_data_request, tcpm_pd_ctrl_request]
    repeat' with_reducible apply no_soft_reset_send_ite
    all_goals try split
    all_goals repeat' with_reducible apply no_soft_reset_send_ite
    all_goals first
      | exact h
      | exact tcpm_set_state_no_soft_reset_send _ _ _ h (by simp)
  | cc_change cc1 cc2 =>
    have h' : no_soft_reset_send { port with cc1 := cc1, cc2 := cc2 } := h
    simp only [tcpm_handle, tcpm_cc_change]
    split
    all_goals repeat' with_reducible apply no_soft_reset_send_ite
    all_goals first
      | exact h'
      | exact tcpm_set_state_no_soft_reset_send _ _ _ h' (by simp)
  | tcpc_reset =>
    simp only [tcpm_handle, tcpm_tcpc_reset, tcpm_init]
    repeat' with_reducible apply no_soft_reset_send_ite
    all_goals exact tcpm_set_state_no_soft_reset_send _ _ _ h (by simp)
  | _ =>
    simp only [tcpm_handle, tcpm_vbus_on, tcpm_vbus_off, tcpm_pd_transmit_complete,
      tcpm_pd_hard_reset, tcpm_dr_swap, tcpm_pr_swap, tcpm_vconn_swap]
    try split
    all_goals repeat' with_reducible apply no_soft_reset_send_ite
    all_goals try split_ifs
    all_goals first
      | exact h
      | exact tcpm_set_state_no_soft_reset_send _ _ _ h (by simp)

theorem state_machine_work_begin_no_soft_reset_send (port : tcpm_port)
    (h : no_soft_reset_send port) : no_soft_reset_send (state_machine_work_begin port) := by
  obtain ⟨h1, h2, h3⟩ := h
  unfold state_machine_work_begin
  dsimp only
  split_ifs <;> simp_all [no_soft_reset_send]

theorem state_machine_loop_no_soft_reset_send (tcpc : tcpc_dev) (fuel : Nat) :
    ∀ port port', no_soft_reset_send port → state_machine_loop tcpc fuel port = some port' →
      no_soft_reset_send port' := by
  induction fuel with
  | zero => intro port port' _ h; simp [state_machine_loop] at h
  | succ n ih =>
    intro port port' h hl
    have hr := run_state_machine_no_soft_reset_send tcpc port h
    simp only [state_machine_loop] at hl
    split_ifs at hl
    · cases hl; exact hr
    · exact ih _ _ hr hl
    · cases hl; exact hr

/-- No reachable port is in `SOFT_RESET_SEND`: no event and no handler sets the
state, the delayed state or `prev_state` to it. -/
theorem soft_reset_send_unreachable (tcpc : tcpc_dev) (port : tcpm_port)
    (h : reachable tcpc port) : port.state ≠ SOFT_RESET_SEND := by
  have hinv : no_soft_reset_send port := by
    induction h with
    | register typec =>
      unfold tcpm_register_port tcpm_init
      dsimp only
      split_ifs <;>
        exact tcpm_set_state_no_soft_reset_send _ _ _
          (by simp [no_soft_reset_send, tcpc_do, tcpc_op]) (by simp)
    | event port ev _ ih => exact tcpm_handle_no_soft_reset_send tcpc port ev ih
    | work_begin port _ ih => exact state_machine_work_begin_no_soft_reset_send port ih
    | handler port _ ih => exact run_state_machine_no_soft_reset_send tcpc port ih
    | work port port' fuel _ hw ih =>
      unfold tcpm_state_machine_work at hw
      split at hw
      · cases hw
      · rename_i q hq
        have hq' := state_machine_loop_no_soft_reset_send tcpc fuel _ q
          (state_machine_work_begin_no_soft_reset_send port ih) hq
        split_ifs at hw
        · cases hw; exact hq'
        · cases hw; exact hq'
  exact hinv.1

/-! ## The sink after a hard reset -/

/-- C30, counterexample.  The sink of `scenario_sink_off` is in
`SNK_HARD_RESET_SINK_OFF` with `hard_reset_count = 1`; its handler arms
`PD_T_SAFE_0V` and, with no event, the expiry puts the port in
`HARD_RESET_SEND`, not in `SNK_HARD_RESET_WAIT_VBUS`: the work item sends a
second hard reset and ends in `SNK_HARD_RESET_SINK_OFF` again with
`hard_reset_count = 2`. -/
theorem safe_0v_expiry_scenario :
    (scenario_sink_off.state, scenario_sink_off.hard_reset_count,
        hard_resets_sent scenario_sink_off) = (SNK_HARD_RESET_SINK_OFF, 1, 1) ∧
    ((run_state_machine ok_tcpc scenario_sink_off).state,
        (run_state_machine ok_tcpc scenario_sink_off).delayed_state,
        (run_state_machine ok_tcpc scenario_sink_off).work) =
      (SNK_HARD_RESET_SINK_OFF, HARD_RESET_SEND, some PD_T_SAFE_0V) ∧
    (state_machine_work_begin (run_state_machine ok_tcpc scenario_sink_off)).state =
      HARD_RESET_SEND ∧
    ((tcpm_state_machine_work ok_tcpc 8 (run_state_machine ok_tcpc scenario_sink_off)).map
        fun p => (p.state, p.hard_reset_count, hard_resets_sent p)) =
      some (SNK_HARD_RESET_SINK_OFF, 2, 2) := by
  decide

/-- VBUS drops on a sink in `SNK_HARD_RESET_SINK_OFF`: the port is in
`SNK_HARD_RESET_WAIT_VBUS`, whose handler arms
`PD_T_SRC_RECOVER_MAX + PD_T_SRC_TURN_ON` for `SNK_UNATTACHED`. -/
theorem vbus_off_arms_wait_vbus (tcpc : tcpc_dev) (n : Nat) (p : tcpm_port)
    (hs : p.state = SNK_HARD_RESET_SINK_OFF) (hbug : p.bug = false) :
    (tcpm_vbus_off p).state = SNK_HARD_RESET_WAIT_VBUS ∧
    ∃ b, tcpm_state_machine_work tcpc (n + 3) (tcpm_vbus_off p) = some b ∧
      b.state = SNK_HARD_RESET_WAIT_VBUS ∧ b.delayed_state = SNK_UNATTACHED ∧
      b.work = some (PD_T_SRC_RECOVER_MAX + PD_T_SRC_TURN_ON) ∧ b.bug = false := by
  simp [tcpm_vbus_off, tcpm_state_machine_work,
    state_machine_work_begin, state_machine_loop, run_state_machine, hs, hbug,
    PD_T_SRC_RECOVER_MAX, PD_T_SRC_TURN_ON]

/-- C30, amended.  A sink in `SNK_HARD_RESET_SINK_OFF` arms `PD_T_SAFE_0V`
(650 ms) for `hard_reset_state`: with no event the expiry puts it in
`HARD_RESET_SEND` while `hard_reset_count < 2` and in the unattached state of
its power role otherwise.  When VBUS drops first the port enters
`SNK_HARD_RESET_WAIT_VBUS`, where it awaits VBUS for
`PD_T_SRC_RECOVER_MAX + PD_T_SRC_TURN_ON` (1275 ms): VBUS on leads to
`SNK_STARTUP`, and the expiry leads to `SNK_UNATTACHED`. -/
theorem sink_hard_reset_wait (tcpc : tcpc_dev) (n : Nat) (port : tcpm_port)
    (hs : port.state = SNK_HARD_RESET_SINK_OFF) (hbug : port.bug = false) :
    ((run_state_machine tcpc port).state = SNK_HARD_RESET_SINK_OFF ∧
      (run_state_machine tcpc port).work = some PD_T_SAFE_0V ∧ PD_T_SAFE_0V = 650 ∧
      (state_machine_work_begin (run_state_machine tcpc port)).state =
        (if port.hard_reset_count < PD_N_HARD_RESET_COUNT then HARD_RESET_SEND
          else if port.pwr_role = TYPEC_PWR_SOURCE then SRC_UNATTACHED else SNK_UNATTACHED)) ∧
    (tcpm_vbus_off (run_state_machine tcpc port)).state = SNK_HARD_RESET_WAIT_VBUS ∧
    ∃ b, tcpm_state_machine_work tcpc (n + 3) (tcpm_vbus_off (run_state_machine tcpc port)) =
        some b ∧
      b.state = SNK_HARD_RESET_WAIT_VBUS ∧
      b.work = some (PD_T_SRC_RECOVER_MAX + PD_T_SRC_TURN_ON) ∧
      PD_T_SRC_RECOVER_MAX + PD_T_SRC_TURN_ON = 1275 ∧
      (tcpm_vbus_on b).state = SNK_STARTUP ∧
      (state_machine_work_begin b).state = SNK_UNATTACHED ∧
      ∃ c, tcpm_state_machine_work tcpc (n + 3) b = some c ∧ c.state = SNK_UNATTACHED := by
  have hrun : run_state_machine tcpc port =
      tcpm_set_state port (hard_reset_state port) PD_T_SAFE_0V := by
    simp only [run_state_machine, hs]
  have hne := hard_reset_state_ne_invalid port
  obtain ⟨h1, b, hb, b1, b2, b3, b4⟩ := vbus_off_arms_wait_vbus tcpc n
    (run_state_machine tcpc port) (by rw [hrun]; simp [PD_T_SAFE_0V, hs])
    (by rw [hrun]; simpa using hbug)
  obtain ⟨c, hc, c1, _⟩ := expiry_snk_unattached tcpc n b b2 b4
  refine ⟨⟨?_, ?_, rfl, ?_⟩, h1, b, hb, b1, b3, rfl, ?_, ?_, c, hc, c1⟩
  · rw [hrun]; simp [PD_T_SAFE_0V, hs]
  · rw [hrun]; simp [PD_T_SAFE_0V]
  · have hb : (state_machine_work_begin
        (tcpm_set_state port (hard_reset_state port) PD_T_SAFE_0V)).state =
        hard_reset_state port := by
      simp [state_machine_work_begin, PD_T_SAFE_0V, hne]
    rw [hrun, hb]
    rfl
  · simp [tcpm_vbus_on, b1]
  · simp [state_machine_work_begin, b2]

/-- The sink of `scenario_sink_off` arms `PD_T_SAFE_0V`. -/
theorem sink_hard_reset_wait_witness :
    (scenario_sink_off.state = SNK_HARD_RESET_SINK_OFF ∧ scenario_sink_off.bug = false) ∧
    (tcpm_vbus_off (run_state_machine ok_tcpc scenario_sink_off)).state =
      SNK_HARD_RESET_WAIT_VBUS :=
  ⟨⟨by decide, by decide⟩,
    (sink_hard_reset_wait ok_tcpc 5 scenario_sink_off (by decide) (by decide)).2.1⟩

/-! ## The setting of `explicit_contract` -/

theorem explicit_contract_ite {c : Prop} [Decidable c] (a b : tcpm_port) (v : Bool)
    (ha : a.explicit_contract = v) (hb : b.explicit_contract = v) :
    (if c then a else b).explicit_contract = v := by
  split_ifs <;> assumption

theorem tcpm_pd_ctrl_request_explicit_contract (port : tcpm_port) (msg : pd_message) :
    (tcpm_pd_ctrl_request port msg).explicit_contract = port.explicit_contract := by
  unfold tcpm_pd_ctrl_request
  dsimp only
  repeat' with_reducible apply explicit_contract_ite
  all_goals try split
  all_goals repeat' with_reducible apply explicit_contract_ite
  all_goals simp

/-- No event changes `explicit_contract`. -/
theorem tcpm_handle_explicit_contract (tcpc : tcpc_dev) (port : tcpm_port) (ev : tcpm_event) :
    (tcpm_handle tcpc port ev).explicit_contract = port.explicit_contract := by
  cases ev with
  | pd_receive msg =>
    simp only [tcpm_handle, tcpm_pd_receive, tcpm_pd_data_request]
    repeat' with_reducible apply explicit_contract_ite
    all_goals first
      | exact tcpm_pd_ctrl_request_explicit_contract port msg
      | simp
  | cc_change cc1 cc2 =>
    simp only [tcpm_handle, tcpm_cc_change]
    split
    all_goals repeat' with_reducible apply explicit_contract_ite
    all_goals simp
  | tcpc_reset =>
    simp only [tcpm_handle, tcpm_tcpc_reset, tcpm_init]
    repeat' with_reducible apply explicit_contract_ite
    all_goals simp [tcpc_do, tcpc_op]
  | _ =>
    simp only [tcpm_handle, tcpm_vbus_on, tcpm_vbus_off, tcpm_pd_transmit_complete,
      tcpm_pd_hard_reset, tcpm_dr_swap, tcpm_pr_swap, tcpm_vconn_swap]
    try split
    all_goals repeat' with_reducible apply explicit_contract_ite
    all_goals try split_ifs
    all_goals simp

theorem state_machine_work_begin_explicit_contract (port : tcpm_port) :
    (state_machine_work_begin port).explicit_contract = port.explicit_contract := by
  unfold state_machine_work_begin
  dsimp only
  split_ifs <;> rfl

set_option maxHeartbeats 4000000 in
/-- The value of `explicit_contract` after a state handler: the handlers of
`SRC_STARTUP` and `SNK_STARTUP` clear it, those of `SRC_TRANSITION_SUPPLY` and
`SNK_READY` set it, and no other handler changes it. -/
theorem run_state_machine_explicit_contract (tcpc : tcpc_dev) (port : tcpm_port) :
    (run_state_machine tcpc port).explicit_contract =
      (if port.state = SRC_STARTUP ∨ port.state = SNK_STARTUP then false
        else if port.state = SRC_TRANSITION_SUPPLY ∨ port.state = SNK_READY then true
        else port.explicit_contract) := by
  unfold run_state_machine
  split
  case h_16 =>
    dsimp only
    cases hreq : tcpm_pd_send_request tcpc { port with pd_capable := true } with
    | none => simp_all
    | some r =>
      have hr : r.1.explicit_contract = port.explicit_contract := by
        unfold tcpm_pd_send_request at hreq
        split at hreq
        · cases hreq
        · cases hreq; simp
        · cases hreq; simp
      dsimp only
      split_ifs <;> simp_all
  all_goals try dsimp only
  all_goals try split_ifs
  all_goals try simp_all

theorem hard_reset_state_after_contract (port : tcpm_port) :
    after_contract (hard_reset_state port) = false := by
  unfold hard_reset_state
  split_ifs <;> rfl

theorem contract_inv_mono (port : tcpm_port) (g x : Bool) (h : contract_inv port g) :
    contract_inv port (g || x) := by
  intro he hg
  cases g <;> simp_all [contract_inv]

theorem tcpm_set_state_contract_inv (p : tcpm_port) (s : tcpm_state) (d : Nat) (g : Bool)
    (h : contract_inv p g)
    (hs : p.explicit_contract = false → g = false → after_contract s = false) :
    contract_inv (tcpm_set_state p s d) g := by
  intro he hg
  simp only [tcpm_set_state_explicit_contract] at he
  obtain ⟨h1, h2, h3⟩ := h he hg
  have hs' := hs he hg
  by_cases hd : d = 0 <;> simp_all [after_contract]

theorem contract_inv_ite {c : Prop} [Decidable c] (a b : tcpm_port) (g : Bool)
    (ha : c → contract_inv a g) (hb : ¬ c → contract_inv b g) :
    contract_inv (if c then a else b) g := by
  split_ifs with hc
  · exact ha hc
  · exact hb hc

set_option maxHeartbeats 4000000 in
theorem run_state_machine_contract_inv (tcpc : tcpc_dev) (port : tcpm_port) (g : Bool)
    (h : contract_inv port g) :
    contract_inv (run_state_machine tcpc port) (g && decide (port.state ≠ SNK_STARTUP)) := by
  intro he hg
  rw [run_state_machine_explicit_contract] at he
  unfold contract_inv at h
  unfold run_state_machine
  split
  case h_16 =>
    dsimp only
    cases hreq : tcpm_pd_send_request tcpc { port with pd_capable := true } with
    | none =>
      dsimp only
      simp_all [after_contract, returns_to_prev]
    | some r =>
      obtain ⟨e1, e2, e3, e4, _⟩ := tcpm_pd_send_request_some tcpc _ r hreq
      simp only at e1 e2 e3 e4
      dsimp only
      split_ifs
      all_goals
        simp_all [after_contract, returns_to_prev, hard_reset_state_after_contract,
          PD_T_SENDER_RESPONSE]
      all_goals try exact hard_reset_state_after_contract _
  all_goals try dsimp only
  all_goals try split_ifs
  all_goals try simp_all [after_contract, returns_to_prev, hard_reset_state_after_contract,
      ready_state, TYPEC_T_CC_DEBOUNCE, TYPEC_T_PD_DEBOUNCE,
      PD_T_SEND_SOURCE_CAP, PD_T_SENDER_RESPONSE, PD_T_SOURCE_ACTIVITY, PD_T_SINK_WAIT_CAP,
      PD_T_PS_TRANSITION, PD_T_SRC_TRANSITION, PD_T_PS_SOURCE_OFF, PD_T_PS_SOURCE_ON,
      PD_T_PS_HARD_RESET, PD_T_SRC_RECOVER, PD_T_SRC_RECOVER_MAX, PD_T_SRC_TURN_ON,
      PD_T_SAFE_0V, PD_T_VCONN_SOURCE_ON]
  all_goals try exact hard_reset_state_after_contract _
  all_goals try (unfold hard_reset_state; split_ifs <;> rfl)

set_option maxHeartbeats 4000000 in
theorem tcpm_handle_contract_inv (tcpc : tcpc_dev) (port : tcpm_port) (g : Bool)
    (ev : tcpm_event) (h : contract_inv port g) :
    contract_inv (tcpm_handle tcpc port ev) (g || ps_rdy_in_transition_sink port ev) := by
  have hm := contract_inv_mono port g (ps_rdy_in_transition_sink port ev) h
  cases ev with
  | pd_receive msg =>
    simp only [tcpm_handle, tcpm_pd_receive, tcpm_pd_data_request, tcpm_pd_ctrl_request]
    repeat' (with_reducible apply contract_inv_ite <;> intro _)
    all_goals try split
    all_goals repeat' (with_reducible apply contract_inv_ite <;> intro _)
    all_goals first
      | (refine tcpm_set_state_contract_inv _ _ _ _ hm ?_
         intro he hg
         have h3 := h he (by cases g <;> simp_all)
         simp_all [after_contract, ps_rdy_in_transition_sink])
      | exact hm
  | cc_change cc1 cc2 =>
    have h' : contract_inv { port with cc1 := cc1, cc2 := cc2 } g := h
    simp only [tcpm_handle, tcpm_cc_change, ps_rdy_in_transition_sink, Bool.or_false]
    split
    all_goals repeat' (with_reducible apply contract_inv_ite <;> intro _)
    all_goals first
      | exact h'
      | exact tcpm_set_state_contract_inv _ _ _ _ h' (by simp [after_contract])
  | tcpc_reset =>
    have h' : ∀ b, contract_inv
        { (tcpc_op tcpc (tcpc_do tcpc (tcpc_do tcpc port .init) (.set_pd_rx false)) .get_vbus).1
          with vbus_present := b } g := by
      intro b
      simpa [contract_inv, tcpc_do, tcpc_op] using h
    simp only [tcpm_handle, tcpm_tcpc_reset, tcpm_init, ps_rdy_in_transition_sink, Bool.or_false]
    repeat' (with_reducible apply contract_inv_ite <;> intro _)
    all_goals exact tcpm_set_state_contract_inv _ _ _ _ (h' _) (by simp [after_contract])
  | vbus_on =>
    have h' : contract_inv { port with vbus_present := true } g := h
    simp only [tcpm_handle, tcpm_vbus_on, ps_rdy_in_transition_sink, Bool.or_false]
    split
    all_goals first
      | exact h'
      | exact tcpm_set_state_contract_inv _ _ _ _ h' (by simp [after_contract])
  | vbus_off =>
    have h' : contract_inv { port with vbus_present := false } g := h
    simp only [tcpm_handle, tcpm_vbus_off, ps_rdy_in_transition_sink, Bool.or_false]
    split
    all_goals repeat' (with_reducible apply contract_inv_ite <;> intro _)
    all_goals first
      | exact h'
      | exact tcpm_set_state_contract_inv _ _ _ _ h' (by simp [after_contract])
  | pd_transmit_complete status =>
    simp only [tcpm_handle, tcpm_pd_transmit_complete, ps_rdy_in_transition_sink, Bool.or_false]
    exact h
  | pd_hard_reset =>
    simp only [tcpm_handle, tcpm_pd_hard_reset, ps_rdy_in_transition_sink, Bool.or_false]
    apply contract_inv_ite
    · intro _; exact tcpm_set_state_contract_inv _ _ _ _ h (by simp [after_contract])
    · intro _; exact h
  | dr_swap =>
    have h' : contract_inv { port with swap_status := 0, swap_complete := false } g := h
    simp only [tcpm_handle, tcpm_dr_swap, ps_rdy_in_transition_sink, Bool.or_false]
    split_ifs with h1 h2
    · exact h
    · exact h
    · apply tcpm_set_state_contract_inv _ _ _ _ h'
      intro he hg
      have h3 := h he hg
      simp only [not_and_or, not_not] at h2
      rcases h2 with h2 | h2 <;> simp_all [after_contract]
  | pr_swap =>
    have h' : contract_inv { port with swap_status := 0, swap_complete := false } g := h
    simp only [tcpm_handle, tcpm_pr_swap, ps_rdy_in_transition_sink, Bool.or_false]
    split_ifs with h1 h2
    · exact h
    · exact h
    · apply tcpm_set_state_contract_inv _ _ _ _ h'
      intro he hg
      have h3 := h he hg
      simp only [not_and_or, not_not] at h2
      rcases h2 with h2 | h2 <;> simp_all [after_contract]
  | vconn_swap =>
    have h' : contract_inv { port with swap_status := 0, swap_complete := false } g := h
    simp only [tcpm_handle, tcpm_vconn_swap, ps_rdy_in_transition_sink, Bool.or_false]
    split_ifs with h2
    · exact h
    · apply tcpm_set_state_contract_inv _ _ _ _ h'
      intro he hg
      have h3 := h he hg
      simp only [not_and_or, not_not] at h2
      rcases h2 with h2 | h2 <;> simp_all [after_contract]

theorem state_machine_work_begin_contract_inv (port : tcpm_port) (g : Bool)
    (h : contract_inv port g) : contract_inv (state_machine_work_begin port) g := by
  intro he hg
  rw [state_machine_work_begin_explicit_contract] at he
  obtain ⟨h1, h2, h3⟩ := h he hg
  unfold state_machine_work_begin
  dsimp only
  split_ifs <;> simp_all [after_contract]

theorem reachable_ps_rdy_inv (tcpc : tcpc_dev) (port : tcpm_port) (g : Bool)
    (h : reachable_ps_rdy tcpc port g) : contract_inv port g := by
  induction h with
  | register typec =>
    unfold tcpm_register_port tcpm_init
    dsimp only
    split_ifs <;>
      exact tcpm_set_state_contract_inv _ _ _ _
        (by intro _ _; simp [after_contract, returns_to_prev, tcpc_do, tcpc_op])
        (by simp [after_contract])
  | event port g ev _ ih => exact tcpm_handle_contract_inv tcpc port g ev ih
  | work_begin port g _ ih => exact state_machine_work_begin_contract_inv port g ih
  | handler port g _ ih => exact run_state_machine_contract_inv tcpc port g ih
  | work_end port g _ ih => exact ih

/-- Where `explicit_contract` is set.  No event and no start of the work item
changes `explicit_contract`; a state handler changes it from false to true only
when it is the handler of `SRC_TRANSITION_SUPPLY` or of `SNK_READY`; and on
every reachable port the handler of `SNK_READY` is about to run with
`explicit_contract` clear only if PS_RDY has been received in
`SNK_TRANSITION_SINK` since the handler of `SNK_STARTUP` last ran.  Whether a
Request had been sent and accepted before that PS_RDY is not part of this
statement. -/
theorem explicit_contract_set (tcpc : tcpc_dev) :
    (∀ port ev, (tcpm_handle tcpc port ev).explicit_contract = port.explicit_contract) ∧
    (∀ port, (state_machine_work_begin port).explicit_contract = port.explicit_contract) ∧
    (∀ port, port.explicit_contract = false →
      (run_state_machine tcpc port).explicit_contract = true →
      port.state = SRC_TRANSITION_SUPPLY ∨ port.state = SNK_READY) ∧
    (∀ port g, reachable_ps_rdy tcpc port g → port.state = SNK_READY →
      port.explicit_contract = false → g = true) := by
  refine ⟨tcpm_handle_explicit_contract tcpc, state_machine_work_begin_explicit_contract,
    fun port he ht => ?_, fun port g hr hs he => ?_⟩
  · rw [run_state_machine_explicit_contract] at ht
    split_ifs at ht with h1 h2
    · exact h2
    · simp [he] at ht
  · cases g
    · have h := (reachable_ps_rdy_inv tcpc port false hr he rfl).1
      simp [hs, after_contract] at h
    · rfl

theorem reachable_ps_rdy_run (tcpc : tcpc_dev) (pg : tcpm_port × Bool) (step : ps_rdy_step)
    (h : reachable_ps_rdy tcpc pg.1 pg.2) :
    reachable_ps_rdy tcpc (ps_rdy_run tcpc pg step).1 (ps_rdy_run tcpc pg step).2 := by
  cases step with
  | event ev => exact reachable_ps_rdy.event _ _ ev h
  | work_begin => exact reachable_ps_rdy.work_begin _ _ h
  | handler => exact reachable_ps_rdy.handler _ _ h
  | work_end => exact reachable_ps_rdy.work_end _ _ h

theorem reachable_ps_rdy_foldl (tcpc : tcpc_dev) (steps : List ps_rdy_step) :
    ∀ pg : tcpm_port × Bool, reachable_ps_rdy tcpc pg.1 pg.2 →
      reachable_ps_rdy tcpc (steps.foldl (ps_rdy_run tcpc) pg).1
        (steps.foldl (ps_rdy_run tcpc) pg).2 := by
  induction steps with
  | nil => intro pg h; exact h
  | cons step steps ih =>
    intro pg h
    exact ih _ (reachable_ps_rdy_run tcpc pg step h)

/-- The sink of boundary scenario 1 is in `SNK_READY` with `explicit_contract`
clear after PS_RDY has arrived in `SNK_TRANSITION_SINK`; the handler of
`SNK_READY` then sets the flag. -/
theorem explicit_contract_set_witness :
    (scenario_sink_ps_rdy.1.state = SNK_READY ∧
      scenario_sink_ps_rdy.1.explicit_contract = false ∧
      (run_state_machine ok_tcpc (state_machine_work_begin
        scenario_sink_ps_rdy.1)).explicit_contract = true) ∧
    scenario_sink_ps_rdy.2 = true :=
  ⟨⟨by decide, by decide, by decide⟩,
    (explicit_contract_set ok_tcpc).2.2.2 scenario_sink_ps_rdy.1 scenario_sink_ps_rdy.2
      (reachable_ps_rdy_foldl ok_tcpc _ _ (reachable_ps_rdy.register typec_zero))
      (by decide) (by decide)⟩

/-! ## The voltage of the selected PDO -/

/-- C34, the code at a failing input.  The source offers one Battery PDO whose
minimum-voltage field is 0 (0 V to 12 V, 15 W).  On `board_config`
`tcpm_pd_select_pdo` selects it (index 0), and `tcpm_pd_build_request` divides
by its voltage `mv = 0`.  In the state machine: the attached sink of boundary
scenario 1 receives these capabilities, and the handler of
`SNK_NEGOTIATE_CAPABILITIES` stops in the division. -/
theorem build_request_division_by_zero :
    (pdo_type battery_0v_12v_15w, pdo_min_voltage battery_0v_12v_15w,
        pdo_max_power battery_0v_12v_15w) = (PDO_TYPE_BATT, 0, 15000) ∧
    tcpm_pd_select_pdo board_config [battery_0v_12v_15w] = 0 ∧
    pdo_mv ([battery_0v_12v_15w].getD 0 0) = 0 ∧
    tcpm_pd_build_request board_config [battery_0v_12v_15w] = .error .div_by_zero ∧
    (scenario_sink_attached.map fun p => (p.state, p.attached, p.bug)) =
      some (SNK_WAIT_CAPABILITIES, true, false) ∧
    ((scenario_sink_attached.bind fun p =>
        tcpm_state_machine_work ok_tcpc 8
          (tcpm_pd_receive p (source_message PD_DATA_SOURCE_CAP 0 [battery_0v_12v_15w]))).map
        fun p => (p.state, p.bug)) = some (SNK_NEGOTIATE_CAPABILITIES, true) := by
  refine ⟨by decide, by decide, by decide, rfl, by decide, by decide⟩

/-- C35, the code at a failing input.  `board_config` has `max_snk_mv = 12000`.
A source offers one Variable PDO of 5 V to 20 V, 3 A: `tcpm_pd_select_pdo`
selects it (index 0) although its maximum voltage is 20000 mV, and
`tcpm_pd_build_request` requests 3 A from it.  The same holds for a Battery PDO
of 5 V to 20 V, 15 W. -/
theorem select_pdo_max_voltage_scenario :
    board_config.max_snk_mv = 12000 ∧
    (pdo_type variable_5v_20v_3a, pdo_min_voltage variable_5v_20v_3a,
        pdo_max_voltage variable_5v_20v_3a, pdo_max_current variable_5v_20v_3a) =
      (PDO_TYPE_VAR, 5000, 20000, 3000) ∧
    tcpm_pd_select_pdo board_config [variable_5v_20v_3a] = 0 ∧
    ¬ pdo_max_voltage variable_5v_20v_3a ≤ board_config.max_snk_mv ∧
    tcpm_pd_build_request board_config [variable_5v_20v_3a] = .ok (RDO_FIXED 1 3000 3000 0) ∧
    (pdo_type battery_5v_20v_15w, pdo_min_voltage battery_5v_20v_15w,
        pdo_max_voltage battery_5v_20v_15w) = (PDO_TYPE_BATT, 5000, 20000) ∧
    tcpm_pd_select_pdo board_config [battery_5v_20v_15w] = 0 ∧
    ¬ pdo_max_voltage battery_5v_20v_15w ≤ board_config.max_snk_mv := by
  refine ⟨by decide, by decide, by decide, by decide, rfl, by decide, by decide, by decide⟩

/-! ## The request a sink builds -/

theorem RDO_FIXED_idx_mod (idx op_ma max_ma flags : Nat) :
    RDO_FIXED idx op_ma max_ma flags = RDO_FIXED (idx % 8) op_ma max_ma flags := by
  unfold RDO_FIXED
  simp only [RDO_OBJ_POS_MASK, and_0x7, Nat.mod_mod]

theorem rdo_current_RDO_FIXED_same (idx ma flags : Nat) (hma : ma ≤ 10230)
    (hf : flags &&& RDO_FLAG_BITS = flags) :
    rdo_op_current (RDO_FIXED idx ma ma flags) = ma / 10 * 10 ∧
    rdo_max_current (RDO_FIXED idx ma ma flags) = ma / 10 * 10 := by
  have hword := RDO_FIXED_same_eq_add (idx % 8) ma flags (by omega) hma hf
  rw [RDO_FLAG_BITS_eq, confined_iff] at hf
  obtain ⟨h0, h1⟩ := hf
  norm_num at h0 h1
  rw [rdo_op_current_eq, rdo_max_current_eq, RDO_FIXED_idx_mod, hword]
  norm_num
  omega

theorem build_request_current (config : tcpc_config) (source_caps : List Nat) (i pdo : Nat)
    (hsel : tcpm_pd_select_pdo config source_caps = (i : Int))
    (hpdo : source_caps[i]? = some pdo) (hty : pdo_type pdo ≠ PDO_TYPE_BATT) :
    ∃ rdo : Nat, tcpm_pd_build_request config source_caps = .ok rdo ∧
      rdo_index rdo = (i + 1) % 8 ∧
      rdo_op_current rdo =
        min (min (pdo_max_current pdo) config.max_snk_ma)
          ((1000 * config.max_snk_mw) % 2 ^ 32 / pdo_mv pdo) / 10 * 10 ∧
      rdo_max_current rdo = rdo_op_current rdo := by
  obtain ⟨hmv, _⟩ := selected_mv_ne_zero config source_caps i pdo hsel hpdo hty
  have hma := build_request_ma_le config pdo (pdo_mv pdo) hty
  have hle : build_request_ma config pdo (pdo_mv pdo) ≤ 10230 := by
    have := pdo_max_current_le pdo
    rw [hma]
    generalize (1000 * config.max_snk_mw) % 2 ^ 32 / pdo_mv pdo = x
    omega
  have hflags := build_flags_confined
    ((build_request_ma config pdo (pdo_mv pdo) * pdo_mv pdo) % 2 ^ 32) config.operating_snk_mw
  obtain ⟨hop, hmax⟩ := rdo_current_RDO_FIXED_same (i + 1) _ _ hle hflags
  have hword := RDO_FIXED_same_eq_add ((i + 1) % 8) _ _ (by omega) hle hflags
  rw [RDO_FLAG_BITS_eq, confined_iff] at hflags
  obtain ⟨h0, h1⟩ := hflags
  norm_num at h0 h1
  refine ⟨RDO_FIXED (i + 1) (build_request_ma config pdo (pdo_mv pdo))
      (build_request_ma config pdo (pdo_mv pdo))
      (if (build_request_ma config pdo (pdo_mv pdo) * pdo_mv pdo) % 2 ^ 32 <
          config.operating_snk_mw then 0 ||| RDO_CAP_MISMATCH else 0), ?_, ?_, ?_, ?_⟩
  · rw [build_request_eq config source_caps i pdo hsel hpdo hmv]
    simp only [hty, if_false]
  · rw [rdo_index_eq, RDO_FIXED_idx_mod, hword]
    norm_num
    omega
  · rw [hop, hma]
  · rw [hop, hmax]

/-- C38. For every source-caps list and board config, if the PDO that
`tcpm_pd_select_pdo` selects is Fixed or Variable, `tcpm_pd_build_request`
succeeds and the operating current `c` decoded from its RDO satisfies
`c ≤ pdo_max_current`, `c ≤ max_snk_ma` and `c * mV ≤ 1000 * max_snk_mw`, where
`mV` is the voltage the code reads from the selected PDO (the fixed voltage, or
the minimum voltage of a Variable PDO).  The bound `1000 * max_snk_mw < 2^32`
is not needed. -/
theorem build_request_within_limits (config : tcpc_config) (source_caps : List Nat)
    (i pdo : Nat) (hsel : tcpm_pd_select_pdo config source_caps = (i : Int))
    (hpdo : source_caps[i]? = some pdo)
    (hty : pdo_type pdo = PDO_TYPE_FIXED ∨ pdo_type pdo = PDO_TYPE_VAR) :
    ∃ rdo : Nat, tcpm_pd_build_request config source_caps = .ok rdo ∧
      rdo_op_current rdo ≤ pdo_max_current pdo ∧
      rdo_op_current rdo ≤ config.max_snk_ma ∧
      rdo_op_current rdo * pdo_mv pdo ≤ 1000 * config.max_snk_mw := by
  have hnb : pdo_type pdo ≠ PDO_TYPE_BATT := by
    rcases hty with h | h <;> rw [h] <;> decide
  obtain ⟨rdo, hok, _, hop, _⟩ := build_request_current config source_caps i pdo hsel hpdo hnb
  have hdiv : (1000 * config.max_snk_mw) % 2 ^ 32 / pdo_mv pdo * pdo_mv pdo ≤
      1000 * config.max_snk_mw :=
    le_trans (Nat.div_mul_le_self _ _) (Nat.mod_le _ _)
  have hc : rdo_op_current rdo ≤
      min (min (pdo_max_current pdo) config.max_snk_ma)
        ((1000 * config.max_snk_mw) % 2 ^ 32 / pdo_mv pdo) := by
    rw [hop]; exact Nat.div_mul_le_self _ _
  refine ⟨rdo, hok, ?_, ?_, ?_⟩
  · exact le_trans hc (le_trans (Nat.min_le_left _ _) (Nat.min_le_left _ _))
  · exact le_trans hc (le_trans (Nat.min_le_left _ _) (Nat.min_le_right _ _))
  · exact le_trans (Nat.mul_le_mul_right _ (le_trans hc (Nat.min_le_right _ _))) hdiv

theorem build_request_within_limits_witness :
    (tcpm_pd_select_pdo board_config scenario_source_caps = ((2 : Nat) : Int) ∧
      scenario_source_caps[2]? = some (PDO_FIXED 12000 3000 PDO_FIXED_FLAGS)) ∧
    (∃ rdo : Nat, tcpm_pd_build_request board_config scenario_source_caps = .ok rdo ∧
      rdo_op_current rdo ≤ pdo_max_current (PDO_FIXED 12000 3000 PDO_FIXED_FLAGS) ∧
      rdo_op_current rdo ≤ board_config.max_snk_ma ∧
      rdo_op_current rdo * pdo_mv (PDO_FIXED 12000 3000 PDO_FIXED_FLAGS) ≤
        1000 * board_config.max_snk_mw) ∧
    (tcpm_pd_build_request board_config scenario_source_caps = .ok 805511168 ∧
      rdo_op_current 805511168 = 2000 ∧
      pdo_mv (PDO_FIXED 12000 3000 PDO_FIXED_FLAGS) = 12000) :=
  ⟨⟨by decide, by decide⟩,
    build_request_within_limits board_config scenario_source_caps 2
      (PDO_FIXED 12000 3000 PDO_FIXED_FLAGS) (by decide) (by decide) (Or.inl (by decide)),
    ⟨rfl, by decide, by decide⟩⟩

/-- C37. For every list of at most 7 source PDOs that are all Fixed or Variable
and every board config of the sink, if `tcpm_pd_build_request` succeeds with the
RDO `r`, then `tcpm_pd_check_request` of a source whose table `src_pdo` is that
list (`nr_src_pdo` its length) returns 0 on `sink_request = r`.  The bound
`1000 * max_snk_mw < 2^32` is not needed, and the list is not empty since the
request was built. -/
theorem build_request_accepted (sink source : tcpc_config) (source_caps : List Nat)
    (rdo : Nat) (hlen : source_caps.length ≤ PDO_MAX_OBJECTS)
    (hty : ∀ p ∈ source_caps, pdo_type p = PDO_TYPE_FIXED ∨ pdo_type p = PDO_TYPE_VAR)
    (hsrc : source.src_pdo = source_caps) (hnr : source.nr_src_pdo = source_caps.length)
    (hok : tcpm_pd_build_request sink source_caps = .ok rdo) :
    tcpm_pd_check_request source rdo = 0 := by
  rcases select_pdo_cases sink source_caps with ⟨hr, _⟩ | ⟨k, q, hq, hr, _, _, _, _⟩
  · have hneg : tcpm_pd_select_pdo sink source_caps < 0 := by rw [hr, EINVAL]; omega
    simp [tcpm_pd_build_request, hneg] at hok
  · have hqty := hty q (List.getElem?_mem hq)
    have hnb : pdo_type q ≠ PDO_TYPE_BATT := by
      rcases hqty with h | h <;> rw [h] <;> decide
    have hk : k < source_caps.length := by
      rcases Nat.lt_or_ge k source_caps.length with h | h
      · exact h
      · rw [List.getElem?_eq_none h] at hq; cases hq
    obtain ⟨r, hr', hidx, hop, hmax⟩ := build_request_current sink source_caps k q hr hq hnb
    rw [hr'] at hok
    cases hok
    have hk7 : (k + 1) % 8 = k + 1 := by
      unfold PDO_MAX_OBJECTS at hlen
      omega
    rw [hk7] at hidx
    have hget : source.src_pdo.getD (rdo_index rdo - 1) 0 = q := by
      rw [hsrc, hidx, Nat.add_sub_cancel, List.getD_eq_getElem?_getD, hq]; rfl
    rw [check_request_eq source rdo q ⟨by omega, by omega⟩ hget
      (by rcases hqty with h | h; exact Or.inl h; exact Or.inr (Or.inl h))]
    have hc : rdo_op_current rdo ≤ pdo_max_current q := by
      rw [hop]
      exact le_trans (Nat.div_mul_le_self _ _)
        (le_trans (Nat.min_le_left _ _) (Nat.min_le_left _ _))
    simp only [request_op, request_max, pdo_cap, hnb, if_false, hmax]
    have h1 : ¬ rdo_op_current rdo > pdo_max_current q := by omega
    simp [h1]

theorem build_request_accepted_witness :
    (scenario_source_caps.length ≤ PDO_MAX_OBJECTS ∧
      (∀ p ∈ scenario_source_caps,
        pdo_type p = PDO_TYPE_FIXED ∨ pdo_type p = PDO_TYPE_VAR) ∧
      (source_config scenario_source_caps).src_pdo = scenario_source_caps ∧
      (source_config scenario_source_caps).nr_src_pdo = scenario_source_caps.length ∧
      tcpm_pd_build_request board_config scenario_source_caps = .ok 805511168) ∧
    tcpm_pd_check_request (source_config scenario_source_caps) 805511168 = 0 :=
  ⟨⟨by decide, by decide, rfl, rfl, rfl⟩,
    build_request_accepted board_config (source_config scenario_source_caps)
      scenario_source_caps 805511168 (by decide) (by decide) rfl rfl rfl⟩

/-! ## The handler of `GIVE_SINK_CAPS` -/

/-- The message the handler of `GIVE_SINK_CAPS` hands to the port controller,
for every controller and port: without a sink PDO a Reject with object count
0; otherwise a data message whose header is built with `PD_DATA_SOURCE_CAP`,
with object count `nr_snk_pdo` and the first `nr_snk_pdo` words of `snk_pdo`. -/
theorem give_sink_caps_message (tcpc : tcpc_dev) (port : tcpm_port)
    (hstate : port.state = GIVE_SINK_CAPS) :
    last_message (run_state_machine tcpc port) =
      some { header :=
               if tcpc.config.nr_snk_pdo = 0 then
                 PD_HEADER PD_CTRL_REJECT port.pwr_role port.data_role port.message_id 0
               else
                 PD_HEADER PD_DATA_SOURCE_CAP port.pwr_role port.data_role port.message_id
                   tcpc.config.nr_snk_pdo
             payload := memcpy_payload tcpc.config.snk_pdo tcpc.config.nr_snk_pdo } := by
  have hrun : run_state_machine tcpc port =
      tcpm_set_state (tcpm_pd_send_sink_caps tcpc port).1
        (tcpm_pd_send_sink_caps tcpc port).1.prev_state 0 := by
    simp only [run_state_machine, hstate]
  have htrace : (run_state_machine tcpc port).trace = port.trace ++
      [(tcpc_call.pd_transmit TCPC_TX_SOP
          (some { header :=
                    if tcpc.config.nr_snk_pdo = 0 then
                      PD_HEADER PD_CTRL_REJECT port.pwr_role port.data_role port.message_id 0
                    else
                      PD_HEADER PD_DATA_SOURCE_CAP port.pwr_role port.data_role
                        port.message_id tcpc.config.nr_snk_pdo
                  payload := memcpy_payload tcpc.config.snk_pdo tcpc.config.nr_snk_pdo }),
        tcpc.ret port.trace (tcpc_call.pd_transmit TCPC_TX_SOP
          (some { header :=
                    if tcpc.config.nr_snk_pdo = 0 then
                      PD_HEADER PD_CTRL_REJECT port.pwr_role port.data_role port.message_id 0
                    else
                      PD_HEADER PD_DATA_SOURCE_CAP port.pwr_role port.data_role
                        port.message_id tcpc.config.nr_snk_pdo
                  payload := memcpy_payload tcpc.config.snk_pdo tcpc.config.nr_snk_pdo })))] := by
    rw [hrun, tcpm_set_state_trace]
    simp only [tcpm_pd_send_sink_caps, tcpm_pd_transmit_trace]
  simp only [last_message, last_call_append _ _ _ _ htrace]

/-- C39, the code at a failing input.  The board of `snk_caps_tcpc` has three
sink PDOs.  The source of `scenario_source_ready` receives Get_Sink_Cap in
`SRC_READY`; the handler of `GIVE_SINK_CAPS` transmits a message with object
count 3 and the table `board_snk_pdo` as payload whose header type is 1
(`PD_DATA_SOURCE_CAP`), not 4 (`PD_DATA_SINK_CAP`). -/
theorem give_sink_caps_scenario :
    (scenario_give_sink_caps.state, scenario_give_sink_caps.prev_state,
        snk_caps_tcpc.config.nr_snk_pdo, snk_caps_tcpc.config.snk_pdo) =
      (GIVE_SINK_CAPS, SRC_READY, 3, board_snk_pdo) ∧
    ((last_message (run_state_machine snk_caps_tcpc scenario_give_sink_caps)).map fun m =>
        (pd_header_type m.header, pd_header_cnt m.header, m.payload)) =
      some (1, 3, board_snk_pdo ++ [0, 0, 0, 0]) ∧
    (PD_DATA_SOURCE_CAP, PD_DATA_SINK_CAP) = (1, 4) := by
  refine ⟨by decide, by decide, by decide⟩

/-! ## The state machine never runs on `INVALID_STATE` -/

theorem tcpm_set_state_state_valid (p : tcpm_port) (s : tcpm_state) (d : Nat)
    (h : state_valid p) (hs : s ≠ INVALID_STATE) : state_valid (tcpm_set_state p s d) := by
  obtain ⟨h1, h2⟩ := h
  by_cases hd : d = 0 <;> simp_all [state_valid]

theorem state_valid_ite {c : Prop} [Decidable c] (a b : tcpm_port)
    (ha : state_valid a) (hb : state_valid b) : state_valid (if c then a else b) := by
  split_ifs <;> assumption

set_option maxHeartbeats 4000000 in
theorem run_state_machine_state_valid (tcpc : tcpc_dev) (port : tcpm_port)
    (h : state_valid port) : state_valid (run_state_machine tcpc port) := by
  obtain ⟨h1, h2⟩ := h
  unfold run_state_machine
  split
  case h_16 =>
    dsimp only
    cases hreq : tcpm_pd_send_request tcpc { port with pd_capable := true } with
    | none =>
      dsimp only
      simp_all [state_valid]
    | some r =>
      obtain ⟨e1, e2, e3, e4, _⟩ := tcpm_pd_send_request_some tcpc _ r hreq
      simp only at e1 e2 e3 e4
      dsimp only
      split_ifs
      all_goals
        simp_all [state_valid, hard_reset_state, PD_T_SENDER_RESPONSE, returns_to_prev]
  all_goals try dsimp only
  all_goals try split_ifs
  all_goals try simp_all [state_valid, returns_to_prev, hard_reset_state, ready_state,
      TYPEC_T_CC_DEBOUNCE, TYPEC_T_PD_DEBOUNCE,
      PD_T_SEND_SOURCE_CAP, PD_T_SENDER_RESPONSE, PD_T_SOURCE_ACTIVITY, PD_T_SINK_WAIT_CAP,
      PD_T_PS_TRANSITION, PD_T_SRC_TRANSITION, PD_T_PS_SOURCE_OFF, PD_T_PS_SOURCE_ON,
      PD_T_PS_HARD_RESET, PD_T_SRC_RECOVER, PD_T_SRC_RECOVER_MAX, PD_T_SRC_TURN_ON,
      PD_T_SAFE_0V, PD_T_VCONN_SOURCE_ON]
  all_goals try (split_ifs <;> simp_all)

theorem tcpm_handle_state_valid (tcpc : tcpc_dev) (port : tcpm_port) (ev : tcpm_event)
    (h : state_valid port) : state_valid (tcpm_handle tcpc port ev) := by
  cases ev with
  | pd_receive msg =>
    simp only [tcpm_handle, tcpm_pd_receive, tcpm_pd_data_request, tcpm_pd_ctrl_request]
    repeat' with_reducible apply state_valid_ite
    all_goals try split
    all_goals repeat' with_reducible apply state_valid_ite
    all_goals first
      | exact h
      | exact tcpm_set_state_state_valid _ _ _ h (by simp)
  | cc_change cc1 cc2 =>
    have h' : state_valid { port with cc1 := cc1, cc2 := cc2 } := h
    simp only [tcpm_handle, tcpm_cc_change]
    split
    all_goals repeat' with_reducible apply state_valid_ite
    all_goals first
      | exact h'
      | exact tcpm_set_state_state_valid _ _ _ h' (by simp)
  | tcpc_reset =>
    simp only [tcpm_handle, tcpm_tcpc_reset, tcpm_init]
    repeat' with_reducible apply state_valid_ite
    all_goals exact tcpm_set_state_state_valid _ _ _ h (by simp)
  | _ =>
    simp only [tcpm_handle, tcpm_vbus_on, tcpm_vbus_off, tcpm_pd_transmit_complete,
      tcpm_pd_hard_reset, tcpm_dr_swap, tcpm_pr_swap, tcpm_vconn_swap]
    try split
    all_goals repeat' with_reducible apply state_valid_ite
    all_goals try split_ifs
    all_goals first
      | exact h
      | exact tcpm_set_state_state_valid _ _ _ h (by simp)

theorem state_machine_work_begin_state_valid (port : tcpm_port)
    (h : state_valid port) : state_valid (state_machine_work_begin port) := by
  obtain ⟨h1, h2⟩ := h
  unfold state_machine_work_begin
  dsimp only
  split_ifs <;> simp_all [state_valid]

theorem state_machine_loop_state_valid (tcpc : tcpc_dev) (fuel : Nat) :
    ∀ port port', state_valid port → state_machine_loop tcpc fuel port = some port' →
      state_valid port' := by
  induction fuel with
  | zero => intro port port' _ h; simp [state_machine_loop] at h
  | succ n ih =>
    intro port port' h hl
    have hr := run_state_machine_state_valid tcpc port h
    simp only [state_machine_loop] at hl
    split_ifs at hl
    · cases hl; exact hr
    · exact ih _ _ hr hl
    · cases hl; exact hr

theorem reachable_port_run (tcpc : tcpc_dev) (steps : List port_step) :
    ∀ port, reachable tcpc port → reachable tcpc (steps.foldl (port_run tcpc) port) := by
  induction steps with
  | nil => intro port h; exact h
  | cons s rest ih =>
    intro port h
    rw [List.foldl_cons]
    apply ih
    cases s with
    | event ev => exact reachable.event port ev h
    | work_begin => exact reachable.work_begin port h
    | handler => exact reachable.handler port h

/-- C33. On every port reachable from `tcpm_register_port` through events,
starts of the work item, state handlers and runs of the work item, the state is
not `INVALID_STATE`, the only state without a `case` in `run_state_machine`
(its `default` is the `BUG_ON`); and while the state is one whose handler goes
back to `prev_state`, `prev_state` is not `INVALID_STATE` either. -/
theorem state_machine_never_invalid (tcpc : tcpc_dev) (port : tcpm_port)
    (h : reachable tcpc port) :
    port.state ≠ INVALID_STATE ∧
    (returns_to_prev port.state = true → port.prev_state ≠ INVALID_STATE) ∧
    (run_state_machine tcpc port).state ≠ INVALID_STATE := by
  have hinv : state_valid port := by
    induction h with
    | register typec =>
      unfold tcpm_register_port tcpm_init
      dsimp only
      split_ifs <;> simp [state_valid, tcpm_set_state, returns_to_prev]
    | event port ev _ ih => exact tcpm_handle_state_valid tcpc port ev ih
    | work_begin port _ ih => exact state_machine_work_begin_state_valid port ih
    | handler port _ ih => exact run_state_machine_state_valid tcpc port ih
    | work port port' fuel _ hw ih =>
      unfold tcpm_state_machine_work at hw
      split at hw
      · cases hw
      · rename_i q hq
        have hq' := state_machine_loop_state_valid tcpc fuel _ q
          (state_machine_work_begin_state_valid port ih) hq
        split_ifs at hw
        · cases hw; exact hq'
        · cases hw; exact hq'
  exact ⟨hinv.1, hinv.2, (run_state_machine_state_valid tcpc port hinv).1⟩

/-- The attached sink of `request_reject_steps` is reachable; it has answered
Get_Sink_Cap through `REQUEST_REJECT` and is back in `SNK_WAIT_CAPABILITIES`. -/
theorem state_machine_never_invalid_witness :
    reachable ok_tcpc
      (request_reject_steps.foldl (port_run ok_tcpc) (tcpm_register_port ok_tcpc typec_zero)) ∧
    ((request_reject_steps.foldl (port_run ok_tcpc)
        (tcpm_register_port ok_tcpc typec_zero)).state,
      (request_reject_steps.foldl (port_run ok_tcpc)
        (tcpm_register_port ok_tcpc typec_zero)).prev_state) =
      (SNK_WAIT_CAPABILITIES, REQUEST_REJECT) ∧
    (request_reject_steps.foldl (port_run ok_tcpc)
        (tcpm_register_port ok_tcpc typec_zero)).state ≠ INVALID_STATE :=
  ⟨reachable_port_run ok_tcpc request_reject_steps _ (reachable.register typec_zero),
    by decide,
    (state_machine_never_invalid ok_tcpc _
      (reachable_port_run ok_tcpc request_reject_steps _ (reachable.register typec_zero))).1⟩

/-! ## Service states that point to each other -/

/-- The handler of a state of `returns_to_prev` swaps the state and
`prev_state` and leaves no delayed state. -/
theorem returns_to_prev_handler (tcpc : tcpc_dev) (port : tcpm_port)
    (h : returns_to_prev port.state = true) :
    (run_state_machine tcpc port).state = port.prev_state ∧
    (run_state_machine tcpc port).prev_state = port.state ∧
    (run_state_machine tcpc port).delayed_state = INVALID_STATE ∧
    (run_state_machine tcpc port).bug = port.bug := by
  cases hst : port.state <;> rw [hst] at h <;> first
    | exact absurd h (by decide)
    | simp [run_state_machine, hst]

theorem run_state_machine_ping_pong (tcpc : tcpc_dev) (port : tcpm_port)
    (h : ping_pong port) :
    ping_pong (run_state_machine tcpc port) ∧
    (run_state_machine tcpc port).state = port.prev_state ∧
    (run_state_machine tcpc port).delayed_state = INVALID_STATE := by
  obtain ⟨h1, h2, h3, h4⟩ := h
  obtain ⟨e1, e2, e3, e4⟩ := returns_to_prev_handler tcpc port h1
  refine ⟨⟨?_, ?_, ?_, ?_⟩, e1, e3⟩
  · rw [e1]; exact h2
  · rw [e2]; exact h1
  · rw [e1, e2]; exact fun e => h3 e.symm
  · rw [e4]; exact h4

theorem state_machine_loop_ping_pong (tcpc : tcpc_dev) (fuel : Nat) :
    ∀ port, ping_pong port → state_machine_loop tcpc fuel port = none := by
  induction fuel with
  | zero => intro port _; rfl
  | succ n ih =>
    intro port h
    obtain ⟨hp, hs, hd⟩ := run_state_machine_ping_pong tcpc port h
    have hb : (run_state_machine tcpc port).bug = false := hp.2.2.2
    have hne : (run_state_machine tcpc port).state ≠ port.state := by
      rw [hs]; exact fun e => h.2.2.1 e.symm
    simp only [state_machine_loop, hb, hne, hd, ne_eq, not_false_eq_true, and_self, if_true,
      Bool.false_eq_true, if_false]
    exact ih _ hp

theorem iterate_ping_pong (tcpc : tcpc_dev) (n : Nat) :
    ∀ port, ping_pong port → ping_pong (Nat.iterate (run_state_machine tcpc) n port) := by
  induction n with
  | zero => intro port h; exact h
  | succ n ih =>
    intro port h
    rw [Function.iterate_succ_apply]
    exact ih _ (run_state_machine_ping_pong tcpc port h).1

theorem state_machine_work_ping_pong (tcpc : tcpc_dev) (fuel : Nat) (port : tcpm_port)
    (h : ping_pong (state_machine_work_begin port)) :
    tcpm_state_machine_work tcpc fuel port = none := by
  simp only [tcpm_state_machine_work, state_machine_loop_ping_pong tcpc fuel _ h]

/-- C36, the code at a failing input.  The source of `scenario_source_ready` is
in `SRC_READY` and receives Get_Source_Cap twice before the work item runs:
the first puts it in `GIVE_SOURCE_CAPS`, the second in `REQUEST_REJECT` with
`prev_state = GIVE_SOURCE_CAPS`.  The work item then never stops: after every
handler the state has changed and no delayed state is pending, which is the
condition of the `do ... while` loop, so no number of handlers ends the run. -/
theorem work_item_never_stops :
    ((scenario_source_ready ok_src_tcpc).map fun p => (p.state, p.attached)) =
      some (SRC_READY, true) ∧
    (scenario_two_requests.state, scenario_two_requests.prev_state,
        scenario_two_requests.delayed_state, scenario_two_requests.work) =
      (REQUEST_REJECT, GIVE_SOURCE_CAPS, INVALID_STATE, some 0) ∧
    (∀ n : Nat,
      (run_state_machine ok_src_tcpc (Nat.iterate (run_state_machine ok_src_tcpc) n
          (state_machine_work_begin scenario_two_requests))).state ≠
        (Nat.iterate (run_state_machine ok_src_tcpc) n
          (state_machine_work_begin scenario_two_requests)).state ∧
      (run_state_machine ok_src_tcpc (Nat.iterate (run_state_machine ok_src_tcpc) n
          (state_machine_work_begin scenario_two_requests))).delayed_state = INVALID_STATE ∧
      (run_state_machine ok_src_tcpc (Nat.iterate (run_state_machine ok_src_tcpc) n
          (state_machine_work_begin scenario_two_requests))).bug = false) ∧
    (∀ fuel : Nat, tcpm_state_machine_work ok_src_tcpc fuel scenario_two_requests = none) := by
  have h0 : ping_pong (state_machine_work_begin scenario_two_requests) := by
    unfold ping_pong
    decide
  refine ⟨by decide, by decide, fun n => ?_, fun fuel =>
    state_machine_work_ping_pong ok_src_tcpc fuel _ h0⟩
  have hn := iterate_ping_pong ok_src_tcpc n _ h0
  obtain ⟨hp, hs, hd⟩ := run_state_machine_ping_pong ok_src_tcpc _ hn
  refine ⟨?_, hd, hp.2.2.2⟩
  rw [hs]
  exact fun e => hn.2.2.1 e.symm

/-- C40, the code at a failing input.  The attached sink of boundary scenario 1
is in `SNK_WAIT_CAPABILITIES` with `PD_T_SINK_WAIT_CAP` pending and receives
Get_Sink_Cap twice before the work item runs; both are answered through
`REQUEST_REJECT`.  Once the work item has run the port is in `REQUEST_REJECT`,
not in `SNK_WAIT_CAPABILITIES`, with `prev_state = REQUEST_REJECT` and no
delayed state or work pending.  After one Get_Sink_Cap the port is back in
`SNK_WAIT_CAPABILITIES` with the delay armed again. -/
theorem service_state_twice_scenario :
    (scenario_sink_attached.map fun p =>
        (p.state, p.attached, p.delayed_state, p.work)) =
      some (SNK_WAIT_CAPABILITIES, true, HARD_RESET_SEND, some PD_T_SINK_WAIT_CAP) ∧
    (scenario_sink_attached.map fun p =>
        ((tcpm_pd_receive p (source_message PD_CTRL_GET_SINK_CAP 0 [])).state,
          (tcpm_pd_receive (tcpm_pd_receive p (source_message PD_CTRL_GET_SINK_CAP 0 []))
            (source_message PD_CTRL_GET_SINK_CAP 1 [])).state,
          (tcpm_pd_receive (tcpm_pd_receive p (source_message PD_CTRL_GET_SINK_CAP 0 []))
            (source_message PD_CTRL_GET_SINK_CAP 1 [])).prev_state)) =
      some (REQUEST_REJECT, REQUEST_REJECT, REQUEST_REJECT) ∧
    ((scenario_sink_attached.bind fun p =>
        tcpm_state_machine_work ok_tcpc 8
          (tcpm_pd_receive (tcpm_pd_receive p (source_message PD_CTRL_GET_SINK_CAP 0 []))
            (source_message PD_CTRL_GET_SINK_CAP 1 []))).map fun p =>
        (p.state, p.prev_state, p.delayed_state, p.work)) =
      some (REQUEST_REJECT, REQUEST_REJECT, INVALID_STATE, none) ∧
    ((scenario_sink_attached.bind fun p =>
        tcpm_state_machine_work ok_tcpc 8
          (tcpm_pd_receive p (source_message PD_CTRL_GET_SINK_CAP 0 []))).map fun p =>
        (p.state, p.prev_state, p.delayed_state, p.work)) =
      some (SNK_WAIT_CAPABILITIES, REQUEST_REJECT, HARD_RESET_SEND,
        some PD_T_SINK_WAIT_CAP) := by
  refine ⟨by decide, by decide, by decide, by decide⟩

/-! ## VCONN -/

/-- C31, the code at a failing input.  On `vconn_off_fail_tcpc`, where
`set_vconn(false)` fails, the source of `scenario_source_ready` has
`vconn_source = true` after the successful `set_vconn(true)` of its attach.  Its
partner requests a VCONN swap and sends PS_RDY: the handler of
`VCONN_SWAP_TURN_OFF_VCONN` calls `set_vconn(false)`, which returns `-EIO`, and
clears `vconn_source`, so the flag is false while the most recent successful
`set_vconn` call is `set_vconn(true)`.  On `vconn_on_fail_tcpc` the first swap
succeeds and in the second `set_vconn(true)` fails in
`VCONN_SWAP_TURN_ON_VCONN`: the flag is true while the most recent successful
call is `set_vconn(false)`. -/
theorem vconn_source_scenario :
    ((scenario_source_ready vconn_off_fail_tcpc).map fun p =>
        (p.state, p.vconn_source, last_set_vconn p)) = some (SRC_READY, true, some true) ∧
    ((scenario_vconn_swap_off vconn_off_fail_tcpc).map fun p =>
        (p.state, p.vconn_source, last_set_vconn p,
          decide ((tcpc_call.set_vconn false, - EIO) ∈ p.trace))) =
      some (SRC_READY, false, some true, true) ∧
    ((scenario_vconn_swap_off vconn_on_fail_tcpc).map fun p =>
        (p.state, p.vconn_source, last_set_vconn p)) = some (SRC_READY, false, some false) ∧
    ((scenario_vconn_swap_on vconn_on_fail_tcpc).map fun p =>
        (p.state, p.vconn_source, last_set_vconn p,
          decide ((tcpc_call.set_vconn true, - EIO) ∈ p.trace))) =
      some (SRC_READY, true, some false, true) := by
  refine ⟨by decide, by decide, by decide, by decide⟩

/-! ## The reset points of `message_id` -/

theorem header_id_PD_HEADER (type : Nat) (pwr : typec_pwr_role) (data : typec_data_role)
    (id cnt : Nat) : header_id (PD_HEADER type pwr data id cnt) = id % 8 := by
  have h := (PD_HEADER_layout type pwr data id cnt).2.2.2.2.2.2.1
  rw [and_0x7 id] at h
  simp only [header_id, PD_HEADER_ID_SHIFT, PD_HEADER_ID_MASK]
  exact h

/-- The handler of `SOFT_RESET` sends Accept with message id 0, for every
controller and port. -/
theorem soft_reset_accept (tcpc : tcpc_dev) (port : tcpm_port)
    (hstate : port.state = SOFT_RESET) :
    last_message (run_state_machine tcpc port) =
      some (control_message { port with message_id := 0 } PD_CTRL_ACCEPT) ∧
    header_id (control_message { port with message_id := 0 } PD_CTRL_ACCEPT).header = 0 ∧
    pd_header_type (control_message { port with message_id := 0 } PD_CTRL_ACCEPT).header =
      PD_CTRL_ACCEPT := by
  have htrace : (run_state_machine tcpc port).trace = port.trace ++
      [(tcpc_call.pd_transmit TCPC_TX_SOP
          (some (control_message { port with message_id := 0 } PD_CTRL_ACCEPT)),
        tcpc.ret port.trace (tcpc_call.pd_transmit TCPC_TX_SOP
          (some (control_message { port with message_id := 0 } PD_CTRL_ACCEPT))))] := by
    simp only [run_state_machine, hstate]
    split_ifs <;> rw [tcpm_set_state_trace, tcpm_pd_send_control_trace]
  refine ⟨?_, ?_, ?_⟩
  · simp only [last_message, last_call_append _ _ _ _ htrace]
  · simp [control_message, header_id_PD_HEADER]
  · rw [control_message, (PD_HEADER_layout _ _ _ _ _).2.2.2.2.2.2.2.2.2.1]
    decide

/-- The other places where `message_id` is set to 0: the receipt of Accept in
`SOFT_RESET_SEND`, and the handlers of `SRC_STARTUP` and `SNK_STARTUP`; and the
steps that lead to the startup states after a hard reset or a power-role swap:
the handlers of `SRC_HARD_RESET_VBUS_ON`, `PR_SWAP_SRC_SNK_SINK_ON` and
`PR_SWAP_SNK_SRC_SOURCE_ON`, and VBUS on in `SNK_HARD_RESET_WAIT_VBUS`. -/
theorem message_id_reset_points (tcpc : tcpc_dev) (port : tcpm_port) :
    (∀ msg : pd_message, port.attached = true → port.state = SOFT_RESET_SEND →
      pd_header_cnt msg.header = 0 → pd_header_type msg.header = PD_CTRL_ACCEPT →
      (tcpm_pd_receive port msg).message_id = 0) ∧
    (port.state = SRC_STARTUP →
      (run_state_machine tcpc port).message_id = 0 ∧
      (run_state_machine tcpc port).state = SRC_SEND_CAPABILITIES) ∧
    (port.state = SNK_STARTUP →
      (run_state_machine tcpc port).message_id = 0 ∧
      (run_state_machine tcpc port).state = SNK_WAIT_CAPABILITIES) ∧
    (port.state = SRC_HARD_RESET_VBUS_ON → (run_state_machine tcpc port).state = SRC_STARTUP) ∧
    (port.state = PR_SWAP_SRC_SNK_SINK_ON → (run_state_machine tcpc port).state = SNK_STARTUP) ∧
    (port.state = PR_SWAP_SNK_SRC_SOURCE_ON →
      (run_state_machine tcpc port).state = SRC_STARTUP) ∧
    (port.state = SNK_HARD_RESET_WAIT_VBUS → (tcpm_vbus_on port).state = SNK_STARTUP) := by
  refine ⟨fun msg ha hs hc ht => ?_, fun hs => ?_, fun hs => ?_, fun hs => ?_, fun hs => ?_,
    fun hs => ?_, fun hs => ?_⟩
  · simp only [tcpm_pd_receive, ha, hc, tcpm_pd_ctrl_request, ht, hs]
    simp [PD_CTRL_ACCEPT, PD_CTRL_GOOD_CRC, PD_CTRL_PING, PD_CTRL_GET_SOURCE_CAP,
      PD_CTRL_GET_SINK_CAP, PD_CTRL_GOTO_MIN, PD_CTRL_PS_RDY, PD_CTRL_REJECT, PD_CTRL_WAIT]
    split_ifs <;> simp
  · simp [run_state_machine, hs]
  · simp [run_state_machine, hs]
  · simp [run_state_machine, hs]
  · simp [run_state_machine, hs]
  · simp [run_state_machine, hs]
  · simp [tcpm_vbus_on, hs]

/-- C32, the code at a failing input.  The sink of boundary scenario 1 has sent
its first hard reset and is in `SNK_HARD_RESET_SINK_OFF` with `message_id = 1`.
The source's capabilities arrive before VBUS has been seen to drop: the port
goes from `SNK_HARD_RESET_SINK_OFF` to `SNK_NEGOTIATE_CAPABILITIES` and sends
its Request with message id 1; it has not passed through `SNK_STARTUP`. -/
theorem hard_reset_message_id_scenario :
    (scenario_sink_hard_reset.map fun p =>
        (p.state, p.attached, p.hard_reset_count, hard_resets_sent p, p.message_id)) =
      some (SNK_HARD_RESET_SINK_OFF, true, 1, 1, 1) ∧
    (scenario_sink_hard_reset.map fun p =>
        ((tcpm_pd_receive p (source_message PD_DATA_SOURCE_CAP 0 scenario_source_caps)).state,
          (tcpm_pd_receive p
            (source_message PD_DATA_SOURCE_CAP 0 scenario_source_caps)).prev_state)) =
      some (SNK_NEGOTIATE_CAPABILITIES, SNK_HARD_RESET_SINK_OFF) ∧
    ((scenario_sink_hard_reset.bind fun p =>
        tcpm_state_machine_work ok_tcpc 8
          (tcpm_pd_receive p (source_message PD_DATA_SOURCE_CAP 0 scenario_source_caps))).map
        fun p => (p.state, p.prev_state,
          (last_message p).map fun m => (pd_header_type m.header, header_id m.header))) =
      some (SNK_NEGOTIATE_CAPABILITIES, SNK_HARD_RESET_SINK_OFF, some (PD_DATA_REQUEST, 1)) := by
  refine ⟨by decide, by decide, by decide⟩

/-! ## A contract without a request -/

/-- C28, the code at a failing input.  The attached sink of boundary scenario 1
waits in `SNK_WAIT_CAPABILITIES` with `explicit_contract` clear and has
transmitted no message.  Before the work item runs it receives the source's
capabilities, which put it in `SNK_NEGOTIATE_CAPABILITIES`, then Accept, which
puts it in `SNK_TRANSITION_SINK`, then PS_RDY, which puts it in `SNK_READY`.
The work item then runs the handler of `SNK_READY` with `explicit_contract`
clear and sets the flag, although the port has sent no Request: the handler of
`SNK_NEGOTIATE_CAPABILITIES` has not run, and no message has been transmitted. -/
theorem contract_without_request_scenario :
    (scenario_sink_attached.map fun p =>
        (p.state, p.attached, p.explicit_contract, messages_sent p)) =
      some (SNK_WAIT_CAPABILITIES, true, false, []) ∧
    (scenario_sink_attached.map fun p =>
        ((tcpm_pd_receive p
            (source_message PD_DATA_SOURCE_CAP 0 scenario_source_caps)).state,
          (tcpm_pd_receive
            (tcpm_pd_receive p (source_message PD_DATA_SOURCE_CAP 0 scenario_source_caps))
            (source_message PD_CTRL_ACCEPT 1 [])).state)) =
      some (SNK_NEGOTIATE_CAPABILITIES, SNK_TRANSITION_SINK) ∧
    (scenario_contract_without_request.state, scenario_contract_without_request.prev_state,
        scenario_contract_without_request.explicit_contract,
        messages_sent scenario_contract_without_request) =
      (SNK_READY, SNK_TRANSITION_SINK, false, []) ∧
    ((state_machine_work_begin scenario_contract_without_request).state,
        (run_state_machine ok_tcpc
          (state_machine_work_begin scenario_contract_without_request)).explicit_contract) =
      (SNK_READY, true) ∧
    ((tcpm_state_machine_work ok_tcpc 8 scenario_contract_without_request).map fun p =>
        (p.state, p.explicit_contract, messages_sent p)) = some (SNK_READY, true, []) := by
  refine ⟨by decide, by decide, by decide, by decide, by decide⟩

end TCPM
